import Mathlib

/-!
# Kepler's-law J1939 server: identifier codec, Newton solver and dispatcher

Shallow embedding of `kepler_server_source_patch_1.c` and `kepler_server.h`.

* Machine integers (`uint8_t`, `uint16_t`, `uint32_t`) are natural numbers; every
  C operation that can wrap is followed by an explicit `% 2 ^ 32`.
* Bit operations of the source (`&`, `|`, `<<`, `>>`) are the bit operations of
  `Nat`; the theorems restate them with `/` and `%`.
* C `float` and `double` are two abstract carriers `F` and `D` with one field of
  `FloatOps` per C operation the program performs on them.  Definitions and the
  structural theorems are generic in `FloatOps`, so they hold for every rounding
  behaviour, IEEE-754 included.
* Concrete runs are evaluated in two instances over the rationals: `exactOps`, in which
  no operation rounds, and `roundedOps`, in which every `float` operation rounds to
  nearest-even with 24 significant bits and every `double` operation with 53 (finite
  values, unbounded exponent range).  In both, `sinf` and `cosf` are parameters;
  `sinf_ref` and `cosf_ref` are computable reference functions for closed statements.
* Loops take a fuel argument bounding the number of executions of the loop body;
  running out of fuel is `none`.
* `printf` output, socket set-up, signal handling and `sleep` are not modelled.
-/

namespace Kepler

/-! ## Constants of `kepler_server.h` -/

def PRIORITY_MASK : Nat := 0x1C000000
def EDP_MASK : Nat := 0x02000000
def DP_MASK : Nat := 0x01000000
def PF_MASK : Nat := 0x00FF0000
def PS_MASK : Nat := 0x0000FF00
def SA_MASK : Nat := 0x000000FF
def PDU1_PGN_MASK : Nat := 0x03FF0000
def PDU2_PGN_MASK : Nat := 0x03FFFF00

def SERVER_SA : Nat := 0
def CLIENT_SA : Nat := 120
def RESULTS_PGN : Nat := 0xFF15
def REQUEST_PGN : Nat := 0xFF14
def DEFAULT_PRIORITY : Nat := 6
def GLOBAL_ADDRESS : Nat := 255

/-! ## Identifier codec -/

/-- The four output parameters of `parse_J1939`. -/
structure J1939 where
  priority : Nat
  pgn : Nat
  da : Nat
  sa : Nat
  deriving DecidableEq

/-- Embedding of `parse_J1939` (lines 49-69).  `pf`, `ps`, `*priority`, `*da` and `*sa`
are `uint8_t`, so each value stored in them is reduced modulo 256; `*pgn` is `uint32_t`. -/
def parse_J1939 (can_id : Nat) : J1939 :=
  let priority := ((PRIORITY_MASK &&& can_id) >>> 26) % 256
  let pf := ((PF_MASK &&& can_id) >>> 16) % 256
  let ps := ((PS_MASK &&& can_id) >>> 8) % 256
  let sa := (can_id &&& SA_MASK) % 256
  if pf ≥ 0xF0 then
    { priority := priority, pgn := (can_id &&& PDU2_PGN_MASK) >>> 8, da := 255, sa := sa }
  else
    { priority := priority, pgn := (can_id &&& PDU1_PGN_MASK) >>> 8, da := ps, sa := sa }

/-- Embedding of `get_j1939_id` (lines 80-92).  `can_id` is `uint32_t`: every `+=` wraps
modulo `2 ^ 32`.  The arguments `priority`, `sa`, `da` are `uint8_t` and `pgn` is
`uint32_t`; callers pass values in range.  `da << 8` and `priority << 26` are `int`
shifts in C; the latter is representable for `priority <= 31` and is taken modulo
`2 ^ 32` here, which is also its value once added to the `uint32_t`. -/
def get_j1939_id (priority pgn sa da : Nat) : Nat :=
  let can_id := sa
  let can_id :=
    if pgn ≥ 0xF000 then
      (can_id + ((0x3FFFF &&& pgn) <<< 8) % 2 ^ 32) % 2 ^ 32
    else
      let can_id := (can_id + ((0x3FF00 &&& pgn) <<< 8) % 2 ^ 32) % 2 ^ 32
      (can_id + (da <<< 8) % 2 ^ 32) % 2 ^ 32
  let can_id := (can_id + (priority <<< 26) % 2 ^ 32) % 2 ^ 32
  can_id ||| 0x80000000

/-! ## Floating-point interface -/

/-- The floating-point operations used by the program.  `F` is C `float`, `D` is C
`double`.  A comparison returns the truth value of the C comparison. -/
structure FloatOps (F D : Type) where
  /-- Sum `x + y` on `float`. -/
  addF : F → F → F
  /-- Difference `x - y` on `float`. -/
  subF : F → F → F
  /-- Product `x * y` on `float`. -/
  mulF : F → F → F
  /-- Quotient `x / y` on `float`. -/
  divF : F → F → F
  /-- Absolute value `fabsf(x)`. -/
  fabsf : F → F
  /-- Library function `sinf(x)`. -/
  sinf : F → F
  /-- Library function `cosf(x)`. -/
  cosf : F → F
  /-- Comparison `x > y` on `float`. -/
  gtF : F → F → Bool
  /-- Comparison `x < y` on `float`. -/
  ltF : F → F → Bool
  /-- Comparison `x >= y` on `float`. -/
  geF : F → F → Bool
  /-- Conversion of an integer operand to `float`. -/
  ofIntF : Int → F
  /-- The constant `__FLT_EPSILON__`. -/
  FLT_EPSILON : F
  /-- The cast `(uint32_t)x` of a `float`. -/
  toU32 : F → Nat
  /-- Difference `x - y` on `double`. -/
  subD : D → D → D
  /-- Product `x * y` on `double`. -/
  mulD : D → D → D
  /-- Quotient `x / y` on `double`. -/
  divD : D → D → D
  /-- Conversion of an integer operand to `double`. -/
  ofIntD : Int → D
  /-- The `double` denoted by a decimal literal. -/
  litD : ℚ → D
  /-- The constant `M_PI` (`pi` in `kepler_server.h`). -/
  M_PI : D
  /-- Conversion `double` to `float` (assignment to a `float` variable). -/
  toF : D → F
  /-- Promotion `float` to `double`. -/
  toD : F → D

/-- A C `while (cond) body;` loop on a state `S`, run for at most `fuel` executions of
the body.  It is `none` when the condition still holds after `fuel` executions. -/
def whileLoop {S : Type} (cond : S → Bool) (body : S → S) : Nat → S → Option S
  | 0, s => if cond s then none else some s
  | fuel + 1, s => if cond s then whileLoop cond body fuel (body s) else some s

/-! ## Anomaly solver -/

section Solver

variable {F D : Type}

/-- The global `float tol = 10*__FLT_EPSILON__;` (line 5). -/
def tol (ops : FloatOps F D) : F :=
  ops.mulF (ops.ofIntF 10) ops.FLT_EPSILON

/-- Embedding of `formula` (lines 173-176). -/
def formula (ops : FloatOps F D) (ecc_anomaly eccentricity mean_anomaly : F) : F :=
  ops.subF (ops.subF ecc_anomaly (ops.mulF eccentricity (ops.sinf ecc_anomaly))) mean_anomaly

/-- Embedding of `formula_derivative` (lines 177-180). -/
def formula_derivative (ops : FloatOps F D) (ecc_anomaly eccentricity : F) : F :=
  ops.subF (ops.ofIntF 1) (ops.mulF eccentricity (ops.cosf ecc_anomaly))

/-- Return value and the two output parameters of `Keplers_Law`. -/
structure KeplerResult (F : Type) where
  ret : Int
  eccentric_anomaly_output : F
  error_output : F

/-- Loop test of `Keplers_Law` (line 154) on the state `(E, error)`. -/
def kepler_cond (ops : FloatOps F D) (s : F × F) : Bool :=
  ops.gtF (ops.fabsf s.2) (tol ops)

/-- Loop body of `Keplers_Law` (lines 155-157) on the state `(E, error)`. -/
def kepler_body (ops : FloatOps F D) (mean_anomaly eccentricity : F) (s : F × F) : F × F :=
  let error := formula ops s.1 eccentricity mean_anomaly
  (ops.subF s.1 (ops.divF error (formula_derivative ops s.1 eccentricity)), error)

/-- Embedding of `Keplers_Law` (lines 136-170): `E = initial_guess; error = 1;`, the
loop, then the two stores and `return 1`. -/
def Keplers_Law (ops : FloatOps F D) (mean_anomaly eccentricity initial_guess : F)
    (fuel : Nat) : Option (KeplerResult F) :=
  (whileLoop (kepler_cond ops) (kepler_body ops mean_anomaly eccentricity) fuel
      (initial_guess, ops.ofIntF 1)).map
    fun s => { ret := 1, eccentric_anomaly_output := s.1, error_output := s.2 }

end Solver

/-! ## Request dispatcher: one iteration of the `while (1)` loop of `main` -/

/-- The fields of `struct can_frame` the program uses. -/
structure can_frame where
  can_id : Nat
  can_dlc : Nat
  data : List Nat
  deriving DecidableEq

/-- Value read by `memcpy(&raw_mean_anomaly, &cf.data[0], 4)` (little-endian host). -/
def load_u32 (data : List Nat) : Nat :=
  data.getD 0 0 % 256 + data.getD 1 0 % 256 * 2 ^ 8 + data.getD 2 0 % 256 * 2 ^ 16
    + data.getD 3 0 % 256 * 2 ^ 24

/-- Value read by `memcpy(&raw_eccent, &cf.data[4], 2)` (little-endian host). -/
def load_u16 (data : List Nat) : Nat :=
  data.getD 4 0 % 256 + data.getD 5 0 % 256 * 2 ^ 8

/-- Bytes written by `memcpy(&cf.data[0], &out_mean_anomaly_int, 4)`. -/
def store_u32 (n : Nat) : List Nat :=
  [n % 256, n / 2 ^ 8 % 256, n / 2 ^ 16 % 256, n / 2 ^ 24 % 256]

/-- The frame written at lines 273-280 for a given `out_mean_anomaly_int`. -/
def reply_frame (out_mean_anomaly_int : Nat) : can_frame :=
  { can_id := get_j1939_id DEFAULT_PRIORITY RESULTS_PGN SERVER_SA GLOBAL_ADDRESS
    can_dlc := 8
    data := store_u32 out_mean_anomaly_int ++ [0xff, 0xff, 0xff, 0xff] }

/-- What one loop iteration of `main` did: the argument triples of its calls of
`Keplers_Law` and the frames it passed to `write`. -/
structure StepResult (F : Type) where
  solver_calls : List (F × F × F)
  written : List can_frame

section Dispatcher

variable {F D : Type}

/-- Lines 247-248: the eccentricity handed to the solver. -/
def eccentricity_of_raw (ops : FloatOps F D) (raw_eccent : Nat) : F :=
  let eccentricity := ops.toF (ops.mulD (ops.ofIntD raw_eccent) (ops.litD 0.0015625))
  if ops.geF eccentricity (ops.ofIntF 1) then ops.toF (ops.litD 0.9999999) else eccentricity

/-- Lines 251-255: `anom_deg` after the two normalisation loops. -/
def anom_deg_of_raw (ops : FloatOps F D) (fuel : Nat) (raw_mean_anomaly : Nat) : Option F :=
  let anom_deg :=
    ops.toF (ops.subD (ops.mulD (ops.ofIntD raw_mean_anomaly) (ops.litD 0.000001))
      (ops.ofIntD 210))
  (whileLoop (fun a => ops.gtF a (ops.ofIntF 360)) (fun a => ops.subF a (ops.ofIntF 360))
      fuel anom_deg).bind
    fun anom_deg =>
      whileLoop (fun a => ops.ltF a (ops.ofIntF 0)) (fun a => ops.addF a (ops.ofIntF 360))
        fuel anom_deg

/-- Line 256: `mean_anomaly = pi*anom_deg/180.0`. -/
def mean_anomaly_of_deg (ops : FloatOps F D) (anom_deg : F) : F :=
  ops.toF (ops.divD (ops.mulD ops.M_PI (ops.toD anom_deg)) (ops.litD 180.0))

/-- Lines 267-269: `deg` after the two normalisation loops. -/
def deg_of_output (ops : FloatOps F D) (fuel : Nat) (out_mean_anomaly : F) : Option F :=
  let deg := ops.toF (ops.divD (ops.toD (ops.mulF (ops.ofIntF 180) out_mean_anomaly)) ops.M_PI)
  (whileLoop (fun d => ops.gtF d (ops.ofIntF 180)) (fun d => ops.subF d (ops.ofIntF 360))
      fuel deg).bind
    fun deg =>
      whileLoop (fun d => ops.ltF d (ops.ofIntF (-180))) (fun d => ops.addF d (ops.ofIntF 360))
        fuel deg

/-- Line 271: `out_mean_anomaly_int = (uint32_t)((deg + 210)*1000000)`. -/
def out_int_of_deg (ops : FloatOps F D) (deg : F) : Nat :=
  ops.toU32 (ops.mulF (ops.addF deg (ops.ofIntF 210)) (ops.ofIntF 1000000))

/-- Line 252: `anom_deg = raw_mean_anomaly*0.000001 - 210`, the decoded degrees value
before the two normalisation loops. -/
def anom_deg_decoded (ops : FloatOps F D) (raw_mean_anomaly : Nat) : F :=
  ops.toF (ops.subD (ops.mulD (ops.ofIntD raw_mean_anomaly) (ops.litD 0.000001))
    (ops.ofIntD 210))

/-- Line 271: the product `(deg + 210)*1000000` before the cast. -/
def out_product (ops : FloatOps F D) (deg : F) : F :=
  ops.mulF (ops.addF deg (ops.ofIntF 210)) (ops.ofIntF 1000000)

/-- One iteration of the `while (1)` loop of `main` (lines 232-282).  `nbytes` is the
value returned by `read` and `cf` the frame buffer after the `read`.  Each loop inside
the iteration may execute its body at most `fuel` times. -/
def main_step (ops : FloatOps F D) (fuel : Nat) (nbytes : Int) (cf : can_frame) :
    Option (StepResult F) :=
  if nbytes = 0 then
    some { solver_calls := [], written := [] }
  else
    if (parse_J1939 cf.can_id).pgn = REQUEST_PGN then
      let raw_mean_anomaly := load_u32 cf.data
      let raw_eccent := load_u16 cf.data
      let eccentricity := eccentricity_of_raw ops raw_eccent
      (anom_deg_of_raw ops fuel raw_mean_anomaly).bind fun anom_deg =>
      let mean_anomaly := mean_anomaly_of_deg ops anom_deg
      (Keplers_Law ops mean_anomaly eccentricity mean_anomaly fuel).bind fun r =>
      (deg_of_output ops fuel r.eccentric_anomaly_output).bind fun deg =>
      some { solver_calls := [(mean_anomaly, eccentricity, mean_anomaly)]
             written := [reply_frame (out_int_of_deg ops deg)] }
    else
      some { solver_calls := [], written := [] }

end Dispatcher

/-! ## Exact-arithmetic instance -/

/-- Exact rational arithmetic: `float` and `double` are both `ℚ`, no operation rounds,
`sinf` and `cosf` are parameters.  `(uint32_t)x` truncates; C leaves it undefined outside
`[0, 2 ^ 32)`, where this instance gives `0` for negative `x` and wraps above. -/
def exactOps (sinf cosf : ℚ → ℚ) : FloatOps ℚ ℚ where
  addF x y := x + y
  subF x y := x - y
  mulF x y := x * y
  divF x y := x / y
  fabsf x := |x|
  sinf := sinf
  cosf := cosf
  gtF x y := decide (x > y)
  ltF x y := decide (x < y)
  geF x y := decide (x ≥ y)
  ofIntF i := i
  FLT_EPSILON := 1 / 2 ^ 23
  toU32 x := ⌊x⌋.toNat % 2 ^ 32
  subD x y := x - y
  mulD x y := x * y
  divD x y := x / y
  ofIntD i := i
  litD q := q
  M_PI := 884279719003555 / 281474976710656
  toF x := x
  toD x := x

/-- Degree-9 Taylor polynomial of the sine, a computable stand-in for `sinf` in
concrete runs. -/
def sin_taylor (x : ℚ) : ℚ :=
  x - x ^ 3 / 6 + x ^ 5 / 120 - x ^ 7 / 5040 + x ^ 9 / 362880

/-- Degree-8 Taylor polynomial of the cosine, a computable stand-in for `cosf` in
concrete runs. -/
def cos_taylor (x : ℚ) : ℚ :=
  1 - x ^ 2 / 2 + x ^ 4 / 24 - x ^ 6 / 720 + x ^ 8 / 40320

/-! ## Rounded-arithmetic instance -/

/-- Nearest integer to a rational, ties to the even integer. -/
def round_half_even (q : ℚ) : ℤ :=
  if q - ⌊q⌋ < 1 / 2 then ⌊q⌋
  else if 1 / 2 < q - ⌊q⌋ then ⌊q⌋ + 1
  else if ⌊q⌋ % 2 = 0 then ⌊q⌋ else ⌊q⌋ + 1

/-- IEEE-754 rounding to nearest, ties to even, to `p` significant bits, with unbounded
exponent range: the result is an integer multiple of `2 ^ e`, where `2 ^ (e + p - 1)` is
the largest power of two not above `|x|`. -/
def roundNE (p : ℕ) (x : ℚ) : ℚ :=
  if x = 0 then 0
  else
    let e : ℤ := Int.log 2 |x| - ((p : ℤ) - 1)
    (round_half_even (x / 2 ^ e) : ℚ) * 2 ^ e

/-- IEEE-754 arithmetic on finite values: every `float` operation is the exact operation
rounded to 24 significant bits, every `double` operation is rounded to 53 bits;
comparisons and `fabsf` are exact; `sinf` and `cosf` are parameters.  Overflow,
subnormal numbers, signed zeros, infinities and NaN are outside this instance (division
by zero gives 0).  `(uint32_t)x` is as in `exactOps`. -/
def roundedOps (sinf cosf : ℚ → ℚ) : FloatOps ℚ ℚ where
  addF x y := roundNE 24 (x + y)
  subF x y := roundNE 24 (x - y)
  mulF x y := roundNE 24 (x * y)
  divF x y := roundNE 24 (x / y)
  fabsf x := |x|
  sinf := sinf
  cosf := cosf
  gtF x y := decide (x > y)
  ltF x y := decide (x < y)
  geF x y := decide (x ≥ y)
  ofIntF i := roundNE 24 i
  FLT_EPSILON := 1 / 2 ^ 23
  toU32 x := ⌊x⌋.toNat % 2 ^ 32
  subD x y := roundNE 53 (x - y)
  mulD x y := roundNE 53 (x * y)
  divD x y := roundNE 53 (x / y)
  ofIntD i := roundNE 53 i
  litD q := roundNE 53 q
  M_PI := 884279719003555 / 281474976710656
  toF x := roundNE 24 x
  toD x := x

/-- The `float` nearest to `0.9999999`, the clamped eccentricity of line 248:
`1 - 2 ^ (-23)`. -/
def ecc_clamp : ℚ := 8388607 / 2 ^ 23

/-- The `float` `97.38938140869140625 = 12765021 * 2 ^ (-17)`, just above `31 * pi`. -/
def M_bad : ℚ := 12765021 / 2 ^ 17

/-- The `float` next below `M_bad`: `12765020 * 2 ^ (-17)`. -/
def E_bad : ℚ := 12765020 / 2 ^ 17

/-- The `float` nearest to the sine of `M_bad`, `-9.1474076e-06`. -/
def sin_M_bad : ℚ := -(10057681 / 2 ^ 40)

/-- The `float` nearest to the sine of `E_bad`, `-1.5180133e-06`. -/
def sin_E_bad : ℚ := -(13352586 / 2 ^ 43)

/-- The `float` nearest to `1e-7`. -/
def M_tiny : ℚ := 14073749 / 2 ^ 47

/-- A reference `sinf`: the correctly rounded sine at the two tabulated arguments, the
rounded degree-9 Taylor polynomial elsewhere. -/
def sinf_ref (x : ℚ) : ℚ :=
  if x = M_bad then sin_M_bad
  else if x = E_bad then sin_E_bad
  else roundNE 24 (sin_taylor x)

/-- A reference `cosf`: the correctly rounded cosine `-1` at the two tabulated arguments,
the rounded degree-8 Taylor polynomial elsewhere. -/
def cosf_ref (x : ℚ) : ℚ :=
  if x = M_bad then -1
  else if x = E_bad then -1
  else roundNE 24 (cos_taylor x)

/-! ## IEEE-754 instance with overflow, infinities and NaN -/

/-- A value of an IEEE-754 binary format: a finite number, an infinity, or a NaN.  The
two zeros are one value and all NaNs are one value. -/
inductive Fl where
  | fin (q : ℚ)
  | pinf
  | ninf
  | nan
  deriving DecidableEq

/-- IEEE-754 rounding to nearest, ties to even, into the binary format with `p`
significant bits and largest exponent `emax`.  The result is an integer multiple of
`2 ^ e`, where `e` is the exponent of the unit in the last place of `x`, not below that of
the subnormal numbers, `2 - emax - p`; a rounded magnitude of `2 ^ (emax + 1)` or more
overflows to the infinity of the sign of `x`. -/
def roundIEEE (p : ℕ) (emax : ℤ) (x : ℚ) : Fl :=
  if x = 0 then Fl.fin 0
  else
    let e : ℤ := max (Int.log 2 |x| - ((p : ℤ) - 1)) (2 - emax - (p : ℤ))
    let r : ℚ := (round_half_even (x / 2 ^ e) : ℚ) * 2 ^ e
    if (2 : ℚ) ^ (emax + 1) ≤ |r| then (if 0 < x then Fl.pinf else Fl.ninf) else Fl.fin r

/-- Sum of two IEEE values, the finite case rounded by `rnd`. -/
def Fl.add (rnd : ℚ → Fl) : Fl → Fl → Fl
  | Fl.fin x, Fl.fin y => rnd (x + y)
  | Fl.nan, _ => Fl.nan
  | _, Fl.nan => Fl.nan
  | Fl.pinf, Fl.ninf => Fl.nan
  | Fl.ninf, Fl.pinf => Fl.nan
  | Fl.pinf, _ => Fl.pinf
  | _, Fl.pinf => Fl.pinf
  | Fl.ninf, _ => Fl.ninf
  | _, Fl.ninf => Fl.ninf

/-- Difference of two IEEE values, the finite case rounded by `rnd`. -/
def Fl.sub (rnd : ℚ → Fl) : Fl → Fl → Fl
  | Fl.fin x, Fl.fin y => rnd (x - y)
  | Fl.nan, _ => Fl.nan
  | _, Fl.nan => Fl.nan
  | Fl.pinf, Fl.pinf => Fl.nan
  | Fl.ninf, Fl.ninf => Fl.nan
  | Fl.pinf, _ => Fl.pinf
  | _, Fl.ninf => Fl.pinf
  | Fl.ninf, _ => Fl.ninf
  | _, Fl.pinf => Fl.ninf

/-- An infinity times a finite number `y`: NaN when `y` is zero, else the infinity whose
sign is the product of the signs; `pos` tells whether the infinity is the positive one. -/
def Fl.infTimes (pos : Bool) (y : ℚ) : Fl :=
  if y = 0 then Fl.nan
  else if 0 < y then (if pos then Fl.pinf else Fl.ninf)
  else (if pos then Fl.ninf else Fl.pinf)

/-- Product of two IEEE values, the finite case rounded by `rnd`. -/
def Fl.mul (rnd : ℚ → Fl) : Fl → Fl → Fl
  | Fl.fin x, Fl.fin y => rnd (x * y)
  | Fl.nan, _ => Fl.nan
  | _, Fl.nan => Fl.nan
  | Fl.pinf, Fl.fin y => Fl.infTimes true y
  | Fl.ninf, Fl.fin y => Fl.infTimes false y
  | Fl.fin x, Fl.pinf => Fl.infTimes true x
  | Fl.fin x, Fl.ninf => Fl.infTimes false x
  | Fl.pinf, Fl.pinf => Fl.pinf
  | Fl.ninf, Fl.ninf => Fl.pinf
  | Fl.pinf, Fl.ninf => Fl.ninf
  | Fl.ninf, Fl.pinf => Fl.ninf

/-- Quotient of two IEEE values, the finite case rounded by `rnd`.  Zero carries no sign
here: a division by zero is given the sign of the dividend, as for the divisor `+0`. -/
def Fl.div (rnd : ℚ → Fl) : Fl → Fl → Fl
  | Fl.fin x, Fl.fin y =>
    if y = 0 then (if x = 0 then Fl.nan else if 0 < x then Fl.pinf else Fl.ninf)
    else rnd (x / y)
  | Fl.nan, _ => Fl.nan
  | _, Fl.nan => Fl.nan
  | Fl.fin _, Fl.pinf => Fl.fin 0
  | Fl.fin _, Fl.ninf => Fl.fin 0
  | Fl.pinf, Fl.fin y => if 0 ≤ y then Fl.pinf else Fl.ninf
  | Fl.ninf, Fl.fin y => if 0 ≤ y then Fl.ninf else Fl.pinf
  | Fl.pinf, Fl.pinf => Fl.nan
  | Fl.pinf, Fl.ninf => Fl.nan
  | Fl.ninf, Fl.pinf => Fl.nan
  | Fl.ninf, Fl.ninf => Fl.nan

/-- Absolute value of an IEEE value. -/
def Fl.abs : Fl → Fl
  | Fl.fin x => Fl.fin |x|
  | Fl.pinf => Fl.pinf
  | Fl.ninf => Fl.pinf
  | Fl.nan => Fl.nan

/-- The comparison `x < y` of IEEE values: false when either is a NaN. -/
def Fl.lt : Fl → Fl → Bool
  | Fl.fin x, Fl.fin y => decide (x < y)
  | Fl.nan, _ => false
  | _, Fl.nan => false
  | Fl.ninf, Fl.ninf => false
  | Fl.ninf, _ => true
  | Fl.pinf, _ => false
  | Fl.fin _, Fl.pinf => true
  | Fl.fin _, Fl.ninf => false

/-- The comparison `x <= y` of IEEE values: false when either is a NaN. -/
def Fl.le : Fl → Fl → Bool
  | Fl.fin x, Fl.fin y => decide (x ≤ y)
  | Fl.nan, _ => false
  | _, Fl.nan => false
  | Fl.ninf, _ => true
  | _, Fl.pinf => true
  | Fl.pinf, _ => false
  | Fl.fin _, Fl.ninf => false

/-- A library function on IEEE values: the given function on finite arguments, NaN on
infinities and NaN, which is what C specifies for `sinf` and `cosf`. -/
def Fl.lift (f : ℚ → ℚ) : Fl → Fl
  | Fl.fin x => Fl.fin (f x)
  | _ => Fl.nan

/-- Conversion of a `double` to `float`: finite values are rounded, infinities and NaN
are kept. -/
def Fl.toFloat : Fl → Fl
  | Fl.fin x => roundIEEE 24 127 x
  | v => v

/-- The cast `(uint32_t)x`.  On finite values it is as in `exactOps`.  C leaves the
cast of a NaN or an infinity undefined; this instance gives 0, the value the conversion
instruction of the ARM target returns for a NaN. -/
def Fl.toU32 : Fl → Nat
  | Fl.fin x => ⌊x⌋.toNat % 2 ^ 32
  | _ => 0

/-- IEEE-754 binary32 and binary64 arithmetic in round-to-nearest mode: `float` is the
format with 24 significant bits and largest exponent 127, `double` the format with 53
bits and largest exponent 1023, both with subnormal numbers, overflow to the infinities,
and NaN; comparisons with a NaN are false; `sinf` and `cosf` are parameters on finite
arguments and return NaN on infinities and NaN.  Signed zeros are not distinguished. -/
def ieeeOps (sinf cosf : ℚ → ℚ) : FloatOps Fl Fl where
  addF := Fl.add (roundIEEE 24 127)
  subF := Fl.sub (roundIEEE 24 127)
  mulF := Fl.mul (roundIEEE 24 127)
  divF := Fl.div (roundIEEE 24 127)
  fabsf := Fl.abs
  sinf := Fl.lift sinf
  cosf := Fl.lift cosf
  gtF x y := Fl.lt y x
  ltF x y := Fl.lt x y
  geF x y := Fl.le y x
  ofIntF i := roundIEEE 24 127 i
  FLT_EPSILON := Fl.fin (1 / 2 ^ 23)
  toU32 := Fl.toU32
  subD := Fl.sub (roundIEEE 53 1023)
  mulD := Fl.mul (roundIEEE 53 1023)
  divD := Fl.div (roundIEEE 53 1023)
  ofIntD i := roundIEEE 53 1023 i
  litD q := roundIEEE 53 1023 q
  M_PI := Fl.fin (884279719003555 / 281474976710656)
  toF := Fl.toFloat
  toD x := x

/-! ## Table of the run on the request with raw mean anomaly 210,005,453 and raw
eccentricity 640 -/

/-- The 54 finite estimates of the eccentric anomaly that `Keplers_Law` visits on the mean
anomaly `6540225 * 2 ^ (-36)` with eccentricity `0.9999999f`, in order: the initial guess
and the results of the first 53 Newton iterations.  All are `float` values. -/
def nan_run_E : List ℚ :=
  [6540225 / 2 ^ 36, 6540225 / 2 ^ 13, -(587097 / 2 ^ 6),
   5101401, -(3292867), 10901820 * 2 ^ 2,
   -(10872030 * 2 ^ 2), -(3459788), -(2721449 / 2 ^ 1),
   9206075 * 2 ^ 3, 3608024, -(5640830),
   8858070 * 2 ^ 6, -(14133095 * 2 ^ 7), 16496696 * 2 ^ 9,
   -(8912698 * 2 ^ 12), -(8819606 * 2 ^ 11), 11614332 * 2 ^ 10,
   -(13908364 * 2 ^ 11), 16100258 * 2 ^ 12, -(11425334 * 2 ^ 21),
   12443228 * 2 ^ 20, 14293272 * 2 ^ 18, 10895168 * 2 ^ 14,
   -(9073749 * 2 ^ 22), 10395858 * 2 ^ 30, 11179072 * 2 ^ 26,
   -(14088880 * 2 ^ 31), -(9385216 * 2 ^ 25), 13469892 * 2 ^ 26,
   13119033 * 2 ^ 25, 11922170 * 2 ^ 24, -(16732860 * 2 ^ 24),
   8984518 * 2 ^ 31, -(13056922 * 2 ^ 43), 11102878 * 2 ^ 47,
   -(16359655 * 2 ^ 55), 10146048 * 2 ^ 58, 10071900 * 2 ^ 57,
   -(10625902 * 2 ^ 65), -(15738536 * 2 ^ 63), -(13521576 * 2 ^ 61),
   14265052 * 2 ^ 61, -(10506352 * 2 ^ 71), 9210479 * 2 ^ 79,
   -(14249743 * 2 ^ 83), 9649846 * 2 ^ 87, -(9411968 * 2 ^ 80),
   13103131 * 2 ^ 82, 10942504 * 2 ^ 80, 10845301 * 2 ^ 79,
   -(9213739 * 2 ^ 87), 9440552 * 2 ^ 89, -(9546626 * 2 ^ 102)]

/-- The `float` nearest to the sine of each estimate of `nan_run_E`.  The run depends on
the entries at the estimates below `2 ^ 25` only. -/
def nan_run_sin : List ℚ :=
  [6540225 / 2 ^ 36, 13152441 / 2 ^ 25, 8037981 / 2 ^ 27,
   7716241 / 2 ^ 23, -(12351069 / 2 ^ 25), 14536115 / 2 ^ 24,
   -(16714429 / 2 ^ 24), -(12774593 / 2 ^ 24), -(12724539 / 2 ^ 26),
   -(16754941 / 2 ^ 24), -(6647823 / 2 ^ 23), 4698417 / 2 ^ 25,
   10876489 / 2 ^ 24, -(2378883 / 2 ^ 22), 4894825 / 2 ^ 23,
   -(3393799 / 2 ^ 24), 15398273 / 2 ^ 24, -(11890977 / 2 ^ 24),
   -(12008265 / 2 ^ 24), 9937283 / 2 ^ 27, 15699935 / 2 ^ 24,
   -(479861 / 2 ^ 19), -(16756211 / 2 ^ 24), -(12953893 / 2 ^ 27),
   11054853 / 2 ^ 27, -(16733611 / 2 ^ 24), 917069 / 2 ^ 22,
   524259 / 2 ^ 19, -(11254271 / 2 ^ 24), -(10555923 / 2 ^ 25),
   9287619 / 2 ^ 24, -(1702459 / 2 ^ 21), 11324693 / 2 ^ 26,
   -(9836475 / 2 ^ 29), 3050579 / 2 ^ 23, -(1219191 / 2 ^ 24),
   -(72665 / 2 ^ 17), -(11390637 / 2 ^ 26), -(11517733 / 2 ^ 27),
   6785063 / 2 ^ 23, 16137363 / 2 ^ 24, 14397575 / 2 ^ 24,
   13809065 / 2 ^ 28, 6314025 / 2 ^ 26, 4629723 / 2 ^ 24,
   -(13499111 / 2 ^ 25), -(524273 / 2 ^ 19), 8898213 / 2 ^ 24,
   -(16182623 / 2 ^ 24), -(6269303 / 2 ^ 25), -(6413241 / 2 ^ 26),
   -(1247417 / 2 ^ 21), -(2084505 / 2 ^ 27), 5147897 / 2 ^ 24]

/-- The `float` nearest to the cosine of each estimate of `nan_run_E`. -/
def nan_run_cos : List ℚ :=
  [1, 7717323 / 2 ^ 23, 16747103 / 2 ^ 24,
   13162593 / 2 ^ 25, 15599287 / 2 ^ 24, 2094283 / 2 ^ 22,
   -(11600917 / 2 ^ 27), -(10875879 / 2 ^ 24), 16472867 / 2 ^ 24,
   -(6914007 / 2 ^ 27), 2558085 / 2 ^ 22, 16611929 / 2 ^ 24,
   6387037 / 2 ^ 23, 107951 / 2 ^ 17, 6812447 / 2 ^ 23,
   -(16430371 / 2 ^ 24), 6660943 / 2 ^ 24, 11835525 / 2 ^ 24,
   2929127 / 2 ^ 22, 16731169 / 2 ^ 24, 11829963 / 2 ^ 25,
   -(3379423 / 2 ^ 23), -(6714163 / 2 ^ 27), 8349447 / 2 ^ 23,
   16720211 / 2 ^ 24, -(9670551 / 2 ^ 27), 8185639 / 2 ^ 23,
   -(11293541 / 2 ^ 30), 6221261 / 2 ^ 23, -(995337 / 2 ^ 20),
   -(3492985 / 2 ^ 22), 9796913 / 2 ^ 24, 16536609 / 2 ^ 24,
   65525 / 2 ^ 16, 15628527 / 2 ^ 24, 8366429 / 2 ^ 23,
   3490739 / 2 ^ 22, -(8266889 / 2 ^ 23), 261177 / 2 ^ 18,
   -(9865427 / 2 ^ 24), -(9178339 / 2 ^ 25), 2153265 / 2 ^ 22,
   8377501 / 2 ^ 23, 16702793 / 2 ^ 24, 1007861 / 2 ^ 20,
   7679819 / 2 ^ 23, 16240053 / 2 ^ 31, 14223107 / 2 ^ 24,
   -(8853855 / 2 ^ 25), -(1030111 / 2 ^ 20), 8350215 / 2 ^ 23,
   13486579 / 2 ^ 24, 16775193 / 2 ^ 24, 7983955 / 2 ^ 23]

/-- Position in `nan_run_E` of an estimate of the run, by comparison with the estimates in
increasing order. -/
def nan_run_index (x : ℚ) : ℕ :=
  if x < 3608024 then
    if x < -(9073749 * 2 ^ 22) then
      if x < -(15738536 * 2 ^ 63) then
        if x < -(9411968 * 2 ^ 80) then
          if x < -(9213739 * 2 ^ 87) then
            53
          else
            if x < -(14249743 * 2 ^ 83) then
              51
            else
              45
        else
          if x < -(10506352 * 2 ^ 71) then
            47
          else
            if x < -(10625902 * 2 ^ 65) then
              43
            else
              39
      else
        if x < -(13056922 * 2 ^ 43) then
          if x < -(13521576 * 2 ^ 61) then
            40
          else
            if x < -(16359655 * 2 ^ 55) then
              41
            else
              36
        else
          if x < -(9385216 * 2 ^ 25) then
            if x < -(14088880 * 2 ^ 31) then
              34
            else
              27
          else
            if x < -(16732860 * 2 ^ 24) then
              28
            else
              32
    else
      if x < -(5640830) then
        if x < -(13908364 * 2 ^ 11) then
          if x < -(11425334 * 2 ^ 21) then
            24
          else
            if x < -(8912698 * 2 ^ 12) then
              20
            else
              15
        else
          if x < -(14133095 * 2 ^ 7) then
            if x < -(8819606 * 2 ^ 11) then
              18
            else
              16
          else
            if x < -(10872030 * 2 ^ 2) then
              13
            else
              6
      else
        if x < -(2721449 / 2 ^ 1) then
          if x < -(3459788) then
            11
          else
            if x < -(3292867) then
              7
            else
              4
        else
          if x < 6540225 / 2 ^ 36 then
            if x < -(587097 / 2 ^ 6) then
              8
            else
              2
          else
            if x < 6540225 / 2 ^ 13 then
              0
            else
              1
  else
    if x < 11179072 * 2 ^ 26 then
      if x < 11614332 * 2 ^ 10 then
        if x < 9206075 * 2 ^ 3 then
          if x < 5101401 then
            10
          else
            if x < 10901820 * 2 ^ 2 then
              3
            else
              5
        else
          if x < 8858070 * 2 ^ 6 then
            9
          else
            if x < 16496696 * 2 ^ 9 then
              12
            else
              14
      else
        if x < 14293272 * 2 ^ 18 then
          if x < 16100258 * 2 ^ 12 then
            17
          else
            if x < 10895168 * 2 ^ 14 then
              19
            else
              23
        else
          if x < 11922170 * 2 ^ 24 then
            if x < 12443228 * 2 ^ 20 then
              22
            else
              21
          else
            if x < 13119033 * 2 ^ 25 then
              31
            else
              30
    else
      if x < 14265052 * 2 ^ 61 then
        if x < 8984518 * 2 ^ 31 then
          if x < 13469892 * 2 ^ 26 then
            26
          else
            if x < 10395858 * 2 ^ 30 then
              29
            else
              25
        else
          if x < 10071900 * 2 ^ 57 then
            if x < 11102878 * 2 ^ 47 then
              33
            else
              35
          else
            if x < 10146048 * 2 ^ 58 then
              38
            else
              37
      else
        if x < 10942504 * 2 ^ 80 then
          if x < 9210479 * 2 ^ 79 then
            42
          else
            if x < 10845301 * 2 ^ 79 then
              44
            else
              50
        else
          if x < 9649846 * 2 ^ 87 then
            if x < 13103131 * 2 ^ 82 then
              49
            else
              48
          else
            if x < 9440552 * 2 ^ 89 then
              46
            else
              52

/-- A `sinf` for the run: the tabulated sine at the estimates of `nan_run_E`. -/
def sinf_run (x : ℚ) : ℚ := nan_run_sin.getD (nan_run_index x) 0

/-- A `cosf` for the run: the tabulated cosine at the estimates of `nan_run_E`. -/
def cosf_run (x : ℚ) : ℚ := nan_run_cos.getD (nan_run_index x) 0

/-! ## Bit-level helper lemmas -/

theorem mask_and_shiftRight (x k w : Nat) :
    ((((2 ^ w - 1) <<< k) &&& x) >>> k) = x / 2 ^ k % 2 ^ w := by
  rw [← Nat.shiftRight_eq_div_pow]
  apply Nat.eq_of_testBit_eq
  intro i
  simp only [Nat.testBit_shiftRight, Nat.testBit_and, Nat.testBit_shiftLeft,
    Nat.testBit_two_pow_sub_one, Nat.testBit_mod_two_pow]
  by_cases h : i < w <;> simp [h]

theorem and_mask_shiftRight (x k w : Nat) :
    ((x &&& ((2 ^ w - 1) <<< k)) >>> k) = x / 2 ^ k % 2 ^ w := by
  rw [Nat.and_comm]; exact mask_and_shiftRight x k w

theorem or_top_bit (x : Nat) (h : x < 2 ^ 31) : x ||| 0x80000000 = x + 2 ^ 31 := by
  have := Nat.mul_add_lt_is_or h 1
  rw [Nat.or_comm]
  simpa [Nat.add_comm] using this.symm

theorem or_top_bit_u32 (x : Nat) (h : x < 2 ^ 32) :
    x ||| 0x80000000 = x % 2 ^ 31 + 2 ^ 31 := by
  by_cases h1 : x < 2 ^ 31
  · rw [or_top_bit x h1, Nat.mod_eq_of_lt h1]
  · obtain ⟨y, rfl⟩ : ∃ y, x = 2 ^ 31 * 1 + y := ⟨x - 2 ^ 31, by omega⟩
    have hy : y < 2 ^ 31 := by omega
    rw [Nat.mul_add_lt_is_or hy 1, Nat.or_comm, ← Nat.or_assoc]
    have e : (0x80000000 : Nat) ||| 2 ^ 31 * 1 = 2 ^ 31 * 1 := by decide
    rw [e, ← Nat.mul_add_lt_is_or hy 1]
    omega

theorem and_mask_shiftRight_part (x k j w : Nat) :
    ((x &&& ((2 ^ w - 1) <<< (k + j))) >>> k) = (x / 2 ^ (k + j) % 2 ^ w) * 2 ^ j := by
  rw [← Nat.shiftRight_eq_div_pow, ← Nat.shiftLeft_eq]
  apply Nat.eq_of_testBit_eq
  intro i
  simp only [Nat.testBit_shiftRight, Nat.testBit_and, Nat.testBit_shiftLeft,
    Nat.testBit_two_pow_sub_one, Nat.testBit_mod_two_pow]
  by_cases h : j ≤ i
  · have e1 : k + i - (k + j) = i - j := by omega
    have e2 : k + j + (i - j) = k + i := by omega
    have e3 : k + j ≤ k + i := by omega
    simp only [e1, e2, ge_iff_le, h, e3, decide_True, Bool.true_and]
    by_cases h2 : i - j < w <;> simp [h2]
  · have e3 : ¬ (k + j ≤ k + i) := by omega
    simp [h, e3]

/-- Arithmetic reading of `parse_J1939`: the masks and shifts are digit extractions. -/
theorem parse_J1939_arith (id : Nat) :
    parse_J1939 id =
      if 0xF0 ≤ id / 2 ^ 16 % 2 ^ 8 then
        { priority := id / 2 ^ 26 % 2 ^ 3, pgn := id / 2 ^ 8 % 2 ^ 18, da := 255,
          sa := id % 2 ^ 8 }
      else
        { priority := id / 2 ^ 26 % 2 ^ 3, pgn := id / 2 ^ 16 % 2 ^ 10 * 2 ^ 8,
          da := id / 2 ^ 8 % 2 ^ 8, sa := id % 2 ^ 8 } := by
  have hp : (PRIORITY_MASK &&& id) >>> 26 = id / 2 ^ 26 % 2 ^ 3 :=
    mask_and_shiftRight id 26 3
  have hpf : (PF_MASK &&& id) >>> 16 = id / 2 ^ 16 % 2 ^ 8 := mask_and_shiftRight id 16 8
  have hps : (PS_MASK &&& id) >>> 8 = id / 2 ^ 8 % 2 ^ 8 := mask_and_shiftRight id 8 8
  have hsa : id &&& SA_MASK = id % 2 ^ 8 := Nat.and_pow_two_sub_one_eq_mod id 8
  have h2 : (id &&& PDU2_PGN_MASK) >>> 8 = id / 2 ^ 8 % 2 ^ 18 :=
    and_mask_shiftRight id 8 18
  have h1 : (id &&& PDU1_PGN_MASK) >>> 8 = id / 2 ^ 16 % 2 ^ 10 * 2 ^ 8 :=
    and_mask_shiftRight_part id 8 8 10
  unfold parse_J1939
  simp only [hp, hpf, hps, hsa, h1, h2]
  have a1 : id / 2 ^ 26 % 2 ^ 3 % 256 = id / 2 ^ 26 % 2 ^ 3 := by omega
  have a2 : id / 2 ^ 16 % 2 ^ 8 % 256 = id / 2 ^ 16 % 2 ^ 8 := by omega
  have a3 : id / 2 ^ 8 % 2 ^ 8 % 256 = id / 2 ^ 8 % 2 ^ 8 := by omega
  have a4 : id % 2 ^ 8 % 256 = id % 2 ^ 8 := by omega
  simp only [a1, a2, a3, a4, ge_iff_le]

/-- Arithmetic reading of `get_j1939_id`. -/
theorem get_j1939_id_arith (priority pgn sa da : Nat) :
    get_j1939_id priority pgn sa da =
      ((if 0xF000 ≤ pgn then
          (sa + pgn % 2 ^ 18 * 2 ^ 8 % 2 ^ 32) % 2 ^ 32
        else
          ((sa + pgn / 2 ^ 8 % 2 ^ 10 * 2 ^ 8 * 2 ^ 8 % 2 ^ 32) % 2 ^ 32
            + da * 2 ^ 8 % 2 ^ 32) % 2 ^ 32)
        + priority * 2 ^ 26 % 2 ^ 32) % 2 ^ 32 % 2 ^ 31 + 2 ^ 31 := by
  have m2 : (0x3FFFF &&& pgn) = pgn % 2 ^ 18 := by
    rw [Nat.and_comm]; exact Nat.and_pow_two_sub_one_eq_mod pgn 18
  have m1 : (0x3FF00 &&& pgn) = pgn / 2 ^ 8 % 2 ^ 10 * 2 ^ 8 := by
    have := and_mask_shiftRight_part pgn 0 8 10
    rw [Nat.and_comm]
    simpa using this
  unfold get_j1939_id
  simp only [m1, m2, Nat.shiftLeft_eq, ge_iff_le]
  rw [or_top_bit_u32 _ (Nat.mod_lt _ (by decide))]

/-! ## Rounding lemmas -/

/-- A rational strictly within `1/2` of an integer rounds to that integer. -/
theorem round_half_even_eq (q : ℚ) (n : ℤ) (h : |q - n| < 1 / 2) : round_half_even q = n := by
  rw [abs_lt] at h
  obtain ⟨h1, h2⟩ := h
  unfold round_half_even
  by_cases hq : (n : ℚ) ≤ q
  · have hf : ⌊q⌋ = n := by
      rw [Int.floor_eq_iff]
      constructor
      · exact hq
      · linarith
    rw [hf, if_pos (by linarith)]
  · have hq2 : q < n := lt_of_not_le hq
    have hf : ⌊q⌋ = n - 1 := by
      rw [Int.floor_eq_iff]
      push_cast
      constructor <;> linarith
    rw [hf]
    push_cast
    rw [if_neg (by linarith), if_pos (by linarith)]
    ring

/-- The binary exponent of a positive rational lying in `[2 ^ k, 2 ^ (k + 1))`. -/
theorem int_log_two_eq (x : ℚ) (k : ℤ) (hx : 0 < x) (hlo : (2 : ℚ) ^ k ≤ x)
    (hhi : x < (2 : ℚ) ^ (k + 1)) : Int.log 2 x = k := by
  have h2 : (1 : ℕ) < 2 := by decide
  apply le_antisymm
  · have := (Int.lt_zpow_iff_log_lt h2 hx (x := k + 1)).mp (by simpa using hhi)
    omega
  · exact (Int.zpow_le_iff_le_log h2 hx).mp (by simpa using hlo)

/-- Evaluation of `roundNE` away from ties: if `|x|` lies in the binade of unit `2 ^ e`
and `x / 2 ^ e` is strictly within `1/2` of the integer `n`, then `x` rounds to
`n * 2 ^ e`. -/
theorem roundNE_eq (p : ℕ) (x : ℚ) (e n : ℤ) (hx : x ≠ 0)
    (hlo : (2 : ℚ) ^ (e + ((p : ℤ) - 1)) ≤ |x|)
    (hhi : |x| < (2 : ℚ) ^ (e + ((p : ℤ) - 1) + 1))
    (hn : |x / 2 ^ e - n| < 1 / 2) : roundNE p x = n * 2 ^ e := by
  have hlog : Int.log 2 |x| = e + ((p : ℤ) - 1) :=
    int_log_two_eq |x| _ (abs_pos.mpr hx) hlo hhi
  unfold roundNE
  rw [if_neg hx]
  simp only [hlog, add_sub_cancel_right]
  rw [round_half_even_eq _ n hn]

theorem roundNE_zero (p : ℕ) : roundNE p 0 = 0 := by
  simp [roundNE]

theorem roundNE_24_one : roundNE 24 1 = 1 := by
  rw [roundNE_eq 24 1 (-23) 8388608 (by norm_num) (by norm_num) (by norm_num) (by norm_num)]
  norm_num

/-- An integer rounds to itself. -/
theorem round_half_even_intCast (n : ℤ) : round_half_even (n : ℚ) = n :=
  round_half_even_eq _ n (by norm_num)

/-- The rounded value is the floor or the floor plus one. -/
theorem round_half_even_floor (q : ℚ) :
    round_half_even q = ⌊q⌋ ∨ round_half_even q = ⌊q⌋ + 1 := by
  unfold round_half_even
  split_ifs <;> simp

/-- Rounding to the nearest integer is monotone. -/
theorem round_half_even_mono {q r : ℚ} (h : q ≤ r) : round_half_even q ≤ round_half_even r := by
  have hfl : ⌊q⌋ ≤ ⌊r⌋ := Int.floor_mono h
  rcases lt_or_eq_of_le hfl with hlt | heq
  · have h1 : round_half_even q ≤ ⌊q⌋ + 1 := by
      rcases round_half_even_floor q with e | e <;> omega
    have h2 : ⌊r⌋ ≤ round_half_even r := by
      rcases round_half_even_floor r with e | e <;> omega
    omega
  · unfold round_half_even
    rw [← heq]
    split_ifs <;> first | omega | (exfalso; linarith)

/-- Rounding to the nearest integer commutes with negation. -/
theorem round_half_even_neg (q : ℚ) : round_half_even (-q) = -round_half_even q := by
  by_cases hint : (⌊q⌋ : ℚ) = q
  · rw [← hint, ← Int.cast_neg, round_half_even_intCast, round_half_even_intCast]
  · have h1 : (⌊q⌋ : ℚ) < q := lt_of_le_of_ne (Int.floor_le q) hint
    have h2 : q < ⌊q⌋ + 1 := Int.lt_floor_add_one q
    have hf : ⌊-q⌋ = -⌊q⌋ - 1 := by
      rw [Int.floor_eq_iff]
      push_cast
      constructor <;> linarith
    unfold round_half_even
    rw [hf]
    push_cast
    split_ifs <;> first | omega | (exfalso; linarith)

/-- Unfolding of `roundNE` at a non-zero argument, for `p = q + 1` significant bits. -/
theorem roundNE_succ (q : ℕ) (x : ℚ) (hx : x ≠ 0) :
    roundNE (q + 1) x =
      (round_half_even (x / 2 ^ (Int.log 2 |x| - (q : ℤ))) : ℚ) * 2 ^ (Int.log 2 |x| - (q : ℤ)) := by
  unfold roundNE
  rw [if_neg hx]
  have e : ((q + 1 : ℕ) : ℤ) - 1 = (q : ℤ) := by push_cast; ring
  simp only [e]

/-- The binade of a non-zero rational. -/
theorem binade_bounds (x : ℚ) (hx : x ≠ 0) :
    (2 : ℚ) ^ Int.log 2 |x| ≤ |x| ∧ |x| < (2 : ℚ) ^ (Int.log 2 |x| + 1) := by
  have hpos : 0 < |x| := abs_pos.mpr hx
  have h1 := Int.zpow_log_le_self (by decide : 1 < 2) hpos
  have h2 := Int.lt_zpow_succ_log_self (by decide : 1 < 2) |x|
  exact ⟨by simpa using h1, by simpa using h2⟩

/-- Splitting a power of two at the unit of the last place. -/
theorem zpow_split (k : ℤ) (q : ℕ) : (2 : ℚ) ^ (k - (q : ℤ)) * 2 ^ q = 2 ^ k := by
  rw [← zpow_natCast, ← zpow_add₀ (by norm_num : (2 : ℚ) ≠ 0)]
  congr 1
  ring

/-- Rounding to `q + 1` bits commutes with negation. -/
theorem roundNE_neg (q : ℕ) (x : ℚ) : roundNE (q + 1) (-x) = -roundNE (q + 1) x := by
  by_cases hx : x = 0
  · simp [hx, roundNE_zero]
  · rw [roundNE_succ q x hx, roundNE_succ q (-x) (neg_ne_zero.mpr hx), abs_neg, neg_div,
      round_half_even_neg]
    push_cast
    ring

/-- A positive rational rounds into the closure of its binade. -/
theorem roundNE_pos_range (q : ℕ) (x : ℚ) (hx : 0 < x) :
    (2 : ℚ) ^ Int.log 2 x ≤ roundNE (q + 1) x ∧ roundNE (q + 1) x ≤ (2 : ℚ) ^ (Int.log 2 x + 1) := by
  have hne : x ≠ 0 := ne_of_gt hx
  obtain ⟨h1, h2⟩ := binade_bounds x hne
  rw [abs_of_pos hx] at h1 h2
  rw [roundNE_succ q x hne, abs_of_pos hx]
  set k := Int.log 2 x with hk
  have hu : (0 : ℚ) < 2 ^ (k - (q : ℤ)) := by positivity
  have hs := zpow_split k q
  have hs1 := zpow_split (k + 1) (q + 1)
  have ee : k + 1 - ((q + 1 : ℕ) : ℤ) = k - (q : ℤ) := by push_cast; ring
  rw [ee] at hs1
  have lo : ((2 ^ q : ℤ) : ℚ) ≤ x / 2 ^ (k - (q : ℤ)) := by
    rw [le_div_iff₀ hu]
    push_cast
    rw [mul_comm, hs]
    exact h1
  have hi : x / 2 ^ (k - (q : ℤ)) ≤ ((2 ^ (q + 1) : ℤ) : ℚ) := by
    rw [div_le_iff₀ hu]
    push_cast
    rw [mul_comm, hs1]
    exact le_of_lt h2
  have rlo := round_half_even_mono lo
  have rhi := round_half_even_mono hi
  rw [round_half_even_intCast] at rlo rhi
  have rlo2 : ((2 ^ q : ℤ) : ℚ) ≤ (round_half_even (x / 2 ^ (k - (q : ℤ))) : ℚ) := by
    exact_mod_cast rlo
  have rhi2 : (round_half_even (x / 2 ^ (k - (q : ℤ))) : ℚ) ≤ ((2 ^ (q + 1) : ℤ) : ℚ) := by
    exact_mod_cast rhi
  push_cast at rlo2 rhi2
  constructor
  · calc (2 : ℚ) ^ k = 2 ^ q * 2 ^ (k - (q : ℤ)) := by rw [mul_comm, hs]
      _ ≤ _ := mul_le_mul_of_nonneg_right rlo2 (le_of_lt hu)
  · calc _ ≤ (2 : ℚ) ^ (q + 1) * 2 ^ (k - (q : ℤ)) := mul_le_mul_of_nonneg_right rhi2 (le_of_lt hu)
      _ = 2 ^ (k + 1) := by rw [mul_comm, hs1]

/-- Rounding is monotone on positive rationals. -/
theorem roundNE_mono_pos (q : ℕ) (x y : ℚ) (hx : 0 < x) (hxy : x ≤ y) :
    roundNE (q + 1) x ≤ roundNE (q + 1) y := by
  have hy : 0 < y := lt_of_lt_of_le hx hxy
  have hlog : Int.log 2 x ≤ Int.log 2 y := Int.log_mono_right hx hxy
  rcases lt_or_eq_of_le hlog with hlt | heq
  · have h1 := (roundNE_pos_range q x hx).2
    have h2 := (roundNE_pos_range q y hy).1
    have h3 : (2 : ℚ) ^ (Int.log 2 x + 1) ≤ 2 ^ Int.log 2 y :=
      zpow_le_zpow_right₀ (by norm_num) (by omega)
    linarith
  · rw [roundNE_succ q x (ne_of_gt hx), roundNE_succ q y (ne_of_gt hy), abs_of_pos hx,
      abs_of_pos hy, heq]
    have hu : (0 : ℚ) < 2 ^ (Int.log 2 y - (q : ℤ)) := by positivity
    have hdiv : x / 2 ^ (Int.log 2 y - (q : ℤ)) ≤ y / 2 ^ (Int.log 2 y - (q : ℤ)) :=
      div_le_div_of_nonneg_right hxy (le_of_lt hu)
    have := round_half_even_mono hdiv
    have hc : (round_half_even (x / 2 ^ (Int.log 2 y - (q : ℤ))) : ℚ)
        ≤ (round_half_even (y / 2 ^ (Int.log 2 y - (q : ℤ))) : ℚ) := by exact_mod_cast this
    exact mul_le_mul_of_nonneg_right hc (le_of_lt hu)

/-- A positive rational rounds to a positive value. -/
theorem roundNE_pos (q : ℕ) (x : ℚ) (hx : 0 < x) : 0 < roundNE (q + 1) x :=
  lt_of_lt_of_le (by positivity) (roundNE_pos_range q x hx).1

/-- Rounding to nearest is monotone. -/
theorem roundNE_mono (q : ℕ) {x y : ℚ} (hxy : x ≤ y) : roundNE (q + 1) x ≤ roundNE (q + 1) y := by
  rcases lt_trichotomy 0 x with hx | hx | hx
  · exact roundNE_mono_pos q x y hx hxy
  · subst hx
    rw [roundNE_zero]
    rcases lt_or_eq_of_le hxy with hy | hy
    · exact le_of_lt (roundNE_pos q y hy)
    · rw [← hy, roundNE_zero]
  · have hnx : roundNE (q + 1) x < 0 := by
      have := roundNE_pos q (-x) (by linarith)
      rw [roundNE_neg] at this
      linarith
    rcases lt_trichotomy 0 y with hy | hy | hy
    · exact le_of_lt (lt_trans hnx (roundNE_pos q y hy))
    · rw [← hy, roundNE_zero]; exact le_of_lt hnx
    · have := roundNE_mono_pos q (-y) (-x) (by linarith) (by linarith)
      rw [roundNE_neg, roundNE_neg] at this
      linarith

/-- An integer of magnitude below `2 ^ (q + 1)` is representable with `q + 1` bits. -/
theorem roundNE_intCast (q : ℕ) (n : ℤ) (h : |n| < 2 ^ (q + 1)) : roundNE (q + 1) (n : ℚ) = n := by
  by_cases hn : n = 0
  · simp [hn, roundNE_zero]
  · have hne : (n : ℚ) ≠ 0 := by exact_mod_cast hn
    obtain ⟨h1, h2⟩ := binade_bounds (n : ℚ) hne
    rw [roundNE_succ q _ hne]
    set k := Int.log 2 |(n : ℚ)| with hk
    have habs : |(n : ℚ)| < 2 ^ ((q : ℤ) + 1) := by
      have : ((|n| : ℤ) : ℚ) < ((2 ^ (q + 1) : ℤ) : ℚ) := by exact_mod_cast h
      rw [Int.cast_abs] at this
      push_cast at this
      rw [zpow_add_one₀ (by norm_num), zpow_natCast]
      linarith [pow_succ (2 : ℚ) q]
    have hkq : k ≤ q := by
      have hlt : (2 : ℚ) ^ k < 2 ^ ((q : ℤ) + 1) := lt_of_le_of_lt h1 habs
      have := (zpow_lt_zpow_iff_right₀ (by norm_num : (1 : ℚ) < 2)).mp hlt
      omega
    obtain ⟨d, hd⟩ : ∃ d : ℕ, (q : ℤ) - k = d := ⟨((q : ℤ) - k).toNat, by omega⟩
    have he : k - (q : ℤ) = -(d : ℤ) := by omega
    rw [he, zpow_neg, zpow_natCast, div_inv_eq_mul]
    have hc : (n : ℚ) * 2 ^ d = ((n * 2 ^ d : ℤ) : ℚ) := by push_cast; ring
    rw [hc, round_half_even_intCast]
    push_cast
    field_simp

/-- Rounding to `float` precision is monotone. -/
theorem roundNE_24_mono {x y : ℚ} (h : x ≤ y) : roundNE 24 x ≤ roundNE 24 y :=
  roundNE_mono 23 h

/-- Rounding to `double` precision is monotone. -/
theorem roundNE_53_mono {x y : ℚ} (h : x ≤ y) : roundNE 53 x ≤ roundNE 53 y :=
  roundNE_mono 52 h

/-- Integers of magnitude below `2 ^ 24` are `float` values. -/
theorem roundNE_24_intCast (n : ℤ) (h : |n| < 2 ^ 24) : roundNE 24 (n : ℚ) = n :=
  roundNE_intCast 23 n h

/-- Integers of magnitude below `2 ^ 53` are `double` values. -/
theorem roundNE_53_intCast (n : ℤ) (h : |n| < 2 ^ 53) : roundNE 53 (n : ℚ) = n :=
  roundNE_intCast 52 n h

/-- A rational equal to an integer of magnitude below `2 ^ 24` is a `float` value. -/
theorem roundNE_24_of_int (x : ℚ) (n : ℤ) (hx : x = n) (h : |n| < 2 ^ 24) :
    roundNE 24 x = x := by
  subst hx
  exact roundNE_24_intCast n h

/-- A rational equal to an integer of magnitude below `2 ^ 53` is a `double` value. -/
theorem roundNE_53_of_int (x : ℚ) (n : ℤ) (hx : x = n) (h : |n| < 2 ^ 53) :
    roundNE 53 x = x := by
  subst hx
  exact roundNE_53_intCast n h

/-- Rounding to `float` precision keeps a value between two integer `float` bounds. -/
theorem roundNE_24_between (lo hi : ℤ) (hlo : |lo| < 2 ^ 24) (hhi : |hi| < 2 ^ 24) (x : ℚ)
    (h1 : (lo : ℚ) ≤ x) (h2 : x ≤ (hi : ℚ)) :
    (lo : ℚ) ≤ roundNE 24 x ∧ roundNE 24 x ≤ (hi : ℚ) := by
  have a := roundNE_24_mono h1
  have b := roundNE_24_mono h2
  rw [roundNE_24_intCast lo hlo] at a
  rw [roundNE_24_intCast hi hhi] at b
  exact ⟨a, b⟩

/-- Rounding to `double` precision keeps a value between two integer `double` bounds. -/
theorem roundNE_53_between (lo hi : ℤ) (hlo : |lo| < 2 ^ 53) (hhi : |hi| < 2 ^ 53) (x : ℚ)
    (h1 : (lo : ℚ) ≤ x) (h2 : x ≤ (hi : ℚ)) :
    (lo : ℚ) ≤ roundNE 53 x ∧ roundNE 53 x ≤ (hi : ℚ) := by
  have a := roundNE_53_mono h1
  have b := roundNE_53_mono h2
  rw [roundNE_53_intCast lo hlo] at a
  rw [roundNE_53_intCast hi hhi] at b
  exact ⟨a, b⟩

/-! ## Loop lemmas -/

/-- A loop that returns has executed its body some number `k` of times, within the fuel;
its test held before each execution and fails on the state returned. -/
theorem whileLoop_eq_some {S : Type} (cond : S → Bool) (body : S → S) :
    ∀ (fuel : Nat) (s t : S), whileLoop cond body fuel s = some t →
      ∃ k, k ≤ fuel ∧ t = body^[k] s ∧ cond t = false ∧ ∀ j, j < k → cond (body^[j] s) = true
  | 0, s, t, h => by
    unfold whileLoop at h
    by_cases hc : cond s = true
    · simp [hc] at h
    · simp only [hc] at h
      have ht : s = t := by simpa using h
      subst ht
      exact ⟨0, le_refl 0, rfl, by simpa using hc, fun j hj => absurd hj (Nat.not_lt_zero j)⟩
  | fuel + 1, s, t, h => by
    unfold whileLoop at h
    by_cases hc : cond s = true
    · simp only [hc, if_true] at h
      obtain ⟨k, hk, ht, hf, hj⟩ := whileLoop_eq_some cond body fuel (body s) t h
      refine ⟨k + 1, Nat.succ_le_succ hk, by simpa [Function.iterate_succ_apply] using ht,
        hf, ?_⟩
      intro j hjk
      cases j with
      | zero => simpa using hc
      | succ i =>
        have := hj i (Nat.lt_of_succ_lt_succ hjk)
        simpa [Function.iterate_succ_apply] using this
    · simp only [hc] at h
      have ht : s = t := by simpa using h
      subst ht
      exact ⟨0, Nat.zero_le _, rfl, by simpa using hc,
        fun j hj => absurd hj (Nat.not_lt_zero j)⟩

/-- A loop whose test holds on the first `fuel + 1` states has not returned after `fuel`
executions of its body. -/
theorem whileLoop_eq_none {S : Type} (cond : S → Bool) (body : S → S) :
    ∀ (fuel : Nat) (s : S), (∀ k, k ≤ fuel → cond (body^[k] s) = true) →
      whileLoop cond body fuel s = none
  | 0, s, h => by
    have h0 : cond s = true := by simpa using h 0 (le_refl 0)
    simp [whileLoop, h0]
  | fuel + 1, s, h => by
    have h0 : cond s = true := by simpa using h 0 (Nat.zero_le _)
    have hrest : ∀ k, k ≤ fuel → cond (body^[k] (body s)) = true := by
      intro k hk
      have := h (k + 1) (Nat.succ_le_succ hk)
      simpa [Function.iterate_succ_apply] using this
    simp [whileLoop, h0, whileLoop_eq_none cond body fuel (body s) hrest]

/-- A loop whose test fails on the initial state returns it unchanged, whatever the fuel. -/
theorem whileLoop_of_cond_false {S : Type} (cond : S → Bool) (body : S → S) (fuel : Nat)
    (s : S) (h : cond s = false) : whileLoop cond body fuel s = some s := by
  cases fuel <;> simp [whileLoop, h]

/-- One unfolding of a loop whose test holds on the initial state. -/
theorem whileLoop_of_cond_true {S : Type} (cond : S → Bool) (body : S → S) (fuel : Nat)
    (s : S) (h : cond s = true) :
    whileLoop cond body (fuel + 1) s = whileLoop cond body fuel (body s) := by
  simp [whileLoop, h]

/-- A loop that returns either returns its initial state or the result of a last
execution of its body on a state where its test held; its test fails on the result. -/
theorem whileLoop_last_step {S : Type} (cond : S → Bool) (body : S → S) (fuel : Nat)
    (s t : S) (h : whileLoop cond body fuel s = some t) :
    cond t = false ∧ (t = s ∨ ∃ u, cond u = true ∧ t = body u) := by
  obtain ⟨k, _, ht, hf, hj⟩ := whileLoop_eq_some cond body fuel s t h
  refine ⟨hf, ?_⟩
  cases k with
  | zero => exact Or.inl (by simpa using ht)
  | succ n =>
    rw [Function.iterate_succ_apply'] at ht
    exact Or.inr ⟨body^[n] s, hj n (Nat.lt_succ_self n), ht⟩

/-- A loop that returns within some fuel returns the same state with any larger fuel. -/
theorem whileLoop_fuel_mono {S : Type} (cond : S → Bool) (body : S → S) :
    ∀ (fuel : Nat) (s t : S), whileLoop cond body fuel s = some t →
      ∀ fuel2, fuel ≤ fuel2 → whileLoop cond body fuel2 s = some t
  | 0, s, t, h, fuel2, _ => by
    unfold whileLoop at h
    by_cases hc : cond s = true
    · simp [hc] at h
    · simp only [hc] at h
      have ht : s = t := by simpa using h
      subst ht
      exact whileLoop_of_cond_false cond body fuel2 s (by simpa using hc)
  | fuel + 1, s, t, h, fuel2, hle => by
    by_cases hc : cond s = true
    · obtain ⟨m, rfl⟩ : ∃ m, fuel2 = m + 1 := ⟨fuel2 - 1, by omega⟩
      rw [whileLoop_of_cond_true cond body _ s hc] at h ⊢
      exact whileLoop_fuel_mono cond body fuel (body s) t h m (by omega)
    · have hf : cond s = false := by simpa using hc
      rw [whileLoop_of_cond_false cond body _ s hf] at h ⊢
      exact h

/-- Termination and range of a loop `while (a > hi) a = sub(a)` on rationals, when each
execution of the body moves the state down one step of a staircase of width `c`. -/
theorem whileLoop_down (sub : ℚ → ℚ) (hi c lo : ℚ) (J : ℕ)
    (hstep : ∀ (a : ℚ) (j : ℕ), j < J → hi < a → a ≤ hi + c * (j + 1) → sub a ≤ hi + c * j)
    (hlo : ∀ a, hi < a → lo ≤ sub a) :
    ∀ (fuel : ℕ) (a : ℚ), fuel ≤ J → a ≤ hi + c * fuel →
      ∃ t, whileLoop (fun a => decide (a > hi)) sub fuel a = some t ∧ t ≤ hi ∧
        (t = a ∨ lo ≤ t)
  | 0, a, _, ha => by
    have hle : a ≤ hi := by simpa using ha
    exact ⟨a, whileLoop_of_cond_false _ _ _ _ (by simpa using hle), hle, Or.inl rfl⟩
  | fuel + 1, a, hJ, ha => by
    by_cases hc : hi < a
    · rw [whileLoop_of_cond_true _ _ _ _ (by simpa using hc)]
      have h1 : sub a ≤ hi + c * fuel := hstep a fuel (by omega) hc (by push_cast at ha; exact ha)
      obtain ⟨t, ht, hthi, htlo⟩ := whileLoop_down sub hi c lo J hstep hlo fuel (sub a) (by omega) h1
      refine ⟨t, ht, hthi, Or.inr ?_⟩
      rcases htlo with h | h
      · rw [h]; exact hlo a hc
      · exact h
    · have hle : a ≤ hi := not_lt.mp hc
      exact ⟨a, whileLoop_of_cond_false _ _ _ _ (by simpa using hle), hle, Or.inl rfl⟩

/-- Termination and range of a loop `while (a < lo) a = add(a)` on rationals, when each
execution of the body moves the state up one step of a staircase of width `c`. -/
theorem whileLoop_up (add : ℚ → ℚ) (lo c hi : ℚ) (J : ℕ)
    (hstep : ∀ (a : ℚ) (j : ℕ), j < J → a < lo → lo - c * (j + 1) ≤ a → lo - c * j ≤ add a)
    (hhi : ∀ a, a < lo → add a ≤ hi) :
    ∀ (fuel : ℕ) (a : ℚ), fuel ≤ J → lo - c * fuel ≤ a →
      ∃ t, whileLoop (fun a => decide (a < lo)) add fuel a = some t ∧ lo ≤ t ∧
        (t = a ∨ t ≤ hi)
  | 0, a, _, ha => by
    have hle : lo ≤ a := by simpa using ha
    exact ⟨a, whileLoop_of_cond_false _ _ _ _ (by simpa using hle), hle, Or.inl rfl⟩
  | fuel + 1, a, hJ, ha => by
    by_cases hc : a < lo
    · rw [whileLoop_of_cond_true _ _ _ _ (by simpa using hc)]
      have h1 : lo - c * fuel ≤ add a := hstep a fuel (by omega) hc (by push_cast at ha; exact ha)
      obtain ⟨t, ht, htlo, hthi⟩ := whileLoop_up add lo c hi J hstep hhi fuel (add a) (by omega) h1
      refine ⟨t, ht, htlo, Or.inr ?_⟩
      rcases hthi with h | h
      · rw [h]; exact hhi a hc
      · exact h
    · have hle : lo ≤ a := not_lt.mp hc
      exact ⟨a, whileLoop_of_cond_false _ _ _ _ (by simpa using hle), hle, Or.inl rfl⟩

/-- Range of the pair of loops `while (a > hi) a = sub(a); while (a < lo) a = add(a)`
whenever it returns: the result fails both tests, provided one execution of the second
body cannot overshoot `hi`. -/
theorem normalise_range (sub add : ℚ → ℚ) (hi lo : ℚ) (hadd : ∀ u, u < lo → add u ≤ hi)
    (fuel : ℕ) (a t : ℚ)
    (h : ((whileLoop (fun a : ℚ => decide (a > hi)) sub fuel a).bind
        fun a => whileLoop (fun a : ℚ => decide (a < lo)) add fuel a) = some t) :
    lo ≤ t ∧ t ≤ hi := by
  cases h1 : whileLoop (fun a : ℚ => decide (a > hi)) sub fuel a with
  | none => simp [h1] at h
  | some t1 =>
    rw [h1, Option.some_bind] at h
    obtain ⟨hc1, _⟩ := whileLoop_last_step _ _ _ _ _ h1
    obtain ⟨hc2, hlast⟩ := whileLoop_last_step _ _ _ _ _ h
    have ht1 : t1 ≤ hi := by simpa using hc1
    have ht : lo ≤ t := by simpa using hc2
    refine ⟨ht, ?_⟩
    rcases hlast with e | ⟨u, hu, e⟩
    · rw [e]; exact ht1
    · rw [e]; exact hadd u (by simpa using hu)

/-- Termination and range of the pair of loops `while (a > hi) a -= 360;
while (a < lo) a += 360` with `lo = hi - 360` in `float` arithmetic, for bounds `hi`, `lo`
whose translates by multiples of 360 are `float` values. -/
theorem rounded_normalise (hi lo : ℚ) (hlo : lo = hi - 360) (J : ℕ)
    (hrepU : ∀ j : ℕ, j ≤ J → roundNE 24 (hi + 360 * j) = hi + 360 * j)
    (hrepL : ∀ j : ℕ, j ≤ J → roundNE 24 (lo - 360 * j) = lo - 360 * j)
    (fuel : ℕ) (hfuel : fuel ≤ J) (a : ℚ) (h1 : a ≤ hi + 360 * fuel)
    (h2 : lo - 360 * fuel ≤ a) :
    ∃ t, ((whileLoop (fun a : ℚ => decide (a > hi)) (fun a => roundNE 24 (a - 360)) fuel a).bind
        fun a => whileLoop (fun a : ℚ => decide (a < lo)) (fun a => roundNE 24 (a + 360)) fuel a)
        = some t ∧ lo ≤ t ∧ t ≤ hi := by
  have hU0 : roundNE 24 hi = hi := by simpa using hrepU 0 (Nat.zero_le J)
  have hL0 : roundNE 24 lo = lo := by simpa using hrepL 0 (Nat.zero_le J)
  obtain ⟨t1, hw1, ht1, hlow⟩ := whileLoop_down (fun a => roundNE 24 (a - 360)) hi 360 lo J
    (fun a j hj _ hle => by
      have hm : roundNE 24 (a - 360) ≤ roundNE 24 (hi + 360 * j) :=
        roundNE_24_mono (by linarith)
      rw [hrepU j (le_of_lt hj)] at hm
      exact hm)
    (fun a hgt => by
      have hm : roundNE 24 lo ≤ roundNE 24 (a - 360) := roundNE_24_mono (by linarith)
      rw [hL0] at hm
      exact hm)
    fuel a hfuel h1
  have hcf : (0 : ℚ) ≤ 360 * fuel := mul_nonneg (by norm_num) (Nat.cast_nonneg fuel)
  have h3 : lo - 360 * fuel ≤ t1 := by
    rcases hlow with e | e
    · rw [e]; exact h2
    · linarith
  obtain ⟨t, hw2, htlo, hthi⟩ := whileLoop_up (fun a => roundNE 24 (a + 360)) lo 360 hi J
    (fun a j hj _ hge => by
      have hm : roundNE 24 (lo - 360 * j) ≤ roundNE 24 (a + 360) :=
        roundNE_24_mono (by linarith)
      rw [hrepL j (le_of_lt hj)] at hm
      exact hm)
    (fun a hlt => by
      have hm : roundNE 24 (a + 360) ≤ roundNE 24 hi := roundNE_24_mono (by linarith)
      rw [hU0] at hm
      exact hm)
    fuel t1 hfuel h3
  refine ⟨t, by rw [hw1, Option.some_bind, hw2], htlo, ?_⟩
  rcases hthi with e | e
  · rw [e]; exact ht1
  · exact e

/-- The pair of normalisation loops returns the same value with any larger fuel. -/
theorem normalise_fuel_mono {S : Type} (c1 c2 : S → Bool) (b1 b2 : S → S) (fuel : ℕ)
    (a t : S)
    (h : ((whileLoop c1 b1 fuel a).bind fun a => whileLoop c2 b2 fuel a) = some t)
    (fuel2 : ℕ) (hle : fuel ≤ fuel2) :
    ((whileLoop c1 b1 fuel2 a).bind fun a => whileLoop c2 b2 fuel2 a) = some t := by
  cases h1 : whileLoop c1 b1 fuel a with
  | none => simp [h1] at h
  | some t1 =>
    rw [h1, Option.some_bind] at h
    rw [whileLoop_fuel_mono c1 b1 fuel a t1 h1 fuel2 hle, Option.some_bind]
    exact whileLoop_fuel_mono c2 b2 fuel t1 t h fuel2 hle

/-! ## Anomaly solver: helper lemmas -/

section SolverLemmas

variable {F D : Type}

/-- Shape of every result of `Keplers_Law`: the loop state at exit, with `ret = 1`. -/
theorem Keplers_Law_eq_some (ops : FloatOps F D) (M e g : F) (fuel : Nat)
    (r : KeplerResult F) (h : Keplers_Law ops M e g fuel = some r) :
    r.ret = 1 ∧
    whileLoop (kepler_cond ops) (kepler_body ops M e) fuel (g, ops.ofIntF 1)
      = some (r.eccentric_anomaly_output, r.error_output) := by
  unfold Keplers_Law at h
  cases hw : whileLoop (kepler_cond ops) (kepler_body ops M e) fuel (g, ops.ofIntF 1) with
  | none => simp [hw] at h
  | some s =>
    simp only [hw, Option.map_some', Option.some.injEq] at h
    subst h
    exact ⟨rfl, rfl⟩

/-- In exact arithmetic, with eccentricity 0 and the mean anomaly as initial guess, one
Newton iteration returns the mean anomaly with residual 0. -/
theorem Keplers_Law_exact_zero_ecc (sinf cosf : ℚ → ℚ) (M : ℚ) (fuel : Nat) :
    Keplers_Law (exactOps sinf cosf) M 0 M (fuel + 1) =
      some { ret := 1, eccentric_anomaly_output := M, error_output := 0 } := by
  simp only [Keplers_Law]
  rw [whileLoop_of_cond_true _ _ _ _ (by
    simp only [kepler_cond, tol, exactOps]; norm_num)]
  rw [whileLoop_of_cond_false _ _ _ _ (by
    simp only [kepler_cond, kepler_body, formula, formula_derivative, tol, exactOps]
    norm_num)]
  simp only [kepler_body, formula, formula_derivative, exactOps, Option.map_some']
  norm_num

end SolverLemmas

/-! ## Rounded arithmetic: the solver on concrete inputs -/

/-- In rounded arithmetic the conversion of the integer 10 to `float` is exact. -/
theorem rounded_ofIntF_ten (sinf cosf : ℚ → ℚ) : (roundedOps sinf cosf).ofIntF 10 = 10 := by
  show roundNE 24 ((10 : ℤ) : ℚ) = 10
  have hc : ((10 : ℤ) : ℚ) = 10 := by norm_num
  rw [hc, roundNE_eq 24 _ (-20) 10485760 (by norm_num) (by norm_num [abs_of_pos])
    (by norm_num [abs_of_pos]) (by norm_num [abs_of_pos])]
  norm_num

/-- In rounded arithmetic the tolerance `10*__FLT_EPSILON__` is `10 * 2 ^ (-23)`. -/
theorem rounded_tol (sinf cosf : ℚ → ℚ) : tol (roundedOps sinf cosf) = 10 / 2 ^ 23 := by
  rw [tol, rounded_ofIntF_ten]
  show roundNE 24 (10 * (1 / 2 ^ 23)) = 10 / 2 ^ 23
  rw [roundNE_eq 24 _ (-43) 10485760 (by norm_num) (by norm_num [abs_of_pos])
    (by norm_num [abs_of_pos]) (by norm_num [abs_of_pos])]
  norm_num

/-- In rounded arithmetic `1 - eccentricity * cosf(E)` is `2 - 2 ^ (-23)` when the
eccentricity is `ecc_clamp` and `cosf(E) = -1`. -/
theorem rounded_derivative_bad (sinf cosf : ℚ → ℚ) (E : ℚ) (hc : cosf E = -1) :
    formula_derivative (roundedOps sinf cosf) E ecc_clamp = 16777215 / 2 ^ 23 := by
  simp only [formula_derivative, roundedOps, hc, Int.cast_one, roundNE_24_one]
  have h1 : roundNE 24 (ecc_clamp * -1) = -(8388607 / 2 ^ 23) := by
    rw [roundNE_eq 24 _ (-24) (-16777214) (by norm_num [M_bad, E_bad, ecc_clamp, sin_M_bad, sin_E_bad, M_tiny, abs_of_pos]) (by norm_num [M_bad, E_bad, ecc_clamp, sin_M_bad, sin_E_bad, M_tiny, abs_of_pos])
      (by norm_num [M_bad, E_bad, ecc_clamp, sin_M_bad, sin_E_bad, M_tiny, abs_of_pos]) (by norm_num [M_bad, E_bad, ecc_clamp, sin_M_bad, sin_E_bad, M_tiny, abs_of_pos])]
    norm_num [M_bad, E_bad, ecc_clamp, sin_M_bad, sin_E_bad, M_tiny]
  rw [h1]
  have h2 : roundNE 24 (1 - -(8388607 / 2 ^ 23)) = 16777215 / 2 ^ 23 := by
    rw [roundNE_eq 24 _ (-23) (16777215) (by norm_num [M_bad, E_bad, ecc_clamp, sin_M_bad, sin_E_bad, M_tiny, abs_of_pos]) (by norm_num [M_bad, E_bad, ecc_clamp, sin_M_bad, sin_E_bad, M_tiny, abs_of_pos])
      (by norm_num [M_bad, E_bad, ecc_clamp, sin_M_bad, sin_E_bad, M_tiny, abs_of_pos]) (by norm_num [M_bad, E_bad, ecc_clamp, sin_M_bad, sin_E_bad, M_tiny, abs_of_pos])]
    norm_num [M_bad, E_bad, ecc_clamp, sin_M_bad, sin_E_bad, M_tiny]
  rw [h2]

/-- One Newton iteration from the estimate `M_bad` with mean anomaly `M_bad`: the
residual is `+2 ^ (-17)` and the new estimate is `E_bad`. -/
theorem rounded_body_at_M_bad (sinf cosf : ℚ → ℚ) (hs : sinf M_bad = sin_M_bad)
    (hc : cosf M_bad = -1) (x : ℚ) :
    kepler_body (roundedOps sinf cosf) M_bad ecc_clamp (M_bad, x) = (E_bad, 1 / 2 ^ 17) := by
  have hd := rounded_derivative_bad sinf cosf M_bad hc
  have hf : formula (roundedOps sinf cosf) M_bad ecc_clamp M_bad = 1 / 2 ^ 17 := by
    simp only [formula, roundedOps, hs]
    have h1 : roundNE 24 (ecc_clamp * sin_M_bad) = -(10057680 / 2 ^ 40) := by
      rw [roundNE_eq 24 _ (-40) (-10057680) (by norm_num [M_bad, E_bad, ecc_clamp, sin_M_bad, sin_E_bad, M_tiny, abs_of_pos]) (by norm_num [M_bad, E_bad, ecc_clamp, sin_M_bad, sin_E_bad, M_tiny, abs_of_pos])
        (by norm_num [M_bad, E_bad, ecc_clamp, sin_M_bad, sin_E_bad, M_tiny, abs_of_pos]) (by norm_num [M_bad, E_bad, ecc_clamp, sin_M_bad, sin_E_bad, M_tiny, abs_of_pos])]
      norm_num [M_bad, E_bad, ecc_clamp, sin_M_bad, sin_E_bad, M_tiny]
    rw [h1]
    have h2 : roundNE 24 (M_bad - -(10057680 / 2 ^ 40)) = 12765022 / 2 ^ 17 := by
      rw [roundNE_eq 24 _ (-17) (12765022) (by norm_num [M_bad, E_bad, ecc_clamp, sin_M_bad, sin_E_bad, M_tiny, abs_of_pos]) (by norm_num [M_bad, E_bad, ecc_clamp, sin_M_bad, sin_E_bad, M_tiny, abs_of_pos])
        (by norm_num [M_bad, E_bad, ecc_clamp, sin_M_bad, sin_E_bad, M_tiny, abs_of_pos]) (by norm_num [M_bad, E_bad, ecc_clamp, sin_M_bad, sin_E_bad, M_tiny, abs_of_pos])]
      norm_num [M_bad, E_bad, ecc_clamp, sin_M_bad, sin_E_bad, M_tiny]
    rw [h2]
    have h3 : roundNE 24 (12765022 / 2 ^ 17 - M_bad) = 1 / 2 ^ 17 := by
      rw [roundNE_eq 24 _ (-40) (8388608) (by norm_num [M_bad, E_bad, ecc_clamp, sin_M_bad, sin_E_bad, M_tiny, abs_of_pos]) (by norm_num [M_bad, E_bad, ecc_clamp, sin_M_bad, sin_E_bad, M_tiny, abs_of_pos])
        (by norm_num [M_bad, E_bad, ecc_clamp, sin_M_bad, sin_E_bad, M_tiny, abs_of_pos]) (by norm_num [M_bad, E_bad, ecc_clamp, sin_M_bad, sin_E_bad, M_tiny, abs_of_pos])]
      norm_num [M_bad, E_bad, ecc_clamp, sin_M_bad, sin_E_bad, M_tiny]
    rw [h3]
  simp only [kepler_body, hf, hd]
  simp only [roundedOps]
  have h4 : roundNE 24 (1 / 2 ^ 17 / (16777215 / 2 ^ 23)) = 8388609 / 2 ^ 41 := by
    rw [roundNE_eq 24 _ (-41) (8388609) (by norm_num [M_bad, E_bad, ecc_clamp, sin_M_bad, sin_E_bad, M_tiny, abs_of_pos]) (by norm_num [M_bad, E_bad, ecc_clamp, sin_M_bad, sin_E_bad, M_tiny, abs_of_pos])
      (by norm_num [M_bad, E_bad, ecc_clamp, sin_M_bad, sin_E_bad, M_tiny, abs_of_pos]) (by norm_num [M_bad, E_bad, ecc_clamp, sin_M_bad, sin_E_bad, M_tiny, abs_of_pos])]
    norm_num [M_bad, E_bad, ecc_clamp, sin_M_bad, sin_E_bad, M_tiny]
  rw [h4]
  have h5 : roundNE 24 (M_bad - 8388609 / 2 ^ 41) = E_bad := by
    rw [roundNE_eq 24 _ (-17) (12765020) (by norm_num [M_bad, E_bad, ecc_clamp, sin_M_bad, sin_E_bad, M_tiny, abs_of_pos]) (by norm_num [M_bad, E_bad, ecc_clamp, sin_M_bad, sin_E_bad, M_tiny, abs_of_pos])
      (by norm_num [M_bad, E_bad, ecc_clamp, sin_M_bad, sin_E_bad, M_tiny, abs_of_pos]) (by norm_num [M_bad, E_bad, ecc_clamp, sin_M_bad, sin_E_bad, M_tiny, abs_of_pos])]
    norm_num [M_bad, E_bad, ecc_clamp, sin_M_bad, sin_E_bad, M_tiny]
  rw [h5]

/-- One Newton iteration from the estimate `E_bad` with mean anomaly `M_bad`: the
residual is `-2 ^ (-17)` and the new estimate is `M_bad`. -/
theorem rounded_body_at_E_bad (sinf cosf : ℚ → ℚ) (hs : sinf E_bad = sin_E_bad)
    (hc : cosf E_bad = -1) (x : ℚ) :
    kepler_body (roundedOps sinf cosf) M_bad ecc_clamp (E_bad, x) = (M_bad, -(1 / 2 ^ 17)) := by
  have hd := rounded_derivative_bad sinf cosf E_bad hc
  have hf : formula (roundedOps sinf cosf) E_bad ecc_clamp M_bad = -(1 / 2 ^ 17) := by
    simp only [formula, roundedOps, hs]
    have h1 : roundNE 24 (ecc_clamp * sin_E_bad) = -(13352584 / 2 ^ 43) := by
      rw [roundNE_eq 24 _ (-43) (-13352584) (by norm_num [M_bad, E_bad, ecc_clamp, sin_M_bad, sin_E_bad, M_tiny, abs_of_pos]) (by norm_num [M_bad, E_bad, ecc_clamp, sin_M_bad, sin_E_bad, M_tiny, abs_of_pos])
        (by norm_num [M_bad, E_bad, ecc_clamp, sin_M_bad, sin_E_bad, M_tiny, abs_of_pos]) (by norm_num [M_bad, E_bad, ecc_clamp, sin_M_bad, sin_E_bad, M_tiny, abs_of_pos])]
      norm_num [M_bad, E_bad, ecc_clamp, sin_M_bad, sin_E_bad, M_tiny]
    rw [h1]
    have h2 : roundNE 24 (E_bad - -(13352584 / 2 ^ 43)) = 12765020 / 2 ^ 17 := by
      rw [roundNE_eq 24 _ (-17) (12765020) (by norm_num [M_bad, E_bad, ecc_clamp, sin_M_bad, sin_E_bad, M_tiny, abs_of_pos]) (by norm_num [M_bad, E_bad, ecc_clamp, sin_M_bad, sin_E_bad, M_tiny, abs_of_pos])
        (by norm_num [M_bad, E_bad, ecc_clamp, sin_M_bad, sin_E_bad, M_tiny, abs_of_pos]) (by norm_num [M_bad, E_bad, ecc_clamp, sin_M_bad, sin_E_bad, M_tiny, abs_of_pos])]
      norm_num [M_bad, E_bad, ecc_clamp, sin_M_bad, sin_E_bad, M_tiny]
    rw [h2]
    have h3 : roundNE 24 (12765020 / 2 ^ 17 - M_bad) = -(1 / 2 ^ 17) := by
      rw [roundNE_eq 24 _ (-40) (-8388608) (by norm_num [M_bad, E_bad, ecc_clamp, sin_M_bad, sin_E_bad, M_tiny, abs_of_pos]) (by norm_num [M_bad, E_bad, ecc_clamp, sin_M_bad, sin_E_bad, M_tiny, abs_of_pos])
        (by norm_num [M_bad, E_bad, ecc_clamp, sin_M_bad, sin_E_bad, M_tiny, abs_of_pos]) (by norm_num [M_bad, E_bad, ecc_clamp, sin_M_bad, sin_E_bad, M_tiny, abs_of_pos])]
      norm_num [M_bad, E_bad, ecc_clamp, sin_M_bad, sin_E_bad, M_tiny]
    rw [h3]
  simp only [kepler_body, hf, hd]
  simp only [roundedOps]
  have h4 : roundNE 24 (-(1 / 2 ^ 17) / (16777215 / 2 ^ 23)) = -(8388609 / 2 ^ 41) := by
    rw [roundNE_eq 24 _ (-41) (-8388609) (by norm_num [M_bad, E_bad, ecc_clamp, sin_M_bad, sin_E_bad, M_tiny, abs_of_pos]) (by norm_num [M_bad, E_bad, ecc_clamp, sin_M_bad, sin_E_bad, M_tiny, abs_of_pos])
      (by norm_num [M_bad, E_bad, ecc_clamp, sin_M_bad, sin_E_bad, M_tiny, abs_of_pos]) (by norm_num [M_bad, E_bad, ecc_clamp, sin_M_bad, sin_E_bad, M_tiny, abs_of_pos])]
    norm_num [M_bad, E_bad, ecc_clamp, sin_M_bad, sin_E_bad, M_tiny]
  rw [h4]
  have h5 : roundNE 24 (E_bad - -(8388609 / 2 ^ 41)) = M_bad := by
    rw [roundNE_eq 24 _ (-17) (12765021) (by norm_num [M_bad, E_bad, ecc_clamp, sin_M_bad, sin_E_bad, M_tiny, abs_of_pos]) (by norm_num [M_bad, E_bad, ecc_clamp, sin_M_bad, sin_E_bad, M_tiny, abs_of_pos])
      (by norm_num [M_bad, E_bad, ecc_clamp, sin_M_bad, sin_E_bad, M_tiny, abs_of_pos]) (by norm_num [M_bad, E_bad, ecc_clamp, sin_M_bad, sin_E_bad, M_tiny, abs_of_pos])]
    norm_num [M_bad, E_bad, ecc_clamp, sin_M_bad, sin_E_bad, M_tiny]
  rw [h5]

/-- In rounded arithmetic the loop test of `Keplers_Law` is `|error| > 10 * 2 ^ (-23)`. -/
theorem rounded_kepler_cond (sinf cosf : ℚ → ℚ) (s : ℚ × ℚ) :
    kepler_cond (roundedOps sinf cosf) s = decide (|s.2| > 10 / 2 ^ 23) := by
  rw [kepler_cond, rounded_tol]
  rfl

/-- In rounded arithmetic the conversion of the integer 1 to `float` is exact. -/
theorem rounded_ofIntF_one (sinf cosf : ℚ → ℚ) : (roundedOps sinf cosf).ofIntF 1 = 1 := by
  show roundNE 24 ((1 : ℤ) : ℚ) = 1
  rw [Int.cast_one, roundNE_24_one]

/-- Every state the loop of `Keplers_Law` reaches from `(M_bad, 1)` holds the estimate
`M_bad` or `E_bad` and satisfies the loop test. -/
theorem rounded_cycle_states (sinf cosf : ℚ → ℚ) (hs1 : sinf M_bad = sin_M_bad)
    (hs0 : sinf E_bad = sin_E_bad) (hc1 : cosf M_bad = -1) (hc0 : cosf E_bad = -1) :
    ∀ k : ℕ,
      (((kepler_body (roundedOps sinf cosf) M_bad ecc_clamp)^[k]
            (M_bad, (roundedOps sinf cosf).ofIntF 1)).1 = M_bad ∨
        ((kepler_body (roundedOps sinf cosf) M_bad ecc_clamp)^[k]
            (M_bad, (roundedOps sinf cosf).ofIntF 1)).1 = E_bad) ∧
      kepler_cond (roundedOps sinf cosf)
        ((kepler_body (roundedOps sinf cosf) M_bad ecc_clamp)^[k]
          (M_bad, (roundedOps sinf cosf).ofIntF 1)) = true
  | 0 => by
    refine ⟨Or.inl rfl, ?_⟩
    rw [rounded_kepler_cond, Function.iterate_zero, id_eq, rounded_ofIntF_one]
    norm_num
  | k + 1 => by
    obtain ⟨hE, _⟩ := rounded_cycle_states sinf cosf hs1 hs0 hc1 hc0 k
    rw [Function.iterate_succ_apply', rounded_kepler_cond]
    generalize (kepler_body (roundedOps sinf cosf) M_bad ecc_clamp)^[k]
      (M_bad, (roundedOps sinf cosf).ofIntF 1) = s at hE ⊢
    obtain ⟨E, x⟩ := s
    rcases hE with hE | hE
    · have hE2 : E = M_bad := hE
      subst hE2
      rw [rounded_body_at_M_bad sinf cosf hs1 hc1 x]
      refine ⟨Or.inr rfl, ?_⟩
      norm_num [abs_of_pos]
    · have hE2 : E = E_bad := hE
      subst hE2
      rw [rounded_body_at_E_bad sinf cosf hs0 hc0 x]
      refine ⟨Or.inl rfl, ?_⟩
      norm_num [abs_of_pos]

/-- In rounded arithmetic `Keplers_Law(M_bad, ecc_clamp, M_bad)` never returns. -/
theorem Keplers_Law_rounded_never_returns (sinf cosf : ℚ → ℚ) (hs1 : sinf M_bad = sin_M_bad)
    (hs0 : sinf E_bad = sin_E_bad) (hc1 : cosf M_bad = -1) (hc0 : cosf E_bad = -1)
    (fuel : ℕ) :
    Keplers_Law (roundedOps sinf cosf) M_bad ecc_clamp M_bad fuel = none := by
  unfold Keplers_Law
  rw [whileLoop_eq_none _ _ fuel _
    (fun k _ => (rounded_cycle_states sinf cosf hs1 hs0 hc1 hc0 k).2)]
  rfl

/-- The constants of the concrete runs are `float` values: `ecc_clamp` is the assignment
`eccentricity = 0.9999999` of line 248 (the `double` literal converted to `float`),
`M_tiny` is the literal `1e-7` rounded to `float`, and `M_bad`, `E_bad` are
representable. -/
theorem rounded_constants :
    roundNE 24 (roundNE 53 0.9999999) = ecc_clamp ∧ roundNE 24 (1 / 10 ^ 7) = M_tiny ∧
    roundNE 24 M_bad = M_bad ∧ roundNE 24 E_bad = E_bad ∧ 0 ≤ ecc_clamp ∧ ecc_clamp < 1 := by
  have h1 : roundNE 53 (0.9999999) = 9007198354021067 / 2 ^ 53 := by
    rw [roundNE_eq 53 _ (-53) (9007198354021067) (by norm_num [M_bad, E_bad, ecc_clamp, M_tiny, abs_of_pos]) (by norm_num [M_bad, E_bad, ecc_clamp, M_tiny, abs_of_pos])
      (by norm_num [M_bad, E_bad, ecc_clamp, M_tiny, abs_of_pos]) (by norm_num [M_bad, E_bad, ecc_clamp, M_tiny, abs_of_pos])]
    norm_num [M_bad, E_bad, ecc_clamp, M_tiny]
  have h2 : roundNE 24 (9007198354021067 / 2 ^ 53) = ecc_clamp := by
    rw [roundNE_eq 24 _ (-24) (16777214) (by norm_num [M_bad, E_bad, ecc_clamp, M_tiny, abs_of_pos]) (by norm_num [M_bad, E_bad, ecc_clamp, M_tiny, abs_of_pos])
      (by norm_num [M_bad, E_bad, ecc_clamp, M_tiny, abs_of_pos]) (by norm_num [M_bad, E_bad, ecc_clamp, M_tiny, abs_of_pos])]
    norm_num [M_bad, E_bad, ecc_clamp, M_tiny]
  have h3 : roundNE 24 (1 / 10 ^ 7) = M_tiny := by
    rw [roundNE_eq 24 _ (-47) (14073749) (by norm_num [M_bad, E_bad, ecc_clamp, M_tiny, abs_of_pos]) (by norm_num [M_bad, E_bad, ecc_clamp, M_tiny, abs_of_pos])
      (by norm_num [M_bad, E_bad, ecc_clamp, M_tiny, abs_of_pos]) (by norm_num [M_bad, E_bad, ecc_clamp, M_tiny, abs_of_pos])]
    norm_num [M_bad, E_bad, ecc_clamp, M_tiny]
  have h4 : roundNE 24 (M_bad) = M_bad := by
    rw [roundNE_eq 24 _ (-17) (12765021) (by norm_num [M_bad, E_bad, ecc_clamp, M_tiny, abs_of_pos]) (by norm_num [M_bad, E_bad, ecc_clamp, M_tiny, abs_of_pos])
      (by norm_num [M_bad, E_bad, ecc_clamp, M_tiny, abs_of_pos]) (by norm_num [M_bad, E_bad, ecc_clamp, M_tiny, abs_of_pos])]
    norm_num [M_bad, E_bad, ecc_clamp, M_tiny]
  have h5 : roundNE 24 (E_bad) = E_bad := by
    rw [roundNE_eq 24 _ (-17) (12765020) (by norm_num [M_bad, E_bad, ecc_clamp, M_tiny, abs_of_pos]) (by norm_num [M_bad, E_bad, ecc_clamp, M_tiny, abs_of_pos])
      (by norm_num [M_bad, E_bad, ecc_clamp, M_tiny, abs_of_pos]) (by norm_num [M_bad, E_bad, ecc_clamp, M_tiny, abs_of_pos])]
    norm_num [M_bad, E_bad, ecc_clamp, M_tiny]
  refine ⟨by rw [h1, h2], h3, h4, h5, by norm_num [ecc_clamp], by norm_num [ecc_clamp]⟩

/-- The reference `sinf` and `cosf` take the tabulated values. -/
theorem ref_table :
    sinf_ref M_bad = sin_M_bad ∧ sinf_ref E_bad = sin_E_bad ∧
    cosf_ref M_bad = -1 ∧ cosf_ref E_bad = -1 := by
  have hne : E_bad ≠ M_bad := by norm_num [E_bad, M_bad]
  refine ⟨?_, ?_, ?_, ?_⟩
  · simp [sinf_ref]
  · simp [sinf_ref, hne]
  · simp [cosf_ref]
  · simp [cosf_ref, hne]

/-- In exact arithmetic the cast `(uint32_t)` of a natural number below `2 ^ 32` is that
number. -/
theorem exact_toU32_natCast (sinf cosf : ℚ → ℚ) (n : Nat) (h : n < 2 ^ 32) :
    (exactOps sinf cosf).toU32 (n : ℚ) = n := by
  simp only [exactOps, Int.floor_natCast, Int.toNat_ofNat]
  exact Nat.mod_eq_of_lt h

/-- A dispatcher step on a request frame, assembled from the results of its parts. -/
theorem main_step_request {F D : Type} (ops : FloatOps F D) (fuel : Nat) (nbytes : Int)
    (cf : can_frame) (hn : nbytes ≠ 0) (hreq : (parse_J1939 cf.can_id).pgn = REQUEST_PGN)
    (anom_deg deg : F) (r : KeplerResult F)
    (h1 : anom_deg_of_raw ops fuel (load_u32 cf.data) = some anom_deg)
    (h2 : Keplers_Law ops (mean_anomaly_of_deg ops anom_deg)
      (eccentricity_of_raw ops (load_u16 cf.data)) (mean_anomaly_of_deg ops anom_deg) fuel
        = some r)
    (h3 : deg_of_output ops fuel r.eccentric_anomaly_output = some deg) :
    main_step ops fuel nbytes cf =
      some { solver_calls := [(mean_anomaly_of_deg ops anom_deg,
                eccentricity_of_raw ops (load_u16 cf.data), mean_anomaly_of_deg ops anom_deg)]
             written := [reply_frame (out_int_of_deg ops deg)] } := by
  rw [main_step, if_neg hn, if_pos hreq]
  simp only [h1, Option.some_bind, h2, h3]

/-- In exact arithmetic, a dispatcher step on a request frame with raw mean anomaly
210,000,000 and raw eccentricity 0 calls the solver with all arguments 0 and writes the
reply frame carrying 210,000,000. -/
theorem main_step_exact_scenario (sinf cosf : ℚ → ℚ) (fuel : ℕ) (nbytes : ℤ)
    (cf : can_frame) (hn : nbytes ≠ 0) (hpgn : (parse_J1939 cf.can_id).pgn = REQUEST_PGN)
    (hM : load_u32 cf.data = 210000000) (he : load_u16 cf.data = 0) :
    main_step (exactOps sinf cosf) (fuel + 1) nbytes cf =
      some { solver_calls := [(0, 0, 0)], written := [reply_frame 210000000] } := by
  have hreq : (parse_J1939 cf.can_id).pgn = REQUEST_PGN := hpgn
  have hecc : eccentricity_of_raw (exactOps sinf cosf) 0 = 0 := by
    simp only [eccentricity_of_raw, exactOps]; norm_num
  have hanom : anom_deg_of_raw (exactOps sinf cosf) (fuel + 1) 210000000 = some 0 := by
    simp only [anom_deg_of_raw, exactOps]
    rw [whileLoop_of_cond_false _ _ _ _ (by norm_num)]
    simp only [Option.some_bind]
    rw [whileLoop_of_cond_false _ _ _ _ (by norm_num)]
    norm_num
  have hmean : mean_anomaly_of_deg (exactOps sinf cosf) 0 = 0 := by
    simp only [mean_anomaly_of_deg, exactOps]; norm_num
  have hdeg : deg_of_output (exactOps sinf cosf) (fuel + 1) 0 = some 0 := by
    simp only [deg_of_output, exactOps]
    rw [whileLoop_of_cond_false _ _ _ _ (by norm_num)]
    simp only [Option.some_bind]
    rw [whileLoop_of_cond_false _ _ _ _ (by norm_num)]
    norm_num
  have hprod : (exactOps sinf cosf).mulF
      ((exactOps sinf cosf).addF 0 ((exactOps sinf cosf).ofIntF 210))
      ((exactOps sinf cosf).ofIntF 1000000) = ((210000000 : Nat) : ℚ) := by
    simp only [exactOps]; norm_num
  have hout : out_int_of_deg (exactOps sinf cosf) 0 = 210000000 := by
    rw [out_int_of_deg, hprod, exact_toU32_natCast sinf cosf 210000000 (by norm_num)]
  have hstep := main_step_request (exactOps sinf cosf) (fuel + 1) nbytes cf hn hreq 0 0
    { ret := 1, eccentric_anomaly_output := 0, error_output := 0 }
    (by rw [hM]; exact hanom)
    (by rw [he, hecc, hmean]; exact Keplers_Law_exact_zero_ecc sinf cosf 0 fuel)
    hdeg
  rw [hstep, he, hecc, hmean, hout]

/-! ## Rounded arithmetic: the zero-eccentricity run and the dispatcher scenario -/

/-- In rounded arithmetic, with eccentricity 0 and a representable mean anomaly as
initial guess, one Newton iteration returns the mean anomaly with residual 0. -/
theorem Keplers_Law_rounded_zero_ecc (sinf cosf : ℚ → ℚ) (M : ℚ) (hM : roundNE 24 M = M)
    (fuel : ℕ) :
    Keplers_Law (roundedOps sinf cosf) M 0 M (fuel + 1) =
      some { ret := 1, eccentric_anomaly_output := M, error_output := 0 } := by
  have hf : formula (roundedOps sinf cosf) M 0 M = 0 := by
    simp only [formula, roundedOps, zero_mul, roundNE_zero, sub_zero, hM, sub_self]
  have hd : formula_derivative (roundedOps sinf cosf) M 0 = 1 := by
    simp only [formula_derivative, roundedOps, zero_mul, roundNE_zero, sub_zero,
      Int.cast_one, roundNE_24_one]
  have hb : ∀ x : ℚ, kepler_body (roundedOps sinf cosf) M 0 (M, x) = (M, 0) := by
    intro x
    simp only [kepler_body, hf, hd]
    simp only [roundedOps, zero_div, roundNE_zero, sub_zero, hM]
  simp only [Keplers_Law]
  rw [whileLoop_of_cond_true _ _ _ _ (by
    rw [rounded_kepler_cond, rounded_ofIntF_one]; norm_num)]
  rw [hb]
  rw [whileLoop_of_cond_false _ _ _ _ (by
    rw [rounded_kepler_cond]; norm_num)]
  rfl

/-- In rounded arithmetic the conversion of the integer `360` is exact. -/
theorem rounded_ofIntF_360 (sinf cosf : ℚ → ℚ) :
    (roundedOps sinf cosf).ofIntF (360) = 360 := by
  show roundNE 24 (((360 : ℤ) : ℤ) : ℚ) = 360
  have hc : (((360 : ℤ) : ℤ) : ℚ) = 360 := by norm_num
  rw [hc, roundNE_eq 24 _ (-15) (11796480) (by norm_num [abs_of_pos]) (by norm_num [abs_of_pos])
    (by norm_num [abs_of_pos]) (by norm_num [abs_of_pos])]
  norm_num

/-- In rounded arithmetic the conversion of the integer `180` is exact. -/
theorem rounded_ofIntF_180 (sinf cosf : ℚ → ℚ) :
    (roundedOps sinf cosf).ofIntF (180) = 180 := by
  show roundNE 24 (((180 : ℤ) : ℤ) : ℚ) = 180
  have hc : (((180 : ℤ) : ℤ) : ℚ) = 180 := by norm_num
  rw [hc, roundNE_eq 24 _ (-16) (11796480) (by norm_num [abs_of_pos]) (by norm_num [abs_of_pos])
    (by norm_num [abs_of_pos]) (by norm_num [abs_of_pos])]
  norm_num

/-- In rounded arithmetic the conversion of the integer `-180` is exact. -/
theorem rounded_ofIntF_neg_180 (sinf cosf : ℚ → ℚ) :
    (roundedOps sinf cosf).ofIntF (-180) = -180 := by
  show roundNE 24 (((-180 : ℤ) : ℤ) : ℚ) = -180
  have hc : (((-180 : ℤ) : ℤ) : ℚ) = -180 := by norm_num
  rw [hc, roundNE_eq 24 _ (-16) (-11796480) (by norm_num [abs_of_pos]) (by norm_num [abs_of_pos])
    (by norm_num [abs_of_pos]) (by norm_num [abs_of_pos])]
  norm_num

/-- In rounded arithmetic the conversion of the integer `210` is exact. -/
theorem rounded_ofIntF_210 (sinf cosf : ℚ → ℚ) :
    (roundedOps sinf cosf).ofIntF (210) = 210 := by
  show roundNE 24 (((210 : ℤ) : ℤ) : ℚ) = 210
  have hc : (((210 : ℤ) : ℤ) : ℚ) = 210 := by norm_num
  rw [hc, roundNE_eq 24 _ (-16) (13762560) (by norm_num [abs_of_pos]) (by norm_num [abs_of_pos])
    (by norm_num [abs_of_pos]) (by norm_num [abs_of_pos])]
  norm_num

/-- In rounded arithmetic the conversion of the integer `1000000` is exact. -/
theorem rounded_ofIntF_million (sinf cosf : ℚ → ℚ) :
    (roundedOps sinf cosf).ofIntF (1000000) = 1000000 := by
  show roundNE 24 (((1000000 : ℤ) : ℤ) : ℚ) = 1000000
  have hc : (((1000000 : ℤ) : ℤ) : ℚ) = 1000000 := by norm_num
  rw [hc, roundNE_eq 24 _ (-4) (16000000) (by norm_num [abs_of_pos]) (by norm_num [abs_of_pos])
    (by norm_num [abs_of_pos]) (by norm_num [abs_of_pos])]
  norm_num

/-- In rounded arithmetic the conversion of the integer `210` is exact. -/
theorem rounded_ofIntD_210 (sinf cosf : ℚ → ℚ) :
    (roundedOps sinf cosf).ofIntD (210) = 210 := by
  show roundNE 53 (((210 : ℤ) : ℤ) : ℚ) = 210
  have hc : (((210 : ℤ) : ℤ) : ℚ) = 210 := by norm_num
  rw [hc, roundNE_eq 53 _ (-45) (7388718138654720) (by norm_num [abs_of_pos]) (by norm_num [abs_of_pos])
    (by norm_num [abs_of_pos]) (by norm_num [abs_of_pos])]
  norm_num

/-- In rounded arithmetic the conversion of the integer 0 to `float` is 0. -/
theorem rounded_ofIntF_zero (sinf cosf : ℚ → ℚ) : (roundedOps sinf cosf).ofIntF 0 = 0 := by
  show roundNE 24 ((0 : ℤ) : ℚ) = 0
  rw [Int.cast_zero, roundNE_zero]

/-- In rounded arithmetic the raw mean anomaly 210,000,000 converts to `double` exactly. -/
theorem rounded_ofIntD_raw (sinf cosf : ℚ → ℚ) :
    (roundedOps sinf cosf).ofIntD ((210000000 : ℕ) : ℤ) = 210000000 := by
  show roundNE 53 ((((210000000 : ℕ) : ℤ) : ℤ) : ℚ) = 210000000
  have hc : ((((210000000 : ℕ) : ℤ) : ℤ) : ℚ) = 210000000 := by norm_num
  rw [hc, roundNE_eq 53 _ (-25) 7046430720000000 (by norm_num [abs_of_pos])
    (by norm_num [abs_of_pos]) (by norm_num [abs_of_pos]) (by norm_num [abs_of_pos])]
  norm_num

/-- The `double` denoted by the literal `0.000001`. -/
theorem rounded_litD_micro (sinf cosf : ℚ → ℚ) :
    (roundedOps sinf cosf).litD 0.000001 = 4722366482869645 / 2 ^ 72 := by
  show roundNE 53 (0.000001 : ℚ) = 4722366482869645 / 2 ^ 72
  rw [roundNE_eq 53 _ (-72) 4722366482869645 (by norm_num [abs_of_pos])
    (by norm_num [abs_of_pos]) (by norm_num [abs_of_pos]) (by norm_num [abs_of_pos])]
  norm_num

/-- In rounded arithmetic `raw_mean_anomaly*0.000001 - 210` is exactly 0 for the raw
value 210,000,000: the `double` product rounds to `210.0`. -/
theorem rounded_anom_deg_raw (sinf cosf : ℚ → ℚ) :
    (roundedOps sinf cosf).toF ((roundedOps sinf cosf).subD
      ((roundedOps sinf cosf).mulD ((roundedOps sinf cosf).ofIntD ((210000000 : ℕ) : ℤ))
        ((roundedOps sinf cosf).litD 0.000001))
      ((roundedOps sinf cosf).ofIntD 210)) = 0 := by
  rw [rounded_ofIntD_raw, rounded_litD_micro, rounded_ofIntD_210]
  show roundNE 24 (roundNE 53 (roundNE 53 (210000000 * (4722366482869645 / 2 ^ 72)) - 210)) = 0
  have h1 : roundNE 53 (210000000 * (4722366482869645 / 2 ^ 72)) = 210 := by
    rw [roundNE_eq 53 _ (-45) 7388718138654720 (by norm_num [abs_of_pos])
      (by norm_num [abs_of_pos]) (by norm_num [abs_of_pos]) (by norm_num [abs_of_pos])]
    norm_num
  rw [h1, sub_self, roundNE_zero, roundNE_zero]

/-- In rounded arithmetic the raw eccentricity 0 decodes to the eccentricity 0. -/
theorem rounded_eccentricity_zero (sinf cosf : ℚ → ℚ) :
    eccentricity_of_raw (roundedOps sinf cosf) 0 = 0 := by
  have h0 : (roundedOps sinf cosf).toF ((roundedOps sinf cosf).mulD
      ((roundedOps sinf cosf).ofIntD ((0 : ℕ) : ℤ)) ((roundedOps sinf cosf).litD 0.0015625))
      = 0 := by
    show roundNE 24 (roundNE 53 (roundNE 53 ((((0 : ℕ) : ℤ) : ℤ) : ℚ) * roundNE 53 0.0015625))
      = 0
    have hc : ((((0 : ℕ) : ℤ) : ℤ) : ℚ) = 0 := by norm_num
    rw [hc, roundNE_zero, zero_mul, roundNE_zero, roundNE_zero]
  have hge : (roundedOps sinf cosf).geF 0 1 = false := by
    show decide ((0 : ℚ) ≥ 1) = false
    norm_num
  rw [eccentricity_of_raw]
  simp only [h0, rounded_ofIntF_one, hge]
  rfl

/-- In rounded arithmetic the raw mean anomaly 210,000,000 decodes to 0 degrees; neither
normalisation loop executes its body. -/
theorem rounded_anom_deg (sinf cosf : ℚ → ℚ) (fuel : ℕ) :
    anom_deg_of_raw (roundedOps sinf cosf) fuel 210000000 = some 0 := by
  rw [anom_deg_of_raw]
  simp only [rounded_anom_deg_raw]
  rw [whileLoop_of_cond_false _ _ _ _ (by
    rw [rounded_ofIntF_360]
    show decide ((0 : ℚ) > 360) = false
    norm_num)]
  rw [Option.some_bind]
  rw [whileLoop_of_cond_false _ _ _ _ (by
    rw [rounded_ofIntF_zero]
    show decide ((0 : ℚ) < 0) = false
    norm_num)]

/-- In rounded arithmetic 0 degrees is 0 radians. -/
theorem rounded_mean_zero (sinf cosf : ℚ → ℚ) :
    mean_anomaly_of_deg (roundedOps sinf cosf) 0 = 0 := by
  simp only [mean_anomaly_of_deg, roundedOps, mul_zero, roundNE_zero, zero_div]

/-- In rounded arithmetic the solver output 0 radians is 0 degrees; neither
normalisation loop executes its body. -/
theorem rounded_deg_zero (sinf cosf : ℚ → ℚ) (fuel : ℕ) :
    deg_of_output (roundedOps sinf cosf) fuel 0 = some 0 := by
  have hraw : (roundedOps sinf cosf).toF ((roundedOps sinf cosf).divD
      ((roundedOps sinf cosf).toD
        ((roundedOps sinf cosf).mulF ((roundedOps sinf cosf).ofIntF 180) 0))
      (roundedOps sinf cosf).M_PI) = 0 := by
    rw [rounded_ofIntF_180]
    simp only [roundedOps, mul_zero, roundNE_zero, zero_div]
  rw [deg_of_output]
  simp only [hraw]
  rw [whileLoop_of_cond_false _ _ _ _ (by
    rw [rounded_ofIntF_180]
    show decide ((0 : ℚ) > 180) = false
    norm_num)]
  rw [Option.some_bind]
  rw [whileLoop_of_cond_false _ _ _ _ (by
    rw [rounded_ofIntF_neg_180]
    show decide ((0 : ℚ) < -180) = false
    norm_num)]

/-- In rounded arithmetic the cast `(uint32_t)` of a natural number below `2 ^ 32` is
that number. -/
theorem rounded_toU32_natCast (sinf cosf : ℚ → ℚ) (n : ℕ) (h : n < 2 ^ 32) :
    (roundedOps sinf cosf).toU32 (n : ℚ) = n := by
  simp only [roundedOps, Int.floor_natCast, Int.toNat_ofNat]
  exact Nat.mod_eq_of_lt h

/-- In rounded arithmetic `(uint32_t)((0 + 210)*1000000)` is 210,000,000: the `float`
product is exact. -/
theorem rounded_out_int (sinf cosf : ℚ → ℚ) :
    out_int_of_deg (roundedOps sinf cosf) 0 = 210000000 := by
  have hprod : (roundedOps sinf cosf).mulF ((roundedOps sinf cosf).addF 0 210) 1000000 =
      ((210000000 : ℕ) : ℚ) := by
    show roundNE 24 (roundNE 24 (0 + 210) * 1000000) = ((210000000 : ℕ) : ℚ)
    have h1 : roundNE 24 (210 : ℚ) = 210 := by
      rw [roundNE_eq 24 _ (-16) 13762560 (by norm_num [abs_of_pos])
        (by norm_num [abs_of_pos]) (by norm_num [abs_of_pos]) (by norm_num [abs_of_pos])]
      norm_num
    have h2 : roundNE 24 (210 * 1000000 : ℚ) = ((210000000 : ℕ) : ℚ) := by
      rw [roundNE_eq 24 _ 4 13125000 (by norm_num [abs_of_pos])
        (by norm_num [abs_of_pos]) (by norm_num [abs_of_pos]) (by norm_num [abs_of_pos])]
      norm_num
    rw [zero_add, h1, h2]
  rw [out_int_of_deg, rounded_ofIntF_210, rounded_ofIntF_million, hprod,
    rounded_toU32_natCast sinf cosf 210000000 (by norm_num)]

/-- In rounded arithmetic, a dispatcher step on a request frame with raw mean anomaly
210,000,000 and raw eccentricity 0 calls the solver with all arguments 0 and writes the
reply frame carrying 210,000,000. -/
theorem main_step_rounded_scenario (sinf cosf : ℚ → ℚ) (fuel : ℕ) (nbytes : ℤ)
    (cf : can_frame) (hn : nbytes ≠ 0) (hreq : (parse_J1939 cf.can_id).pgn = REQUEST_PGN)
    (hM : load_u32 cf.data = 210000000) (he : load_u16 cf.data = 0) :
    main_step (roundedOps sinf cosf) (fuel + 1) nbytes cf =
      some { solver_calls := [(0, 0, 0)], written := [reply_frame 210000000] } := by
  have hstep := main_step_request (roundedOps sinf cosf) (fuel + 1) nbytes cf hn hreq 0 0
    { ret := 1, eccentric_anomaly_output := 0, error_output := 0 }
    (by rw [hM]; exact rounded_anom_deg sinf cosf (fuel + 1))
    (by
      rw [he, rounded_eccentricity_zero, rounded_mean_zero]
      exact Keplers_Law_rounded_zero_ecc sinf cosf 0 (roundNE_zero 24) fuel)
    (rounded_deg_zero sinf cosf (fuel + 1))
  rw [hstep, he, rounded_eccentricity_zero, rounded_mean_zero, rounded_out_int]

/-! ## Value transcoding in exact arithmetic -/

/-- The two normalisation loops of lines 254-255 in exact arithmetic. -/
theorem exact_anom_deg_of_raw (sinf cosf : ℚ → ℚ) (fuel raw : ℕ) :
    anom_deg_of_raw (exactOps sinf cosf) fuel raw =
      (whileLoop (fun a : ℚ => decide (a > 360)) (fun a => a - 360) fuel
        ((raw : ℚ) * (1 / 1000000) - 210)).bind
        fun a => whileLoop (fun a : ℚ => decide (a < 0)) (fun a => a + 360) fuel a := by
  simp only [anom_deg_of_raw, exactOps]
  norm_num

/-- The two normalisation loops of lines 268-269 in exact arithmetic. -/
theorem exact_deg_of_output (sinf cosf : ℚ → ℚ) (fuel : ℕ) (E : ℚ) :
    deg_of_output (exactOps sinf cosf) fuel E =
      (whileLoop (fun d : ℚ => decide (d > 180)) (fun d => d - 360) fuel
        (180 * E / (884279719003555 / 281474976710656))).bind
        fun d => whileLoop (fun d : ℚ => decide (d < -180)) (fun d => d + 360) fuel d := by
  simp only [deg_of_output, exactOps]
  norm_num

/-- In exact arithmetic the loop `while (a > hi) a -= c` subtracts `c` a whole number
`j` of times; it returns within `fuel` executions when `a ≤ hi + c * fuel`, and the
result lies in `(hi - c, hi]` when the body ran at all. -/
theorem exact_loop_down (hi c : ℚ) (hc : 0 < c) :
    ∀ (fuel : ℕ) (a : ℚ), a ≤ hi + c * fuel →
      ∃ j : ℕ, j ≤ fuel ∧
        whileLoop (fun a : ℚ => decide (a > hi)) (fun a => a - c) fuel a = some (a - c * j) ∧
        a - c * j ≤ hi ∧ (j = 0 ∨ hi - c < a - c * j)
  | 0, a, ha => by
    have hle : a ≤ hi := by simpa using ha
    exact ⟨0, le_refl 0, by
      rw [whileLoop_of_cond_false _ _ _ _ (by simpa using hle)]; simp, by simpa using hle,
      Or.inl rfl⟩
  | fuel + 1, a, ha => by
    by_cases hgt : hi < a
    · rw [whileLoop_of_cond_true _ _ _ _ (by simpa using hgt)]
      have h1 : a - c ≤ hi + c * fuel := by push_cast at ha; linarith
      obtain ⟨j, hj, hw, hle, hlow⟩ := exact_loop_down hi c hc fuel (a - c) h1
      refine ⟨j + 1, Nat.succ_le_succ hj, ?_, ?_, Or.inr ?_⟩
      · rw [hw]; congr 1; push_cast; ring
      · push_cast; linarith
      · rcases hlow with h0 | h0
        · subst h0; push_cast; linarith
        · push_cast; linarith
    · have hle : a ≤ hi := not_lt.mp hgt
      exact ⟨0, Nat.zero_le _, by
        rw [whileLoop_of_cond_false _ _ _ _ (by simpa using hle)]; simp, by simpa using hle,
        Or.inl rfl⟩

/-- In exact arithmetic the loop `while (a < lo) a += c` adds `c` a whole number `j` of
times; it returns within `fuel` executions when `lo - c * fuel ≤ a`, and the result lies
in `[lo, lo + c)` when the body ran at all. -/
theorem exact_loop_up (lo c : ℚ) (hc : 0 < c) :
    ∀ (fuel : ℕ) (a : ℚ), lo - c * fuel ≤ a →
      ∃ j : ℕ, j ≤ fuel ∧
        whileLoop (fun a : ℚ => decide (a < lo)) (fun a => a + c) fuel a = some (a + c * j) ∧
        lo ≤ a + c * j ∧ (j = 0 ∨ a + c * j < lo + c)
  | 0, a, ha => by
    have hle : lo ≤ a := by simpa using ha
    exact ⟨0, le_refl 0, by
      rw [whileLoop_of_cond_false _ _ _ _ (by simpa using hle)]; simp, by simpa using hle,
      Or.inl rfl⟩
  | fuel + 1, a, ha => by
    by_cases hlt : a < lo
    · rw [whileLoop_of_cond_true _ _ _ _ (by simpa using hlt)]
      have h1 : lo - c * fuel ≤ a + c := by push_cast at ha; linarith
      obtain ⟨j, hj, hw, hle, hup⟩ := exact_loop_up lo c hc fuel (a + c) h1
      refine ⟨j + 1, Nat.succ_le_succ hj, ?_, ?_, Or.inr ?_⟩
      · rw [hw]; congr 1; push_cast; ring
      · push_cast; linarith
      · rcases hup with h0 | h0
        · subst h0; push_cast; linarith
        · push_cast; linarith
    · have hle : lo ≤ a := not_lt.mp hlt
      exact ⟨0, Nat.zero_le _, by
        rw [whileLoop_of_cond_false _ _ _ _ (by simpa using hle)]; simp, by simpa using hle,
        Or.inl rfl⟩

/-- In exact arithmetic the pair of loops `while (a > hi) a -= c; while (a < lo) a += c`
with `lo = hi - c` returns `a` plus an integer multiple of `c`, in `[lo, hi]`, once the
fuel covers the distance of `a` from that interval. -/
theorem exact_normalise (hi lo c : ℚ) (hc : 0 < c) (hlo : lo = hi - c) (fuel : ℕ) (a : ℚ)
    (h1 : a ≤ hi + c * fuel) (h2 : lo - c * fuel ≤ a) :
    ∃ k : ℤ,
      ((whileLoop (fun a : ℚ => decide (a > hi)) (fun a => a - c) fuel a).bind
        fun a => whileLoop (fun a : ℚ => decide (a < lo)) (fun a => a + c) fuel a)
        = some (a + c * k) ∧
      lo ≤ a + c * k ∧ a + c * k ≤ hi := by
  obtain ⟨j, _, hw, hle, hlow⟩ := exact_loop_down hi c hc fuel a h1
  have hcf : (0 : ℚ) ≤ c * fuel := mul_nonneg (le_of_lt hc) (Nat.cast_nonneg fuel)
  have h3 : lo - c * fuel ≤ a - c * j := by
    rcases hlow with h0 | h0
    · subst h0; simpa using h2
    · linarith
  obtain ⟨i, _, hw2, hge, hup⟩ := exact_loop_up lo c hc fuel (a - c * j) h3
  refine ⟨(i : ℤ) - (j : ℤ), ?_, ?_, ?_⟩
  · rw [hw, Option.some_bind, hw2]
    congr 1
    push_cast
    ring
  · push_cast
    linarith
  · push_cast
    rcases hup with h0 | h0
    · subst h0
      simp only [Nat.cast_zero, mul_zero, add_zero] at hge ⊢
      linarith
    · linarith

/-- In exact arithmetic, for every raw unsigned 32-bit mean-anomaly field and every fuel
of at least 11 loop executions, the normalised degrees value exists, is the decoded value
plus an integer multiple of 360, and lies in `[0, 360]`. -/
theorem exact_anom_normalised (sinf cosf : ℚ → ℚ) (raw fuel : ℕ) (hraw : raw < 2 ^ 32)
    (hfuel : 11 ≤ fuel) :
    ∃ k : ℤ,
      anom_deg_of_raw (exactOps sinf cosf) fuel raw
        = some ((raw : ℚ) * (1 / 1000000) - 210 + 360 * k) ∧
      0 ≤ (raw : ℚ) * (1 / 1000000) - 210 + 360 * k ∧
      (raw : ℚ) * (1 / 1000000) - 210 + 360 * k ≤ 360 := by
  rw [exact_anom_deg_of_raw]
  have hr : (raw : ℚ) ≤ 4294967295 := by
    have : raw ≤ 4294967295 := by omega
    exact_mod_cast this
  have hr0 : (0 : ℚ) ≤ raw := Nat.cast_nonneg raw
  have hf : (11 : ℚ) ≤ fuel := by exact_mod_cast hfuel
  exact exact_normalise 360 0 360 (by norm_num) (by norm_num) fuel _ (by linarith)
    (by linarith)

/-! ## Value transcoding in rounded arithmetic -/

/-- The two normalisation loops of lines 254-255 in rounded arithmetic. -/
theorem rounded_anom_deg_of_raw (sinf cosf : ℚ → ℚ) (fuel raw : ℕ) (hraw : raw < 2 ^ 32) :
    anom_deg_of_raw (roundedOps sinf cosf) fuel raw =
      (whileLoop (fun a : ℚ => decide (a > 360)) (fun a => roundNE 24 (a - 360)) fuel
        (roundNE 24 (roundNE 53 (roundNE 53 ((raw : ℚ) * (4722366482869645 / 2 ^ 72)) - 210)))).bind
        fun a => whileLoop (fun a : ℚ => decide (a < 0)) (fun a => roundNE 24 (a + 360)) fuel a := by
  have hr : (roundedOps sinf cosf).ofIntD ((raw : ℕ) : ℤ) = (raw : ℚ) := by
    show roundNE 53 (((raw : ℤ)) : ℚ) = (raw : ℚ)
    rw [roundNE_53_intCast _ (by rw [abs_of_nonneg (by positivity)]; omega)]
    norm_num
  rw [anom_deg_of_raw, rounded_ofIntF_360, rounded_ofIntF_zero, rounded_litD_micro,
    rounded_ofIntD_210, hr]
  rfl

/-- Bounds of the decoded degrees value before normalisation, in rounded arithmetic: it
lies in `[-210, 4085]` for every raw unsigned 32-bit field. -/
theorem rounded_anom_raw_bounds (raw : ℕ) (hraw : raw < 2 ^ 32) :
    -210 ≤ roundNE 24 (roundNE 53 (roundNE 53 ((raw : ℚ) * (4722366482869645 / 2 ^ 72)) - 210)) ∧
    roundNE 24 (roundNE 53 (roundNE 53 ((raw : ℚ) * (4722366482869645 / 2 ^ 72)) - 210))
      ≤ 4085 := by
  have hr : (raw : ℚ) ≤ 4294967295 := by
    have : raw ≤ 4294967295 := by omega
    exact_mod_cast this
  have hr0 : (0 : ℚ) ≤ raw := Nat.cast_nonneg raw
  have b1 := roundNE_53_between 0 4295 (by norm_num) (by norm_num)
    ((raw : ℚ) * (4722366482869645 / 2 ^ 72))
    (by push_cast; positivity)
    (by push_cast; nlinarith)
  push_cast at b1
  have b2 := roundNE_53_between (-210) 4085 (by norm_num) (by norm_num)
    (roundNE 53 ((raw : ℚ) * (4722366482869645 / 2 ^ 72)) - 210)
    (by push_cast; linarith [b1.1]) (by push_cast; linarith [b1.2])
  push_cast at b2
  have b3 := roundNE_24_between (-210) 4085 (by norm_num) (by norm_num)
    (roundNE 53 (roundNE 53 ((raw : ℚ) * (4722366482869645 / 2 ^ 72)) - 210))
    (by push_cast; exact b2.1) (by push_cast; exact b2.2)
  push_cast at b3
  exact b3

/-- In rounded arithmetic, for every raw unsigned 32-bit mean-anomaly field and every
fuel of at least 11 loop executions, the normalised degrees value exists and lies in
`[0, 360]`. -/
theorem rounded_anom_normalised (sinf cosf : ℚ → ℚ) (raw fuel : ℕ) (hraw : raw < 2 ^ 32)
    (hfuel : 11 ≤ fuel) :
    ∃ a : ℚ, anom_deg_of_raw (roundedOps sinf cosf) fuel raw = some a ∧ 0 ≤ a ∧ a ≤ 360 := by
  rw [rounded_anom_deg_of_raw sinf cosf fuel raw hraw]
  obtain ⟨hlo, hhi⟩ := rounded_anom_raw_bounds raw hraw
  obtain ⟨t, ht, h0, h360⟩ := rounded_normalise 360 0 (by norm_num) 11
    (fun j hj => by
      have e : (360 : ℚ) + 360 * (j : ℚ) = ((360 + 360 * (j : ℤ) : ℤ) : ℚ) := by push_cast; ring
      rw [e]
      exact roundNE_24_intCast _ (by rw [abs_lt]; constructor <;> omega))
    (fun j hj => by
      have e : (0 : ℚ) - 360 * (j : ℚ) = ((-(360 * (j : ℤ)) : ℤ) : ℚ) := by push_cast; ring
      rw [e]
      exact roundNE_24_intCast _ (by rw [abs_lt]; constructor <;> omega))
    11 (le_refl 11) _ (by norm_num; linarith) (by norm_num; linarith)
  exact ⟨t, normalise_fuel_mono _ _ _ _ 11 _ t ht fuel hfuel, h0, h360⟩

/-- Line 256 in exact arithmetic: `pi*anom_deg/180.0`, in `[0, 2*pi]` for a degrees
value in `[0, 360]`. -/
theorem exact_mean_anomaly_range (sinf cosf : ℚ → ℚ) (a : ℚ) (h0 : 0 ≤ a) (h360 : a ≤ 360) :
    mean_anomaly_of_deg (exactOps sinf cosf) a = (exactOps sinf cosf).M_PI * a / 180 ∧
    0 ≤ mean_anomaly_of_deg (exactOps sinf cosf) a ∧
    mean_anomaly_of_deg (exactOps sinf cosf) a ≤ 2 * (exactOps sinf cosf).M_PI := by
  have e : mean_anomaly_of_deg (exactOps sinf cosf) a
      = 884279719003555 / 281474976710656 * a / 180 := by
    simp only [mean_anomaly_of_deg, exactOps]
    norm_num
  have e2 : (exactOps sinf cosf).M_PI = 884279719003555 / 281474976710656 := rfl
  rw [e, e2]
  refine ⟨rfl, by positivity, by linarith⟩

/-- Line 256 in rounded arithmetic. -/
theorem rounded_mean_anomaly_of_deg (sinf cosf : ℚ → ℚ) (a : ℚ) :
    mean_anomaly_of_deg (roundedOps sinf cosf) a =
      roundNE 24 (roundNE 53 (roundNE 53 (884279719003555 / 281474976710656 * a) / 180)) := by
  have h180 : (roundedOps sinf cosf).litD 180.0 = 180 := by
    show roundNE 53 (180.0 : ℚ) = 180
    have e : (180.0 : ℚ) = ((180 : ℤ) : ℚ) := by norm_num
    rw [e, roundNE_53_intCast _ (by norm_num)]
    norm_num
  rw [mean_anomaly_of_deg, h180]
  rfl

/-- Line 256 in rounded arithmetic: for a degrees value in `[0, 360]` the radians value
lies between 0 and the `float` nearest to `2*pi`, `13176795 * 2 ^ (-21)`. -/
theorem rounded_mean_anomaly_range (sinf cosf : ℚ → ℚ) (a : ℚ) (h0 : 0 ≤ a) (h360 : a ≤ 360) :
    0 ≤ mean_anomaly_of_deg (roundedOps sinf cosf) a ∧
    mean_anomaly_of_deg (roundedOps sinf cosf) a ≤ 13176795 / 2 ^ 21 := by
  rw [rounded_mean_anomaly_of_deg]
  have hP : roundNE 53 (884279719003555 / 281474976710656 * 360)
      = 4974073419394997 / 2 ^ 42 := by
    rw [roundNE_eq 53 _ (-42) (4974073419394997) (by norm_num [abs_of_pos]) (by norm_num [abs_of_pos])
      (by norm_num [abs_of_pos]) (by norm_num [abs_of_pos])]
    norm_num
  have hQ : roundNE 53 (4974073419394997 / 2 ^ 42 / 180) = 7074237752028440 / 2 ^ 50 := by
    rw [roundNE_eq 53 _ (-50) (7074237752028440) (by norm_num [abs_of_pos]) (by norm_num [abs_of_pos])
      (by norm_num [abs_of_pos]) (by norm_num [abs_of_pos])]
    norm_num
  have hR : roundNE 24 (7074237752028440 / 2 ^ 50) = 13176795 / 2 ^ 21 := by
    rw [roundNE_eq 24 _ (-21) (13176795) (by norm_num [abs_of_pos]) (by norm_num [abs_of_pos])
      (by norm_num [abs_of_pos]) (by norm_num [abs_of_pos])]
    norm_num
  have l1 : 0 ≤ roundNE 53 (884279719003555 / 281474976710656 * a) := by
    have := roundNE_53_mono (show (0 : ℚ) ≤ 884279719003555 / 281474976710656 * a by positivity)
    rwa [roundNE_zero] at this
  have l2 : 0 ≤ roundNE 53 (roundNE 53 (884279719003555 / 281474976710656 * a) / 180) := by
    have := roundNE_53_mono
      (show (0 : ℚ) ≤ roundNE 53 (884279719003555 / 281474976710656 * a) / 180 by positivity)
    rwa [roundNE_zero] at this
  have l3 := roundNE_24_mono l2
  rw [roundNE_zero] at l3
  have u1 : roundNE 53 (884279719003555 / 281474976710656 * a) ≤ 4974073419394997 / 2 ^ 42 := by
    have := roundNE_53_mono
      (show (884279719003555 / 281474976710656 * a : ℚ)
        ≤ 884279719003555 / 281474976710656 * 360 by linarith)
    rwa [hP] at this
  have u2 : roundNE 53 (roundNE 53 (884279719003555 / 281474976710656 * a) / 180)
      ≤ 7074237752028440 / 2 ^ 50 := by
    have := roundNE_53_mono
      (show roundNE 53 (884279719003555 / 281474976710656 * a) / 180
        ≤ 4974073419394997 / 2 ^ 42 / 180 by linarith)
    rwa [hQ] at this
  have u3 := roundNE_24_mono u2
  rw [hR] at u3
  exact ⟨l3, u3⟩

/-- The raw mean-anomaly field 570,000,000 decodes to exactly 360 degrees, in exact and
in rounded arithmetic, and neither normalisation loop executes its body: 360 is not
greater than 360. -/
theorem anom_deg_570 (sinf cosf : ℚ → ℚ) (fuel : ℕ) :
    anom_deg_of_raw (exactOps sinf cosf) fuel 570000000 = some 360 ∧
    anom_deg_of_raw (roundedOps sinf cosf) fuel 570000000 = some 360 := by
  constructor
  · rw [exact_anom_deg_of_raw]
    have e : ((570000000 : ℕ) : ℚ) * (1 / 1000000) - 210 = 360 := by norm_num
    rw [e, whileLoop_of_cond_false _ _ _ _ (by norm_num), Option.some_bind,
      whileLoop_of_cond_false _ _ _ _ (by norm_num)]
  · rw [rounded_anom_deg_of_raw sinf cosf fuel 570000000 (by norm_num)]
    have h1 : roundNE 53 (((570000000 : ℕ) : ℚ) * (4722366482869645 / 2 ^ 72)) = 570 := by
      rw [roundNE_eq 53 _ (-43) (5013773022658560) (by norm_num [abs_of_pos]) (by norm_num [abs_of_pos])
      (by norm_num [abs_of_pos]) (by norm_num [abs_of_pos])]
      norm_num
    have h2 : roundNE 53 ((570 : ℚ) - 210) = 360 := by
      rw [roundNE_eq 53 _ (-44) (6333186975989760) (by norm_num [abs_of_pos]) (by norm_num [abs_of_pos])
      (by norm_num [abs_of_pos]) (by norm_num [abs_of_pos])]
      norm_num
    have h3 : roundNE 24 (360 : ℚ) = 360 := by
      rw [roundNE_eq 24 _ (-15) (11796480) (by norm_num [abs_of_pos]) (by norm_num [abs_of_pos])
      (by norm_num [abs_of_pos]) (by norm_num [abs_of_pos])]
      norm_num
    rw [h1, h2, h3, whileLoop_of_cond_false _ _ _ _ (by norm_num), Option.some_bind,
      whileLoop_of_cond_false _ _ _ _ (by norm_num)]

/-- In rounded arithmetic the raw field 580,000,000 normalises to 10 and the raw field
200,000,000 to 350: the `double` products round to 580 and 200, and every later
operation is exact. -/
theorem rounded_anom_examples (sinf cosf : ℚ → ℚ) (m : ℕ) :
    anom_deg_of_raw (roundedOps sinf cosf) (m + 1) 580000000 = some 10 ∧
    anom_deg_of_raw (roundedOps sinf cosf) (m + 1) 200000000 = some 350 := by
  constructor
  · rw [rounded_anom_deg_of_raw sinf cosf (m + 1) 580000000 (by norm_num)]
    have h1 : roundNE 53 (((580000000 : ℕ) : ℚ) * (4722366482869645 / 2 ^ 72)) = 580 := by
      rw [roundNE_eq 53 _ (-43) (5101733952880640) (by norm_num [abs_of_pos]) (by norm_num [abs_of_pos])
      (by norm_num [abs_of_pos]) (by norm_num [abs_of_pos])]
      norm_num
    have h2 : roundNE 53 ((580 : ℚ) - 210) = 370 := by
      rw [roundNE_53_of_int _ 370 (by norm_num) (by norm_num)]; norm_num
    have h3 : roundNE 24 (370 : ℚ) = 370 := roundNE_24_of_int _ 370 (by norm_num) (by norm_num)
    have h4 : roundNE 24 ((370 : ℚ) - 360) = 10 := by
      rw [roundNE_24_of_int _ 10 (by norm_num) (by norm_num)]; norm_num
    rw [h1, h2, h3, whileLoop_of_cond_true _ _ _ _ (by norm_num)]
    simp only [h4]
    rw [whileLoop_of_cond_false _ _ _ _ (by norm_num), Option.some_bind,
      whileLoop_of_cond_false _ _ _ _ (by norm_num)]
  · rw [rounded_anom_deg_of_raw sinf cosf (m + 1) 200000000 (by norm_num)]
    have h1 : roundNE 53 (((200000000 : ℕ) : ℚ) * (4722366482869645 / 2 ^ 72)) = 200 := by
      rw [roundNE_eq 53 _ (-45) (7036874417766400) (by norm_num [abs_of_pos]) (by norm_num [abs_of_pos])
      (by norm_num [abs_of_pos]) (by norm_num [abs_of_pos])]
      norm_num
    have h2 : roundNE 53 ((200 : ℚ) - 210) = -10 := by
      rw [roundNE_53_of_int _ (-10) (by norm_num) (by norm_num)]; norm_num
    have h3 : roundNE 24 (-10 : ℚ) = -10 :=
      roundNE_24_of_int _ (-10) (by norm_num) (by norm_num)
    have h4 : roundNE 24 ((-10 : ℚ) + 360) = 350 := by
      rw [roundNE_24_of_int _ 350 (by norm_num) (by norm_num)]; norm_num
    rw [h1, h2, h3, whileLoop_of_cond_false _ _ _ _ (by norm_num), Option.some_bind,
      whileLoop_of_cond_true _ _ _ _ (by norm_num)]
    simp only [h4]
    rw [whileLoop_of_cond_false _ _ _ _ (by norm_num)]

/-- The two normalisation loops of lines 268-269 in rounded arithmetic. -/
theorem rounded_deg_of_output (sinf cosf : ℚ → ℚ) (fuel : ℕ) (E : ℚ) :
    deg_of_output (roundedOps sinf cosf) fuel E =
      (whileLoop (fun d : ℚ => decide (d > 180)) (fun d => roundNE 24 (d - 360)) fuel
        (roundNE 24 (roundNE 53 (roundNE 24 (180 * E)
          / (884279719003555 / 281474976710656))))).bind
        fun d => whileLoop (fun d : ℚ => decide (d < -180)) (fun d => roundNE 24 (d + 360))
          fuel d := by
  rw [deg_of_output, rounded_ofIntF_180, rounded_ofIntF_neg_180, rounded_ofIntF_360]
  rfl

/-- Line 271 in exact arithmetic. -/
theorem exact_out_int_of_deg (sinf cosf : ℚ → ℚ) (d : ℚ) :
    out_int_of_deg (exactOps sinf cosf) d = ⌊(d + 210) * 1000000⌋.toNat % 2 ^ 32 := by
  have e : (exactOps sinf cosf).mulF ((exactOps sinf cosf).addF d
      ((exactOps sinf cosf).ofIntF 210)) ((exactOps sinf cosf).ofIntF 1000000)
      = (d + 210) * 1000000 := by
    simp only [exactOps]
    norm_num
  rw [out_int_of_deg, e]
  rfl

/-- Line 271 in rounded arithmetic. -/
theorem rounded_out_int_of_deg (sinf cosf : ℚ → ℚ) (d : ℚ) :
    out_int_of_deg (roundedOps sinf cosf) d =
      ⌊roundNE 24 (roundNE 24 (d + 210) * 1000000)⌋.toNat % 2 ^ 32 := by
  rw [out_int_of_deg, rounded_ofIntF_210, rounded_ofIntF_million]
  rfl

/-- The cast `(uint32_t)` of a value between 30,000,000 and 390,000,000 is its integer
part: it is neither negative nor reduced modulo `2 ^ 32`. -/
theorem toU32_in_range (P : ℚ) (h1 : 30000000 ≤ P) (h2 : P ≤ 390000000) :
    30000000 ≤ ⌊P⌋.toNat % 2 ^ 32 ∧ ⌊P⌋.toNat % 2 ^ 32 ≤ 390000000 ∧
    ((⌊P⌋.toNat % 2 ^ 32 : ℕ) : ℤ) = ⌊P⌋ := by
  have f1 : (30000000 : ℤ) ≤ ⌊P⌋ := Int.le_floor.mpr (by push_cast; exact h1)
  have f2 : ⌊P⌋ ≤ (390000000 : ℤ) := by
    have h3 : ((⌊P⌋ : ℤ) : ℚ) ≤ ((390000000 : ℤ) : ℚ) := by
      push_cast
      exact le_trans (Int.floor_le P) h2
    exact_mod_cast h3
  omega

/-- In rounded arithmetic the product `(deg + 210)*1000000` of a degrees value in
`[-180, 180]` lies between 30,000,000 and 390,000,000, both of which are `float`
values. -/
theorem rounded_product_range (d : ℚ) (h1 : -180 ≤ d) (h2 : d ≤ 180) :
    30000000 ≤ roundNE 24 (roundNE 24 (d + 210) * 1000000) ∧
    roundNE 24 (roundNE 24 (d + 210) * 1000000) ≤ 390000000 := by
  have b1 := roundNE_24_between 30 390 (by norm_num) (by norm_num) (d + 210)
    (by push_cast; linarith) (by push_cast; linarith)
  push_cast at b1
  have hlo : roundNE 24 (30000000 : ℚ) = 30000000 := by
    rw [roundNE_eq 24 _ (1) (15000000) (by norm_num [abs_of_pos]) (by norm_num [abs_of_pos])
      (by norm_num [abs_of_pos]) (by norm_num [abs_of_pos])]
    norm_num
  have hhi : roundNE 24 (390000000 : ℚ) = 390000000 := by
    rw [roundNE_eq 24 _ (5) (12187500) (by norm_num [abs_of_pos]) (by norm_num [abs_of_pos])
      (by norm_num [abs_of_pos]) (by norm_num [abs_of_pos])]
    norm_num
  have l := roundNE_24_mono
    (show (30000000 : ℚ) ≤ roundNE 24 (d + 210) * 1000000 by linarith [b1.1])
  have u := roundNE_24_mono
    (show roundNE 24 (d + 210) * 1000000 ≤ (390000000 : ℚ) by linarith [b1.2])
  rw [hlo] at l
  rw [hhi] at u
  exact ⟨l, u⟩

/-- The solver output `-pi` is converted to exactly -180 degrees, which neither
normalisation loop changes: in exact arithmetic for `-M_PI`, and in rounded arithmetic
for the `float` nearest to `-pi`, `-13176795 * 2 ^ (-22)`. -/
theorem deg_neg_pi (sinf cosf : ℚ → ℚ) (fuel : ℕ) :
    deg_of_output (exactOps sinf cosf) fuel (-(884279719003555 / 281474976710656))
      = some (-180) ∧
    deg_of_output (roundedOps sinf cosf) fuel (-(13176795 / 2 ^ 22)) = some (-180) := by
  constructor
  · rw [exact_deg_of_output]
    have e : (180 : ℚ) * -(884279719003555 / 281474976710656)
        / (884279719003555 / 281474976710656) = -180 := by norm_num
    rw [e, whileLoop_of_cond_false _ _ _ _ (by norm_num), Option.some_bind,
      whileLoop_of_cond_false _ _ _ _ (by norm_num)]
  · rw [rounded_deg_of_output]
    have h1 : roundNE 24 ((180 : ℚ) * -(13176795 / 2 ^ 22)) = -(9264934 / 2 ^ 14) := by
      rw [roundNE_eq 24 _ (-14) (-9264934) (by norm_num [abs_of_pos]) (by norm_num [abs_of_pos])
      (by norm_num [abs_of_pos]) (by norm_num [abs_of_pos])]
      norm_num
    have h2 : roundNE 53 (-(9264934 / 2 ^ 14) / (884279719003555 / 281474976710656) : ℚ)
        = -(6333187162907451 / 2 ^ 45) := by
      rw [roundNE_eq 53 _ (-45) (-6333187162907451) (by norm_num [abs_of_pos]) (by norm_num [abs_of_pos])
      (by norm_num [abs_of_pos]) (by norm_num [abs_of_pos])]
      norm_num
    have h3 : roundNE 24 (-(6333187162907451 / 2 ^ 45) : ℚ) = -180 := by
      rw [roundNE_eq 24 _ (-16) (-11796480) (by norm_num [abs_of_pos]) (by norm_num [abs_of_pos])
      (by norm_num [abs_of_pos]) (by norm_num [abs_of_pos])]
      norm_num
    rw [h1, h2, h3, whileLoop_of_cond_false _ _ _ _ (by norm_num), Option.some_bind,
      whileLoop_of_cond_false _ _ _ _ (by norm_num)]

/-- The `float` nearest to `-pi` is a `float` value. -/
theorem roundNE_neg_pi : roundNE 24 (-(13176795 / 2 ^ 22) : ℚ) = -(13176795 / 2 ^ 22) := by
  rw [roundNE_eq 24 _ (-22) (-13176795) (by norm_num [abs_of_pos]) (by norm_num [abs_of_pos])
      (by norm_num [abs_of_pos]) (by norm_num [abs_of_pos])]
  norm_num

/-- Lines 247-248 in exact arithmetic: the product `raw*0.0015625` is below 1 exactly
when `raw < 640`, and is then the decoded eccentricity; otherwise the decoded
eccentricity is `0.9999999`. -/
theorem exact_eccentricity_of_raw (sinf cosf : ℚ → ℚ) (raw : ℕ) :
    ((raw : ℚ) * 0.0015625 < 1 ↔ raw < 640) ∧
    eccentricity_of_raw (exactOps sinf cosf) raw
      = if raw < 640 then (raw : ℚ) * 0.0015625 else 0.9999999 := by
  have hiff : (raw : ℚ) * 0.0015625 < 1 ↔ raw < 640 := by
    constructor
    · intro h
      have h2 : (raw : ℚ) < 640 := by norm_num at h; linarith
      exact_mod_cast h2
    · intro h
      have h2 : (raw : ℚ) < 640 := by exact_mod_cast h
      norm_num
      linarith
  refine ⟨hiff, ?_⟩
  have h0 : (exactOps sinf cosf).toF ((exactOps sinf cosf).mulD
      ((exactOps sinf cosf).ofIntD ((raw : ℕ) : ℤ)) ((exactOps sinf cosf).litD 0.0015625))
      = (raw : ℚ) * 0.0015625 := by
    simp only [exactOps, Int.cast_natCast]
  have h1 : (exactOps sinf cosf).ofIntF 1 = 1 := by
    simp only [exactOps, Int.cast_one]
  rw [eccentricity_of_raw]
  simp only [h0, h1]
  by_cases hr : raw < 640
  · have hlt := hiff.mpr hr
    have hge : (exactOps sinf cosf).geF ((raw : ℚ) * 0.0015625) 1 = false := by
      show decide ((raw : ℚ) * 0.0015625 ≥ 1) = false
      simpa using hlt
    simp only [hge, hr]
    simp
  · have hnlt : ¬ ((raw : ℚ) * 0.0015625 < 1) := fun h => hr (hiff.mp h)
    have hge : (exactOps sinf cosf).geF ((raw : ℚ) * 0.0015625) 1 = true := by
      show decide ((raw : ℚ) * 0.0015625 ≥ 1) = true
      simpa using hnlt
    simp only [hge, hr]
    rfl

/-- The `double` denoted by the literal `0.0015625`. -/
theorem rounded_litD_ecc (sinf cosf : ℚ → ℚ) :
    (roundedOps sinf cosf).litD 0.0015625 = 7205759403792794 / 2 ^ 62 := by
  show roundNE 53 (0.0015625 : ℚ) = 7205759403792794 / 2 ^ 62
  rw [roundNE_eq 53 _ (-62) (7205759403792794) (by norm_num [abs_of_pos]) (by norm_num [abs_of_pos])
      (by norm_num [abs_of_pos]) (by norm_num [abs_of_pos])]
  norm_num

/-- Line 248, clamped case: when the test `eccentricity >= 1` holds the eccentricity is
the literal `0.9999999` converted to `float`. -/
theorem eccentricity_of_raw_clamped {F D : Type} (ops : FloatOps F D) (raw : ℕ)
    (h : ops.geF (ops.toF (ops.mulD (ops.ofIntD raw) (ops.litD 0.0015625))) (ops.ofIntF 1)
      = true) :
    eccentricity_of_raw ops raw = ops.toF (ops.litD 0.9999999) := by
  simp [eccentricity_of_raw, h]

/-- Line 248, other case: when the test `eccentricity >= 1` fails the eccentricity is the
product of line 247. -/
theorem eccentricity_of_raw_unclamped {F D : Type} (ops : FloatOps F D) (raw : ℕ)
    (h : ops.geF (ops.toF (ops.mulD (ops.ofIntD raw) (ops.litD 0.0015625))) (ops.ofIntF 1)
      = false) :
    eccentricity_of_raw ops raw
      = ops.toF (ops.mulD (ops.ofIntD raw) (ops.litD 0.0015625)) := by
  simp [eccentricity_of_raw, h]

/-- Line 247 in rounded arithmetic, for a raw unsigned 16-bit field. -/
theorem rounded_ecc_product (sinf cosf : ℚ → ℚ) (raw : ℕ) (hraw : raw < 2 ^ 16) :
    (roundedOps sinf cosf).toF ((roundedOps sinf cosf).mulD
      ((roundedOps sinf cosf).ofIntD ((raw : ℕ) : ℤ)) ((roundedOps sinf cosf).litD 0.0015625))
      = roundNE 24 (roundNE 53 ((raw : ℚ) * (7205759403792794 / 2 ^ 62))) := by
  have hr : (roundedOps sinf cosf).ofIntD ((raw : ℕ) : ℤ) = (raw : ℚ) := by
    show roundNE 53 (((raw : ℤ)) : ℚ) = (raw : ℚ)
    rw [roundNE_53_intCast _ (by rw [abs_of_nonneg (by positivity)]; omega)]
    norm_num
  rw [hr, rounded_litD_ecc]
  rfl

/-- The clamped eccentricity of line 248 in rounded arithmetic. -/
theorem rounded_ecc_clamp_literal (sinf cosf : ℚ → ℚ) :
    (roundedOps sinf cosf).toF ((roundedOps sinf cosf).litD 0.9999999) = ecc_clamp := by
  show roundNE 24 (roundNE 53 (0.9999999 : ℚ)) = ecc_clamp
  exact rounded_constants.1

/-- Lines 247-248 in rounded arithmetic: for a raw unsigned 16-bit field the `float`
product is at least 1 exactly when `raw ≥ 640`, and then the decoded eccentricity is the
`float` nearest to `0.9999999`; otherwise it is the rounded product, which lies between
0 and `8375501 * 2 ^ (-23)`. -/
theorem rounded_eccentricity_of_raw (sinf cosf : ℚ → ℚ) (raw : ℕ) (hraw : raw < 2 ^ 16) :
    (640 ≤ raw → eccentricity_of_raw (roundedOps sinf cosf) raw = ecc_clamp) ∧
    (raw < 640 →
      eccentricity_of_raw (roundedOps sinf cosf) raw
        = roundNE 24 (roundNE 53 ((raw : ℚ) * (7205759403792794 / 2 ^ 62))) ∧
      0 ≤ eccentricity_of_raw (roundedOps sinf cosf) raw ∧
      eccentricity_of_raw (roundedOps sinf cosf) raw ≤ 8375501 / 2 ^ 23) := by
  have h0 := rounded_ecc_product sinf cosf raw hraw
  have hr0 : (0 : ℚ) ≤ raw := Nat.cast_nonneg raw
  have hc0 : (0 : ℚ) ≤ 7205759403792794 / 2 ^ 62 := by norm_num
  constructor
  · intro h640
    have hq : (640 : ℚ) ≤ raw := by exact_mod_cast h640
    have h1 : roundNE 53 ((640 : ℚ) * (7205759403792794 / 2 ^ 62)) = 1 := by
      rw [roundNE_eq 53 _ (-52) (4503599627370496) (by norm_num [abs_of_pos]) (by norm_num [abs_of_pos])
      (by norm_num [abs_of_pos]) (by norm_num [abs_of_pos])]
      norm_num
    have m1 := roundNE_53_mono (mul_le_mul_of_nonneg_right hq hc0)
    rw [h1] at m1
    have m2 := roundNE_24_mono m1
    rw [roundNE_24_one] at m2
    have hge : (roundedOps sinf cosf).geF ((roundedOps sinf cosf).toF
        ((roundedOps sinf cosf).mulD ((roundedOps sinf cosf).ofIntD ((raw : ℕ) : ℤ))
          ((roundedOps sinf cosf).litD 0.0015625))) ((roundedOps sinf cosf).ofIntF 1)
        = true := by
      rw [h0, rounded_ofIntF_one]
      exact decide_eq_true m2
    rw [eccentricity_of_raw_clamped _ raw hge, rounded_ecc_clamp_literal]
  · intro hlt
    have hq : (raw : ℚ) ≤ 639 := by
      have : raw ≤ 639 := by omega
      exact_mod_cast this
    have h1 : roundNE 53 ((639 : ℚ) * (7205759403792794 / 2 ^ 62))
        = 8993125505905460 / 2 ^ 53 := by
      rw [roundNE_eq 53 _ (-53) (8993125505905460) (by norm_num [abs_of_pos]) (by norm_num [abs_of_pos])
      (by norm_num [abs_of_pos]) (by norm_num [abs_of_pos])]
      norm_num
    have h2 : roundNE 24 (8993125505905460 / 2 ^ 53 : ℚ) = 8375501 / 2 ^ 23 := by
      rw [roundNE_eq 24 _ (-24) (16751002) (by norm_num [abs_of_pos]) (by norm_num [abs_of_pos])
      (by norm_num [abs_of_pos]) (by norm_num [abs_of_pos])]
      norm_num
    have m1 := roundNE_53_mono (mul_le_mul_of_nonneg_right hq hc0)
    rw [h1] at m1
    have m2 := roundNE_24_mono m1
    rw [h2] at m2
    have l1 := roundNE_53_mono (mul_nonneg hr0 hc0)
    rw [roundNE_zero] at l1
    have l2 := roundNE_24_mono l1
    rw [roundNE_zero] at l2
    have hlt1 : ¬ (roundNE 24 (roundNE 53 ((raw : ℚ) * (7205759403792794 / 2 ^ 62))) ≥ 1) :=
      not_le.mpr (lt_of_le_of_lt m2 (by norm_num))
    have hge : (roundedOps sinf cosf).geF ((roundedOps sinf cosf).toF
        ((roundedOps sinf cosf).mulD ((roundedOps sinf cosf).ofIntD ((raw : ℕ) : ℤ))
          ((roundedOps sinf cosf).litD 0.0015625))) ((roundedOps sinf cosf).ofIntF 1)
        = false := by
      rw [h0, rounded_ofIntF_one]
      exact decide_eq_false hlt1
    rw [eccentricity_of_raw_unclamped _ raw hge, h0]
    exact ⟨rfl, l2, m2⟩

/-! ## The derivative of the Newton step -/

/-- Range of the eccentricity the dispatcher hands to the solver, for a raw unsigned
16-bit field: `[0, 1)` in exact arithmetic, and between 0 and the clamped eccentricity
`1 - 2 ^ (-23)` in rounded arithmetic. -/
theorem eccentricity_range (sinf cosf : ℚ → ℚ) (raw : ℕ) (hraw : raw < 2 ^ 16) :
    0 ≤ eccentricity_of_raw (exactOps sinf cosf) raw ∧
    eccentricity_of_raw (exactOps sinf cosf) raw < 1 ∧
    0 ≤ eccentricity_of_raw (roundedOps sinf cosf) raw ∧
    eccentricity_of_raw (roundedOps sinf cosf) raw ≤ ecc_clamp := by
  obtain ⟨hiff, hex⟩ := exact_eccentricity_of_raw sinf cosf raw
  obtain ⟨hcl, hun⟩ := rounded_eccentricity_of_raw sinf cosf raw hraw
  have hr0 : (0 : ℚ) ≤ raw := Nat.cast_nonneg raw
  by_cases hr : raw < 640
  · obtain ⟨_, h0, h1⟩ := hun hr
    have hlt := hiff.mpr hr
    rw [hex, if_pos hr]
    exact ⟨by positivity, hlt, h0, le_trans h1 (by norm_num [ecc_clamp])⟩
  · have he := hcl (by omega)
    rw [hex, if_neg hr, he]
    exact ⟨by norm_num, by norm_num, by norm_num [ecc_clamp], le_refl _⟩

/-! ## Packing of the result -/

/-- The cast `(uint32_t)` of a rational in `[n, n + 1)`, for a natural number `n` below
`2 ^ 32`, is `n`: the fraction is discarded. -/
theorem toU32_of_bounds (P : ℚ) (n : ℕ) (h1 : (n : ℚ) ≤ P) (h2 : P < (n : ℚ) + 1)
    (hn : n < 2 ^ 32) : ⌊P⌋.toNat % 2 ^ 32 = n := by
  have hf : ⌊P⌋ = (n : ℤ) := by
    rw [Int.floor_eq_iff]
    push_cast
    exact ⟨h1, h2⟩
  rw [hf, Int.toNat_ofNat]
  exact Nat.mod_eq_of_lt hn

/-- Line 271 on two degrees values.  In exact arithmetic `deg = 0.0000006` gives the
product `210000000.6` and the raw field 210,000,000.  In rounded arithmetic the `float`
nearest to `0.00001`, `2748779 * 2 ^ (-38)`, gives the sum `13762561 * 2 ^ (-16)`, the
product `210000016` and the raw field 210,000,016. -/
theorem out_int_examples (sinf cosf : ℚ → ℚ) :
    out_int_of_deg (exactOps sinf cosf) (6 / 10 ^ 7) = 210000000 ∧
    roundNE 24 (1 / 10 ^ 5) = 2748779 / 2 ^ 38 ∧
    out_int_of_deg (roundedOps sinf cosf) (2748779 / 2 ^ 38) = 210000016 := by
  refine ⟨?_, ?_, ?_⟩
  · rw [exact_out_int_of_deg]
    exact toU32_of_bounds _ 210000000 (by norm_num) (by norm_num) (by norm_num)
  · rw [roundNE_eq 24 _ (-40) (10995116) (by norm_num [abs_of_pos]) (by norm_num [abs_of_pos])
      (by norm_num [abs_of_pos]) (by norm_num [abs_of_pos])]
    norm_num
  · have h1 : roundNE 24 ((2748779 / 2 ^ 38 : ℚ) + 210) = 13762561 / 2 ^ 16 := by
      rw [roundNE_eq 24 _ (-16) (13762561) (by norm_num [abs_of_pos]) (by norm_num [abs_of_pos])
      (by norm_num [abs_of_pos]) (by norm_num [abs_of_pos])]
      norm_num
    have h2 : roundNE 24 ((13762561 / 2 ^ 16 : ℚ) * 1000000) = ((210000016 : ℕ) : ℚ) := by
      rw [roundNE_eq 24 _ (4) (13125001) (by norm_num [abs_of_pos]) (by norm_num [abs_of_pos])
      (by norm_num [abs_of_pos]) (by norm_num [abs_of_pos])]
      norm_num
    rw [rounded_out_int_of_deg, h1, h2]
    exact toU32_of_bounds _ 210000016 (le_refl _) (by norm_num) (by norm_num)

/-- In rounded arithmetic the raw mean-anomaly field 209,999,999 decodes to the `float`
`-8796093 * 2 ^ (-43)` (about `-0.000001`), and the addition of line 255 rounds
`360 - 0.000001` to exactly 360. -/
theorem rounded_anom_deg_209999999 (sinf cosf : ℚ → ℚ) (m : ℕ) :
    anom_deg_of_raw (roundedOps sinf cosf) (m + 1) 209999999 = some 360 := by
  rw [rounded_anom_deg_of_raw sinf cosf (m + 1) 209999999 (by norm_num)]
  have h1 : roundNE 53 (((209999999 : ℕ) : ℚ) * (4722366482869645 / 2 ^ 72))
      = 7388718103470348 / 2 ^ 45 := by
    rw [roundNE_eq 53 _ (-45) (7388718103470348) (by norm_num [abs_of_pos]) (by norm_num [abs_of_pos])
      (by norm_num [abs_of_pos]) (by norm_num [abs_of_pos])]
    norm_num
  have h2 : roundNE 53 ((7388718103470348 / 2 ^ 45 : ℚ) - 210) = -(8796093 / 2 ^ 43) := by
    rw [roundNE_eq 53 _ (-72) (-4722366470946816) (by norm_num [abs_of_pos]) (by norm_num [abs_of_pos])
      (by norm_num [abs_of_pos]) (by norm_num [abs_of_pos])]
    norm_num
  have h3 : roundNE 24 (-(8796093 / 2 ^ 43) : ℚ) = -(8796093 / 2 ^ 43) := by
    rw [roundNE_eq 24 _ (-43) (-8796093) (by norm_num [abs_of_pos]) (by norm_num [abs_of_pos])
      (by norm_num [abs_of_pos]) (by norm_num [abs_of_pos])]
    norm_num
  have h4 : roundNE 24 (-(8796093 / 2 ^ 43) + 360 : ℚ) = 360 := by
    rw [roundNE_eq 24 _ (-15) (11796480) (by norm_num [abs_of_pos]) (by norm_num [abs_of_pos])
      (by norm_num [abs_of_pos]) (by norm_num [abs_of_pos])]
    norm_num
  rw [h1, h2, h3, whileLoop_of_cond_false _ _ _ _ (by norm_num), Option.some_bind,
    whileLoop_of_cond_true _ _ _ _ (by norm_num)]
  simp only [h4]
  rw [whileLoop_of_cond_false _ _ _ _ (by norm_num)]

/-- In rounded arithmetic the normalisation of lines 268-269 does not return on the
solver output `2 ^ 30`: the degrees value is the `float` 61,520,875,520, whose spacing
to the next `float` is 4096, so that `deg - 360` rounds back to `deg` and the test
`deg > 180` stays true. -/
theorem rounded_deg_never_returns (sinf cosf : ℚ → ℚ) (fuel : ℕ) :
    deg_of_output (roundedOps sinf cosf) fuel (2 ^ 30) = none := by
  rw [rounded_deg_of_output]
  have h1 : roundNE 24 ((180 : ℚ) * 2 ^ 30) = 193273528320 := by
    rw [roundNE_eq 24 _ (14) (11796480) (by norm_num [abs_of_pos]) (by norm_num [abs_of_pos])
      (by norm_num [abs_of_pos]) (by norm_num [abs_of_pos])]
    norm_num
  have h2 : roundNE 53 ((193273528320 : ℚ) / (884279719003555 / 281474976710656))
      = 8063664102031864 / 2 ^ 17 := by
    rw [roundNE_eq 53 _ (-17) (8063664102031864) (by norm_num [abs_of_pos]) (by norm_num [abs_of_pos])
      (by norm_num [abs_of_pos]) (by norm_num [abs_of_pos])]
    norm_num
  have h3 : roundNE 24 (8063664102031864 / 2 ^ 17 : ℚ) = 61520875520 := by
    rw [roundNE_eq 24 _ (12) (15019745) (by norm_num [abs_of_pos]) (by norm_num [abs_of_pos])
      (by norm_num [abs_of_pos]) (by norm_num [abs_of_pos])]
    norm_num
  have h4 : roundNE 24 ((61520875520 : ℚ) - 360) = 61520875520 := by
    rw [roundNE_eq 24 _ (12) (15019745) (by norm_num [abs_of_pos]) (by norm_num [abs_of_pos])
      (by norm_num [abs_of_pos]) (by norm_num [abs_of_pos])]
    norm_num
  rw [h1, h2, h3]
  have hfix : ∀ k : ℕ, (fun d : ℚ => roundNE 24 (d - 360))^[k] 61520875520 = 61520875520 := by
    intro k
    exact @Function.iterate_fixed ℚ (fun d : ℚ => roundNE 24 (d - 360)) 61520875520 h4 k
  rw [whileLoop_eq_none _ _ fuel _ (fun k _ => by rw [hfix k]; norm_num)]
  rfl

/-! ## The dispatcher on request frames -/

/-- The fields loaded from the frame data are 32-bit and 16-bit values. -/
theorem load_bounds (data : List ℕ) : load_u32 data < 2 ^ 32 ∧ load_u16 data < 2 ^ 16 := by
  unfold load_u32 load_u16
  constructor <;> omega

/-- In exact and in rounded arithmetic the normalised degrees value of line 255, whenever
the loops return one, lies in `[0, 360]`. -/
theorem anom_range_of_some (sinf cosf : ℚ → ℚ) (fuel raw : ℕ) (hraw : raw < 2 ^ 32) (a : ℚ) :
    (anom_deg_of_raw (exactOps sinf cosf) fuel raw = some a → 0 ≤ a ∧ a ≤ 360) ∧
    (anom_deg_of_raw (roundedOps sinf cosf) fuel raw = some a → 0 ≤ a ∧ a ≤ 360) := by
  constructor
  · intro h
    rw [exact_anom_deg_of_raw] at h
    exact normalise_range _ _ 360 0 (fun u hu => by linarith) fuel _ a h
  · intro h
    rw [rounded_anom_deg_of_raw sinf cosf fuel raw hraw] at h
    refine normalise_range _ _ 360 0 (fun u hu => ?_) fuel _ a h
    have hm : roundNE 24 (u + 360) ≤ roundNE 24 360 := roundNE_24_mono (by linarith)
    rw [roundNE_24_of_int 360 360 (by norm_num) (by norm_num)] at hm
    exact hm

/-- A dispatcher step on a request frame that returns has decoded a degrees value, had a
result from the solver, normalised its output, and written one reply frame. -/
theorem main_step_request_inv {F D : Type} (ops : FloatOps F D) (fuel : ℕ) (nbytes : ℤ)
    (cf : can_frame) (hn : nbytes ≠ 0) (hreq : (parse_J1939 cf.can_id).pgn = REQUEST_PGN)
    (res : StepResult F) (h : main_step ops fuel nbytes cf = some res) :
    ∃ (anom_deg deg : F) (r : KeplerResult F),
      anom_deg_of_raw ops fuel (load_u32 cf.data) = some anom_deg ∧
      Keplers_Law ops (mean_anomaly_of_deg ops anom_deg)
        (eccentricity_of_raw ops (load_u16 cf.data)) (mean_anomaly_of_deg ops anom_deg) fuel
          = some r ∧
      deg_of_output ops fuel r.eccentric_anomaly_output = some deg ∧
      res.written = [reply_frame (out_int_of_deg ops deg)] ∧
      res.solver_calls = [(mean_anomaly_of_deg ops anom_deg,
        eccentricity_of_raw ops (load_u16 cf.data), mean_anomaly_of_deg ops anom_deg)] := by
  rw [main_step, if_neg hn, if_pos hreq] at h
  cases h1 : anom_deg_of_raw ops fuel (load_u32 cf.data) with
  | none => simp [h1] at h
  | some a =>
    simp only [h1, Option.some_bind] at h
    cases h2 : Keplers_Law ops (mean_anomaly_of_deg ops a)
        (eccentricity_of_raw ops (load_u16 cf.data)) (mean_anomaly_of_deg ops a) fuel with
    | none => simp [h2] at h
    | some r =>
      simp only [h2, Option.some_bind] at h
      cases h3 : deg_of_output ops fuel r.eccentric_anomaly_output with
      | none => simp [h3] at h
      | some d =>
        simp only [h3, Option.some_bind, Option.some.injEq] at h
        exact ⟨a, d, r, rfl, h2, h3, by rw [← h], by rw [← h]⟩

/-- A dispatcher step that is not on a request frame writes nothing and does not call
the solver. -/
theorem main_step_other {F D : Type} (ops : FloatOps F D) (fuel : ℕ) (nbytes : ℤ)
    (cf : can_frame) (hnot : nbytes = 0 ∨ (parse_J1939 cf.can_id).pgn ≠ REQUEST_PGN)
    (res : StepResult F) (h : main_step ops fuel nbytes cf = some res) :
    res.written = [] ∧ res.solver_calls = [] := by
  rw [main_step] at h
  by_cases hn : nbytes = 0
  · rw [if_pos hn] at h
    simp only [Option.some.injEq] at h
    rw [← h]
    exact ⟨rfl, rfl⟩
  · rcases hnot with h0 | hp
    · exact absurd h0 hn
    · rw [if_neg hn, if_neg hp] at h
      simp only [Option.some.injEq] at h
      rw [← h]
      exact ⟨rfl, rfl⟩

/-- The arguments of every call of the solver by a dispatcher step, in exact and in
rounded arithmetic: the mean anomaly lies between 0 and `2*pi` (in rounded arithmetic,
the `float` nearest to `2*pi`), the eccentricity lies in `[0, 1)`, and the initial guess
is the mean anomaly. -/
theorem main_step_solver_args (sinf cosf : ℚ → ℚ) (fuel : ℕ) (nbytes : ℤ) (cf : can_frame)
    (res : StepResult ℚ) :
    (main_step (exactOps sinf cosf) fuel nbytes cf = some res →
      ∀ c ∈ res.solver_calls, 0 ≤ c.1 ∧ c.1 ≤ 2 * (exactOps sinf cosf).M_PI ∧
        0 ≤ c.2.1 ∧ c.2.1 < 1 ∧ c.2.2 = c.1) ∧
    (main_step (roundedOps sinf cosf) fuel nbytes cf = some res →
      ∀ c ∈ res.solver_calls, 0 ≤ c.1 ∧ c.1 ≤ 13176795 / 2 ^ 21 ∧
        0 ≤ c.2.1 ∧ c.2.1 < 1 ∧ c.2.2 = c.1) := by
  obtain ⟨hb32, hb16⟩ := load_bounds cf.data
  obtain ⟨x0, x1, r0, r1⟩ := eccentricity_range sinf cosf (load_u16 cf.data) hb16
  by_cases hreq : nbytes ≠ 0 ∧ (parse_J1939 cf.can_id).pgn = REQUEST_PGN
  · obtain ⟨hn, hp⟩ := hreq
    constructor
    · intro h c hcm
      obtain ⟨a, d, r, ha, _, _, _, hsc⟩ := main_step_request_inv _ fuel nbytes cf hn hp res h
      rw [hsc, List.mem_singleton] at hcm
      obtain ⟨a0, a360⟩ := (anom_range_of_some sinf cosf fuel _ hb32 a).1 ha
      obtain ⟨_, m0, m1⟩ := exact_mean_anomaly_range sinf cosf a a0 a360
      rw [hcm]
      exact ⟨m0, m1, x0, x1, rfl⟩
    · intro h c hcm
      obtain ⟨a, d, r, ha, _, _, _, hsc⟩ := main_step_request_inv _ fuel nbytes cf hn hp res h
      rw [hsc, List.mem_singleton] at hcm
      obtain ⟨a0, a360⟩ := (anom_range_of_some sinf cosf fuel _ hb32 a).2 ha
      obtain ⟨m0, m1⟩ := rounded_mean_anomaly_range sinf cosf a a0 a360
      rw [hcm]
      exact ⟨m0, m1, r0, lt_of_le_of_lt r1 (by norm_num [ecc_clamp]), rfl⟩
  · have hnot : nbytes = 0 ∨ (parse_J1939 cf.can_id).pgn ≠ REQUEST_PGN := by
      by_cases hn : nbytes = 0
      · exact Or.inl hn
      · exact Or.inr (fun hp => hreq ⟨hn, hp⟩)
    constructor
    · intro h c hcm
      rw [(main_step_other _ fuel nbytes cf hnot res h).2] at hcm
      exact absurd hcm (List.not_mem_nil c)
    · intro h c hcm
      rw [(main_step_other _ fuel nbytes cf hnot res h).2] at hcm
      exact absurd hcm (List.not_mem_nil c)

/-! ## Rounding error and exact subtraction -/

/-- The nearest integer is within one half. -/
theorem round_half_even_error (q : ℚ) : |(round_half_even q : ℚ) - q| ≤ 1 / 2 := by
  have h1 : (⌊q⌋ : ℚ) ≤ q := Int.floor_le q
  have h2 : q < ⌊q⌋ + 1 := Int.lt_floor_add_one q
  unfold round_half_even
  rw [abs_le]
  split_ifs with a b c
  · constructor <;> linarith
  · push_cast; constructor <;> linarith
  · have e : q - ⌊q⌋ = 1 / 2 := le_antisymm (not_lt.mp b) (not_lt.mp a)
    constructor <;> linarith
  · have e : q - ⌊q⌋ = 1 / 2 := le_antisymm (not_lt.mp b) (not_lt.mp a)
    push_cast; constructor <;> linarith

/-- Absolute rounding error: a value below `2 ^ (k + 1)` in magnitude is rounded to
`q + 1` bits with an error of at most `2 ^ (k - q - 1)`, half a unit in the last place. -/
theorem roundNE_error (q : ℕ) (x : ℚ) (k : ℤ) (h : |x| < (2 : ℚ) ^ (k + 1)) :
    |roundNE (q + 1) x - x| ≤ (2 : ℚ) ^ (k - (q : ℤ) - 1) := by
  by_cases hx : x = 0
  · subst hx
    rw [roundNE_zero]
    simp only [sub_zero, abs_zero]
    positivity
  · have hpos : 0 < |x| := abs_pos.mpr hx
    have hlog : Int.log 2 |x| ≤ k := by
      have := (Int.lt_zpow_iff_log_lt (by decide : 1 < 2) hpos (x := k + 1)).mp (by simpa using h)
      omega
    rw [roundNE_succ q x hx]
    set e := Int.log 2 |x| - (q : ℤ) with he
    have h2 : (0 : ℚ) < 2 ^ e := by positivity
    have e1 : (round_half_even (x / 2 ^ e) : ℚ) * 2 ^ e - x
        = ((round_half_even (x / 2 ^ e) : ℚ) - x / 2 ^ e) * 2 ^ e := by
      field_simp
    rw [e1, abs_mul, abs_of_pos h2]
    have h3 := round_half_even_error (x / 2 ^ e)
    have h4 : (2 : ℚ) ^ e ≤ 2 ^ (k - (q : ℤ)) :=
      zpow_le_zpow_right₀ (by norm_num) (by omega)
    have h5 : (2 : ℚ) ^ (k - (q : ℤ) - 1) = 2 ^ (k - (q : ℤ)) / 2 := by
      rw [zpow_sub_one₀ (by norm_num : (2 : ℚ) ≠ 0)]
      ring
    rw [h5]
    calc |(round_half_even (x / 2 ^ e) : ℚ) - x / 2 ^ e| * 2 ^ e
        ≤ 1 / 2 * 2 ^ e := mul_le_mul_of_nonneg_right h3 (le_of_lt h2)
      _ ≤ 1 / 2 * 2 ^ (k - (q : ℤ)) := by linarith
      _ = 2 ^ (k - (q : ℤ)) / 2 := by ring

/-- A multiple `m * 2 ^ e` of a power of two with `|m| < 2 ^ (q + 1)` is representable
with `q + 1` significant bits. -/
theorem roundNE_scaled (q : ℕ) (m e : ℤ) (hm : |m| < 2 ^ (q + 1)) :
    roundNE (q + 1) ((m : ℚ) * 2 ^ e) = (m : ℚ) * 2 ^ e := by
  by_cases h0 : m = 0
  · subst h0
    simp [roundNE_zero]
  · have h2 : (0 : ℚ) < 2 ^ e := by positivity
    have hne : (m : ℚ) * 2 ^ e ≠ 0 := mul_ne_zero (by exact_mod_cast h0) (ne_of_gt h2)
    have hpos : 0 < |(m : ℚ) * 2 ^ e| := abs_pos.mpr hne
    have hlt : |(m : ℚ) * 2 ^ e| < (2 : ℚ) ^ (((q : ℤ) + 1) + e) := by
      rw [abs_mul, abs_of_pos h2, zpow_add₀ (by norm_num : (2 : ℚ) ≠ 0)]
      apply mul_lt_mul_of_pos_right _ h2
      have : ((|m| : ℤ) : ℚ) < ((2 ^ (q + 1) : ℤ) : ℚ) := by exact_mod_cast hm
      push_cast at this
      have e2 : (2 : ℚ) ^ ((q : ℤ) + 1) = 2 ^ (q + 1) := by
        rw [← zpow_natCast]; push_cast; rfl
      rw [e2]
      exact this
    have hlog : Int.log 2 |(m : ℚ) * 2 ^ e| < (q : ℤ) + 1 + e :=
      (Int.lt_zpow_iff_log_lt (by decide : 1 < 2) hpos).mp (by simpa using hlt)
    rw [roundNE_succ q _ hne]
    set L := Int.log 2 |(m : ℚ) * 2 ^ e| with hL
    obtain ⟨d, hd⟩ : ∃ d : ℕ, e - (L - (q : ℤ)) = d := ⟨(e - (L - (q : ℤ))).toNat, by omega⟩
    have e3 : (m : ℚ) * 2 ^ e / 2 ^ (L - (q : ℤ)) = ((m * 2 ^ d : ℤ) : ℚ) := by
      rw [mul_div_assoc, ← zpow_sub₀ (by norm_num : (2 : ℚ) ≠ 0), hd, zpow_natCast]
      push_cast
      ring
    rw [e3, round_half_even_intCast, ← e3]
    field_simp

/-- Every value rounded to `q + 1` bits is a multiple `m * 2 ^ e` of the unit in the last
place of its argument, with `|m| ≤ 2 ^ (q + 1)`. -/
theorem roundNE_form (q : ℕ) (y : ℚ) (hy : y ≠ 0) :
    ∃ m : ℤ, roundNE (q + 1) y = (m : ℚ) * 2 ^ (Int.log 2 |y| - (q : ℤ)) ∧
      |m| ≤ 2 ^ (q + 1) := by
  refine ⟨round_half_even (y / 2 ^ (Int.log 2 |y| - (q : ℤ))), roundNE_succ q y hy, ?_⟩
  obtain ⟨h1, h2⟩ := binade_bounds y hy
  set L := Int.log 2 |y| with hL
  have hp : (0 : ℚ) < 2 ^ (L - (q : ℤ)) := by positivity
  have hb : |y / 2 ^ (L - (q : ℤ))| ≤ ((2 ^ (q + 1) : ℤ) : ℚ) := by
    rw [abs_div, abs_of_pos hp, div_le_iff₀ hp]
    push_cast
    have e : (2 : ℚ) ^ (q + 1) * 2 ^ (L - (q : ℤ)) = 2 ^ (L + 1) := by
      rw [← zpow_natCast, ← zpow_add₀ (by norm_num : (2 : ℚ) ≠ 0)]
      congr 1
      push_cast
      ring
    rw [e]
    exact le_of_lt h2
  rw [abs_le] at hb ⊢
  constructor
  · have := round_half_even_mono hb.1
    rw [← Int.cast_neg, round_half_even_intCast] at this
    exact this
  · have := round_half_even_mono hb.2
    rw [round_half_even_intCast] at this
    exact this

/-- Rounding is idempotent. -/
theorem roundNE_idem (q : ℕ) (y : ℚ) : roundNE (q + 1) (roundNE (q + 1) y) = roundNE (q + 1) y := by
  by_cases hy : y = 0
  · subst hy
    rw [roundNE_zero, roundNE_zero]
  · obtain ⟨m, hm, hb⟩ := roundNE_form q y hy
    rw [hm]
    rcases lt_or_eq_of_le hb with hlt | heq
    · exact roundNE_scaled q m _ hlt
    · -- `|m| = 2 ^ (q + 1)`: write `m * 2 ^ e` as `(m / 2) * 2 ^ (e + 1)`.
      obtain ⟨n, hn, hnb⟩ : ∃ n : ℤ, m = 2 * n ∧ |n| < 2 ^ (q + 1) := by
        have h2 : (2 : ℤ) ^ (q + 1) = 2 * 2 ^ q := by rw [pow_succ]; ring
        have hq : (0 : ℤ) < 2 ^ q := by positivity
        rcases abs_cases m with ⟨e1, _⟩ | ⟨e1, _⟩
        · refine ⟨2 ^ q, by omega, ?_⟩
          rw [abs_of_pos hq]; omega
        · refine ⟨-2 ^ q, by omega, ?_⟩
          rw [abs_neg, abs_of_pos hq]; omega
      have e : (m : ℚ) * 2 ^ (Int.log 2 |y| - (q : ℤ))
          = (n : ℚ) * 2 ^ (Int.log 2 |y| - (q : ℤ) + 1) := by
        rw [hn, zpow_add_one₀ (by norm_num : (2 : ℚ) ≠ 0)]
        push_cast
        ring
      rw [e]
      exact roundNE_scaled q n _ hnb

/-- Subtracting 360 from a `float` above 360 and below `2 ^ 27` is exact. -/
theorem sub_360_exact (a : ℚ) (hf : roundNE 24 a = a) (h1 : 360 < a) (h2 : a < 2 ^ 27) :
    roundNE 24 (a - 360) = a - 360 := by
  have hne : a ≠ 0 := by linarith
  have hpos : 0 < a := by linarith
  obtain ⟨m, hm, hb⟩ := roundNE_form 23 a hne
  rw [show (23 + 1 : ℕ) = 24 from rfl, hf, abs_of_pos hpos] at hm
  simp only [Nat.cast_ofNat] at hm
  have hlog : Int.log 2 a < 27 := by
    have h3 : a < ((2 : ℕ) : ℚ) ^ (27 : ℤ) := by
      norm_num at h2 ⊢
      exact h2
    exact (Int.lt_zpow_iff_log_lt (by decide : 1 < 2) hpos).mp h3
  set L := Int.log 2 a with hL
  obtain ⟨d, hd⟩ : ∃ d : ℕ, (3 : ℤ) - (L - 23) = d := ⟨((3 : ℤ) - (L - 23)).toNat, by omega⟩
  have hu : (0 : ℚ) < 2 ^ (L - 23) := by positivity
  have e360 : (360 : ℚ) = ((45 * 2 ^ d : ℤ) : ℚ) * 2 ^ (L - 23) := by
    push_cast
    rw [mul_assoc, ← zpow_natCast, ← zpow_add₀ (by norm_num : (2 : ℚ) ≠ 0), ← hd]
    have : (3 : ℤ) - (L - 23) + (L - 23) = 3 := by ring
    rw [this]
    norm_num
  have hsub : a - 360 = ((m - 45 * 2 ^ d : ℤ) : ℚ) * 2 ^ (L - 23) := by
    have : ((m - 45 * 2 ^ d : ℤ) : ℚ) = (m : ℚ) - ((45 * 2 ^ d : ℤ) : ℚ) := by push_cast; ring
    rw [this, sub_mul, ← e360, ← hm]
  have hm1 : (0 : ℚ) < ((m - 45 * 2 ^ d : ℤ) : ℚ) := by
    have : 0 < a - 360 := by linarith
    rw [hsub] at this
    exact (mul_pos_iff_of_pos_right hu).mp this
  have hm1z : 0 < m - 45 * 2 ^ d := by exact_mod_cast hm1
  have hdpos : (0 : ℤ) < 45 * 2 ^ d := by positivity
  have hmle : m ≤ 2 ^ 24 := (abs_le.mp hb).2
  rw [hsub]
  exact roundNE_scaled 23 _ _ (by rw [abs_of_pos hm1z]; omega)

/-- The loop `while (a > 360) a -= 360;` on a `float` below `2 ^ 27` in rounded
arithmetic: every subtraction is exact, so the result is `a - 360 * j` for the number `j`
of executions, and it is positive when the body ran. -/
theorem rounded_loop_down_exact :
    ∀ (fuel : ℕ) (a : ℚ), roundNE 24 a = a → a < 2 ^ 27 → a ≤ 360 + 360 * fuel →
      ∃ j : ℕ, j ≤ fuel ∧
        whileLoop (fun a : ℚ => decide (a > 360)) (fun a => roundNE 24 (a - 360)) fuel a
          = some (a - 360 * j) ∧
        a - 360 * j ≤ 360 ∧ (j = 0 ∨ 0 < a - 360 * j)
  | 0, a, _, _, ha => by
    refine ⟨0, le_refl 0, ?_, by simpa using ha, Or.inl rfl⟩
    have : ¬ (a > 360) := by
      simp only [Nat.cast_zero, mul_zero, add_zero] at ha
      exact not_lt.mpr ha
    simp [whileLoop, this]
  | fuel + 1, a, hf, h27, ha => by
    by_cases hc : a > 360
    · have hex := sub_360_exact a hf hc h27
      obtain ⟨j, hj, hw, hle, hp⟩ := rounded_loop_down_exact fuel (a - 360)
        (by rw [hex]) (by linarith) (by push_cast at ha; linarith)
      refine ⟨j + 1, by omega, ?_, ?_, Or.inr ?_⟩
      · rw [whileLoop_of_cond_true _ _ _ _ (by simpa using hc)]
        show whileLoop _ _ fuel (roundNE 24 (a - 360)) = _
        rw [hex, hw]
        congr 1
        push_cast
        ring
      · push_cast; linarith
      · rcases hp with h0 | h0
        · subst h0
          push_cast
          linarith
        · push_cast; linarith
    · refine ⟨0, Nat.zero_le _, ?_, by simpa using not_lt.mp hc, Or.inl rfl⟩
      rw [whileLoop_of_cond_false _ _ _ _ (by simpa using hc)]
      simp

/-! ## Angle normalisation and result packing in rounded arithmetic -/

/-- The loops of lines 254-255 start from the decoded value of line 252. -/
theorem anom_deg_of_raw_decoded {F D : Type} (ops : FloatOps F D) (fuel raw : ℕ) :
    anom_deg_of_raw ops fuel raw =
      (whileLoop (fun a => ops.gtF a (ops.ofIntF 360)) (fun a => ops.subF a (ops.ofIntF 360))
        fuel (anom_deg_decoded ops raw)).bind
        fun a => whileLoop (fun a => ops.ltF a (ops.ofIntF 0))
          (fun a => ops.addF a (ops.ofIntF 360)) fuel a :=
  rfl

/-- Line 252 in rounded arithmetic. -/
theorem rounded_anom_deg_decoded (sinf cosf : ℚ → ℚ) (raw : ℕ) (hraw : raw < 2 ^ 32) :
    anom_deg_decoded (roundedOps sinf cosf) raw =
      roundNE 24 (roundNE 53 (roundNE 53 ((raw : ℚ) * (4722366482869645 / 2 ^ 72)) - 210)) := by
  have hr : (roundedOps sinf cosf).ofIntD ((raw : ℕ) : ℤ) = (raw : ℚ) := by
    show roundNE 53 (((raw : ℤ)) : ℚ) = (raw : ℚ)
    rw [roundNE_53_intCast _ (by rw [abs_of_nonneg (by positivity)]; omega)]
    norm_num
  rw [anom_deg_decoded, rounded_litD_micro, rounded_ofIntD_210, hr]
  rfl

/-- In rounded arithmetic the decoded degrees value of line 252 is within
`2 ^ (-13) + 2 ^ (-39)` of the real number `raw*0.000001 - 210`. -/
theorem rounded_decode_error (sinf cosf : ℚ → ℚ) (raw : ℕ) (hraw : raw < 2 ^ 32) :
    |anom_deg_decoded (roundedOps sinf cosf) raw - ((raw : ℚ) * (1 / 1000000) - 210)|
      ≤ 1 / 2 ^ 13 + 1 / 2 ^ 39 := by
  rw [rounded_anom_deg_decoded sinf cosf raw hraw]
  have hr : (raw : ℚ) ≤ 4294967295 := by
    have : raw ≤ 4294967295 := by omega
    exact_mod_cast this
  have hr0 : (0 : ℚ) ≤ raw := Nat.cast_nonneg raw
  set x := (raw : ℚ) * (4722366482869645 / 2 ^ 72) with hx
  have b1 := roundNE_53_between 0 4295 (by norm_num) (by norm_num) x
    (by push_cast; positivity) (by push_cast; rw [hx]; nlinarith)
  push_cast at b1
  have b2 := roundNE_53_between (-210) 4085 (by norm_num) (by norm_num)
    (roundNE 53 x - 210) (by push_cast; linarith [b1.1]) (by push_cast; linarith [b1.2])
  push_cast at b2
  -- the literal
  have e0 : |x - (raw : ℚ) * (1 / 1000000)| ≤ 1 / 2 ^ 41 := by
    have : x - (raw : ℚ) * (1 / 1000000)
        = (raw : ℚ) * (4722366482869645 / 2 ^ 72 - 1 / 1000000) := by rw [hx]; ring
    rw [this, abs_mul, abs_of_nonneg hr0]
    have h2 : |(4722366482869645 / 2 ^ 72 - 1 / 1000000 : ℚ)| ≤ 1 / 2 ^ 73 := by
      rw [abs_le]; constructor <;> norm_num
    calc (raw : ℚ) * |(4722366482869645 / 2 ^ 72 - 1 / 1000000 : ℚ)|
        ≤ 4294967295 * (1 / 2 ^ 73) := mul_le_mul hr h2 (abs_nonneg _) (by norm_num)
      _ ≤ 1 / 2 ^ 41 := by norm_num
  -- the product
  have e1 : |roundNE 53 x - x| ≤ 1 / 2 ^ 41 := by
    have h := roundNE_error 52 x 12 (by
      rw [abs_of_nonneg (by rw [hx]; positivity)]
      have : x ≤ 4295 := by rw [hx]; nlinarith
      norm_num
      linarith)
    norm_num at h ⊢
    exact h
  -- the difference
  have e2 : |roundNE 53 (roundNE 53 x - 210) - (roundNE 53 x - 210)| ≤ 1 / 2 ^ 42 := by
    have h := roundNE_error 52 (roundNE 53 x - 210) 11 (by
      rw [abs_lt]
      norm_num
      constructor <;> linarith [b1.1, b1.2])
    norm_num at h ⊢
    exact h
  -- the conversion to float
  have e3 : |roundNE 24 (roundNE 53 (roundNE 53 x - 210)) - roundNE 53 (roundNE 53 x - 210)|
      ≤ 1 / 2 ^ 13 := by
    have h := roundNE_error 23 (roundNE 53 (roundNE 53 x - 210)) 11 (by
      rw [abs_lt]
      norm_num
      constructor <;> linarith [b2.1, b2.2])
    norm_num at h ⊢
    exact h
  rw [abs_le] at e0 e1 e2 e3 ⊢
  constructor
  · have : (1 : ℚ) / 2 ^ 41 + 1 / 2 ^ 41 + 1 / 2 ^ 42 ≤ 1 / 2 ^ 39 := by norm_num
    linarith [e0.1, e1.1, e2.1, e3.1]
  · have : (1 : ℚ) / 2 ^ 41 + 1 / 2 ^ 41 + 1 / 2 ^ 42 ≤ 1 / 2 ^ 39 := by norm_num
    linarith [e0.2, e1.2, e2.2, e3.2]

/-- In rounded arithmetic, for every raw unsigned 32-bit field and fuel for 11 loop
executions, the normalised degrees value is the decoded `float` minus `360 * j` exactly
when the decoded value is not negative, and the rounded sum of the decoded value and 360,
within `2 ^ (-16)` of the exact sum, when it is negative. -/
theorem rounded_anom_preserved (sinf cosf : ℚ → ℚ) (raw fuel : ℕ) (hraw : raw < 2 ^ 32)
    (hfuel : 11 ≤ fuel) :
    ∃ a : ℚ, anom_deg_of_raw (roundedOps sinf cosf) fuel raw = some a ∧
      (0 ≤ anom_deg_decoded (roundedOps sinf cosf) raw →
        ∃ j : ℕ, a = anom_deg_decoded (roundedOps sinf cosf) raw - 360 * j) ∧
      (anom_deg_decoded (roundedOps sinf cosf) raw < 0 →
        a = roundNE 24 (anom_deg_decoded (roundedOps sinf cosf) raw + 360) ∧
        |a - (anom_deg_decoded (roundedOps sinf cosf) raw + 360)| ≤ 1 / 2 ^ 16) := by
  rw [rounded_anom_deg_of_raw sinf cosf fuel raw hraw,
    rounded_anom_deg_decoded sinf cosf raw hraw]
  obtain ⟨hlo, hhi⟩ := rounded_anom_raw_bounds raw hraw
  set a0 := roundNE 24 (roundNE 53 (roundNE 53 ((raw : ℚ) * (4722366482869645 / 2 ^ 72)) - 210))
    with ha0
  have hfl : roundNE 24 a0 = a0 := roundNE_idem 23 _
  have hf11 : (11 : ℚ) ≤ fuel := by exact_mod_cast hfuel
  obtain ⟨j, hj, hw, hle, hp⟩ := rounded_loop_down_exact fuel a0 hfl
    (by norm_num; linarith) (by linarith)
  rw [hw, Option.some_bind]
  by_cases hr : 0 ≤ a0 - 360 * (j : ℚ)
  · refine ⟨a0 - 360 * j, ?_, fun _ => ⟨j, rfl⟩, fun hneg => ?_⟩
    · rw [whileLoop_of_cond_false _ _ _ _ (by simpa using hr)]
    · exfalso
      have : (0 : ℚ) ≤ 360 * (j : ℚ) := by positivity
      linarith
  · have hr2 : a0 - 360 * (j : ℚ) < 0 := not_le.mp hr
    have hj0 : j = 0 := by
      rcases hp with h | h
      · exact h
      · exact absurd h (not_lt.mpr (le_of_lt hr2))
    subst hj0
    simp only [Nat.cast_zero, mul_zero, sub_zero] at hr2 ⊢
    obtain ⟨m, rfl⟩ : ∃ m, fuel = m + 1 := ⟨fuel - 1, by omega⟩
    have b := roundNE_24_between 150 360 (by norm_num) (by norm_num) (a0 + 360)
      (by push_cast; linarith) (by push_cast; linarith)
    push_cast at b
    refine ⟨roundNE 24 (a0 + 360), ?_, fun h0 => absurd h0 (not_le.mpr hr2), fun _ => ⟨rfl, ?_⟩⟩
    · rw [whileLoop_of_cond_true _ _ _ _ (by simpa using hr2)]
      rw [whileLoop_of_cond_false _ _ _ _ (by
        simp only [decide_eq_false_iff_not, not_lt]
        linarith [b.1])]
    · have h := roundNE_error 23 (a0 + 360) 8 (by
        rw [abs_lt]
        norm_num
        constructor <;> linarith)
      norm_num at h ⊢
      exact h

/-- Line 271 is the cast of the product. -/
theorem out_int_of_product {F D : Type} (ops : FloatOps F D) (d : F) :
    out_int_of_deg ops d = ops.toU32 (out_product ops d) :=
  rfl

/-- In rounded arithmetic the float product of line 271, for a degrees value in
`[-180, 180]`, is within 32 of the real number `(deg + 210) * 1000000`. -/
theorem rounded_product_error (d : ℚ) (h1 : -180 ≤ d) (h2 : d ≤ 180) :
    |roundNE 24 (roundNE 24 (d + 210) * 1000000) - (d + 210) * 1000000| ≤ 32 := by
  have b1 := roundNE_24_between 30 390 (by norm_num) (by norm_num) (d + 210)
    (by push_cast; linarith) (by push_cast; linarith)
  push_cast at b1
  have e1 : |roundNE 24 (d + 210) - (d + 210)| ≤ 1 / 2 ^ 16 := by
    have h := roundNE_error 23 (d + 210) 8 (by
      rw [abs_lt]
      norm_num
      constructor <;> linarith)
    norm_num at h ⊢
    exact h
  have e2 : |roundNE 24 (roundNE 24 (d + 210) * 1000000) - roundNE 24 (d + 210) * 1000000|
      ≤ 16 := by
    have h := roundNE_error 23 (roundNE 24 (d + 210) * 1000000) 28 (by
      rw [abs_lt]
      norm_num
      constructor <;> linarith [b1.1, b1.2])
    norm_num at h ⊢
    exact h
  rw [abs_le] at e1 e2 ⊢
  constructor <;> linarith [e1.1, e1.2, e2.1, e2.2]

/-! ## IEEE rounding lemmas -/

/-- In the normal range and without overflow, IEEE rounding is rounding to `p` bits. -/
theorem roundIEEE_normal (p : ℕ) (emax : ℤ) (x : ℚ) (hx : x ≠ 0)
    (hsub : 2 - emax - (p : ℤ) ≤ Int.log 2 |x| - ((p : ℤ) - 1))
    (hov : |roundNE p x| < (2 : ℚ) ^ (emax + 1)) :
    roundIEEE p emax x = Fl.fin (roundNE p x) := by
  have hr : roundNE p x = (round_half_even (x / 2 ^ (Int.log 2 |x| - ((p : ℤ) - 1))) : ℚ)
      * 2 ^ (Int.log 2 |x| - ((p : ℤ) - 1)) := by
    unfold roundNE
    rw [if_neg hx]
  rw [hr] at hov ⊢
  unfold roundIEEE
  rw [if_neg hx]
  simp only [max_eq_left hsub]
  rw [if_neg (not_le.mpr hov)]

/-- Evaluation of a rounding to `float` from the exponent `e` of the unit in the last
place and the integer significand `n`. -/
theorem roundF_eq (x : ℚ) (e n : ℤ) (hx : x ≠ 0)
    (hlo : (2 : ℚ) ^ (e + 23) ≤ |x|) (hhi : |x| < (2 : ℚ) ^ (e + 24))
    (hn : |x / 2 ^ e - n| < 1 / 2) (he1 : -149 ≤ e) (hov : |(n : ℚ) * 2 ^ e| < 2 ^ 128) :
    roundIEEE 24 127 x = Fl.fin (n * 2 ^ e) := by
  have hr : roundNE 24 x = n * 2 ^ e :=
    roundNE_eq 24 x e n hx (by simpa using hlo) (by
      have : e + (((24 : ℕ) : ℤ) - 1) + 1 = e + 24 := by push_cast; ring
      rw [this]; exact hhi) hn
  have hlog : Int.log 2 |x| = e + 23 :=
    int_log_two_eq |x| _ (abs_pos.mpr hx) hlo (by
      have : e + 23 + 1 = e + 24 := by ring
      rw [this]; exact hhi)
  rw [roundIEEE_normal 24 127 x hx (by rw [hlog]; push_cast; omega) (by
    rw [hr]
    have : ((127 : ℤ) + 1) = ((128 : ℕ) : ℤ) := by norm_num
    rw [this, zpow_natCast]
    exact hov), hr]

/-- A negative value whose rounding to 24 bits has magnitude `2 ^ 128` or more overflows
to the negative infinity. -/
theorem roundF_overflow_neg (x : ℚ) (e n : ℤ) (hx : x < 0)
    (hlo : (2 : ℚ) ^ (e + 23) ≤ |x|) (hhi : |x| < (2 : ℚ) ^ (e + 24))
    (hn : |x / 2 ^ e - n| < 1 / 2) (he1 : -149 ≤ e) (hov : (2 : ℚ) ^ 128 ≤ |(n : ℚ) * 2 ^ e|) :
    roundIEEE 24 127 x = Fl.ninf := by
  have hne : x ≠ 0 := ne_of_lt hx
  have hlog : Int.log 2 |x| = e + 23 :=
    int_log_two_eq |x| _ (abs_pos.mpr hne) hlo (by
      have : e + 23 + 1 = e + 24 := by ring
      rw [this]; exact hhi)
  have hr : round_half_even (x / 2 ^ e) = n := round_half_even_eq _ n hn
  unfold roundIEEE
  rw [if_neg hne]
  have hmax : max (Int.log 2 |x| - (((24 : ℕ) : ℤ) - 1)) (2 - 127 - ((24 : ℕ) : ℤ)) = e := by
    rw [hlog]; push_cast; rw [max_eq_left (by omega)]; ring
  simp only [hmax, hr]
  have : ((127 : ℤ) + 1) = ((128 : ℕ) : ℤ) := by norm_num
  rw [this, zpow_natCast, if_pos hov, if_neg (not_lt.mpr (le_of_lt hx))]

/-! ## IEEE arithmetic: the operations on NaN and on finite values -/

theorem ieee_addF (sinf cosf : ℚ → ℚ) (x y : Fl) :
    (ieeeOps sinf cosf).addF x y = Fl.add (roundIEEE 24 127) x y := rfl

theorem ieee_subF (sinf cosf : ℚ → ℚ) (x y : Fl) :
    (ieeeOps sinf cosf).subF x y = Fl.sub (roundIEEE 24 127) x y := rfl

theorem ieee_mulF (sinf cosf : ℚ → ℚ) (x y : Fl) :
    (ieeeOps sinf cosf).mulF x y = Fl.mul (roundIEEE 24 127) x y := rfl

theorem ieee_divF (sinf cosf : ℚ → ℚ) (x y : Fl) :
    (ieeeOps sinf cosf).divF x y = Fl.div (roundIEEE 24 127) x y := rfl

theorem ieee_subD (sinf cosf : ℚ → ℚ) (x y : Fl) :
    (ieeeOps sinf cosf).subD x y = Fl.sub (roundIEEE 53 1023) x y := rfl

theorem ieee_mulD (sinf cosf : ℚ → ℚ) (x y : Fl) :
    (ieeeOps sinf cosf).mulD x y = Fl.mul (roundIEEE 53 1023) x y := rfl

theorem ieee_divD (sinf cosf : ℚ → ℚ) (x y : Fl) :
    (ieeeOps sinf cosf).divD x y = Fl.div (roundIEEE 53 1023) x y := rfl

theorem ieee_toF (sinf cosf : ℚ → ℚ) (x : Fl) :
    (ieeeOps sinf cosf).toF x = Fl.toFloat x := rfl

theorem ieee_toD (sinf cosf : ℚ → ℚ) (x : Fl) : (ieeeOps sinf cosf).toD x = x := rfl

theorem ieee_gtF (sinf cosf : ℚ → ℚ) (x y : Fl) :
    (ieeeOps sinf cosf).gtF x y = Fl.lt y x := rfl

theorem ieee_ltF (sinf cosf : ℚ → ℚ) (x y : Fl) :
    (ieeeOps sinf cosf).ltF x y = Fl.lt x y := rfl

theorem ieee_geF (sinf cosf : ℚ → ℚ) (x y : Fl) :
    (ieeeOps sinf cosf).geF x y = Fl.le y x := rfl

theorem ieee_fabsf (sinf cosf : ℚ → ℚ) (x : Fl) :
    (ieeeOps sinf cosf).fabsf x = Fl.abs x := rfl

theorem ieee_ofIntF (sinf cosf : ℚ → ℚ) (i : ℤ) :
    (ieeeOps sinf cosf).ofIntF i = roundIEEE 24 127 (i : ℚ) := rfl

theorem ieee_ofIntD (sinf cosf : ℚ → ℚ) (i : ℤ) :
    (ieeeOps sinf cosf).ofIntD i = roundIEEE 53 1023 (i : ℚ) := rfl

theorem ieee_litD (sinf cosf : ℚ → ℚ) (q : ℚ) :
    (ieeeOps sinf cosf).litD q = roundIEEE 53 1023 q := rfl

theorem ieee_M_PI (sinf cosf : ℚ → ℚ) :
    (ieeeOps sinf cosf).M_PI = Fl.fin (884279719003555 / 281474976710656) := rfl

theorem ieee_toU32 (sinf cosf : ℚ → ℚ) (x : Fl) :
    (ieeeOps sinf cosf).toU32 x = Fl.toU32 x := rfl

theorem Fl.add_fin (rnd : ℚ → Fl) (x y : ℚ) :
    Fl.add rnd (Fl.fin x) (Fl.fin y) = rnd (x + y) := rfl

theorem Fl.sub_fin (rnd : ℚ → Fl) (x y : ℚ) :
    Fl.sub rnd (Fl.fin x) (Fl.fin y) = rnd (x - y) := rfl

theorem Fl.mul_fin (rnd : ℚ → Fl) (x y : ℚ) :
    Fl.mul rnd (Fl.fin x) (Fl.fin y) = rnd (x * y) := rfl

theorem Fl.div_fin (rnd : ℚ → Fl) (x y : ℚ) (hy : y ≠ 0) :
    Fl.div rnd (Fl.fin x) (Fl.fin y) = rnd (x / y) := by
  show (if y = 0 then _ else rnd (x / y)) = _
  rw [if_neg hy]

theorem Fl.toFloat_fin (x : ℚ) : Fl.toFloat (Fl.fin x) = roundIEEE 24 127 x := rfl

theorem Fl.toFloat_nan : Fl.toFloat Fl.nan = Fl.nan := rfl

theorem Fl.lt_fin (x y : ℚ) : Fl.lt (Fl.fin x) (Fl.fin y) = decide (x < y) := rfl

theorem Fl.le_fin (x y : ℚ) : Fl.le (Fl.fin x) (Fl.fin y) = decide (x ≤ y) := rfl

theorem Fl.toU32_nan : Fl.toU32 Fl.nan = 0 := rfl

theorem Fl.sub_nan_right (rnd : ℚ → Fl) (x : Fl) : Fl.sub rnd x Fl.nan = Fl.nan := by
  cases x <;> rfl

theorem Fl.sub_nan_left (rnd : ℚ → Fl) (x : Fl) : Fl.sub rnd Fl.nan x = Fl.nan := by
  cases x <;> rfl

theorem Fl.add_nan_left (rnd : ℚ → Fl) (x : Fl) : Fl.add rnd Fl.nan x = Fl.nan := by
  cases x <;> rfl

theorem Fl.mul_nan_right (rnd : ℚ → Fl) (x : Fl) : Fl.mul rnd x Fl.nan = Fl.nan := by
  cases x <;> rfl

theorem Fl.mul_nan_left (rnd : ℚ → Fl) (x : Fl) : Fl.mul rnd Fl.nan x = Fl.nan := by
  cases x <;> rfl

theorem Fl.div_nan_left (rnd : ℚ → Fl) (x : Fl) : Fl.div rnd Fl.nan x = Fl.nan := by
  cases x <;> rfl

theorem Fl.div_nan_right (rnd : ℚ → Fl) (x : Fl) : Fl.div rnd x Fl.nan = Fl.nan := by
  cases x <;> rfl

theorem Fl.lt_nan_right (x : Fl) : Fl.lt x Fl.nan = false := by
  cases x <;> rfl

theorem Fl.lt_nan_left (x : Fl) : Fl.lt Fl.nan x = false := by
  cases x <;> rfl

theorem Fl.le_nan_right (x : Fl) : Fl.le x Fl.nan = false := by
  cases x <;> rfl

theorem Fl.le_nan_left (x : Fl) : Fl.le Fl.nan x = false := by
  cases x <;> rfl

/-- The conversion of the integer 1 to `float`. -/
theorem ieee_ofIntF_one (sinf cosf : ℚ → ℚ) : (ieeeOps sinf cosf).ofIntF 1 = Fl.fin 1 := by
  show roundIEEE 24 127 (((1 : ℤ) : ℤ) : ℚ) = Fl.fin 1
  have hc : (((1 : ℤ) : ℤ) : ℚ) = 1 := by norm_num
  rw [hc, roundF_eq 1 (-23) 8388608 (by norm_num) (by norm_num [abs_of_pos])
    (by norm_num [abs_of_pos]) (by norm_num [abs_of_pos]) (by norm_num)
    (by norm_num [abs_of_pos])]
  norm_num

/-- The tolerance `10*__FLT_EPSILON__` in IEEE arithmetic: `10 * 2 ^ (-23)`. -/
theorem ieee_tol (sinf cosf : ℚ → ℚ) : tol (ieeeOps sinf cosf) = Fl.fin (10 / 2 ^ 23) := by
  have h10 : (ieeeOps sinf cosf).ofIntF 10 = Fl.fin 10 := by
    show roundIEEE 24 127 (((10 : ℤ) : ℤ) : ℚ) = Fl.fin 10
    have hc : (((10 : ℤ) : ℤ) : ℚ) = 10 := by norm_num
    rw [hc, roundF_eq 10 (-20) 10485760 (by norm_num) (by norm_num [abs_of_pos])
      (by norm_num [abs_of_pos]) (by norm_num [abs_of_pos]) (by norm_num)
      (by norm_num [abs_of_pos])]
    norm_num
  rw [tol, h10]
  show roundIEEE 24 127 (10 * (1 / 2 ^ 23)) = Fl.fin (10 / 2 ^ 23)
  rw [roundF_eq _ (-43) 10485760 (by norm_num) (by norm_num [abs_of_pos])
    (by norm_num [abs_of_pos]) (by norm_num [abs_of_pos]) (by norm_num)
    (by norm_num [abs_of_pos])]
  norm_num

/-- The loop test of `Keplers_Law` on a finite residual, in IEEE arithmetic. -/
theorem ieee_kepler_cond_fin (sinf cosf : ℚ → ℚ) (E : Fl) (err : ℚ) :
    kepler_cond (ieeeOps sinf cosf) (E, Fl.fin err) = decide (10 / 2 ^ 23 < |err|) := by
  rw [kepler_cond, ieee_tol]
  rfl

/-- The loop test of `Keplers_Law` is false on a NaN residual. -/
theorem ieee_kepler_cond_nan (sinf cosf : ℚ → ℚ) (E : Fl) :
    kepler_cond (ieeeOps sinf cosf) (E, Fl.nan) = false := by
  rw [kepler_cond, ieee_tol]
  rfl

/-- The nearest integer at a tie: the even neighbour. -/
theorem round_half_even_tie (q : ℚ) (n : ℤ) (h : |q - n| = 1 / 2) (hev : n % 2 = 0) :
    round_half_even q = n := by
  unfold round_half_even
  rcases abs_eq (by norm_num : (0 : ℚ) ≤ 1 / 2) |>.mp h with h1 | h1
  · have hf : ⌊q⌋ = n := by
      rw [Int.floor_eq_iff]
      constructor <;> linarith
    rw [hf, if_neg (by linarith), if_neg (by linarith), if_pos hev]
  · have hf : ⌊q⌋ = n - 1 := by
      rw [Int.floor_eq_iff]
      push_cast
      constructor <;> linarith
    rw [hf]
    push_cast
    rw [if_neg (by linarith), if_neg (by linarith), if_neg (by omega)]
    ring

/-- Evaluation of a rounding to `float` from the exponent `e` of the unit in the last
place and the nearest significand `n`, given as the value of `round_half_even`. -/
theorem roundF_val (x : ℚ) (e n : ℤ) (v : ℚ) (hx : x ≠ 0)
    (hlo : (2 : ℚ) ^ (e + 23) ≤ |x|) (hhi : |x| < (2 : ℚ) ^ (e + 24))
    (hn : round_half_even (x / 2 ^ e) = n) (he1 : -149 ≤ e)
    (hov : |(n : ℚ) * 2 ^ e| < 2 ^ 128) (hv : (n : ℚ) * 2 ^ e = v) :
    roundIEEE 24 127 x = Fl.fin v := by
  have hlog : Int.log 2 |x| = e + 23 :=
    int_log_two_eq |x| _ (abs_pos.mpr hx) hlo (by
      have : e + 23 + 1 = e + 24 := by ring
      rw [this]; exact hhi)
  have hr : roundNE 24 x = n * 2 ^ e := by
    unfold roundNE
    rw [if_neg hx]
    have : Int.log 2 |x| - (((24 : ℕ) : ℤ) - 1) = e := by rw [hlog]; push_cast; ring
    simp only [this, hn]
  rw [roundIEEE_normal 24 127 x hx (by rw [hlog]; push_cast; omega) (by
    rw [hr]
    have : ((127 : ℤ) + 1) = ((128 : ℕ) : ℤ) := by norm_num
    rw [this, zpow_natCast]
    exact hov), hr, hv]

/-- Evaluation of a rounding to `double`, as `roundF_val`. -/
theorem roundD_val (x : ℚ) (e n : ℤ) (v : ℚ) (hx : x ≠ 0)
    (hlo : (2 : ℚ) ^ (e + 52) ≤ |x|) (hhi : |x| < (2 : ℚ) ^ (e + 53))
    (hn : round_half_even (x / 2 ^ e) = n) (he1 : -1074 ≤ e)
    (hov : |(n : ℚ) * 2 ^ e| < 2 ^ 1024) (hv : (n : ℚ) * 2 ^ e = v) :
    roundIEEE 53 1023 x = Fl.fin v := by
  have hlog : Int.log 2 |x| = e + 52 :=
    int_log_two_eq |x| _ (abs_pos.mpr hx) hlo (by
      have : e + 52 + 1 = e + 53 := by ring
      rw [this]; exact hhi)
  have hr : roundNE 53 x = n * 2 ^ e := by
    unfold roundNE
    rw [if_neg hx]
    have : Int.log 2 |x| - (((53 : ℕ) : ℤ) - 1) = e := by rw [hlog]; push_cast; ring
    simp only [this, hn]
  rw [roundIEEE_normal 53 1023 x hx (by rw [hlog]; push_cast; omega) (by
    rw [hr]
    have : ((1023 : ℤ) + 1) = ((1024 : ℕ) : ℤ) := by norm_num
    rw [this, zpow_natCast]
    exact hov), hr, hv]

/-- Evaluation of a rounding to `float` whose significand `n` lies strictly between
`2 ^ 23` and `2 ^ 24` in magnitude: the binade of `x` follows from that of `n`. -/
theorem roundF_int (x : ℚ) (e n : ℤ) (v : ℚ) (hn : round_half_even (x / 2 ^ e) = n)
    (hlo : 2 ^ 23 < |n|) (hhi : |n| < 2 ^ 24) (he1 : -149 ≤ e) (he2 : e ≤ 103)
    (hv : (n : ℚ) * 2 ^ e = v) : roundIEEE 24 127 x = Fl.fin v := by
  have hp : (0 : ℚ) < 2 ^ e := by positivity
  have herr := round_half_even_error (x / 2 ^ e)
  rw [hn] at herr
  have hlo1 : (2 : ℤ) ^ 23 + 1 ≤ |n| := hlo
  have hhi1 : |n| ≤ (2 : ℤ) ^ 24 - 1 := by omega
  have hloq : ((2 : ℚ) ^ 23 + 1) ≤ |(n : ℚ)| := by
    have : (((2 : ℤ) ^ 23 + 1 : ℤ) : ℚ) ≤ ((|n| : ℤ) : ℚ) := by exact_mod_cast hlo1
    rw [Int.cast_abs] at this
    norm_num at this ⊢
    exact this
  have hhiq : |(n : ℚ)| ≤ (2 : ℚ) ^ 24 - 1 := by
    have : ((|n| : ℤ) : ℚ) ≤ (((2 : ℤ) ^ 24 - 1 : ℤ) : ℚ) := by exact_mod_cast hhi1
    rw [Int.cast_abs] at this
    norm_num at this ⊢
    exact this
  have h1 : |(n : ℚ)| - |x / 2 ^ e| ≤ 1 / 2 :=
    le_trans (le_trans (le_abs_self _) (abs_abs_sub_abs_le_abs_sub _ _)) herr
  have h2 : |x / 2 ^ e| - |(n : ℚ)| ≤ 1 / 2 := by
    have h := le_trans (le_abs_self _) (abs_abs_sub_abs_le_abs_sub (x / 2 ^ e) (n : ℚ))
    rw [abs_sub_comm] at h
    exact le_trans h herr
  have hq1 : (2 : ℚ) ^ 23 ≤ |x / 2 ^ e| := by linarith
  have hq2 : |x / 2 ^ e| < (2 : ℚ) ^ 24 := by linarith
  rw [abs_div, abs_of_pos hp] at hq1 hq2
  have hx1 : (2 : ℚ) ^ (e + 23) ≤ |x| := by
    rw [zpow_add₀ (by norm_num : (2 : ℚ) ≠ 0)]
    have := (le_div_iff₀ hp).mp hq1
    have e2 : (2 : ℚ) ^ (23 : ℤ) = 2 ^ 23 := by norm_num
    rw [e2]
    linarith
  have hx2 : |x| < (2 : ℚ) ^ (e + 24) := by
    rw [zpow_add₀ (by norm_num : (2 : ℚ) ≠ 0)]
    have := (div_lt_iff₀ hp).mp hq2
    have e2 : (2 : ℚ) ^ (24 : ℤ) = 2 ^ 24 := by norm_num
    rw [e2]
    linarith
  have hx : x ≠ 0 := by
    intro h0
    rw [h0, abs_zero] at hx1
    exact absurd hx1 (not_le.mpr (by positivity))
  refine roundF_val x e n v hx hx1 hx2 hn he1 ?_ hv
  rw [abs_mul, abs_of_pos hp]
  have h3 : (2 : ℚ) ^ e ≤ 2 ^ (103 : ℤ) := zpow_le_zpow_right₀ (by norm_num) he2
  have h4 : |(n : ℚ)| * 2 ^ e ≤ (2 ^ 24 - 1) * 2 ^ (103 : ℤ) :=
    mul_le_mul hhiq h3 (le_of_lt hp) (by norm_num)
  have h5 : ((2 : ℚ) ^ 24 - 1) * 2 ^ (103 : ℤ) < 2 ^ 128 := by norm_num
  linarith

/-- Absorption, from the significand: a `float` `m * 2 ^ k` with `2 ^ 23 < |m| < 2 ^ 24`
and `k ≥ 2` is unchanged by the subtraction of anything of magnitude at most 1. -/
theorem roundF_absorb_int (E t : ℚ) (m : ℤ) (k : ℕ) (hE : (m : ℚ) * 2 ^ k = E)
    (hm1 : 2 ^ 23 < |m|) (hm2 : |m| < 2 ^ 24) (hk1 : 2 ≤ k) (hk2 : k ≤ 103)
    (ht : |t| ≤ 1) : roundIEEE 24 127 (E - t) = Fl.fin E := by
  have hp : (0 : ℚ) < 2 ^ k := by positivity
  have h4 : (4 : ℚ) ≤ 2 ^ k := by
    have : (2 : ℚ) ^ 2 ≤ 2 ^ k := pow_le_pow_right₀ (by norm_num) hk1
    linarith
  refine roundF_int (E - t) (k : ℤ) m E (round_half_even_eq _ m ?_) hm1 hm2 (by omega)
    (by omega) (by rw [zpow_natCast]; exact hE)
  rw [zpow_natCast, ← hE]
  have e1 : ((m : ℚ) * 2 ^ k - t) / 2 ^ k - m = -(t / 2 ^ k) := by
    field_simp
    ring
  rw [e1, abs_neg, abs_div, abs_of_pos hp, div_lt_iff₀ hp]
  linarith

/-- A product of magnitude at most 1 rounds to a finite `float` of magnitude at most 1. -/
theorem roundF_le_one (x : ℚ) (h : |x| ≤ 1) :
    ∃ t : ℚ, roundIEEE 24 127 x = Fl.fin t ∧ |t| ≤ 1 := by
  by_cases hx : x = 0
  · exact ⟨0, by simp [roundIEEE, hx], by norm_num⟩
  · have hpos : 0 < |x| := abs_pos.mpr hx
    have hlog : Int.log 2 |x| ≤ 0 := by
      have h2 : |x| < ((2 : ℕ) : ℚ) ^ ((0 : ℤ) + 1) := by norm_num; linarith
      have := (Int.lt_zpow_iff_log_lt (by decide : 1 < 2) hpos).mp h2
      omega
    set e : ℤ := max (Int.log 2 |x| - (((24 : ℕ) : ℤ) - 1)) (2 - 127 - ((24 : ℕ) : ℤ)) with he
    have he0 : e ≤ 0 := by
      rw [he]; push_cast; exact max_le (by omega) (by norm_num)
    obtain ⟨d, hd⟩ : ∃ d : ℕ, -e = d := ⟨(-e).toNat, by omega⟩
    have hed : e = -(d : ℤ) := by omega
    have hp : (0 : ℚ) < 2 ^ e := by positivity
    have hb : |x / 2 ^ e| ≤ ((2 ^ d : ℤ) : ℚ) := by
      rw [abs_div, abs_of_pos hp, div_le_iff₀ hp, hed]
      push_cast
      rw [zpow_neg, zpow_natCast, mul_inv_cancel₀ (by positivity)]
      exact h
    rw [abs_le] at hb
    have r1 := round_half_even_mono hb.1
    rw [← Int.cast_neg, round_half_even_intCast] at r1
    have r2 := round_half_even_mono hb.2
    rw [round_half_even_intCast] at r2
    set R := round_half_even (x / 2 ^ e) with hR
    have hRq : |(R : ℚ)| ≤ 2 ^ d := by
      rw [abs_le]
      constructor
      · have : ((-(2 ^ d) : ℤ) : ℚ) ≤ (R : ℚ) := by exact_mod_cast r1
        push_cast at this
        exact this
      · have : (R : ℚ) ≤ ((2 ^ d : ℤ) : ℚ) := by exact_mod_cast r2
        push_cast at this
        exact this
    have hr1 : |(R : ℚ) * 2 ^ e| ≤ 1 := by
      rw [abs_mul, abs_of_pos hp, hed, zpow_neg, zpow_natCast]
      calc |(R : ℚ)| * ((2 : ℚ) ^ d)⁻¹ ≤ 2 ^ d * ((2 : ℚ) ^ d)⁻¹ :=
            mul_le_mul_of_nonneg_right hRq (by positivity)
        _ = 1 := mul_inv_cancel₀ (by positivity)
    refine ⟨(R : ℚ) * 2 ^ e, ?_, hr1⟩
    unfold roundIEEE
    rw [if_neg hx]
    simp only [← he, ← hR]
    rw [if_neg (not_le.mpr (lt_of_le_of_lt hr1 (by norm_num)))]

/-- One Newton iteration in IEEE arithmetic on finite values, from the values of `sinf`
and `cosf` at the estimate and the seven rounded operations. -/
theorem ieee_body_table (sinf cosf : ℚ → ℚ) (M e E S C t1 t2 err t3 d t4 E2 : ℚ)
    (hs : sinf E = S) (hc : cosf E = C)
    (h1 : roundIEEE 24 127 (e * S) = Fl.fin t1)
    (h2 : roundIEEE 24 127 (E - t1) = Fl.fin t2)
    (h3 : roundIEEE 24 127 (t2 - M) = Fl.fin err)
    (h4 : roundIEEE 24 127 (e * C) = Fl.fin t3)
    (h5 : roundIEEE 24 127 (1 - t3) = Fl.fin d) (hd : d ≠ 0)
    (h6 : roundIEEE 24 127 (err / d) = Fl.fin t4)
    (h7 : roundIEEE 24 127 (E - t4) = Fl.fin E2) (x : Fl) :
    kepler_body (ieeeOps sinf cosf) (Fl.fin M) (Fl.fin e) (Fl.fin E, x)
      = (Fl.fin E2, Fl.fin err) := by
  have hf : formula (ieeeOps sinf cosf) (Fl.fin E) (Fl.fin e) (Fl.fin M) = Fl.fin err := by
    show Fl.sub (roundIEEE 24 127) (Fl.sub (roundIEEE 24 127) (Fl.fin E)
      (Fl.mul (roundIEEE 24 127) (Fl.fin e) (Fl.fin (sinf E)))) (Fl.fin M) = Fl.fin err
    rw [hs]
    show Fl.sub (roundIEEE 24 127) (Fl.sub (roundIEEE 24 127) (Fl.fin E)
      (roundIEEE 24 127 (e * S))) (Fl.fin M) = Fl.fin err
    rw [h1]
    show Fl.sub (roundIEEE 24 127) (roundIEEE 24 127 (E - t1)) (Fl.fin M) = Fl.fin err
    rw [h2]
    exact h3
  have hdv : formula_derivative (ieeeOps sinf cosf) (Fl.fin E) (Fl.fin e) = Fl.fin d := by
    rw [formula_derivative, ieee_ofIntF_one]
    show Fl.sub (roundIEEE 24 127) (Fl.fin 1)
      (Fl.mul (roundIEEE 24 127) (Fl.fin e) (Fl.fin (cosf E))) = Fl.fin d
    rw [hc]
    show Fl.sub (roundIEEE 24 127) (Fl.fin 1) (roundIEEE 24 127 (e * C)) = Fl.fin d
    rw [h4]
    exact h5
  rw [kepler_body]
  simp only [hf, hdv]
  show (Fl.sub (roundIEEE 24 127) (Fl.fin E) (Fl.div (roundIEEE 24 127) (Fl.fin err) (Fl.fin d)),
    Fl.fin err) = _
  have hq : Fl.div (roundIEEE 24 127) (Fl.fin err) (Fl.fin d) = Fl.fin t4 := by
    show (if d = 0 then _ else roundIEEE 24 127 (err / d)) = _
    rw [if_neg hd, h6]
  rw [hq]
  show (roundIEEE 24 127 (E - t4), Fl.fin err) = _
  rw [h7]

/-- One Newton iteration in IEEE arithmetic on a large estimate: whatever `sinf` returns
within `[-1, 1]`, the term `eccentricity*sinf(E)` is absorbed in the subtraction from
`E`, so the residual is the rounded `E - M`. -/
theorem ieee_body_big (sinf cosf : ℚ → ℚ) (M e E C err t3 d t4 E2 : ℚ)
    (hs : |sinf E| ≤ 1) (he0 : 0 ≤ e) (he1 : e ≤ 1) (hc : cosf E = C)
    (m : ℤ) (k : ℕ) (hE : (m : ℚ) * 2 ^ k = E) (hm1 : 2 ^ 23 < |m|) (hm2 : |m| < 2 ^ 24)
    (hk1 : 2 ≤ k) (hk2 : k ≤ 103)
    (h3 : roundIEEE 24 127 (E - M) = Fl.fin err)
    (h4 : roundIEEE 24 127 (e * C) = Fl.fin t3)
    (h5 : roundIEEE 24 127 (1 - t3) = Fl.fin d) (hd : d ≠ 0)
    (h6 : roundIEEE 24 127 (err / d) = Fl.fin t4)
    (h7 : roundIEEE 24 127 (E - t4) = Fl.fin E2) (x : Fl) :
    kepler_body (ieeeOps sinf cosf) (Fl.fin M) (Fl.fin e) (Fl.fin E, x)
      = (Fl.fin E2, Fl.fin err) := by
  have hes : |e * sinf E| ≤ 1 := by
    rw [abs_mul, abs_of_nonneg he0]
    calc e * |sinf E| ≤ 1 * 1 := mul_le_mul he1 hs (abs_nonneg _) (by norm_num)
      _ = 1 := by norm_num
  obtain ⟨t1, ht1, hb1⟩ := roundF_le_one _ hes
  exact ieee_body_table sinf cosf M e E (sinf E) C t1 E err t3 d t4 E2 rfl hc ht1
    (roundF_absorb_int E t1 m k hE hm1 hm2 hk1 hk2 hb1) h3 h4 h5 hd h6 h7 x

/-- The Newton iteration whose quotient `error/formula_derivative` overflows to the
negative infinity: the new estimate is the positive infinity. -/
theorem ieee_body_overflow (sinf cosf : ℚ → ℚ) (M e E C err t3 d : ℚ)
    (hs : |sinf E| ≤ 1) (he0 : 0 ≤ e) (he1 : e ≤ 1) (hc : cosf E = C)
    (m : ℤ) (k : ℕ) (hE : (m : ℚ) * 2 ^ k = E) (hm1 : 2 ^ 23 < |m|) (hm2 : |m| < 2 ^ 24)
    (hk1 : 2 ≤ k) (hk2 : k ≤ 103)
    (h3 : roundIEEE 24 127 (E - M) = Fl.fin err)
    (h4 : roundIEEE 24 127 (e * C) = Fl.fin t3)
    (h5 : roundIEEE 24 127 (1 - t3) = Fl.fin d) (hd : d ≠ 0)
    (h6 : roundIEEE 24 127 (err / d) = Fl.ninf) (x : Fl) :
    kepler_body (ieeeOps sinf cosf) (Fl.fin M) (Fl.fin e) (Fl.fin E, x)
      = (Fl.pinf, Fl.fin err) := by
  have hes : |e * sinf E| ≤ 1 := by
    rw [abs_mul, abs_of_nonneg he0]
    calc e * |sinf E| ≤ 1 * 1 := mul_le_mul he1 hs (abs_nonneg _) (by norm_num)
      _ = 1 := by norm_num
  obtain ⟨t1, ht1, hb1⟩ := roundF_le_one _ hes
  have h2 := roundF_absorb_int E t1 m k hE hm1 hm2 hk1 hk2 hb1
  have hf : formula (ieeeOps sinf cosf) (Fl.fin E) (Fl.fin e) (Fl.fin M) = Fl.fin err := by
    show Fl.sub (roundIEEE 24 127) (Fl.sub (roundIEEE 24 127) (Fl.fin E)
      (roundIEEE 24 127 (e * sinf E))) (Fl.fin M) = Fl.fin err
    rw [ht1]
    show Fl.sub (roundIEEE 24 127) (roundIEEE 24 127 (E - t1)) (Fl.fin M) = Fl.fin err
    rw [h2]
    exact h3
  have hdv : formula_derivative (ieeeOps sinf cosf) (Fl.fin E) (Fl.fin e) = Fl.fin d := by
    rw [formula_derivative, ieee_ofIntF_one]
    show Fl.sub (roundIEEE 24 127) (Fl.fin 1)
      (Fl.mul (roundIEEE 24 127) (Fl.fin e) (Fl.fin (cosf E))) = Fl.fin d
    rw [hc]
    show Fl.sub (roundIEEE 24 127) (Fl.fin 1) (roundIEEE 24 127 (e * C)) = Fl.fin d
    rw [h4]
    exact h5
  rw [kepler_body]
  simp only [hf, hdv]
  show (Fl.sub (roundIEEE 24 127) (Fl.fin E) (Fl.div (roundIEEE 24 127) (Fl.fin err) (Fl.fin d)),
    Fl.fin err) = _
  have hq : Fl.div (roundIEEE 24 127) (Fl.fin err) (Fl.fin d) = Fl.ninf := by
    show (if d = 0 then _ else roundIEEE 24 127 (err / d)) = _
    rw [if_neg hd, h6]
  rw [hq]
  rfl

/-- The Newton iteration on an infinite estimate: `sinf` and `cosf` return NaN, and the
residual and the new estimate are NaN. -/
theorem ieee_body_inf (sinf cosf : ℚ → ℚ) (M e : Fl) (x : Fl) :
    kepler_body (ieeeOps sinf cosf) M e (Fl.pinf, x) = (Fl.nan, Fl.nan) := by
  have hf : formula (ieeeOps sinf cosf) Fl.pinf e M = Fl.nan := by
    show Fl.sub (roundIEEE 24 127) (Fl.sub (roundIEEE 24 127) Fl.pinf
      (Fl.mul (roundIEEE 24 127) e Fl.nan)) M = Fl.nan
    rw [Fl.mul_nan_right, Fl.sub_nan_right, Fl.sub_nan_left]
  have hdv : formula_derivative (ieeeOps sinf cosf) Fl.pinf e = Fl.nan := by
    show Fl.sub (roundIEEE 24 127) ((ieeeOps sinf cosf).ofIntF 1)
      (Fl.mul (roundIEEE 24 127) e Fl.nan) = Fl.nan
    rw [Fl.mul_nan_right, Fl.sub_nan_right]
  rw [kepler_body]
  simp only [hf, hdv]
  show (Fl.sub (roundIEEE 24 127) Fl.pinf (Fl.div (roundIEEE 24 127) Fl.nan Fl.nan), Fl.nan) = _
  rfl

/-- Chaining of loop iterations: a state on which the test holds is replaced by the
result of the body. -/
theorem whileLoop_step {S : Type} (cond : S → Bool) (body : S → S) (fuel : ℕ) (s t : S)
    (r : Option S) (hc : cond s = true) (hb : body s = t)
    (h : whileLoop cond body fuel t = r) : whileLoop cond body (fuel + 1) s = r := by
  rw [whileLoop_of_cond_true _ _ _ _ hc, hb, h]

/-! ## The run of the solver on the request with raw mean anomaly 210,005,453 and raw
eccentricity 640 -/

/-- Newton iteration 0 of the run. -/
theorem nan_run_step_0 (sinf cosf : ℚ → ℚ) (hs : sinf (6540225 / 2 ^ 36) = 6540225 / 2 ^ 36)
    (hc : cosf (6540225 / 2 ^ 36) = 1) (x : Fl) :
    kepler_body (ieeeOps sinf cosf) (Fl.fin (6540225 / 2 ^ 36)) (Fl.fin (8388607 / 2 ^ 23)) (Fl.fin (6540225 / 2 ^ 36), x)
      = (Fl.fin (6540225 / 2 ^ 13), Fl.fin (-(102191 / 2 ^ 30))) :=
  ieee_body_table sinf cosf (6540225 / 2 ^ 36) (8388607 / 2 ^ 23) (6540225 / 2 ^ 36) (6540225 / 2 ^ 36) (1)
    (102191 / 2 ^ 30) (1 / 2 ^ 36) (-(102191 / 2 ^ 30)) (8388607 / 2 ^ 23) (1 / 2 ^ 23) (-(102191 / 2 ^ 7)) (6540225 / 2 ^ 13) hs hc
    (roundF_int _ (-37) (13080448) _ (round_half_even_eq _ _ (by norm_num [abs_of_pos]))
      (by norm_num) (by norm_num) (by norm_num) (by norm_num) (by norm_num))
    (roundF_val _ (-59) (8388608) _ (by norm_num) (by norm_num [abs_of_pos]) (by norm_num [abs_of_pos])
      (round_half_even_eq _ _ (by norm_num [abs_of_pos])) (by norm_num) (by norm_num [abs_of_pos]) (by norm_num))
    (roundF_int _ (-37) (-13080448) _ (round_half_even_eq _ _ (by norm_num [abs_of_pos]))
      (by norm_num) (by norm_num) (by norm_num) (by norm_num) (by norm_num))
    (roundF_int _ (-24) (16777214) _ (round_half_even_eq _ _ (by norm_num [abs_of_pos]))
      (by norm_num) (by norm_num) (by norm_num) (by norm_num) (by norm_num))
    (roundF_val _ (-46) (8388608) _ (by norm_num) (by norm_num [abs_of_pos]) (by norm_num [abs_of_pos])
      (round_half_even_eq _ _ (by norm_num [abs_of_pos])) (by norm_num) (by norm_num [abs_of_pos]) (by norm_num))
    (by norm_num)
    (roundF_int _ (-14) (-13080448) _ (round_half_even_eq _ _ (by norm_num [abs_of_pos]))
      (by norm_num) (by norm_num) (by norm_num) (by norm_num) (by norm_num))
    (roundF_int _ (-14) (13080450) _ (round_half_even_eq _ _ (by norm_num [abs_of_pos]))
      (by norm_num) (by norm_num) (by norm_num) (by norm_num) (by norm_num))
    x

/-- Newton iteration 1 of the run. -/
theorem nan_run_step_1 (sinf cosf : ℚ → ℚ) (hs : sinf (6540225 / 2 ^ 13) = 13152441 / 2 ^ 25)
    (hc : cosf (6540225 / 2 ^ 13) = 7717323 / 2 ^ 23) (x : Fl) :
    kepler_body (ieeeOps sinf cosf) (Fl.fin (6540225 / 2 ^ 36)) (Fl.fin (8388607 / 2 ^ 23)) (Fl.fin (6540225 / 2 ^ 13), x)
      = (Fl.fin (-(587097 / 2 ^ 6)), Fl.fin (6537013 / 2 ^ 13)) :=
  ieee_body_table sinf cosf (6540225 / 2 ^ 36) (8388607 / 2 ^ 23) (6540225 / 2 ^ 13) (13152441 / 2 ^ 25) (7717323 / 2 ^ 23)
    (13152439 / 2 ^ 25) (3268507 / 2 ^ 12) (6537013 / 2 ^ 13) (3858661 / 2 ^ 22) (335643 / 2 ^ 22) (1276385 / 2 ^ 7) (-(587097 / 2 ^ 6)) hs hc
    (roundF_int _ (-25) (13152439) _ (round_half_even_eq _ _ (by norm_num [abs_of_pos]))
      (by norm_num) (by norm_num) (by norm_num) (by norm_num) (by norm_num))
    (roundF_int _ (-14) (13074028) _ (round_half_even_eq _ _ (by norm_num [abs_of_pos]))
      (by norm_num) (by norm_num) (by norm_num) (by norm_num) (by norm_num))
    (roundF_int _ (-14) (13074026) _ (round_half_even_eq _ _ (by norm_num [abs_of_pos]))
      (by norm_num) (by norm_num) (by norm_num) (by norm_num) (by norm_num))
    (roundF_int _ (-24) (15434644) _ (round_half_even_eq _ _ (by norm_num [abs_of_pos]))
      (by norm_num) (by norm_num) (by norm_num) (by norm_num) (by norm_num))
    (roundF_int _ (-27) (10740576) _ (round_half_even_eq _ _ (by norm_num [abs_of_pos]))
      (by norm_num) (by norm_num) (by norm_num) (by norm_num) (by norm_num))
    (by norm_num)
    (roundF_int _ (-10) (10211080) _ (round_half_even_eq _ _ (by norm_num [abs_of_pos]))
      (by norm_num) (by norm_num) (by norm_num) (by norm_num) (by norm_num))
    (roundF_int _ (-10) (-9393552) _ (round_half_even_eq _ _ (by norm_num [abs_of_pos]))
      (by norm_num) (by norm_num) (by norm_num) (by norm_num) (by norm_num))
    x

/-- Newton iteration 2 of the run. -/
theorem nan_run_step_2 (sinf cosf : ℚ → ℚ) (hs : sinf (-(587097 / 2 ^ 6)) = 8037981 / 2 ^ 27)
    (hc : cosf (-(587097 / 2 ^ 6)) = 16747103 / 2 ^ 24) (x : Fl) :
    kepler_body (ieeeOps sinf cosf) (Fl.fin (6540225 / 2 ^ 36)) (Fl.fin (8388607 / 2 ^ 23)) (Fl.fin (-(587097 / 2 ^ 6)), x)
      = (Fl.fin (5101401), Fl.fin (-(9393613 / 2 ^ 10))) :=
  ieee_body_table sinf cosf (6540225 / 2 ^ 36) (8388607 / 2 ^ 23) (-(587097 / 2 ^ 6)) (8037981 / 2 ^ 27) (16747103 / 2 ^ 24)
    (2009495 / 2 ^ 25) (-(9393613 / 2 ^ 10)) (-(9393613 / 2 ^ 10)) (16747101 / 2 ^ 24) (30115 / 2 ^ 24) (-(10221149 / 2 ^ 1)) (5101401) hs hc
    (roundF_int _ (-28) (16075960) _ (round_half_even_eq _ _ (by norm_num [abs_of_pos]))
      (by norm_num) (by norm_num) (by norm_num) (by norm_num) (by norm_num))
    (roundF_int _ (-10) (-9393613) _ (round_half_even_eq _ _ (by norm_num [abs_of_pos]))
      (by norm_num) (by norm_num) (by norm_num) (by norm_num) (by norm_num))
    (roundF_int _ (-10) (-9393613) _ (round_half_even_eq _ _ (by norm_num [abs_of_pos]))
      (by norm_num) (by norm_num) (by norm_num) (by norm_num) (by norm_num))
    (roundF_int _ (-24) (16747101) _ (round_half_even_eq _ _ (by norm_num [abs_of_pos]))
      (by norm_num) (by norm_num) (by norm_num) (by norm_num) (by norm_num))
    (roundF_int _ (-33) (15418880) _ (round_half_even_eq _ _ (by norm_num [abs_of_pos]))
      (by norm_num) (by norm_num) (by norm_num) (by norm_num) (by norm_num))
    (by norm_num)
    (roundF_int _ (-1) (-10221149) _ (round_half_even_eq _ _ (by norm_num [abs_of_pos]))
      (by norm_num) (by norm_num) (by norm_num) (by norm_num) (by norm_num))
    (roundF_int _ (-1) (10202802) _ (round_half_even_eq _ _ (by norm_num [abs_of_pos]))
      (by norm_num) (by norm_num) (by norm_num) (by norm_num) (by norm_num))
    x

/-- Newton iteration 3 of the run. -/
theorem nan_run_step_3 (sinf cosf : ℚ → ℚ) (hs : sinf (5101401) = 7716241 / 2 ^ 23)
    (hc : cosf (5101401) = 13162593 / 2 ^ 25) (x : Fl) :
    kepler_body (ieeeOps sinf cosf) (Fl.fin (6540225 / 2 ^ 36)) (Fl.fin (8388607 / 2 ^ 23)) (Fl.fin (5101401), x)
      = (Fl.fin (-(3292867)), Fl.fin (5101400)) :=
  ieee_body_table sinf cosf (6540225 / 2 ^ 36) (8388607 / 2 ^ 23) (5101401) (7716241 / 2 ^ 23) (13162593 / 2 ^ 25)
    (482265 / 2 ^ 19) (5101400) (5101400) (13162591 / 2 ^ 25) (637245 / 2 ^ 20) (8394268) (-(3292867)) hs hc
    (roundF_int _ (-24) (15432480) _ (round_half_even_eq _ _ (by norm_num [abs_of_pos]))
      (by norm_num) (by norm_num) (by norm_num) (by norm_num) (by norm_num))
    (roundF_int _ (-1) (10202800) _ (round_half_even_eq _ _ (by norm_num [abs_of_pos]))
      (by norm_num) (by norm_num) (by norm_num) (by norm_num) (by norm_num))
    (roundF_int _ (-1) (10202800) _ (round_half_even_eq _ _ (by norm_num [abs_of_pos]))
      (by norm_num) (by norm_num) (by norm_num) (by norm_num) (by norm_num))
    (roundF_int _ (-25) (13162591) _ (round_half_even_eq _ _ (by norm_num [abs_of_pos]))
      (by norm_num) (by norm_num) (by norm_num) (by norm_num) (by norm_num))
    (roundF_int _ (-24) (10195920) _ (round_half_even_tie _ _ (by norm_num [abs_of_pos]) (by norm_num))
      (by norm_num) (by norm_num) (by norm_num) (by norm_num) (by norm_num))
    (by norm_num)
    (roundF_int _ (0) (8394268) _ (round_half_even_eq _ _ (by norm_num [abs_of_pos]))
      (by norm_num) (by norm_num) (by norm_num) (by norm_num) (by norm_num))
    (roundF_int _ (-2) (-13171468) _ (round_half_even_eq _ _ (by norm_num [abs_of_pos]))
      (by norm_num) (by norm_num) (by norm_num) (by norm_num) (by norm_num))
    x

/-- Newton iteration 4 of the run. -/
theorem nan_run_step_4 (sinf cosf : ℚ → ℚ) (hs : sinf (-(3292867)) = -(12351069 / 2 ^ 25))
    (hc : cosf (-(3292867)) = 15599287 / 2 ^ 24) (x : Fl) :
    kepler_body (ieeeOps sinf cosf) (Fl.fin (6540225 / 2 ^ 36)) (Fl.fin (8388607 / 2 ^ 23)) (Fl.fin (-(3292867)), x)
      = (Fl.fin (10901820 * 2 ^ 2), Fl.fin (-(13171467 / 2 ^ 2))) :=
  ieee_body_table sinf cosf (6540225 / 2 ^ 36) (8388607 / 2 ^ 23) (-(3292867)) (-(12351069 / 2 ^ 25)) (15599287 / 2 ^ 24)
    (-(3087767 / 2 ^ 23)) (-(13171467 / 2 ^ 2)) (-(13171467 / 2 ^ 2)) (15599285 / 2 ^ 24) (1177931 / 2 ^ 24) (-(11725037 * 2 ^ 2)) (10901820 * 2 ^ 2) hs hc
    (roundF_int _ (-25) (-12351068) _ (round_half_even_eq _ _ (by norm_num [abs_of_pos]))
      (by norm_num) (by norm_num) (by norm_num) (by norm_num) (by norm_num))
    (roundF_int _ (-2) (-13171467) _ (round_half_even_eq _ _ (by norm_num [abs_of_pos]))
      (by norm_num) (by norm_num) (by norm_num) (by norm_num) (by norm_num))
    (roundF_int _ (-2) (-13171467) _ (round_half_even_eq _ _ (by norm_num [abs_of_pos]))
      (by norm_num) (by norm_num) (by norm_num) (by norm_num) (by norm_num))
    (roundF_int _ (-24) (15599285) _ (round_half_even_eq _ _ (by norm_num [abs_of_pos]))
      (by norm_num) (by norm_num) (by norm_num) (by norm_num) (by norm_num))
    (roundF_int _ (-27) (9423448) _ (round_half_even_eq _ _ (by norm_num [abs_of_pos]))
      (by norm_num) (by norm_num) (by norm_num) (by norm_num) (by norm_num))
    (by norm_num)
    (roundF_int _ (2) (-11725037) _ (round_half_even_eq _ _ (by norm_num [abs_of_pos]))
      (by norm_num) (by norm_num) (by norm_num) (by norm_num) (by norm_num))
    (roundF_int _ (2) (10901820) _ (round_half_even_eq _ _ (by norm_num [abs_of_pos]))
      (by norm_num) (by norm_num) (by norm_num) (by norm_num) (by norm_num))
    x

/-- Newton iteration 5 of the run. -/
theorem nan_run_step_5 (sinf cosf : ℚ → ℚ) (hs : |sinf (10901820 * 2 ^ 2)| ≤ 1)
    (hc : cosf (10901820 * 2 ^ 2) = 2094283 / 2 ^ 22) (x : Fl) :
    kepler_body (ieeeOps sinf cosf) (Fl.fin (6540225 / 2 ^ 36)) (Fl.fin (8388607 / 2 ^ 23)) (Fl.fin (10901820 * 2 ^ 2), x)
      = (Fl.fin (-(10872030 * 2 ^ 2)), Fl.fin (10901820 * 2 ^ 2)) :=
  ieee_body_big sinf cosf (6540225 / 2 ^ 36) (8388607 / 2 ^ 23) (10901820 * 2 ^ 2) (2094283 / 2 ^ 22)
    (10901820 * 2 ^ 2) (8377131 / 2 ^ 24) (8400085 / 2 ^ 24) (10886925 * 2 ^ 3) (-(10872030 * 2 ^ 2)) hs (by norm_num) (by norm_num) hc
    (10901820) 2 (by norm_num) (by norm_num) (by norm_num) (by norm_num) (by norm_num)
    (roundF_int _ (2) (10901820) _ (round_half_even_eq _ _ (by norm_num [abs_of_pos]))
      (by norm_num) (by norm_num) (by norm_num) (by norm_num) (by norm_num))
    (roundF_int _ (-25) (16754262) _ (round_half_even_eq _ _ (by norm_num [abs_of_pos]))
      (by norm_num) (by norm_num) (by norm_num) (by norm_num) (by norm_num))
    (roundF_int _ (-24) (8400085) _ (round_half_even_eq _ _ (by norm_num [abs_of_pos]))
      (by norm_num) (by norm_num) (by norm_num) (by norm_num) (by norm_num))
    (by norm_num)
    (roundF_int _ (3) (10886925) _ (round_half_even_eq _ _ (by norm_num [abs_of_pos]))
      (by norm_num) (by norm_num) (by norm_num) (by norm_num) (by norm_num))
    (roundF_int _ (2) (-10872030) _ (round_half_even_eq _ _ (by norm_num [abs_of_pos]))
      (by norm_num) (by norm_num) (by norm_num) (by norm_num) (by norm_num))
    x

/-- Newton iteration 6 of the run. -/
theorem nan_run_step_6 (sinf cosf : ℚ → ℚ) (hs : |sinf (-(10872030 * 2 ^ 2))| ≤ 1)
    (hc : cosf (-(10872030 * 2 ^ 2)) = -(11600917 / 2 ^ 27)) (x : Fl) :
    kepler_body (ieeeOps sinf cosf) (Fl.fin (6540225 / 2 ^ 36)) (Fl.fin (8388607 / 2 ^ 23)) (Fl.fin (-(10872030 * 2 ^ 2)), x)
      = (Fl.fin (-(3459788)), Fl.fin (-(10872030 * 2 ^ 2))) :=
  ieee_body_big sinf cosf (6540225 / 2 ^ 36) (8388607 / 2 ^ 23) (-(10872030 * 2 ^ 2)) (-(11600917 / 2 ^ 27))
    (-(10872030 * 2 ^ 2)) (-(2900229 / 2 ^ 25)) (9113665 / 2 ^ 23) (-(10007083 * 2 ^ 2)) (-(3459788)) hs (by norm_num) (by norm_num) hc
    (-10872030) 2 (by norm_num) (by norm_num) (by norm_num) (by norm_num) (by norm_num)
    (roundF_int _ (2) (-10872030) _ (round_half_even_eq _ _ (by norm_num [abs_of_pos]))
      (by norm_num) (by norm_num) (by norm_num) (by norm_num) (by norm_num))
    (roundF_int _ (-27) (-11600916) _ (round_half_even_eq _ _ (by norm_num [abs_of_pos]))
      (by norm_num) (by norm_num) (by norm_num) (by norm_num) (by norm_num))
    (roundF_int _ (-23) (9113665) _ (round_half_even_eq _ _ (by norm_num [abs_of_pos]))
      (by norm_num) (by norm_num) (by norm_num) (by norm_num) (by norm_num))
    (by norm_num)
    (roundF_int _ (2) (-10007083) _ (round_half_even_eq _ _ (by norm_num [abs_of_pos]))
      (by norm_num) (by norm_num) (by norm_num) (by norm_num) (by norm_num))
    (roundF_int _ (-2) (-13839152) _ (round_half_even_eq _ _ (by norm_num [abs_of_pos]))
      (by norm_num) (by norm_num) (by norm_num) (by norm_num) (by norm_num))
    x

/-- Newton iteration 7 of the run. -/
theorem nan_run_step_7 (sinf cosf : ℚ → ℚ) (hs : sinf (-(3459788)) = -(12774593 / 2 ^ 24))
    (hc : cosf (-(3459788)) = -(10875879 / 2 ^ 24)) (x : Fl) :
    kepler_body (ieeeOps sinf cosf) (Fl.fin (6540225 / 2 ^ 36)) (Fl.fin (8388607 / 2 ^ 23)) (Fl.fin (-(3459788)), x)
      = (Fl.fin (-(2721449 / 2 ^ 1)), Fl.fin (-(13839149 / 2 ^ 2))) :=
  ieee_body_table sinf cosf (6540225 / 2 ^ 36) (8388607 / 2 ^ 23) (-(3459788)) (-(12774593 / 2 ^ 24)) (-(10875879 / 2 ^ 24))
    (-(12774591 / 2 ^ 24)) (-(13839149 / 2 ^ 2)) (-(13839149 / 2 ^ 2)) (-(5437939 / 2 ^ 23)) (13826547 / 2 ^ 23) (-(4198127 / 2 ^ 1)) (-(2721449 / 2 ^ 1)) hs hc
    (roundF_int _ (-24) (-12774591) _ (round_half_even_eq _ _ (by norm_num [abs_of_pos]))
      (by norm_num) (by norm_num) (by norm_num) (by norm_num) (by norm_num))
    (roundF_int _ (-2) (-13839149) _ (round_half_even_eq _ _ (by norm_num [abs_of_pos]))
      (by norm_num) (by norm_num) (by norm_num) (by norm_num) (by norm_num))
    (roundF_int _ (-2) (-13839149) _ (round_half_even_eq _ _ (by norm_num [abs_of_pos]))
      (by norm_num) (by norm_num) (by norm_num) (by norm_num) (by norm_num))
    (roundF_int _ (-24) (-10875878) _ (round_half_even_eq _ _ (by norm_num [abs_of_pos]))
      (by norm_num) (by norm_num) (by norm_num) (by norm_num) (by norm_num))
    (roundF_int _ (-23) (13826547) _ (round_half_even_eq _ _ (by norm_num [abs_of_pos]))
      (by norm_num) (by norm_num) (by norm_num) (by norm_num) (by norm_num))
    (by norm_num)
    (roundF_int _ (-2) (-8396254) _ (round_half_even_eq _ _ (by norm_num [abs_of_pos]))
      (by norm_num) (by norm_num) (by norm_num) (by norm_num) (by norm_num))
    (roundF_int _ (-3) (-10885796) _ (round_half_even_eq _ _ (by norm_num [abs_of_pos]))
      (by norm_num) (by norm_num) (by norm_num) (by norm_num) (by norm_num))
    x

/-- Newton iteration 8 of the run. -/
theorem nan_run_step_8 (sinf cosf : ℚ → ℚ) (hs : sinf (-(2721449 / 2 ^ 1)) = -(12724539 / 2 ^ 26))
    (hc : cosf (-(2721449 / 2 ^ 1)) = 16472867 / 2 ^ 24) (x : Fl) :
    kepler_body (ieeeOps sinf cosf) (Fl.fin (6540225 / 2 ^ 36)) (Fl.fin (8388607 / 2 ^ 23)) (Fl.fin (-(2721449 / 2 ^ 1)), x)
      = (Fl.fin (9206075 * 2 ^ 3), Fl.fin (-(5442897 / 2 ^ 2))) :=
  ieee_body_table sinf cosf (6540225 / 2 ^ 36) (8388607 / 2 ^ 23) (-(2721449 / 2 ^ 1)) (-(12724539 / 2 ^ 26)) (16472867 / 2 ^ 24)
    (-(12724537 / 2 ^ 26)) (-(5442897 / 2 ^ 2)) (-(5442897 / 2 ^ 2)) (16472865 / 2 ^ 24) (304351 / 2 ^ 24) (-(9376166 * 2 ^ 3)) (9206075 * 2 ^ 3) hs hc
    (roundF_int _ (-26) (-12724537) _ (round_half_even_eq _ _ (by norm_num [abs_of_pos]))
      (by norm_num) (by norm_num) (by norm_num) (by norm_num) (by norm_num))
    (roundF_int _ (-3) (-10885794) _ (round_half_even_eq _ _ (by norm_num [abs_of_pos]))
      (by norm_num) (by norm_num) (by norm_num) (by norm_num) (by norm_num))
    (roundF_int _ (-3) (-10885794) _ (round_half_even_eq _ _ (by norm_num [abs_of_pos]))
      (by norm_num) (by norm_num) (by norm_num) (by norm_num) (by norm_num))
    (roundF_int _ (-24) (16472865) _ (round_half_even_eq _ _ (by norm_num [abs_of_pos]))
      (by norm_num) (by norm_num) (by norm_num) (by norm_num) (by norm_num))
    (roundF_int _ (-29) (9739232) _ (round_half_even_eq _ _ (by norm_num [abs_of_pos]))
      (by norm_num) (by norm_num) (by norm_num) (by norm_num) (by norm_num))
    (by norm_num)
    (roundF_int _ (3) (-9376166) _ (round_half_even_eq _ _ (by norm_num [abs_of_pos]))
      (by norm_num) (by norm_num) (by norm_num) (by norm_num) (by norm_num))
    (roundF_int _ (3) (9206075) _ (round_half_even_eq _ _ (by norm_num [abs_of_pos]))
      (by norm_num) (by norm_num) (by norm_num) (by norm_num) (by norm_num))
    x

/-- Newton iteration 9 of the run. -/
theorem nan_run_step_9 (sinf cosf : ℚ → ℚ) (hs : |sinf (9206075 * 2 ^ 3)| ≤ 1)
    (hc : cosf (9206075 * 2 ^ 3) = -(6914007 / 2 ^ 27)) (x : Fl) :
    kepler_body (ieeeOps sinf cosf) (Fl.fin (6540225 / 2 ^ 36)) (Fl.fin (8388607 / 2 ^ 23)) (Fl.fin (9206075 * 2 ^ 3), x)
      = (Fl.fin (3608024), Fl.fin (9206075 * 2 ^ 3)) :=
  ieee_body_big sinf cosf (6540225 / 2 ^ 36) (8388607 / 2 ^ 23) (9206075 * 2 ^ 3) (-(6914007 / 2 ^ 27))
    (9206075 * 2 ^ 3) (-(3457003 / 2 ^ 26)) (8820733 / 2 ^ 23) (8755072 * 2 ^ 3) (3608024) hs (by norm_num) (by norm_num) hc
    (9206075) 3 (by norm_num) (by norm_num) (by norm_num) (by norm_num) (by norm_num)
    (roundF_int _ (3) (9206075) _ (round_half_even_eq _ _ (by norm_num [abs_of_pos]))
      (by norm_num) (by norm_num) (by norm_num) (by norm_num) (by norm_num))
    (roundF_int _ (-28) (-13828012) _ (round_half_even_eq _ _ (by norm_num [abs_of_pos]))
      (by norm_num) (by norm_num) (by norm_num) (by norm_num) (by norm_num))
    (roundF_int _ (-23) (8820733) _ (round_half_even_eq _ _ (by norm_num [abs_of_pos]))
      (by norm_num) (by norm_num) (by norm_num) (by norm_num) (by norm_num))
    (by norm_num)
    (roundF_int _ (3) (8755072) _ (round_half_even_eq _ _ (by norm_num [abs_of_pos]))
      (by norm_num) (by norm_num) (by norm_num) (by norm_num) (by norm_num))
    (roundF_int _ (-2) (14432096) _ (round_half_even_eq _ _ (by norm_num [abs_of_pos]))
      (by norm_num) (by norm_num) (by norm_num) (by norm_num) (by norm_num))
    x

/-- Newton iteration 10 of the run. -/
theorem nan_run_step_10 (sinf cosf : ℚ → ℚ) (hs : sinf (3608024) = -(6647823 / 2 ^ 23))
    (hc : cosf (3608024) = 2558085 / 2 ^ 22) (x : Fl) :
    kepler_body (ieeeOps sinf cosf) (Fl.fin (6540225 / 2 ^ 36)) (Fl.fin (8388607 / 2 ^ 23)) (Fl.fin (3608024), x)
      = (Fl.fin (-(5640830)), Fl.fin (14432099 / 2 ^ 2)) :=
  ieee_body_table sinf cosf (6540225 / 2 ^ 36) (8388607 / 2 ^ 23) (3608024) (-(6647823 / 2 ^ 23)) (2558085 / 2 ^ 22)
    (-(3323911 / 2 ^ 22)) (14432099 / 2 ^ 2) (14432099 / 2 ^ 2) (10232339 / 2 ^ 24) (6544877 / 2 ^ 24) (9248854) (-(5640830)) hs hc
    (roundF_int _ (-24) (-13295644) _ (round_half_even_eq _ _ (by norm_num [abs_of_pos]))
      (by norm_num) (by norm_num) (by norm_num) (by norm_num) (by norm_num))
    (roundF_int _ (-2) (14432099) _ (round_half_even_eq _ _ (by norm_num [abs_of_pos]))
      (by norm_num) (by norm_num) (by norm_num) (by norm_num) (by norm_num))
    (roundF_int _ (-2) (14432099) _ (round_half_even_eq _ _ (by norm_num [abs_of_pos]))
      (by norm_num) (by norm_num) (by norm_num) (by norm_num) (by norm_num))
    (roundF_int _ (-24) (10232339) _ (round_half_even_eq _ _ (by norm_num [abs_of_pos]))
      (by norm_num) (by norm_num) (by norm_num) (by norm_num) (by norm_num))
    (roundF_int _ (-25) (13089754) _ (round_half_even_eq _ _ (by norm_num [abs_of_pos]))
      (by norm_num) (by norm_num) (by norm_num) (by norm_num) (by norm_num))
    (by norm_num)
    (roundF_int _ (0) (9248854) _ (round_half_even_eq _ _ (by norm_num [abs_of_pos]))
      (by norm_num) (by norm_num) (by norm_num) (by norm_num) (by norm_num))
    (roundF_int _ (-1) (-11281660) _ (round_half_even_eq _ _ (by norm_num [abs_of_pos]))
      (by norm_num) (by norm_num) (by norm_num) (by norm_num) (by norm_num))
    x

/-- Newton iteration 11 of the run. -/
theorem nan_run_step_11 (sinf cosf : ℚ → ℚ) (hs : sinf (-(5640830)) = 4698417 / 2 ^ 25)
    (hc : cosf (-(5640830)) = 16611929 / 2 ^ 24) (x : Fl) :
    kepler_body (ieeeOps sinf cosf) (Fl.fin (6540225 / 2 ^ 36)) (Fl.fin (8388607 / 2 ^ 23)) (Fl.fin (-(5640830)), x)
      = (Fl.fin (8858070 * 2 ^ 6), Fl.fin (-(5640830))) :=
  ieee_body_table sinf cosf (6540225 / 2 ^ 36) (8388607 / 2 ^ 23) (-(5640830)) (4698417 / 2 ^ 25) (16611929 / 2 ^ 24)
    (9396833 / 2 ^ 26) (-(5640830)) (-(5640830)) (16611927 / 2 ^ 24) (165289 / 2 ^ 24) (-(8946208 * 2 ^ 6)) (8858070 * 2 ^ 6) hs hc
    (roundF_int _ (-26) (9396833) _ (round_half_even_eq _ _ (by norm_num [abs_of_pos]))
      (by norm_num) (by norm_num) (by norm_num) (by norm_num) (by norm_num))
    (roundF_int _ (-1) (-11281660) _ (round_half_even_eq _ _ (by norm_num [abs_of_pos]))
      (by norm_num) (by norm_num) (by norm_num) (by norm_num) (by norm_num))
    (roundF_int _ (-1) (-11281660) _ (round_half_even_eq _ _ (by norm_num [abs_of_pos]))
      (by norm_num) (by norm_num) (by norm_num) (by norm_num) (by norm_num))
    (roundF_int _ (-24) (16611927) _ (round_half_even_eq _ _ (by norm_num [abs_of_pos]))
      (by norm_num) (by norm_num) (by norm_num) (by norm_num) (by norm_num))
    (roundF_int _ (-30) (10578496) _ (round_half_even_eq _ _ (by norm_num [abs_of_pos]))
      (by norm_num) (by norm_num) (by norm_num) (by norm_num) (by norm_num))
    (by norm_num)
    (roundF_int _ (6) (-8946208) _ (round_half_even_eq _ _ (by norm_num [abs_of_pos]))
      (by norm_num) (by norm_num) (by norm_num) (by norm_num) (by norm_num))
    (roundF_int _ (6) (8858070) _ (round_half_even_eq _ _ (by norm_num [abs_of_pos]))
      (by norm_num) (by norm_num) (by norm_num) (by norm_num) (by norm_num))
    x

/-- Newton iteration 12 of the run. -/
theorem nan_run_step_12 (sinf cosf : ℚ → ℚ) (hs : |sinf (8858070 * 2 ^ 6)| ≤ 1)
    (hc : cosf (8858070 * 2 ^ 6) = 6387037 / 2 ^ 23) (x : Fl) :
    kepler_body (ieeeOps sinf cosf) (Fl.fin (6540225 / 2 ^ 36)) (Fl.fin (8388607 / 2 ^ 23)) (Fl.fin (8858070 * 2 ^ 6), x)
      = (Fl.fin (-(14133095 * 2 ^ 7)), Fl.fin (8858070 * 2 ^ 6)) :=
  ieee_body_big sinf cosf (6540225 / 2 ^ 36) (8388607 / 2 ^ 23) (8858070 * 2 ^ 6) (6387037 / 2 ^ 23)
    (8858070 * 2 ^ 6) (1596759 / 2 ^ 21) (500393 / 2 ^ 21) (9281065 * 2 ^ 8) (-(14133095 * 2 ^ 7)) hs (by norm_num) (by norm_num) hc
    (8858070) 6 (by norm_num) (by norm_num) (by norm_num) (by norm_num) (by norm_num)
    (roundF_int _ (6) (8858070) _ (round_half_even_eq _ _ (by norm_num [abs_of_pos]))
      (by norm_num) (by norm_num) (by norm_num) (by norm_num) (by norm_num))
    (roundF_int _ (-24) (12774072) _ (round_half_even_eq _ _ (by norm_num [abs_of_pos]))
      (by norm_num) (by norm_num) (by norm_num) (by norm_num) (by norm_num))
    (roundF_int _ (-26) (16012576) _ (round_half_even_eq _ _ (by norm_num [abs_of_pos]))
      (by norm_num) (by norm_num) (by norm_num) (by norm_num) (by norm_num))
    (by norm_num)
    (roundF_int _ (8) (9281065) _ (round_half_even_eq _ _ (by norm_num [abs_of_pos]))
      (by norm_num) (by norm_num) (by norm_num) (by norm_num) (by norm_num))
    (roundF_int _ (7) (-14133095) _ (round_half_even_eq _ _ (by norm_num [abs_of_pos]))
      (by norm_num) (by norm_num) (by norm_num) (by norm_num) (by norm_num))
    x

/-- Newton iteration 13 of the run. -/
theorem nan_run_step_13 (sinf cosf : ℚ → ℚ) (hs : |sinf (-(14133095 * 2 ^ 7))| ≤ 1)
    (hc : cosf (-(14133095 * 2 ^ 7)) = 107951 / 2 ^ 17) (x : Fl) :
    kepler_body (ieeeOps sinf cosf) (Fl.fin (6540225 / 2 ^ 36)) (Fl.fin (8388607 / 2 ^ 23)) (Fl.fin (-(14133095 * 2 ^ 7)), x)
      = (Fl.fin (16496696 * 2 ^ 9), Fl.fin (-(14133095 * 2 ^ 7))) :=
  ieee_body_big sinf cosf (6540225 / 2 ^ 36) (8388607 / 2 ^ 23) (-(14133095 * 2 ^ 7)) (107951 / 2 ^ 17)
    (-(14133095 * 2 ^ 7)) (6908863 / 2 ^ 23) (1479745 / 2 ^ 23) (-(10014985 * 2 ^ 10)) (16496696 * 2 ^ 9) hs (by norm_num) (by norm_num) hc
    (-14133095) 7 (by norm_num) (by norm_num) (by norm_num) (by norm_num) (by norm_num)
    (roundF_int _ (7) (-14133095) _ (round_half_even_eq _ _ (by norm_num [abs_of_pos]))
      (by norm_num) (by norm_num) (by norm_num) (by norm_num) (by norm_num))
    (roundF_int _ (-24) (13817726) _ (round_half_even_eq _ _ (by norm_num [abs_of_pos]))
      (by norm_num) (by norm_num) (by norm_num) (by norm_num) (by norm_num))
    (roundF_int _ (-26) (11837960) _ (round_half_even_eq _ _ (by norm_num [abs_of_pos]))
      (by norm_num) (by norm_num) (by norm_num) (by norm_num) (by norm_num))
    (by norm_num)
    (roundF_int _ (10) (-10014985) _ (round_half_even_eq _ _ (by norm_num [abs_of_pos]))
      (by norm_num) (by norm_num) (by norm_num) (by norm_num) (by norm_num))
    (roundF_int _ (9) (16496696) _ (round_half_even_eq _ _ (by norm_num [abs_of_pos]))
      (by norm_num) (by norm_num) (by norm_num) (by norm_num) (by norm_num))
    x

/-- Newton iteration 14 of the run. -/
theorem nan_run_step_14 (sinf cosf : ℚ → ℚ) (hs : |sinf (16496696 * 2 ^ 9)| ≤ 1)
    (hc : cosf (16496696 * 2 ^ 9) = 6812447 / 2 ^ 23) (x : Fl) :
    kepler_body (ieeeOps sinf cosf) (Fl.fin (6540225 / 2 ^ 36)) (Fl.fin (8388607 / 2 ^ 23)) (Fl.fin (16496696 * 2 ^ 9), x)
      = (Fl.fin (-(8912698 * 2 ^ 12)), Fl.fin (16496696 * 2 ^ 9)) :=
  ieee_body_big sinf cosf (6540225 / 2 ^ 36) (8388607 / 2 ^ 23) (16496696 * 2 ^ 9) (6812447 / 2 ^ 23)
    (16496696 * 2 ^ 9) (3406223 / 2 ^ 22) (788081 / 2 ^ 22) (10974785 * 2 ^ 12) (-(8912698 * 2 ^ 12)) hs (by norm_num) (by norm_num) hc
    (16496696) 9 (by norm_num) (by norm_num) (by norm_num) (by norm_num) (by norm_num)
    (roundF_int _ (9) (16496696) _ (round_half_even_eq _ _ (by norm_num [abs_of_pos]))
      (by norm_num) (by norm_num) (by norm_num) (by norm_num) (by norm_num))
    (roundF_int _ (-24) (13624892) _ (round_half_even_eq _ _ (by norm_num [abs_of_pos]))
      (by norm_num) (by norm_num) (by norm_num) (by norm_num) (by norm_num))
    (roundF_int _ (-26) (12609296) _ (round_half_even_eq _ _ (by norm_num [abs_of_pos]))
      (by norm_num) (by norm_num) (by norm_num) (by norm_num) (by norm_num))
    (by norm_num)
    (roundF_int _ (12) (10974785) _ (round_half_even_eq _ _ (by norm_num [abs_of_pos]))
      (by norm_num) (by norm_num) (by norm_num) (by norm_num) (by norm_num))
    (roundF_int _ (12) (-8912698) _ (round_half_even_eq _ _ (by norm_num [abs_of_pos]))
      (by norm_num) (by norm_num) (by norm_num) (by norm_num) (by norm_num))
    x

/-- Newton iteration 15 of the run. -/
theorem nan_run_step_15 (sinf cosf : ℚ → ℚ) (hs : |sinf (-(8912698 * 2 ^ 12))| ≤ 1)
    (hc : cosf (-(8912698 * 2 ^ 12)) = -(16430371 / 2 ^ 24)) (x : Fl) :
    kepler_body (ieeeOps sinf cosf) (Fl.fin (6540225 / 2 ^ 36)) (Fl.fin (8388607 / 2 ^ 23)) (Fl.fin (-(8912698 * 2 ^ 12)), x)
      = (Fl.fin (-(8819606 * 2 ^ 11)), Fl.fin (-(8912698 * 2 ^ 12))) :=
  ieee_body_big sinf cosf (6540225 / 2 ^ 36) (8388607 / 2 ^ 23) (-(8912698 * 2 ^ 12)) (-(16430371 / 2 ^ 24))
    (-(8912698 * 2 ^ 12)) (-(16430369 / 2 ^ 24)) (1037737 / 2 ^ 19) (-(9005790 * 2 ^ 11)) (-(8819606 * 2 ^ 11)) hs (by norm_num) (by norm_num) hc
    (-8912698) 12 (by norm_num) (by norm_num) (by norm_num) (by norm_num) (by norm_num)
    (roundF_int _ (12) (-8912698) _ (round_half_even_eq _ _ (by norm_num [abs_of_pos]))
      (by norm_num) (by norm_num) (by norm_num) (by norm_num) (by norm_num))
    (roundF_int _ (-24) (-16430369) _ (round_half_even_eq _ _ (by norm_num [abs_of_pos]))
      (by norm_num) (by norm_num) (by norm_num) (by norm_num) (by norm_num))
    (roundF_int _ (-23) (16603792) _ (round_half_even_tie _ _ (by norm_num [abs_of_pos]) (by norm_num))
      (by norm_num) (by norm_num) (by norm_num) (by norm_num) (by norm_num))
    (by norm_num)
    (roundF_int _ (11) (-9005790) _ (round_half_even_eq _ _ (by norm_num [abs_of_pos]))
      (by norm_num) (by norm_num) (by norm_num) (by norm_num) (by norm_num))
    (roundF_int _ (11) (-8819606) _ (round_half_even_eq _ _ (by norm_num [abs_of_pos]))
      (by norm_num) (by norm_num) (by norm_num) (by norm_num) (by norm_num))
    x

/-- Newton iteration 16 of the run. -/
theorem nan_run_step_16 (sinf cosf : ℚ → ℚ) (hs : |sinf (-(8819606 * 2 ^ 11))| ≤ 1)
    (hc : cosf (-(8819606 * 2 ^ 11)) = 6660943 / 2 ^ 24) (x : Fl) :
    kepler_body (ieeeOps sinf cosf) (Fl.fin (6540225 / 2 ^ 36)) (Fl.fin (8388607 / 2 ^ 23)) (Fl.fin (-(8819606 * 2 ^ 11)), x)
      = (Fl.fin (11614332 * 2 ^ 10), Fl.fin (-(8819606 * 2 ^ 11))) :=
  ieee_body_big sinf cosf (6540225 / 2 ^ 36) (8388607 / 2 ^ 23) (-(8819606 * 2 ^ 11)) (6660943 / 2 ^ 24)
    (-(8819606 * 2 ^ 11)) (3330471 / 2 ^ 23) (5058137 / 2 ^ 23) (-(14626772 * 2 ^ 11)) (11614332 * 2 ^ 10) hs (by norm_num) (by norm_num) hc
    (-8819606) 11 (by norm_num) (by norm_num) (by norm_num) (by norm_num) (by norm_num)
    (roundF_int _ (11) (-8819606) _ (round_half_even_eq _ _ (by norm_num [abs_of_pos]))
      (by norm_num) (by norm_num) (by norm_num) (by norm_num) (by norm_num))
    (roundF_int _ (-25) (13321884) _ (round_half_even_eq _ _ (by norm_num [abs_of_pos]))
      (by norm_num) (by norm_num) (by norm_num) (by norm_num) (by norm_num))
    (roundF_int _ (-24) (10116274) _ (round_half_even_eq _ _ (by norm_num [abs_of_pos]))
      (by norm_num) (by norm_num) (by norm_num) (by norm_num) (by norm_num))
    (by norm_num)
    (roundF_int _ (11) (-14626772) _ (round_half_even_eq _ _ (by norm_num [abs_of_pos]))
      (by norm_num) (by norm_num) (by norm_num) (by norm_num) (by norm_num))
    (roundF_int _ (10) (11614332) _ (round_half_even_eq _ _ (by norm_num [abs_of_pos]))
      (by norm_num) (by norm_num) (by norm_num) (by norm_num) (by norm_num))
    x

/-- Newton iteration 17 of the run. -/
theorem nan_run_step_17 (sinf cosf : ℚ → ℚ) (hs : |sinf (11614332 * 2 ^ 10)| ≤ 1)
    (hc : cosf (11614332 * 2 ^ 10) = 11835525 / 2 ^ 24) (x : Fl) :
    kepler_body (ieeeOps sinf cosf) (Fl.fin (6540225 / 2 ^ 36)) (Fl.fin (8388607 / 2 ^ 23)) (Fl.fin (11614332 * 2 ^ 10), x)
      = (Fl.fin (-(13908364 * 2 ^ 11)), Fl.fin (11614332 * 2 ^ 10)) :=
  ieee_body_big sinf cosf (6540225 / 2 ^ 36) (8388607 / 2 ^ 23) (11614332 * 2 ^ 10) (11835525 / 2 ^ 24)
    (11614332 * 2 ^ 10) (2958881 / 2 ^ 22) (1235423 / 2 ^ 22) (9857765 * 2 ^ 12) (-(13908364 * 2 ^ 11)) hs (by norm_num) (by norm_num) hc
    (11614332) 10 (by norm_num) (by norm_num) (by norm_num) (by norm_num) (by norm_num)
    (roundF_int _ (10) (11614332) _ (round_half_even_eq _ _ (by norm_num [abs_of_pos]))
      (by norm_num) (by norm_num) (by norm_num) (by norm_num) (by norm_num))
    (roundF_int _ (-24) (11835524) _ (round_half_even_eq _ _ (by norm_num [abs_of_pos]))
      (by norm_num) (by norm_num) (by norm_num) (by norm_num) (by norm_num))
    (roundF_int _ (-25) (9883384) _ (round_half_even_eq _ _ (by norm_num [abs_of_pos]))
      (by norm_num) (by norm_num) (by norm_num) (by norm_num) (by norm_num))
    (by norm_num)
    (roundF_int _ (12) (9857765) _ (round_half_even_eq _ _ (by norm_num [abs_of_pos]))
      (by norm_num) (by norm_num) (by norm_num) (by norm_num) (by norm_num))
    (roundF_int _ (11) (-13908364) _ (round_half_even_eq _ _ (by norm_num [abs_of_pos]))
      (by norm_num) (by norm_num) (by norm_num) (by norm_num) (by norm_num))
    x

/-- Newton iteration 18 of the run. -/
theorem nan_run_step_18 (sinf cosf : ℚ → ℚ) (hs : |sinf (-(13908364 * 2 ^ 11))| ≤ 1)
    (hc : cosf (-(13908364 * 2 ^ 11)) = 2929127 / 2 ^ 22) (x : Fl) :
    kepler_body (ieeeOps sinf cosf) (Fl.fin (6540225 / 2 ^ 36)) (Fl.fin (8388607 / 2 ^ 23)) (Fl.fin (-(13908364 * 2 ^ 11)), x)
      = (Fl.fin (16100258 * 2 ^ 12), Fl.fin (-(13908364 * 2 ^ 11))) :=
  ieee_body_big sinf cosf (6540225 / 2 ^ 36) (8388607 / 2 ^ 23) (-(13908364 * 2 ^ 11)) (2929127 / 2 ^ 22)
    (-(13908364 * 2 ^ 11)) (11716507 / 2 ^ 24) (5060709 / 2 ^ 24) (-(11527220 * 2 ^ 13)) (16100258 * 2 ^ 12) hs (by norm_num) (by norm_num) hc
    (-13908364) 11 (by norm_num) (by norm_num) (by norm_num) (by norm_num) (by norm_num)
    (roundF_int _ (11) (-13908364) _ (round_half_even_eq _ _ (by norm_num [abs_of_pos]))
      (by norm_num) (by norm_num) (by norm_num) (by norm_num) (by norm_num))
    (roundF_int _ (-24) (11716507) _ (round_half_even_eq _ _ (by norm_num [abs_of_pos]))
      (by norm_num) (by norm_num) (by norm_num) (by norm_num) (by norm_num))
    (roundF_int _ (-25) (10121418) _ (round_half_even_eq _ _ (by norm_num [abs_of_pos]))
      (by norm_num) (by norm_num) (by norm_num) (by norm_num) (by norm_num))
    (by norm_num)
    (roundF_int _ (13) (-11527220) _ (round_half_even_eq _ _ (by norm_num [abs_of_pos]))
      (by norm_num) (by norm_num) (by norm_num) (by norm_num) (by norm_num))
    (roundF_int _ (12) (16100258) _ (round_half_even_eq _ _ (by norm_num [abs_of_pos]))
      (by norm_num) (by norm_num) (by norm_num) (by norm_num) (by norm_num))
    x

/-- Newton iteration 19 of the run. -/
theorem nan_run_step_19 (sinf cosf : ℚ → ℚ) (hs : |sinf (16100258 * 2 ^ 12)| ≤ 1)
    (hc : cosf (16100258 * 2 ^ 12) = 16731169 / 2 ^ 24) (x : Fl) :
    kepler_body (ieeeOps sinf cosf) (Fl.fin (6540225 / 2 ^ 36)) (Fl.fin (8388607 / 2 ^ 23)) (Fl.fin (16100258 * 2 ^ 12), x)
      = (Fl.fin (-(11425334 * 2 ^ 21)), Fl.fin (16100258 * 2 ^ 12)) :=
  ieee_body_big sinf cosf (6540225 / 2 ^ 36) (8388607 / 2 ^ 23) (16100258 * 2 ^ 12) (16731169 / 2 ^ 24)
    (16100258 * 2 ^ 12) (16731167 / 2 ^ 24) (46049 / 2 ^ 24) (11456780 * 2 ^ 21) (-(11425334 * 2 ^ 21)) hs (by norm_num) (by norm_num) hc
    (16100258) 12 (by norm_num) (by norm_num) (by norm_num) (by norm_num) (by norm_num)
    (roundF_int _ (12) (16100258) _ (round_half_even_eq _ _ (by norm_num [abs_of_pos]))
      (by norm_num) (by norm_num) (by norm_num) (by norm_num) (by norm_num))
    (roundF_int _ (-24) (16731167) _ (round_half_even_eq _ _ (by norm_num [abs_of_pos]))
      (by norm_num) (by norm_num) (by norm_num) (by norm_num) (by norm_num))
    (roundF_int _ (-32) (11788544) _ (round_half_even_eq _ _ (by norm_num [abs_of_pos]))
      (by norm_num) (by norm_num) (by norm_num) (by norm_num) (by norm_num))
    (by norm_num)
    (roundF_int _ (21) (11456780) _ (round_half_even_eq _ _ (by norm_num [abs_of_pos]))
      (by norm_num) (by norm_num) (by norm_num) (by norm_num) (by norm_num))
    (roundF_int _ (21) (-11425334) _ (round_half_even_eq _ _ (by norm_num [abs_of_pos]))
      (by norm_num) (by norm_num) (by norm_num) (by norm_num) (by norm_num))
    x

/-- Newton iteration 20 of the run. -/
theorem nan_run_step_20 (sinf cosf : ℚ → ℚ) (hs : |sinf (-(11425334 * 2 ^ 21))| ≤ 1)
    (hc : cosf (-(11425334 * 2 ^ 21)) = 11829963 / 2 ^ 25) (x : Fl) :
    kepler_body (ieeeOps sinf cosf) (Fl.fin (6540225 / 2 ^ 36)) (Fl.fin (8388607 / 2 ^ 23)) (Fl.fin (-(11425334 * 2 ^ 21)), x)
      = (Fl.fin (12443228 * 2 ^ 20), Fl.fin (-(11425334 * 2 ^ 21))) :=
  ieee_body_big sinf cosf (6540225 / 2 ^ 36) (8388607 / 2 ^ 23) (-(11425334 * 2 ^ 21)) (11829963 / 2 ^ 25)
    (-(11425334 * 2 ^ 21)) (5914981 / 2 ^ 24) (10862235 / 2 ^ 24) (-(8823474 * 2 ^ 22)) (12443228 * 2 ^ 20) hs (by norm_num) (by norm_num) hc
    (-11425334) 21 (by norm_num) (by norm_num) (by norm_num) (by norm_num) (by norm_num)
    (roundF_int _ (21) (-11425334) _ (round_half_even_eq _ _ (by norm_num [abs_of_pos]))
      (by norm_num) (by norm_num) (by norm_num) (by norm_num) (by norm_num))
    (roundF_int _ (-25) (11829962) _ (round_half_even_eq _ _ (by norm_num [abs_of_pos]))
      (by norm_num) (by norm_num) (by norm_num) (by norm_num) (by norm_num))
    (roundF_int _ (-24) (10862235) _ (round_half_even_eq _ _ (by norm_num [abs_of_pos]))
      (by norm_num) (by norm_num) (by norm_num) (by norm_num) (by norm_num))
    (by norm_num)
    (roundF_int _ (22) (-8823474) _ (round_half_even_eq _ _ (by norm_num [abs_of_pos]))
      (by norm_num) (by norm_num) (by norm_num) (by norm_num) (by norm_num))
    (roundF_int _ (20) (12443228) _ (round_half_even_eq _ _ (by norm_num [abs_of_pos]))
      (by norm_num) (by norm_num) (by norm_num) (by norm_num) (by norm_num))
    x

/-- Newton iteration 21 of the run. -/
theorem nan_run_step_21 (sinf cosf : ℚ → ℚ) (hs : |sinf (12443228 * 2 ^ 20)| ≤ 1)
    (hc : cosf (12443228 * 2 ^ 20) = -(3379423 / 2 ^ 23)) (x : Fl) :
    kepler_body (ieeeOps sinf cosf) (Fl.fin (6540225 / 2 ^ 36)) (Fl.fin (8388607 / 2 ^ 23)) (Fl.fin (12443228 * 2 ^ 20), x)
      = (Fl.fin (14293272 * 2 ^ 18), Fl.fin (12443228 * 2 ^ 20)) :=
  ieee_body_big sinf cosf (6540225 / 2 ^ 36) (8388607 / 2 ^ 23) (12443228 * 2 ^ 20) (-(3379423 / 2 ^ 23))
    (12443228 * 2 ^ 20) (-(6758845 / 2 ^ 24)) (5884015 / 2 ^ 22) (8869910 * 2 ^ 20) (14293272 * 2 ^ 18) hs (by norm_num) (by norm_num) hc
    (12443228) 20 (by norm_num) (by norm_num) (by norm_num) (by norm_num) (by norm_num)
    (roundF_int _ (20) (12443228) _ (round_half_even_eq _ _ (by norm_num [abs_of_pos]))
      (by norm_num) (by norm_num) (by norm_num) (by norm_num) (by norm_num))
    (roundF_int _ (-25) (-13517690) _ (round_half_even_eq _ _ (by norm_num [abs_of_pos]))
      (by norm_num) (by norm_num) (by norm_num) (by norm_num) (by norm_num))
    (roundF_int _ (-23) (11768030) _ (round_half_even_tie _ _ (by norm_num [abs_of_pos]) (by norm_num))
      (by norm_num) (by norm_num) (by norm_num) (by norm_num) (by norm_num))
    (by norm_num)
    (roundF_int _ (20) (8869910) _ (round_half_even_eq _ _ (by norm_num [abs_of_pos]))
      (by norm_num) (by norm_num) (by norm_num) (by norm_num) (by norm_num))
    (roundF_int _ (18) (14293272) _ (round_half_even_eq _ _ (by norm_num [abs_of_pos]))
      (by norm_num) (by norm_num) (by norm_num) (by norm_num) (by norm_num))
    x

/-- Newton iteration 22 of the run. -/
theorem nan_run_step_22 (sinf cosf : ℚ → ℚ) (hs : |sinf (14293272 * 2 ^ 18)| ≤ 1)
    (hc : cosf (14293272 * 2 ^ 18) = -(6714163 / 2 ^ 27)) (x : Fl) :
    kepler_body (ieeeOps sinf cosf) (Fl.fin (6540225 / 2 ^ 36)) (Fl.fin (8388607 / 2 ^ 23)) (Fl.fin (14293272 * 2 ^ 18), x)
      = (Fl.fin (10895168 * 2 ^ 14), Fl.fin (14293272 * 2 ^ 18)) :=
  ieee_body_big sinf cosf (6540225 / 2 ^ 36) (8388607 / 2 ^ 23) (14293272 * 2 ^ 18) (-(6714163 / 2 ^ 27))
    (14293272 * 2 ^ 18) (-(3357081 / 2 ^ 26)) (8808243 / 2 ^ 23) (13612324 * 2 ^ 18) (10895168 * 2 ^ 14) hs (by norm_num) (by norm_num) hc
    (14293272) 18 (by norm_num) (by norm_num) (by norm_num) (by norm_num) (by norm_num)
    (roundF_int _ (18) (14293272) _ (round_half_even_eq _ _ (by norm_num [abs_of_pos]))
      (by norm_num) (by norm_num) (by norm_num) (by norm_num) (by norm_num))
    (roundF_int _ (-28) (-13428324) _ (round_half_even_eq _ _ (by norm_num [abs_of_pos]))
      (by norm_num) (by norm_num) (by norm_num) (by norm_num) (by norm_num))
    (roundF_int _ (-23) (8808243) _ (round_half_even_eq _ _ (by norm_num [abs_of_pos]))
      (by norm_num) (by norm_num) (by norm_num) (by norm_num) (by norm_num))
    (by norm_num)
    (roundF_int _ (18) (13612324) _ (round_half_even_eq _ _ (by norm_num [abs_of_pos]))
      (by norm_num) (by norm_num) (by norm_num) (by norm_num) (by norm_num))
    (roundF_int _ (14) (10895168) _ (round_half_even_eq _ _ (by norm_num [abs_of_pos]))
      (by norm_num) (by norm_num) (by norm_num) (by norm_num) (by norm_num))
    x

/-- Newton iteration 23 of the run. -/
theorem nan_run_step_23 (sinf cosf : ℚ → ℚ) (hs : |sinf (10895168 * 2 ^ 14)| ≤ 1)
    (hc : cosf (10895168 * 2 ^ 14) = 8349447 / 2 ^ 23) (x : Fl) :
    kepler_body (ieeeOps sinf cosf) (Fl.fin (6540225 / 2 ^ 36)) (Fl.fin (8388607 / 2 ^ 23)) (Fl.fin (10895168 * 2 ^ 14), x)
      = (Fl.fin (-(9073749 * 2 ^ 22)), Fl.fin (10895168 * 2 ^ 14)) :=
  ieee_body_big sinf cosf (6540225 / 2 ^ 36) (8388607 / 2 ^ 23) (10895168 * 2 ^ 14) (8349447 / 2 ^ 23)
    (10895168 * 2 ^ 14) (4174723 / 2 ^ 22) (19581 / 2 ^ 22) (9116308 * 2 ^ 22) (-(9073749 * 2 ^ 22)) hs (by norm_num) (by norm_num) hc
    (10895168) 14 (by norm_num) (by norm_num) (by norm_num) (by norm_num) (by norm_num)
    (roundF_int _ (14) (10895168) _ (round_half_even_eq _ _ (by norm_num [abs_of_pos]))
      (by norm_num) (by norm_num) (by norm_num) (by norm_num) (by norm_num))
    (roundF_int _ (-24) (16698892) _ (round_half_even_eq _ _ (by norm_num [abs_of_pos]))
      (by norm_num) (by norm_num) (by norm_num) (by norm_num) (by norm_num))
    (roundF_int _ (-31) (10025472) _ (round_half_even_eq _ _ (by norm_num [abs_of_pos]))
      (by norm_num) (by norm_num) (by norm_num) (by norm_num) (by norm_num))
    (by norm_num)
    (roundF_int _ (22) (9116308) _ (round_half_even_eq _ _ (by norm_num [abs_of_pos]))
      (by norm_num) (by norm_num) (by norm_num) (by norm_num) (by norm_num))
    (roundF_int _ (22) (-9073749) _ (round_half_even_eq _ _ (by norm_num [abs_of_pos]))
      (by norm_num) (by norm_num) (by norm_num) (by norm_num) (by norm_num))
    x

/-- Newton iteration 24 of the run. -/
theorem nan_run_step_24 (sinf cosf : ℚ → ℚ) (hs : |sinf (-(9073749 * 2 ^ 22))| ≤ 1)
    (hc : cosf (-(9073749 * 2 ^ 22)) = 16720211 / 2 ^ 24) (x : Fl) :
    kepler_body (ieeeOps sinf cosf) (Fl.fin (6540225 / 2 ^ 36)) (Fl.fin (8388607 / 2 ^ 23)) (Fl.fin (-(9073749 * 2 ^ 22)), x)
      = (Fl.fin (10395858 * 2 ^ 30), Fl.fin (-(9073749 * 2 ^ 22))) :=
  ieee_body_big sinf cosf (6540225 / 2 ^ 36) (8388607 / 2 ^ 23) (-(9073749 * 2 ^ 22)) (16720211 / 2 ^ 24)
    (-(9073749 * 2 ^ 22)) (16720209 / 2 ^ 24) (57007 / 2 ^ 24) (-(10431302 * 2 ^ 30)) (10395858 * 2 ^ 30) hs (by norm_num) (by norm_num) hc
    (-9073749) 22 (by norm_num) (by norm_num) (by norm_num) (by norm_num) (by norm_num)
    (roundF_int _ (22) (-9073749) _ (round_half_even_eq _ _ (by norm_num [abs_of_pos]))
      (by norm_num) (by norm_num) (by norm_num) (by norm_num) (by norm_num))
    (roundF_int _ (-24) (16720209) _ (round_half_even_eq _ _ (by norm_num [abs_of_pos]))
      (by norm_num) (by norm_num) (by norm_num) (by norm_num) (by norm_num))
    (roundF_int _ (-32) (14593792) _ (round_half_even_eq _ _ (by norm_num [abs_of_pos]))
      (by norm_num) (by norm_num) (by norm_num) (by norm_num) (by norm_num))
    (by norm_num)
    (roundF_int _ (30) (-10431302) _ (round_half_even_eq _ _ (by norm_num [abs_of_pos]))
      (by norm_num) (by norm_num) (by norm_num) (by norm_num) (by norm_num))
    (roundF_int _ (30) (10395858) _ (round_half_even_eq _ _ (by norm_num [abs_of_pos]))
      (by norm_num) (by norm_num) (by norm_num) (by norm_num) (by norm_num))
    x

/-- Newton iteration 25 of the run. -/
theorem nan_run_step_25 (sinf cosf : ℚ → ℚ) (hs : |sinf (10395858 * 2 ^ 30)| ≤ 1)
    (hc : cosf (10395858 * 2 ^ 30) = -(9670551 / 2 ^ 27)) (x : Fl) :
    kepler_body (ieeeOps sinf cosf) (Fl.fin (6540225 / 2 ^ 36)) (Fl.fin (8388607 / 2 ^ 23)) (Fl.fin (10395858 * 2 ^ 30), x)
      = (Fl.fin (11179072 * 2 ^ 26), Fl.fin (10395858 * 2 ^ 30)) :=
  ieee_body_big sinf cosf (6540225 / 2 ^ 36) (8388607 / 2 ^ 23) (10395858 * 2 ^ 30) (-(9670551 / 2 ^ 27))
    (10395858 * 2 ^ 30) (-(4835275 / 2 ^ 26)) (8993017 / 2 ^ 23) (9697166 * 2 ^ 30) (11179072 * 2 ^ 26) hs (by norm_num) (by norm_num) hc
    (10395858) 30 (by norm_num) (by norm_num) (by norm_num) (by norm_num) (by norm_num)
    (roundF_int _ (30) (10395858) _ (round_half_even_eq _ _ (by norm_num [abs_of_pos]))
      (by norm_num) (by norm_num) (by norm_num) (by norm_num) (by norm_num))
    (roundF_int _ (-27) (-9670550) _ (round_half_even_eq _ _ (by norm_num [abs_of_pos]))
      (by norm_num) (by norm_num) (by norm_num) (by norm_num) (by norm_num))
    (roundF_int _ (-23) (8993017) _ (round_half_even_eq _ _ (by norm_num [abs_of_pos]))
      (by norm_num) (by norm_num) (by norm_num) (by norm_num) (by norm_num))
    (by norm_num)
    (roundF_int _ (30) (9697166) _ (round_half_even_eq _ _ (by norm_num [abs_of_pos]))
      (by norm_num) (by norm_num) (by norm_num) (by norm_num) (by norm_num))
    (roundF_int _ (26) (11179072) _ (round_half_even_eq _ _ (by norm_num [abs_of_pos]))
      (by norm_num) (by norm_num) (by norm_num) (by norm_num) (by norm_num))
    x

/-- Newton iteration 26 of the run. -/
theorem nan_run_step_26 (sinf cosf : ℚ → ℚ) (hs : |sinf (11179072 * 2 ^ 26)| ≤ 1)
    (hc : cosf (11179072 * 2 ^ 26) = 8185639 / 2 ^ 23) (x : Fl) :
    kepler_body (ieeeOps sinf cosf) (Fl.fin (6540225 / 2 ^ 36)) (Fl.fin (8388607 / 2 ^ 23)) (Fl.fin (11179072 * 2 ^ 26), x)
      = (Fl.fin (-(14088880 * 2 ^ 31)), Fl.fin (11179072 * 2 ^ 26)) :=
  ieee_body_big sinf cosf (6540225 / 2 ^ 36) (8388607 / 2 ^ 23) (11179072 * 2 ^ 26) (8185639 / 2 ^ 23)
    (11179072 * 2 ^ 26) (4092819 / 2 ^ 22) (101485 / 2 ^ 22) (14438226 * 2 ^ 31) (-(14088880 * 2 ^ 31)) hs (by norm_num) (by norm_num) hc
    (11179072) 26 (by norm_num) (by norm_num) (by norm_num) (by norm_num) (by norm_num)
    (roundF_int _ (26) (11179072) _ (round_half_even_eq _ _ (by norm_num [abs_of_pos]))
      (by norm_num) (by norm_num) (by norm_num) (by norm_num) (by norm_num))
    (roundF_int _ (-24) (16371276) _ (round_half_even_eq _ _ (by norm_num [abs_of_pos]))
      (by norm_num) (by norm_num) (by norm_num) (by norm_num) (by norm_num))
    (roundF_int _ (-29) (12990080) _ (round_half_even_eq _ _ (by norm_num [abs_of_pos]))
      (by norm_num) (by norm_num) (by norm_num) (by norm_num) (by norm_num))
    (by norm_num)
    (roundF_int _ (31) (14438226) _ (round_half_even_eq _ _ (by norm_num [abs_of_pos]))
      (by norm_num) (by norm_num) (by norm_num) (by norm_num) (by norm_num))
    (roundF_int _ (31) (-14088880) _ (round_half_even_eq _ _ (by norm_num [abs_of_pos]))
      (by norm_num) (by norm_num) (by norm_num) (by norm_num) (by norm_num))
    x

/-- Newton iteration 27 of the run. -/
theorem nan_run_step_27 (sinf cosf : ℚ → ℚ) (hs : |sinf (-(14088880 * 2 ^ 31))| ≤ 1)
    (hc : cosf (-(14088880 * 2 ^ 31)) = -(11293541 / 2 ^ 30)) (x : Fl) :
    kepler_body (ieeeOps sinf cosf) (Fl.fin (6540225 / 2 ^ 36)) (Fl.fin (8388607 / 2 ^ 23)) (Fl.fin (-(14088880 * 2 ^ 31)), x)
      = (Fl.fin (-(9385216 * 2 ^ 25)), Fl.fin (-(14088880 * 2 ^ 31))) :=
  ieee_body_big sinf cosf (6540225 / 2 ^ 36) (8388607 / 2 ^ 23) (-(14088880 * 2 ^ 31)) (-(11293541 / 2 ^ 30))
    (-(14088880 * 2 ^ 31)) (-(2823385 / 2 ^ 28)) (8476839 / 2 ^ 23) (-(13942236 * 2 ^ 31)) (-(9385216 * 2 ^ 25)) hs (by norm_num) (by norm_num) hc
    (-14088880) 31 (by norm_num) (by norm_num) (by norm_num) (by norm_num) (by norm_num)
    (roundF_int _ (31) (-14088880) _ (round_half_even_eq _ _ (by norm_num [abs_of_pos]))
      (by norm_num) (by norm_num) (by norm_num) (by norm_num) (by norm_num))
    (roundF_int _ (-30) (-11293540) _ (round_half_even_eq _ _ (by norm_num [abs_of_pos]))
      (by norm_num) (by norm_num) (by norm_num) (by norm_num) (by norm_num))
    (roundF_int _ (-23) (8476839) _ (round_half_even_eq _ _ (by norm_num [abs_of_pos]))
      (by norm_num) (by norm_num) (by norm_num) (by norm_num) (by norm_num))
    (by norm_num)
    (roundF_int _ (31) (-13942236) _ (round_half_even_eq _ _ (by norm_num [abs_of_pos]))
      (by norm_num) (by norm_num) (by norm_num) (by norm_num) (by norm_num))
    (roundF_int _ (25) (-9385216) _ (round_half_even_eq _ _ (by norm_num [abs_of_pos]))
      (by norm_num) (by norm_num) (by norm_num) (by norm_num) (by norm_num))
    x

/-- Newton iteration 28 of the run. -/
theorem nan_run_step_28 (sinf cosf : ℚ → ℚ) (hs : |sinf (-(9385216 * 2 ^ 25))| ≤ 1)
    (hc : cosf (-(9385216 * 2 ^ 25)) = 6221261 / 2 ^ 23) (x : Fl) :
    kepler_body (ieeeOps sinf cosf) (Fl.fin (6540225 / 2 ^ 36)) (Fl.fin (8388607 / 2 ^ 23)) (Fl.fin (-(9385216 * 2 ^ 25)), x)
      = (Fl.fin (13469892 * 2 ^ 26), Fl.fin (-(9385216 * 2 ^ 25))) :=
  ieee_body_big sinf cosf (6540225 / 2 ^ 36) (8388607 / 2 ^ 23) (-(9385216 * 2 ^ 25)) (6221261 / 2 ^ 23)
    (-(9385216 * 2 ^ 25)) (12442521 / 2 ^ 24) (4334695 / 2 ^ 24) (-(9081250 * 2 ^ 27)) (13469892 * 2 ^ 26) hs (by norm_num) (by norm_num) hc
    (-9385216) 25 (by norm_num) (by norm_num) (by norm_num) (by norm_num) (by norm_num)
    (roundF_int _ (25) (-9385216) _ (round_half_even_eq _ _ (by norm_num [abs_of_pos]))
      (by norm_num) (by norm_num) (by norm_num) (by norm_num) (by norm_num))
    (roundF_int _ (-24) (12442521) _ (round_half_even_eq _ _ (by norm_num [abs_of_pos]))
      (by norm_num) (by norm_num) (by norm_num) (by norm_num) (by norm_num))
    (roundF_int _ (-25) (8669390) _ (round_half_even_eq _ _ (by norm_num [abs_of_pos]))
      (by norm_num) (by norm_num) (by norm_num) (by norm_num) (by norm_num))
    (by norm_num)
    (roundF_int _ (27) (-9081250) _ (round_half_even_eq _ _ (by norm_num [abs_of_pos]))
      (by norm_num) (by norm_num) (by norm_num) (by norm_num) (by norm_num))
    (roundF_int _ (26) (13469892) _ (round_half_even_eq _ _ (by norm_num [abs_of_pos]))
      (by norm_num) (by norm_num) (by norm_num) (by norm_num) (by norm_num))
    x

/-- Newton iteration 29 of the run. -/
theorem nan_run_step_29 (sinf cosf : ℚ → ℚ) (hs : |sinf (13469892 * 2 ^ 26)| ≤ 1)
    (hc : cosf (13469892 * 2 ^ 26) = -(995337 / 2 ^ 20)) (x : Fl) :
    kepler_body (ieeeOps sinf cosf) (Fl.fin (6540225 / 2 ^ 36)) (Fl.fin (8388607 / 2 ^ 23)) (Fl.fin (13469892 * 2 ^ 26), x)
      = (Fl.fin (13119033 * 2 ^ 25), Fl.fin (13469892 * 2 ^ 26)) :=
  ieee_body_big sinf cosf (6540225 / 2 ^ 36) (8388607 / 2 ^ 23) (13469892 * 2 ^ 26) (-(995337 / 2 ^ 20))
    (13469892 * 2 ^ 26) (-(7962695 / 2 ^ 23)) (16351303 / 2 ^ 23) (13820751 * 2 ^ 25) (13119033 * 2 ^ 25) hs (by norm_num) (by norm_num) hc
    (13469892) 26 (by norm_num) (by norm_num) (by norm_num) (by norm_num) (by norm_num)
    (roundF_int _ (26) (13469892) _ (round_half_even_eq _ _ (by norm_num [abs_of_pos]))
      (by norm_num) (by norm_num) (by norm_num) (by norm_num) (by norm_num))
    (roundF_int _ (-24) (-15925390) _ (round_half_even_eq _ _ (by norm_num [abs_of_pos]))
      (by norm_num) (by norm_num) (by norm_num) (by norm_num) (by norm_num))
    (roundF_int _ (-23) (16351303) _ (round_half_even_eq _ _ (by norm_num [abs_of_pos]))
      (by norm_num) (by norm_num) (by norm_num) (by norm_num) (by norm_num))
    (by norm_num)
    (roundF_int _ (25) (13820751) _ (round_half_even_eq _ _ (by norm_num [abs_of_pos]))
      (by norm_num) (by norm_num) (by norm_num) (by norm_num) (by norm_num))
    (roundF_int _ (25) (13119033) _ (round_half_even_eq _ _ (by norm_num [abs_of_pos]))
      (by norm_num) (by norm_num) (by norm_num) (by norm_num) (by norm_num))
    x

/-- Newton iteration 30 of the run. -/
theorem nan_run_step_30 (sinf cosf : ℚ → ℚ) (hs : |sinf (13119033 * 2 ^ 25)| ≤ 1)
    (hc : cosf (13119033 * 2 ^ 25) = -(3492985 / 2 ^ 22)) (x : Fl) :
    kepler_body (ieeeOps sinf cosf) (Fl.fin (6540225 / 2 ^ 36)) (Fl.fin (8388607 / 2 ^ 23)) (Fl.fin (13119033 * 2 ^ 25), x)
      = (Fl.fin (11922170 * 2 ^ 24), Fl.fin (13119033 * 2 ^ 25)) :=
  ieee_body_big sinf cosf (6540225 / 2 ^ 36) (8388607 / 2 ^ 23) (13119033 * 2 ^ 25) (-(3492985 / 2 ^ 22))
    (13119033 * 2 ^ 25) (-(6985969 / 2 ^ 23)) (15374577 / 2 ^ 23) (14315896 * 2 ^ 24) (11922170 * 2 ^ 24) hs (by norm_num) (by norm_num) hc
    (13119033) 25 (by norm_num) (by norm_num) (by norm_num) (by norm_num) (by norm_num)
    (roundF_int _ (25) (13119033) _ (round_half_even_eq _ _ (by norm_num [abs_of_pos]))
      (by norm_num) (by norm_num) (by norm_num) (by norm_num) (by norm_num))
    (roundF_int _ (-24) (-13971938) _ (round_half_even_eq _ _ (by norm_num [abs_of_pos]))
      (by norm_num) (by norm_num) (by norm_num) (by norm_num) (by norm_num))
    (roundF_int _ (-23) (15374577) _ (round_half_even_eq _ _ (by norm_num [abs_of_pos]))
      (by norm_num) (by norm_num) (by norm_num) (by norm_num) (by norm_num))
    (by norm_num)
    (roundF_int _ (24) (14315896) _ (round_half_even_eq _ _ (by norm_num [abs_of_pos]))
      (by norm_num) (by norm_num) (by norm_num) (by norm_num) (by norm_num))
    (roundF_int _ (24) (11922170) _ (round_half_even_eq _ _ (by norm_num [abs_of_pos]))
      (by norm_num) (by norm_num) (by norm_num) (by norm_num) (by norm_num))
    x

/-- Newton iteration 31 of the run. -/
theorem nan_run_step_31 (sinf cosf : ℚ → ℚ) (hs : |sinf (11922170 * 2 ^ 24)| ≤ 1)
    (hc : cosf (11922170 * 2 ^ 24) = 9796913 / 2 ^ 24) (x : Fl) :
    kepler_body (ieeeOps sinf cosf) (Fl.fin (6540225 / 2 ^ 36)) (Fl.fin (8388607 / 2 ^ 23)) (Fl.fin (11922170 * 2 ^ 24), x)
      = (Fl.fin (-(16732860 * 2 ^ 24)), Fl.fin (11922170 * 2 ^ 24)) :=
  ieee_body_big sinf cosf (6540225 / 2 ^ 36) (8388607 / 2 ^ 23) (11922170 * 2 ^ 24) (9796913 / 2 ^ 24)
    (11922170 * 2 ^ 24) (612307 / 2 ^ 20) (436269 / 2 ^ 20) (14327515 * 2 ^ 25) (-(16732860 * 2 ^ 24)) hs (by norm_num) (by norm_num) hc
    (11922170) 24 (by norm_num) (by norm_num) (by norm_num) (by norm_num) (by norm_num)
    (roundF_int _ (24) (11922170) _ (round_half_even_eq _ _ (by norm_num [abs_of_pos]))
      (by norm_num) (by norm_num) (by norm_num) (by norm_num) (by norm_num))
    (roundF_int _ (-24) (9796912) _ (round_half_even_eq _ _ (by norm_num [abs_of_pos]))
      (by norm_num) (by norm_num) (by norm_num) (by norm_num) (by norm_num))
    (roundF_int _ (-25) (13960608) _ (round_half_even_eq _ _ (by norm_num [abs_of_pos]))
      (by norm_num) (by norm_num) (by norm_num) (by norm_num) (by norm_num))
    (by norm_num)
    (roundF_int _ (25) (14327515) _ (round_half_even_eq _ _ (by norm_num [abs_of_pos]))
      (by norm_num) (by norm_num) (by norm_num) (by norm_num) (by norm_num))
    (roundF_int _ (24) (-16732860) _ (round_half_even_eq _ _ (by norm_num [abs_of_pos]))
      (by norm_num) (by norm_num) (by norm_num) (by norm_num) (by norm_num))
    x

/-- Newton iteration 32 of the run. -/
theorem nan_run_step_32 (sinf cosf : ℚ → ℚ) (hs : |sinf (-(16732860 * 2 ^ 24))| ≤ 1)
    (hc : cosf (-(16732860 * 2 ^ 24)) = 16536609 / 2 ^ 24) (x : Fl) :
    kepler_body (ieeeOps sinf cosf) (Fl.fin (6540225 / 2 ^ 36)) (Fl.fin (8388607 / 2 ^ 23)) (Fl.fin (-(16732860 * 2 ^ 24)), x)
      = (Fl.fin (8984518 * 2 ^ 31), Fl.fin (-(16732860 * 2 ^ 24))) :=
  ieee_body_big sinf cosf (6540225 / 2 ^ 36) (8388607 / 2 ^ 23) (-(16732860 * 2 ^ 24)) (16536609 / 2 ^ 24)
    (-(16732860 * 2 ^ 24)) (16536607 / 2 ^ 24) (240609 / 2 ^ 24) (-(9115243 * 2 ^ 31)) (8984518 * 2 ^ 31) hs (by norm_num) (by norm_num) hc
    (-16732860) 24 (by norm_num) (by norm_num) (by norm_num) (by norm_num) (by norm_num)
    (roundF_int _ (24) (-16732860) _ (round_half_even_eq _ _ (by norm_num [abs_of_pos]))
      (by norm_num) (by norm_num) (by norm_num) (by norm_num) (by norm_num))
    (roundF_int _ (-24) (16536607) _ (round_half_even_eq _ _ (by norm_num [abs_of_pos]))
      (by norm_num) (by norm_num) (by norm_num) (by norm_num) (by norm_num))
    (roundF_int _ (-30) (15398976) _ (round_half_even_eq _ _ (by norm_num [abs_of_pos]))
      (by norm_num) (by norm_num) (by norm_num) (by norm_num) (by norm_num))
    (by norm_num)
    (roundF_int _ (31) (-9115243) _ (round_half_even_eq _ _ (by norm_num [abs_of_pos]))
      (by norm_num) (by norm_num) (by norm_num) (by norm_num) (by norm_num))
    (roundF_int _ (31) (8984518) _ (round_half_even_eq _ _ (by norm_num [abs_of_pos]))
      (by norm_num) (by norm_num) (by norm_num) (by norm_num) (by norm_num))
    x

/-- Newton iteration 33 of the run. -/
theorem nan_run_step_33 (sinf cosf : ℚ → ℚ) (hs : |sinf (8984518 * 2 ^ 31)| ≤ 1)
    (hc : cosf (8984518 * 2 ^ 31) = 65525 / 2 ^ 16) (x : Fl) :
    kepler_body (ieeeOps sinf cosf) (Fl.fin (6540225 / 2 ^ 36)) (Fl.fin (8388607 / 2 ^ 23)) (Fl.fin (8984518 * 2 ^ 31), x)
      = (Fl.fin (-(13056922 * 2 ^ 43)), Fl.fin (8984518 * 2 ^ 31)) :=
  ieee_body_big sinf cosf (6540225 / 2 ^ 36) (8388607 / 2 ^ 23) (8984518 * 2 ^ 31) (65525 / 2 ^ 16)
    (8984518 * 2 ^ 31) (8387199 / 2 ^ 23) (1409 / 2 ^ 23) (13059115 * 2 ^ 43) (-(13056922 * 2 ^ 43)) hs (by norm_num) (by norm_num) hc
    (8984518) 31 (by norm_num) (by norm_num) (by norm_num) (by norm_num) (by norm_num)
    (roundF_int _ (31) (8984518) _ (round_half_even_eq _ _ (by norm_num [abs_of_pos]))
      (by norm_num) (by norm_num) (by norm_num) (by norm_num) (by norm_num))
    (roundF_int _ (-24) (16774398) _ (round_half_even_eq _ _ (by norm_num [abs_of_pos]))
      (by norm_num) (by norm_num) (by norm_num) (by norm_num) (by norm_num))
    (roundF_int _ (-36) (11542528) _ (round_half_even_eq _ _ (by norm_num [abs_of_pos]))
      (by norm_num) (by norm_num) (by norm_num) (by norm_num) (by norm_num))
    (by norm_num)
    (roundF_int _ (43) (13059115) _ (round_half_even_eq _ _ (by norm_num [abs_of_pos]))
      (by norm_num) (by norm_num) (by norm_num) (by norm_num) (by norm_num))
    (roundF_int _ (43) (-13056922) _ (round_half_even_eq _ _ (by norm_num [abs_of_pos]))
      (by norm_num) (by norm_num) (by norm_num) (by norm_num) (by norm_num))
    x

/-- Newton iteration 34 of the run. -/
theorem nan_run_step_34 (sinf cosf : ℚ → ℚ) (hs : |sinf (-(13056922 * 2 ^ 43))| ≤ 1)
    (hc : cosf (-(13056922 * 2 ^ 43)) = 15628527 / 2 ^ 24) (x : Fl) :
    kepler_body (ieeeOps sinf cosf) (Fl.fin (6540225 / 2 ^ 36)) (Fl.fin (8388607 / 2 ^ 23)) (Fl.fin (-(13056922 * 2 ^ 43)), x)
      = (Fl.fin (11102878 * 2 ^ 47), Fl.fin (-(13056922 * 2 ^ 43))) :=
  ieee_body_big sinf cosf (6540225 / 2 ^ 36) (8388607 / 2 ^ 23) (-(13056922 * 2 ^ 43)) (15628527 / 2 ^ 24)
    (-(13056922 * 2 ^ 43)) (15628525 / 2 ^ 24) (1148691 / 2 ^ 24) (-(11918936 * 2 ^ 47)) (11102878 * 2 ^ 47) hs (by norm_num) (by norm_num) hc
    (-13056922) 43 (by norm_num) (by norm_num) (by norm_num) (by norm_num) (by norm_num)
    (roundF_int _ (43) (-13056922) _ (round_half_even_eq _ _ (by norm_num [abs_of_pos]))
      (by norm_num) (by norm_num) (by norm_num) (by norm_num) (by norm_num))
    (roundF_int _ (-24) (15628525) _ (round_half_even_eq _ _ (by norm_num [abs_of_pos]))
      (by norm_num) (by norm_num) (by norm_num) (by norm_num) (by norm_num))
    (roundF_int _ (-27) (9189528) _ (round_half_even_eq _ _ (by norm_num [abs_of_pos]))
      (by norm_num) (by norm_num) (by norm_num) (by norm_num) (by norm_num))
    (by norm_num)
    (roundF_int _ (47) (-11918936) _ (round_half_even_eq _ _ (by norm_num [abs_of_pos]))
      (by norm_num) (by norm_num) (by norm_num) (by norm_num) (by norm_num))
    (roundF_int _ (47) (11102878) _ (round_half_even_eq _ _ (by norm_num [abs_of_pos]))
      (by norm_num) (by norm_num) (by norm_num) (by norm_num) (by norm_num))
    x

/-- Newton iteration 35 of the run. -/
theorem nan_run_step_35 (sinf cosf : ℚ → ℚ) (hs : |sinf (11102878 * 2 ^ 47)| ≤ 1)
    (hc : cosf (11102878 * 2 ^ 47) = 8366429 / 2 ^ 23) (x : Fl) :
    kepler_body (ieeeOps sinf cosf) (Fl.fin (6540225 / 2 ^ 36)) (Fl.fin (8388607 / 2 ^ 23)) (Fl.fin (11102878 * 2 ^ 47), x)
      = (Fl.fin (-(16359655 * 2 ^ 55)), Fl.fin (11102878 * 2 ^ 47)) :=
  ieee_body_big sinf cosf (6540225 / 2 ^ 36) (8388607 / 2 ^ 23) (11102878 * 2 ^ 47) (8366429 / 2 ^ 23)
    (11102878 * 2 ^ 47) (2091607 / 2 ^ 21) (5545 / 2 ^ 21) (16403026 * 2 ^ 55) (-(16359655 * 2 ^ 55)) hs (by norm_num) (by norm_num) hc
    (11102878) 47 (by norm_num) (by norm_num) (by norm_num) (by norm_num) (by norm_num)
    (roundF_int _ (47) (11102878) _ (round_half_even_eq _ _ (by norm_num [abs_of_pos]))
      (by norm_num) (by norm_num) (by norm_num) (by norm_num) (by norm_num))
    (roundF_int _ (-24) (16732856) _ (round_half_even_eq _ _ (by norm_num [abs_of_pos]))
      (by norm_num) (by norm_num) (by norm_num) (by norm_num) (by norm_num))
    (roundF_int _ (-32) (11356160) _ (round_half_even_eq _ _ (by norm_num [abs_of_pos]))
      (by norm_num) (by norm_num) (by norm_num) (by norm_num) (by norm_num))
    (by norm_num)
    (roundF_int _ (55) (16403026) _ (round_half_even_eq _ _ (by norm_num [abs_of_pos]))
      (by norm_num) (by norm_num) (by norm_num) (by norm_num) (by norm_num))
    (roundF_int _ (55) (-16359655) _ (round_half_even_eq _ _ (by norm_num [abs_of_pos]))
      (by norm_num) (by norm_num) (by norm_num) (by norm_num) (by norm_num))
    x

/-- Newton iteration 36 of the run. -/
theorem nan_run_step_36 (sinf cosf : ℚ → ℚ) (hs : |sinf (-(16359655 * 2 ^ 55))| ≤ 1)
    (hc : cosf (-(16359655 * 2 ^ 55)) = 3490739 / 2 ^ 22) (x : Fl) :
    kepler_body (ieeeOps sinf cosf) (Fl.fin (6540225 / 2 ^ 36)) (Fl.fin (8388607 / 2 ^ 23)) (Fl.fin (-(16359655 * 2 ^ 55)), x)
      = (Fl.fin (10146048 * 2 ^ 58), Fl.fin (-(16359655 * 2 ^ 55))) :=
  ieee_body_big sinf cosf (6540225 / 2 ^ 36) (8388607 / 2 ^ 23) (-(16359655 * 2 ^ 55)) (3490739 / 2 ^ 22)
    (-(16359655 * 2 ^ 55)) (6981477 / 2 ^ 23) (1407131 / 2 ^ 23) (-(12191005 * 2 ^ 58)) (10146048 * 2 ^ 58) hs (by norm_num) (by norm_num) hc
    (-16359655) 55 (by norm_num) (by norm_num) (by norm_num) (by norm_num) (by norm_num)
    (roundF_int _ (55) (-16359655) _ (round_half_even_eq _ _ (by norm_num [abs_of_pos]))
      (by norm_num) (by norm_num) (by norm_num) (by norm_num) (by norm_num))
    (roundF_int _ (-24) (13962954) _ (round_half_even_eq _ _ (by norm_num [abs_of_pos]))
      (by norm_num) (by norm_num) (by norm_num) (by norm_num) (by norm_num))
    (roundF_int _ (-26) (11257048) _ (round_half_even_eq _ _ (by norm_num [abs_of_pos]))
      (by norm_num) (by norm_num) (by norm_num) (by norm_num) (by norm_num))
    (by norm_num)
    (roundF_int _ (58) (-12191005) _ (round_half_even_eq _ _ (by norm_num [abs_of_pos]))
      (by norm_num) (by norm_num) (by norm_num) (by norm_num) (by norm_num))
    (roundF_int _ (58) (10146048) _ (round_half_even_eq _ _ (by norm_num [abs_of_pos]))
      (by norm_num) (by norm_num) (by norm_num) (by norm_num) (by norm_num))
    x

/-- Newton iteration 37 of the run. -/
theorem nan_run_step_37 (sinf cosf : ℚ → ℚ) (hs : |sinf (10146048 * 2 ^ 58)| ≤ 1)
    (hc : cosf (10146048 * 2 ^ 58) = -(8266889 / 2 ^ 23)) (x : Fl) :
    kepler_body (ieeeOps sinf cosf) (Fl.fin (6540225 / 2 ^ 36)) (Fl.fin (8388607 / 2 ^ 23)) (Fl.fin (10146048 * 2 ^ 58), x)
      = (Fl.fin (10071900 * 2 ^ 57), Fl.fin (10146048 * 2 ^ 58)) :=
  ieee_body_big sinf cosf (6540225 / 2 ^ 36) (8388607 / 2 ^ 23) (10146048 * 2 ^ 58) (-(8266889 / 2 ^ 23))
    (10146048 * 2 ^ 58) (-(1033361 / 2 ^ 20)) (2081937 / 2 ^ 20) (10220196 * 2 ^ 57) (10071900 * 2 ^ 57) hs (by norm_num) (by norm_num) hc
    (10146048) 58 (by norm_num) (by norm_num) (by norm_num) (by norm_num) (by norm_num)
    (roundF_int _ (58) (10146048) _ (round_half_even_eq _ _ (by norm_num [abs_of_pos]))
      (by norm_num) (by norm_num) (by norm_num) (by norm_num) (by norm_num))
    (roundF_int _ (-24) (-16533776) _ (round_half_even_eq _ _ (by norm_num [abs_of_pos]))
      (by norm_num) (by norm_num) (by norm_num) (by norm_num) (by norm_num))
    (roundF_int _ (-23) (16655496) _ (round_half_even_eq _ _ (by norm_num [abs_of_pos]))
      (by norm_num) (by norm_num) (by norm_num) (by norm_num) (by norm_num))
    (by norm_num)
    (roundF_int _ (57) (10220196) _ (round_half_even_eq _ _ (by norm_num [abs_of_pos]))
      (by norm_num) (by norm_num) (by norm_num) (by norm_num) (by norm_num))
    (roundF_int _ (57) (10071900) _ (round_half_even_eq _ _ (by norm_num [abs_of_pos]))
      (by norm_num) (by norm_num) (by norm_num) (by norm_num) (by norm_num))
    x

/-- Newton iteration 38 of the run. -/
theorem nan_run_step_38 (sinf cosf : ℚ → ℚ) (hs : |sinf (10071900 * 2 ^ 57)| ≤ 1)
    (hc : cosf (10071900 * 2 ^ 57) = 261177 / 2 ^ 18) (x : Fl) :
    kepler_body (ieeeOps sinf cosf) (Fl.fin (6540225 / 2 ^ 36)) (Fl.fin (8388607 / 2 ^ 23)) (Fl.fin (10071900 * 2 ^ 57), x)
      = (Fl.fin (-(10625902 * 2 ^ 65)), Fl.fin (10071900 * 2 ^ 57)) :=
  ieee_body_big sinf cosf (6540225 / 2 ^ 36) (8388607 / 2 ^ 23) (10071900 * 2 ^ 57) (261177 / 2 ^ 18)
    (10071900 * 2 ^ 57) (8357663 / 2 ^ 23) (30945 / 2 ^ 23) (10665245 * 2 ^ 65) (-(10625902 * 2 ^ 65)) hs (by norm_num) (by norm_num) hc
    (10071900) 57 (by norm_num) (by norm_num) (by norm_num) (by norm_num) (by norm_num)
    (roundF_int _ (57) (10071900) _ (round_half_even_eq _ _ (by norm_num [abs_of_pos]))
      (by norm_num) (by norm_num) (by norm_num) (by norm_num) (by norm_num))
    (roundF_int _ (-24) (16715326) _ (round_half_even_eq _ _ (by norm_num [abs_of_pos]))
      (by norm_num) (by norm_num) (by norm_num) (by norm_num) (by norm_num))
    (roundF_int _ (-32) (15843840) _ (round_half_even_eq _ _ (by norm_num [abs_of_pos]))
      (by norm_num) (by norm_num) (by norm_num) (by norm_num) (by norm_num))
    (by norm_num)
    (roundF_int _ (65) (10665245) _ (round_half_even_eq _ _ (by norm_num [abs_of_pos]))
      (by norm_num) (by norm_num) (by norm_num) (by norm_num) (by norm_num))
    (roundF_int _ (65) (-10625902) _ (round_half_even_eq _ _ (by norm_num [abs_of_pos]))
      (by norm_num) (by norm_num) (by norm_num) (by norm_num) (by norm_num))
    x

/-- Newton iteration 39 of the run. -/
theorem nan_run_step_39 (sinf cosf : ℚ → ℚ) (hs : |sinf (-(10625902 * 2 ^ 65))| ≤ 1)
    (hc : cosf (-(10625902 * 2 ^ 65)) = -(9865427 / 2 ^ 24)) (x : Fl) :
    kepler_body (ieeeOps sinf cosf) (Fl.fin (6540225 / 2 ^ 36)) (Fl.fin (8388607 / 2 ^ 23)) (Fl.fin (-(10625902 * 2 ^ 65)), x)
      = (Fl.fin (-(15738536 * 2 ^ 63)), Fl.fin (-(10625902 * 2 ^ 65))) :=
  ieee_body_big sinf cosf (6540225 / 2 ^ 36) (8388607 / 2 ^ 23) (-(10625902 * 2 ^ 65)) (-(9865427 / 2 ^ 24))
    (-(10625902 * 2 ^ 65)) (-(4932713 / 2 ^ 23)) (13321321 / 2 ^ 23) (-(13382536 * 2 ^ 64)) (-(15738536 * 2 ^ 63)) hs (by norm_num) (by norm_num) hc
    (-10625902) 65 (by norm_num) (by norm_num) (by norm_num) (by norm_num) (by norm_num)
    (roundF_int _ (65) (-10625902) _ (round_half_even_eq _ _ (by norm_num [abs_of_pos]))
      (by norm_num) (by norm_num) (by norm_num) (by norm_num) (by norm_num))
    (roundF_int _ (-24) (-9865426) _ (round_half_even_eq _ _ (by norm_num [abs_of_pos]))
      (by norm_num) (by norm_num) (by norm_num) (by norm_num) (by norm_num))
    (roundF_int _ (-23) (13321321) _ (round_half_even_eq _ _ (by norm_num [abs_of_pos]))
      (by norm_num) (by norm_num) (by norm_num) (by norm_num) (by norm_num))
    (by norm_num)
    (roundF_int _ (64) (-13382536) _ (round_half_even_eq _ _ (by norm_num [abs_of_pos]))
      (by norm_num) (by norm_num) (by norm_num) (by norm_num) (by norm_num))
    (roundF_int _ (63) (-15738536) _ (round_half_even_eq _ _ (by norm_num [abs_of_pos]))
      (by norm_num) (by norm_num) (by norm_num) (by norm_num) (by norm_num))
    x

/-- Newton iteration 40 of the run. -/
theorem nan_run_step_40 (sinf cosf : ℚ → ℚ) (hs : |sinf (-(15738536 * 2 ^ 63))| ≤ 1)
    (hc : cosf (-(15738536 * 2 ^ 63)) = -(9178339 / 2 ^ 25)) (x : Fl) :
    kepler_body (ieeeOps sinf cosf) (Fl.fin (6540225 / 2 ^ 36)) (Fl.fin (8388607 / 2 ^ 23)) (Fl.fin (-(15738536 * 2 ^ 63)), x)
      = (Fl.fin (-(13521576 * 2 ^ 61)), Fl.fin (-(15738536 * 2 ^ 63))) :=
  ieee_body_big sinf cosf (6540225 / 2 ^ 36) (8388607 / 2 ^ 23) (-(15738536 * 2 ^ 63)) (-(9178339 / 2 ^ 25))
    (-(15738536 * 2 ^ 63)) (-(4589169 / 2 ^ 24)) (1335399 / 2 ^ 20) (-(12358142 * 2 ^ 63)) (-(13521576 * 2 ^ 61)) hs (by norm_num) (by norm_num) hc
    (-15738536) 63 (by norm_num) (by norm_num) (by norm_num) (by norm_num) (by norm_num)
    (roundF_int _ (63) (-15738536) _ (round_half_even_eq _ _ (by norm_num [abs_of_pos]))
      (by norm_num) (by norm_num) (by norm_num) (by norm_num) (by norm_num))
    (roundF_int _ (-25) (-9178338) _ (round_half_even_eq _ _ (by norm_num [abs_of_pos]))
      (by norm_num) (by norm_num) (by norm_num) (by norm_num) (by norm_num))
    (roundF_int _ (-23) (10683192) _ (round_half_even_tie _ _ (by norm_num [abs_of_pos]) (by norm_num))
      (by norm_num) (by norm_num) (by norm_num) (by norm_num) (by norm_num))
    (by norm_num)
    (roundF_int _ (63) (-12358142) _ (round_half_even_eq _ _ (by norm_num [abs_of_pos]))
      (by norm_num) (by norm_num) (by norm_num) (by norm_num) (by norm_num))
    (roundF_int _ (61) (-13521576) _ (round_half_even_eq _ _ (by norm_num [abs_of_pos]))
      (by norm_num) (by norm_num) (by norm_num) (by norm_num) (by norm_num))
    x

/-- Newton iteration 41 of the run. -/
theorem nan_run_step_41 (sinf cosf : ℚ → ℚ) (hs : |sinf (-(13521576 * 2 ^ 61))| ≤ 1)
    (hc : cosf (-(13521576 * 2 ^ 61)) = 2153265 / 2 ^ 22) (x : Fl) :
    kepler_body (ieeeOps sinf cosf) (Fl.fin (6540225 / 2 ^ 36)) (Fl.fin (8388607 / 2 ^ 23)) (Fl.fin (-(13521576 * 2 ^ 61)), x)
      = (Fl.fin (14265052 * 2 ^ 61), Fl.fin (-(13521576 * 2 ^ 61))) :=
  ieee_body_big sinf cosf (6540225 / 2 ^ 36) (8388607 / 2 ^ 23) (-(13521576 * 2 ^ 61)) (2153265 / 2 ^ 22)
    (-(13521576 * 2 ^ 61)) (8613059 / 2 ^ 24) (8164157 / 2 ^ 24) (-(13893314 * 2 ^ 62)) (14265052 * 2 ^ 61) hs (by norm_num) (by norm_num) hc
    (-13521576) 61 (by norm_num) (by norm_num) (by norm_num) (by norm_num) (by norm_num)
    (roundF_int _ (61) (-13521576) _ (round_half_even_eq _ _ (by norm_num [abs_of_pos]))
      (by norm_num) (by norm_num) (by norm_num) (by norm_num) (by norm_num))
    (roundF_int _ (-24) (8613059) _ (round_half_even_eq _ _ (by norm_num [abs_of_pos]))
      (by norm_num) (by norm_num) (by norm_num) (by norm_num) (by norm_num))
    (roundF_int _ (-25) (16328314) _ (round_half_even_eq _ _ (by norm_num [abs_of_pos]))
      (by norm_num) (by norm_num) (by norm_num) (by norm_num) (by norm_num))
    (by norm_num)
    (roundF_int _ (62) (-13893314) _ (round_half_even_eq _ _ (by norm_num [abs_of_pos]))
      (by norm_num) (by norm_num) (by norm_num) (by norm_num) (by norm_num))
    (roundF_int _ (61) (14265052) _ (round_half_even_eq _ _ (by norm_num [abs_of_pos]))
      (by norm_num) (by norm_num) (by norm_num) (by norm_num) (by norm_num))
    x

/-- Newton iteration 42 of the run. -/
theorem nan_run_step_42 (sinf cosf : ℚ → ℚ) (hs : |sinf (14265052 * 2 ^ 61)| ≤ 1)
    (hc : cosf (14265052 * 2 ^ 61) = 8377501 / 2 ^ 23) (x : Fl) :
    kepler_body (ieeeOps sinf cosf) (Fl.fin (6540225 / 2 ^ 36)) (Fl.fin (8388607 / 2 ^ 23)) (Fl.fin (14265052 * 2 ^ 61), x)
      = (Fl.fin (-(10506352 * 2 ^ 71)), Fl.fin (14265052 * 2 ^ 61)) :=
  ieee_body_big sinf cosf (6540225 / 2 ^ 36) (8388607 / 2 ^ 23) (14265052 * 2 ^ 61) (8377501 / 2 ^ 23)
    (14265052 * 2 ^ 61) (2094375 / 2 ^ 21) (2777 / 2 ^ 21) (10520283 * 2 ^ 71) (-(10506352 * 2 ^ 71)) hs (by norm_num) (by norm_num) hc
    (14265052) 61 (by norm_num) (by norm_num) (by norm_num) (by norm_num) (by norm_num)
    (roundF_int _ (61) (14265052) _ (round_half_even_eq _ _ (by norm_num [abs_of_pos]))
      (by norm_num) (by norm_num) (by norm_num) (by norm_num) (by norm_num))
    (roundF_int _ (-24) (16755000) _ (round_half_even_eq _ _ (by norm_num [abs_of_pos]))
      (by norm_num) (by norm_num) (by norm_num) (by norm_num) (by norm_num))
    (roundF_int _ (-33) (11374592) _ (round_half_even_eq _ _ (by norm_num [abs_of_pos]))
      (by norm_num) (by norm_num) (by norm_num) (by norm_num) (by norm_num))
    (by norm_num)
    (roundF_int _ (71) (10520283) _ (round_half_even_eq _ _ (by norm_num [abs_of_pos]))
      (by norm_num) (by norm_num) (by norm_num) (by norm_num) (by norm_num))
    (roundF_int _ (71) (-10506352) _ (round_half_even_eq _ _ (by norm_num [abs_of_pos]))
      (by norm_num) (by norm_num) (by norm_num) (by norm_num) (by norm_num))
    x

/-- Newton iteration 43 of the run. -/
theorem nan_run_step_43 (sinf cosf : ℚ → ℚ) (hs : |sinf (-(10506352 * 2 ^ 71))| ≤ 1)
    (hc : cosf (-(10506352 * 2 ^ 71)) = 16702793 / 2 ^ 24) (x : Fl) :
    kepler_body (ieeeOps sinf cosf) (Fl.fin (6540225 / 2 ^ 36)) (Fl.fin (8388607 / 2 ^ 23)) (Fl.fin (-(10506352 * 2 ^ 71)), x)
      = (Fl.fin (9210479 * 2 ^ 79), Fl.fin (-(10506352 * 2 ^ 71))) :=
  ieee_body_big sinf cosf (6540225 / 2 ^ 36) (8388607 / 2 ^ 23) (-(10506352 * 2 ^ 71)) (16702793 / 2 ^ 24)
    (-(10506352 * 2 ^ 71)) (16702791 / 2 ^ 24) (74425 / 2 ^ 24) (-(9251519 * 2 ^ 79)) (9210479 * 2 ^ 79) hs (by norm_num) (by norm_num) hc
    (-10506352) 71 (by norm_num) (by norm_num) (by norm_num) (by norm_num) (by norm_num)
    (roundF_int _ (71) (-10506352) _ (round_half_even_eq _ _ (by norm_num [abs_of_pos]))
      (by norm_num) (by norm_num) (by norm_num) (by norm_num) (by norm_num))
    (roundF_int _ (-24) (16702791) _ (round_half_even_eq _ _ (by norm_num [abs_of_pos]))
      (by norm_num) (by norm_num) (by norm_num) (by norm_num) (by norm_num))
    (roundF_int _ (-31) (9526400) _ (round_half_even_eq _ _ (by norm_num [abs_of_pos]))
      (by norm_num) (by norm_num) (by norm_num) (by norm_num) (by norm_num))
    (by norm_num)
    (roundF_int _ (79) (-9251519) _ (round_half_even_eq _ _ (by norm_num [abs_of_pos]))
      (by norm_num) (by norm_num) (by norm_num) (by norm_num) (by norm_num))
    (roundF_int _ (79) (9210479) _ (round_half_even_eq _ _ (by norm_num [abs_of_pos]))
      (by norm_num) (by norm_num) (by norm_num) (by norm_num) (by norm_num))
    x

/-- Newton iteration 44 of the run. -/
theorem nan_run_step_44 (sinf cosf : ℚ → ℚ) (hs : |sinf (9210479 * 2 ^ 79)| ≤ 1)
    (hc : cosf (9210479 * 2 ^ 79) = 1007861 / 2 ^ 20) (x : Fl) :
    kepler_body (ieeeOps sinf cosf) (Fl.fin (6540225 / 2 ^ 36)) (Fl.fin (8388607 / 2 ^ 23)) (Fl.fin (9210479 * 2 ^ 79), x)
      = (Fl.fin (-(14249743 * 2 ^ 83)), Fl.fin (9210479 * 2 ^ 79)) :=
  ieee_body_big sinf cosf (6540225 / 2 ^ 36) (8388607 / 2 ^ 23) (9210479 * 2 ^ 79) (1007861 / 2 ^ 20)
    (9210479 * 2 ^ 79) (8062887 / 2 ^ 23) (325721 / 2 ^ 23) (14825398 * 2 ^ 83) (-(14249743 * 2 ^ 83)) hs (by norm_num) (by norm_num) hc
    (9210479) 79 (by norm_num) (by norm_num) (by norm_num) (by norm_num) (by norm_num)
    (roundF_int _ (79) (9210479) _ (round_half_even_eq _ _ (by norm_num [abs_of_pos]))
      (by norm_num) (by norm_num) (by norm_num) (by norm_num) (by norm_num))
    (roundF_int _ (-24) (16125774) _ (round_half_even_eq _ _ (by norm_num [abs_of_pos]))
      (by norm_num) (by norm_num) (by norm_num) (by norm_num) (by norm_num))
    (roundF_int _ (-28) (10423072) _ (round_half_even_eq _ _ (by norm_num [abs_of_pos]))
      (by norm_num) (by norm_num) (by norm_num) (by norm_num) (by norm_num))
    (by norm_num)
    (roundF_int _ (83) (14825398) _ (round_half_even_eq _ _ (by norm_num [abs_of_pos]))
      (by norm_num) (by norm_num) (by norm_num) (by norm_num) (by norm_num))
    (roundF_int _ (83) (-14249743) _ (round_half_even_eq _ _ (by norm_num [abs_of_pos]))
      (by norm_num) (by norm_num) (by norm_num) (by norm_num) (by norm_num))
    x

/-- Newton iteration 45 of the run. -/
theorem nan_run_step_45 (sinf cosf : ℚ → ℚ) (hs : |sinf (-(14249743 * 2 ^ 83))| ≤ 1)
    (hc : cosf (-(14249743 * 2 ^ 83)) = 7679819 / 2 ^ 23) (x : Fl) :
    kepler_body (ieeeOps sinf cosf) (Fl.fin (6540225 / 2 ^ 36)) (Fl.fin (8388607 / 2 ^ 23)) (Fl.fin (-(14249743 * 2 ^ 83)), x)
      = (Fl.fin (9649846 * 2 ^ 87), Fl.fin (-(14249743 * 2 ^ 83))) :=
  ieee_body_big sinf cosf (6540225 / 2 ^ 36) (8388607 / 2 ^ 23) (-(14249743 * 2 ^ 83)) (7679819 / 2 ^ 23)
    (-(14249743 * 2 ^ 83)) (3839909 / 2 ^ 22) (354395 / 2 ^ 22) (-(10540455 * 2 ^ 87)) (9649846 * 2 ^ 87) hs (by norm_num) (by norm_num) hc
    (-14249743) 83 (by norm_num) (by norm_num) (by norm_num) (by norm_num) (by norm_num)
    (roundF_int _ (83) (-14249743) _ (round_half_even_eq _ _ (by norm_num [abs_of_pos]))
      (by norm_num) (by norm_num) (by norm_num) (by norm_num) (by norm_num))
    (roundF_int _ (-24) (15359636) _ (round_half_even_eq _ _ (by norm_num [abs_of_pos]))
      (by norm_num) (by norm_num) (by norm_num) (by norm_num) (by norm_num))
    (roundF_int _ (-27) (11340640) _ (round_half_even_eq _ _ (by norm_num [abs_of_pos]))
      (by norm_num) (by norm_num) (by norm_num) (by norm_num) (by norm_num))
    (by norm_num)
    (roundF_int _ (87) (-10540455) _ (round_half_even_eq _ _ (by norm_num [abs_of_pos]))
      (by norm_num) (by norm_num) (by norm_num) (by norm_num) (by norm_num))
    (roundF_int _ (87) (9649846) _ (round_half_even_eq _ _ (by norm_num [abs_of_pos]))
      (by norm_num) (by norm_num) (by norm_num) (by norm_num) (by norm_num))
    x

/-- Newton iteration 46 of the run. -/
theorem nan_run_step_46 (sinf cosf : ℚ → ℚ) (hs : |sinf (9649846 * 2 ^ 87)| ≤ 1)
    (hc : cosf (9649846 * 2 ^ 87) = 16240053 / 2 ^ 31) (x : Fl) :
    kepler_body (ieeeOps sinf cosf) (Fl.fin (6540225 / 2 ^ 36)) (Fl.fin (8388607 / 2 ^ 23)) (Fl.fin (9649846 * 2 ^ 87), x)
      = (Fl.fin (-(9411968 * 2 ^ 80)), Fl.fin (9649846 * 2 ^ 87)) :=
  ieee_body_big sinf cosf (6540225 / 2 ^ 36) (8388607 / 2 ^ 23) (9649846 * 2 ^ 87) (16240053 / 2 ^ 31)
    (9649846 * 2 ^ 87) (16240051 / 2 ^ 31) (16650341 / 2 ^ 24) (9723377 * 2 ^ 87) (-(9411968 * 2 ^ 80)) hs (by norm_num) (by norm_num) hc
    (9649846) 87 (by norm_num) (by norm_num) (by norm_num) (by norm_num) (by norm_num)
    (roundF_int _ (87) (9649846) _ (round_half_even_eq _ _ (by norm_num [abs_of_pos]))
      (by norm_num) (by norm_num) (by norm_num) (by norm_num) (by norm_num))
    (roundF_int _ (-31) (16240051) _ (round_half_even_eq _ _ (by norm_num [abs_of_pos]))
      (by norm_num) (by norm_num) (by norm_num) (by norm_num) (by norm_num))
    (roundF_int _ (-24) (16650341) _ (round_half_even_eq _ _ (by norm_num [abs_of_pos]))
      (by norm_num) (by norm_num) (by norm_num) (by norm_num) (by norm_num))
    (by norm_num)
    (roundF_int _ (87) (9723377) _ (round_half_even_eq _ _ (by norm_num [abs_of_pos]))
      (by norm_num) (by norm_num) (by norm_num) (by norm_num) (by norm_num))
    (roundF_int _ (80) (-9411968) _ (round_half_even_eq _ _ (by norm_num [abs_of_pos]))
      (by norm_num) (by norm_num) (by norm_num) (by norm_num) (by norm_num))
    x

/-- Newton iteration 47 of the run. -/
theorem nan_run_step_47 (sinf cosf : ℚ → ℚ) (hs : |sinf (-(9411968 * 2 ^ 80))| ≤ 1)
    (hc : cosf (-(9411968 * 2 ^ 80)) = 14223107 / 2 ^ 24) (x : Fl) :
    kepler_body (ieeeOps sinf cosf) (Fl.fin (6540225 / 2 ^ 36)) (Fl.fin (8388607 / 2 ^ 23)) (Fl.fin (-(9411968 * 2 ^ 80)), x)
      = (Fl.fin (13103131 * 2 ^ 82), Fl.fin (-(9411968 * 2 ^ 80))) :=
  ieee_body_big sinf cosf (6540225 / 2 ^ 36) (8388607 / 2 ^ 23) (-(9411968 * 2 ^ 80)) (14223107 / 2 ^ 24)
    (-(9411968 * 2 ^ 80)) (14223105 / 2 ^ 24) (2554111 / 2 ^ 24) (-(15456123 * 2 ^ 82)) (13103131 * 2 ^ 82) hs (by norm_num) (by norm_num) hc
    (-9411968) 80 (by norm_num) (by norm_num) (by norm_num) (by norm_num) (by norm_num)
    (roundF_int _ (80) (-9411968) _ (round_half_even_eq _ _ (by norm_num [abs_of_pos]))
      (by norm_num) (by norm_num) (by norm_num) (by norm_num) (by norm_num))
    (roundF_int _ (-24) (14223105) _ (round_half_even_eq _ _ (by norm_num [abs_of_pos]))
      (by norm_num) (by norm_num) (by norm_num) (by norm_num) (by norm_num))
    (roundF_int _ (-26) (10216444) _ (round_half_even_eq _ _ (by norm_num [abs_of_pos]))
      (by norm_num) (by norm_num) (by norm_num) (by norm_num) (by norm_num))
    (by norm_num)
    (roundF_int _ (82) (-15456123) _ (round_half_even_eq _ _ (by norm_num [abs_of_pos]))
      (by norm_num) (by norm_num) (by norm_num) (by norm_num) (by norm_num))
    (roundF_int _ (82) (13103131) _ (round_half_even_eq _ _ (by norm_num [abs_of_pos]))
      (by norm_num) (by norm_num) (by norm_num) (by norm_num) (by norm_num))
    x

/-- Newton iteration 48 of the run. -/
theorem nan_run_step_48 (sinf cosf : ℚ → ℚ) (hs : |sinf (13103131 * 2 ^ 82)| ≤ 1)
    (hc : cosf (13103131 * 2 ^ 82) = -(8853855 / 2 ^ 25)) (x : Fl) :
    kepler_body (ieeeOps sinf cosf) (Fl.fin (6540225 / 2 ^ 36)) (Fl.fin (8388607 / 2 ^ 23)) (Fl.fin (13103131 * 2 ^ 82), x)
      = (Fl.fin (10942504 * 2 ^ 80), Fl.fin (13103131 * 2 ^ 82)) :=
  ieee_body_big sinf cosf (6540225 / 2 ^ 36) (8388607 / 2 ^ 23) (13103131 * 2 ^ 82) (-(8853855 / 2 ^ 25))
    (13103131 * 2 ^ 82) (-(4426927 / 2 ^ 24)) (1325259 / 2 ^ 20) (10367505 * 2 ^ 82) (10942504 * 2 ^ 80) hs (by norm_num) (by norm_num) hc
    (13103131) 82 (by norm_num) (by norm_num) (by norm_num) (by norm_num) (by norm_num)
    (roundF_int _ (82) (13103131) _ (round_half_even_eq _ _ (by norm_num [abs_of_pos]))
      (by norm_num) (by norm_num) (by norm_num) (by norm_num) (by norm_num))
    (roundF_int _ (-25) (-8853854) _ (round_half_even_eq _ _ (by norm_num [abs_of_pos]))
      (by norm_num) (by norm_num) (by norm_num) (by norm_num) (by norm_num))
    (roundF_int _ (-23) (10602072) _ (round_half_even_tie _ _ (by norm_num [abs_of_pos]) (by norm_num))
      (by norm_num) (by norm_num) (by norm_num) (by norm_num) (by norm_num))
    (by norm_num)
    (roundF_int _ (82) (10367505) _ (round_half_even_eq _ _ (by norm_num [abs_of_pos]))
      (by norm_num) (by norm_num) (by norm_num) (by norm_num) (by norm_num))
    (roundF_int _ (80) (10942504) _ (round_half_even_eq _ _ (by norm_num [abs_of_pos]))
      (by norm_num) (by norm_num) (by norm_num) (by norm_num) (by norm_num))
    x

/-- Newton iteration 49 of the run. -/
theorem nan_run_step_49 (sinf cosf : ℚ → ℚ) (hs : |sinf (10942504 * 2 ^ 80)| ≤ 1)
    (hc : cosf (10942504 * 2 ^ 80) = -(1030111 / 2 ^ 20)) (x : Fl) :
    kepler_body (ieeeOps sinf cosf) (Fl.fin (6540225 / 2 ^ 36)) (Fl.fin (8388607 / 2 ^ 23)) (Fl.fin (10942504 * 2 ^ 80), x)
      = (Fl.fin (10845301 * 2 ^ 79), Fl.fin (10942504 * 2 ^ 80)) :=
  ieee_body_big sinf cosf (6540225 / 2 ^ 36) (8388607 / 2 ^ 23) (10942504 * 2 ^ 80) (-(1030111 / 2 ^ 20))
    (10942504 * 2 ^ 80) (-(8240887 / 2 ^ 23)) (16629495 / 2 ^ 23) (11039707 * 2 ^ 79) (10845301 * 2 ^ 79) hs (by norm_num) (by norm_num) hc
    (10942504) 80 (by norm_num) (by norm_num) (by norm_num) (by norm_num) (by norm_num)
    (roundF_int _ (80) (10942504) _ (round_half_even_eq _ _ (by norm_num [abs_of_pos]))
      (by norm_num) (by norm_num) (by norm_num) (by norm_num) (by norm_num))
    (roundF_int _ (-24) (-16481774) _ (round_half_even_eq _ _ (by norm_num [abs_of_pos]))
      (by norm_num) (by norm_num) (by norm_num) (by norm_num) (by norm_num))
    (roundF_int _ (-23) (16629495) _ (round_half_even_eq _ _ (by norm_num [abs_of_pos]))
      (by norm_num) (by norm_num) (by norm_num) (by norm_num) (by norm_num))
    (by norm_num)
    (roundF_int _ (79) (11039707) _ (round_half_even_eq _ _ (by norm_num [abs_of_pos]))
      (by norm_num) (by norm_num) (by norm_num) (by norm_num) (by norm_num))
    (roundF_int _ (79) (10845301) _ (round_half_even_eq _ _ (by norm_num [abs_of_pos]))
      (by norm_num) (by norm_num) (by norm_num) (by norm_num) (by norm_num))
    x

/-- Newton iteration 50 of the run. -/
theorem nan_run_step_50 (sinf cosf : ℚ → ℚ) (hs : |sinf (10845301 * 2 ^ 79)| ≤ 1)
    (hc : cosf (10845301 * 2 ^ 79) = 8350215 / 2 ^ 23) (x : Fl) :
    kepler_body (ieeeOps sinf cosf) (Fl.fin (6540225 / 2 ^ 36)) (Fl.fin (8388607 / 2 ^ 23)) (Fl.fin (10845301 * 2 ^ 79), x)
      = (Fl.fin (-(9213739 * 2 ^ 87)), Fl.fin (10845301 * 2 ^ 79)) :=
  ieee_body_big sinf cosf (6540225 / 2 ^ 36) (8388607 / 2 ^ 23) (10845301 * 2 ^ 79) (8350215 / 2 ^ 23)
    (10845301 * 2 ^ 79) (4175107 / 2 ^ 22) (19197 / 2 ^ 22) (9256103 * 2 ^ 87) (-(9213739 * 2 ^ 87)) hs (by norm_num) (by norm_num) hc
    (10845301) 79 (by norm_num) (by norm_num) (by norm_num) (by norm_num) (by norm_num)
    (roundF_int _ (79) (10845301) _ (round_half_even_eq _ _ (by norm_num [abs_of_pos]))
      (by norm_num) (by norm_num) (by norm_num) (by norm_num) (by norm_num))
    (roundF_int _ (-24) (16700428) _ (round_half_even_eq _ _ (by norm_num [abs_of_pos]))
      (by norm_num) (by norm_num) (by norm_num) (by norm_num) (by norm_num))
    (roundF_int _ (-31) (9828864) _ (round_half_even_eq _ _ (by norm_num [abs_of_pos]))
      (by norm_num) (by norm_num) (by norm_num) (by norm_num) (by norm_num))
    (by norm_num)
    (roundF_int _ (87) (9256103) _ (round_half_even_eq _ _ (by norm_num [abs_of_pos]))
      (by norm_num) (by norm_num) (by norm_num) (by norm_num) (by norm_num))
    (roundF_int _ (87) (-9213739) _ (round_half_even_eq _ _ (by norm_num [abs_of_pos]))
      (by norm_num) (by norm_num) (by norm_num) (by norm_num) (by norm_num))
    x

/-- Newton iteration 51 of the run. -/
theorem nan_run_step_51 (sinf cosf : ℚ → ℚ) (hs : |sinf (-(9213739 * 2 ^ 87))| ≤ 1)
    (hc : cosf (-(9213739 * 2 ^ 87)) = 13486579 / 2 ^ 24) (x : Fl) :
    kepler_body (ieeeOps sinf cosf) (Fl.fin (6540225 / 2 ^ 36)) (Fl.fin (8388607 / 2 ^ 23)) (Fl.fin (-(9213739 * 2 ^ 87)), x)
      = (Fl.fin (9440552 * 2 ^ 89), Fl.fin (-(9213739 * 2 ^ 87))) :=
  ieee_body_big sinf cosf (6540225 / 2 ^ 36) (8388607 / 2 ^ 23) (-(9213739 * 2 ^ 87)) (13486579 / 2 ^ 24)
    (-(9213739 * 2 ^ 87)) (13486577 / 2 ^ 24) (3290639 / 2 ^ 24) (-(11743987 * 2 ^ 89)) (9440552 * 2 ^ 89) hs (by norm_num) (by norm_num) hc
    (-9213739) 87 (by norm_num) (by norm_num) (by norm_num) (by norm_num) (by norm_num)
    (roundF_int _ (87) (-9213739) _ (round_half_even_eq _ _ (by norm_num [abs_of_pos]))
      (by norm_num) (by norm_num) (by norm_num) (by norm_num) (by norm_num))
    (roundF_int _ (-24) (13486577) _ (round_half_even_eq _ _ (by norm_num [abs_of_pos]))
      (by norm_num) (by norm_num) (by norm_num) (by norm_num) (by norm_num))
    (roundF_int _ (-26) (13162556) _ (round_half_even_eq _ _ (by norm_num [abs_of_pos]))
      (by norm_num) (by norm_num) (by norm_num) (by norm_num) (by norm_num))
    (by norm_num)
    (roundF_int _ (89) (-11743987) _ (round_half_even_eq _ _ (by norm_num [abs_of_pos]))
      (by norm_num) (by norm_num) (by norm_num) (by norm_num) (by norm_num))
    (roundF_int _ (89) (9440552) _ (round_half_even_eq _ _ (by norm_num [abs_of_pos]))
      (by norm_num) (by norm_num) (by norm_num) (by norm_num) (by norm_num))
    x

/-- Newton iteration 52 of the run. -/
theorem nan_run_step_52 (sinf cosf : ℚ → ℚ) (hs : |sinf (9440552 * 2 ^ 89)| ≤ 1)
    (hc : cosf (9440552 * 2 ^ 89) = 16775193 / 2 ^ 24) (x : Fl) :
    kepler_body (ieeeOps sinf cosf) (Fl.fin (6540225 / 2 ^ 36)) (Fl.fin (8388607 / 2 ^ 23)) (Fl.fin (9440552 * 2 ^ 89), x)
      = (Fl.fin (-(9546626 * 2 ^ 102)), Fl.fin (9440552 * 2 ^ 89)) :=
  ieee_body_big sinf cosf (6540225 / 2 ^ 36) (8388607 / 2 ^ 23) (9440552 * 2 ^ 89) (16775193 / 2 ^ 24)
    (9440552 * 2 ^ 89) (16775191 / 2 ^ 24) (2025 / 2 ^ 24) (9547778 * 2 ^ 102) (-(9546626 * 2 ^ 102)) hs (by norm_num) (by norm_num) hc
    (9440552) 89 (by norm_num) (by norm_num) (by norm_num) (by norm_num) (by norm_num)
    (roundF_int _ (89) (9440552) _ (round_half_even_eq _ _ (by norm_num [abs_of_pos]))
      (by norm_num) (by norm_num) (by norm_num) (by norm_num) (by norm_num))
    (roundF_int _ (-24) (16775191) _ (round_half_even_eq _ _ (by norm_num [abs_of_pos]))
      (by norm_num) (by norm_num) (by norm_num) (by norm_num) (by norm_num))
    (roundF_int _ (-37) (16588800) _ (round_half_even_eq _ _ (by norm_num [abs_of_pos]))
      (by norm_num) (by norm_num) (by norm_num) (by norm_num) (by norm_num))
    (by norm_num)
    (roundF_int _ (102) (9547778) _ (round_half_even_eq _ _ (by norm_num [abs_of_pos]))
      (by norm_num) (by norm_num) (by norm_num) (by norm_num) (by norm_num))
    (roundF_int _ (102) (-9546626) _ (round_half_even_eq _ _ (by norm_num [abs_of_pos]))
      (by norm_num) (by norm_num) (by norm_num) (by norm_num) (by norm_num))
    x

/-- Newton iteration 53 of the run. -/
theorem nan_run_step_53 (sinf cosf : ℚ → ℚ) (hs : |sinf (-(9546626 * 2 ^ 102))| ≤ 1)
    (hc : cosf (-(9546626 * 2 ^ 102)) = 7983955 / 2 ^ 23) (x : Fl) :
    kepler_body (ieeeOps sinf cosf) (Fl.fin (6540225 / 2 ^ 36)) (Fl.fin (8388607 / 2 ^ 23)) (Fl.fin (-(9546626 * 2 ^ 102)), x)
      = (Fl.pinf, Fl.fin (-(9546626 * 2 ^ 102))) :=
  ieee_body_overflow sinf cosf (6540225 / 2 ^ 36) (8388607 / 2 ^ 23) (-(9546626 * 2 ^ 102)) (7983955 / 2 ^ 23)
    (-(9546626 * 2 ^ 102)) (3991977 / 2 ^ 22) (202327 / 2 ^ 22) hs (by norm_num) (by norm_num) hc
    (-9546626) 102 (by norm_num) (by norm_num) (by norm_num) (by norm_num) (by norm_num)
    (roundF_int _ (102) (-9546626) _ (round_half_even_eq _ _ (by norm_num [abs_of_pos]))
      (by norm_num) (by norm_num) (by norm_num) (by norm_num) (by norm_num))
    (roundF_int _ (-24) (15967908) _ (round_half_even_eq _ _ (by norm_num [abs_of_pos]))
      (by norm_num) (by norm_num) (by norm_num) (by norm_num) (by norm_num))
    (roundF_int _ (-28) (12948928) _ (round_half_even_eq _ _ (by norm_num [abs_of_pos]))
      (by norm_num) (by norm_num) (by norm_num) (by norm_num) (by norm_num))
    (by norm_num)
    (roundF_overflow_neg (-(9546626 * 2 ^ 102) / (202327 / 2 ^ 22)) (106) (-12369040) (by norm_num) (by norm_num [abs_of_pos])
      (by norm_num [abs_of_pos]) (by norm_num [abs_of_pos]) (by norm_num) (by norm_num [abs_of_pos]))
    x

/-- The decision tree `nan_run_index` returns the position of every estimate of the run. -/
theorem nan_run_index_table (i : ℕ) (hi : i < 54) :
    nan_run_index (nan_run_E.getD i 0) = i := by
  interval_cases i
  · show nan_run_index (6540225 / 2 ^ 36) = 0
    unfold nan_run_index
    rw [if_pos (by norm_num : (6540225 / 2 ^ 36 : ℚ) < 3608024),
      if_neg (by norm_num : ¬ (6540225 / 2 ^ 36 : ℚ) < -(9073749 * 2 ^ 22)),
      if_neg (by norm_num : ¬ (6540225 / 2 ^ 36 : ℚ) < -(5640830)),
      if_neg (by norm_num : ¬ (6540225 / 2 ^ 36 : ℚ) < -(2721449 / 2 ^ 1)),
      if_neg (by norm_num : ¬ (6540225 / 2 ^ 36 : ℚ) < 6540225 / 2 ^ 36),
      if_pos (by norm_num : (6540225 / 2 ^ 36 : ℚ) < 6540225 / 2 ^ 13)]
  · show nan_run_index (6540225 / 2 ^ 13) = 1
    unfold nan_run_index
    rw [if_pos (by norm_num : (6540225 / 2 ^ 13 : ℚ) < 3608024),
      if_neg (by norm_num : ¬ (6540225 / 2 ^ 13 : ℚ) < -(9073749 * 2 ^ 22)),
      if_neg (by norm_num : ¬ (6540225 / 2 ^ 13 : ℚ) < -(5640830)),
      if_neg (by norm_num : ¬ (6540225 / 2 ^ 13 : ℚ) < -(2721449 / 2 ^ 1)),
      if_neg (by norm_num : ¬ (6540225 / 2 ^ 13 : ℚ) < 6540225 / 2 ^ 36),
      if_neg (by norm_num : ¬ (6540225 / 2 ^ 13 : ℚ) < 6540225 / 2 ^ 13)]
  · show nan_run_index (-(587097 / 2 ^ 6)) = 2
    unfold nan_run_index
    rw [if_pos (by norm_num : (-(587097 / 2 ^ 6) : ℚ) < 3608024),
      if_neg (by norm_num : ¬ (-(587097 / 2 ^ 6) : ℚ) < -(9073749 * 2 ^ 22)),
      if_neg (by norm_num : ¬ (-(587097 / 2 ^ 6) : ℚ) < -(5640830)),
      if_neg (by norm_num : ¬ (-(587097 / 2 ^ 6) : ℚ) < -(2721449 / 2 ^ 1)),
      if_pos (by norm_num : (-(587097 / 2 ^ 6) : ℚ) < 6540225 / 2 ^ 36),
      if_neg (by norm_num : ¬ (-(587097 / 2 ^ 6) : ℚ) < -(587097 / 2 ^ 6))]
  · show nan_run_index (5101401) = 3
    unfold nan_run_index
    rw [if_neg (by norm_num : ¬ (5101401 : ℚ) < 3608024),
      if_pos (by norm_num : (5101401 : ℚ) < 11179072 * 2 ^ 26),
      if_pos (by norm_num : (5101401 : ℚ) < 11614332 * 2 ^ 10),
      if_pos (by norm_num : (5101401 : ℚ) < 9206075 * 2 ^ 3),
      if_neg (by norm_num : ¬ (5101401 : ℚ) < 5101401),
      if_pos (by norm_num : (5101401 : ℚ) < 10901820 * 2 ^ 2)]
  · show nan_run_index (-(3292867)) = 4
    unfold nan_run_index
    rw [if_pos (by norm_num : (-(3292867) : ℚ) < 3608024),
      if_neg (by norm_num : ¬ (-(3292867) : ℚ) < -(9073749 * 2 ^ 22)),
      if_neg (by norm_num : ¬ (-(3292867) : ℚ) < -(5640830)),
      if_pos (by norm_num : (-(3292867) : ℚ) < -(2721449 / 2 ^ 1)),
      if_neg (by norm_num : ¬ (-(3292867) : ℚ) < -(3459788)),
      if_neg (by norm_num : ¬ (-(3292867) : ℚ) < -(3292867))]
  · show nan_run_index (10901820 * 2 ^ 2) = 5
    unfold nan_run_index
    rw [if_neg (by norm_num : ¬ (10901820 * 2 ^ 2 : ℚ) < 3608024),
      if_pos (by norm_num : (10901820 * 2 ^ 2 : ℚ) < 11179072 * 2 ^ 26),
      if_pos (by norm_num : (10901820 * 2 ^ 2 : ℚ) < 11614332 * 2 ^ 10),
      if_pos (by norm_num : (10901820 * 2 ^ 2 : ℚ) < 9206075 * 2 ^ 3),
      if_neg (by norm_num : ¬ (10901820 * 2 ^ 2 : ℚ) < 5101401),
      if_neg (by norm_num : ¬ (10901820 * 2 ^ 2 : ℚ) < 10901820 * 2 ^ 2)]
  · show nan_run_index (-(10872030 * 2 ^ 2)) = 6
    unfold nan_run_index
    rw [if_pos (by norm_num : (-(10872030 * 2 ^ 2) : ℚ) < 3608024),
      if_neg (by norm_num : ¬ (-(10872030 * 2 ^ 2) : ℚ) < -(9073749 * 2 ^ 22)),
      if_pos (by norm_num : (-(10872030 * 2 ^ 2) : ℚ) < -(5640830)),
      if_neg (by norm_num : ¬ (-(10872030 * 2 ^ 2) : ℚ) < -(13908364 * 2 ^ 11)),
      if_neg (by norm_num : ¬ (-(10872030 * 2 ^ 2) : ℚ) < -(14133095 * 2 ^ 7)),
      if_neg (by norm_num : ¬ (-(10872030 * 2 ^ 2) : ℚ) < -(10872030 * 2 ^ 2))]
  · show nan_run_index (-(3459788)) = 7
    unfold nan_run_index
    rw [if_pos (by norm_num : (-(3459788) : ℚ) < 3608024),
      if_neg (by norm_num : ¬ (-(3459788) : ℚ) < -(9073749 * 2 ^ 22)),
      if_neg (by norm_num : ¬ (-(3459788) : ℚ) < -(5640830)),
      if_pos (by norm_num : (-(3459788) : ℚ) < -(2721449 / 2 ^ 1)),
      if_neg (by norm_num : ¬ (-(3459788) : ℚ) < -(3459788)),
      if_pos (by norm_num : (-(3459788) : ℚ) < -(3292867))]
  · show nan_run_index (-(2721449 / 2 ^ 1)) = 8
    unfold nan_run_index
    rw [if_pos (by norm_num : (-(2721449 / 2 ^ 1) : ℚ) < 3608024),
      if_neg (by norm_num : ¬ (-(2721449 / 2 ^ 1) : ℚ) < -(9073749 * 2 ^ 22)),
      if_neg (by norm_num : ¬ (-(2721449 / 2 ^ 1) : ℚ) < -(5640830)),
      if_neg (by norm_num : ¬ (-(2721449 / 2 ^ 1) : ℚ) < -(2721449 / 2 ^ 1)),
      if_pos (by norm_num : (-(2721449 / 2 ^ 1) : ℚ) < 6540225 / 2 ^ 36),
      if_pos (by norm_num : (-(2721449 / 2 ^ 1) : ℚ) < -(587097 / 2 ^ 6))]
  · show nan_run_index (9206075 * 2 ^ 3) = 9
    unfold nan_run_index
    rw [if_neg (by norm_num : ¬ (9206075 * 2 ^ 3 : ℚ) < 3608024),
      if_pos (by norm_num : (9206075 * 2 ^ 3 : ℚ) < 11179072 * 2 ^ 26),
      if_pos (by norm_num : (9206075 * 2 ^ 3 : ℚ) < 11614332 * 2 ^ 10),
      if_neg (by norm_num : ¬ (9206075 * 2 ^ 3 : ℚ) < 9206075 * 2 ^ 3),
      if_pos (by norm_num : (9206075 * 2 ^ 3 : ℚ) < 8858070 * 2 ^ 6)]
  · show nan_run_index (3608024) = 10
    unfold nan_run_index
    rw [if_neg (by norm_num : ¬ (3608024 : ℚ) < 3608024),
      if_pos (by norm_num : (3608024 : ℚ) < 11179072 * 2 ^ 26),
      if_pos (by norm_num : (3608024 : ℚ) < 11614332 * 2 ^ 10),
      if_pos (by norm_num : (3608024 : ℚ) < 9206075 * 2 ^ 3),
      if_pos (by norm_num : (3608024 : ℚ) < 5101401)]
  · show nan_run_index (-(5640830)) = 11
    unfold nan_run_index
    rw [if_pos (by norm_num : (-(5640830) : ℚ) < 3608024),
      if_neg (by norm_num : ¬ (-(5640830) : ℚ) < -(9073749 * 2 ^ 22)),
      if_neg (by norm_num : ¬ (-(5640830) : ℚ) < -(5640830)),
      if_pos (by norm_num : (-(5640830) : ℚ) < -(2721449 / 2 ^ 1)),
      if_pos (by norm_num : (-(5640830) : ℚ) < -(3459788))]
  · show nan_run_index (8858070 * 2 ^ 6) = 12
    unfold nan_run_index
    rw [if_neg (by norm_num : ¬ (8858070 * 2 ^ 6 : ℚ) < 3608024),
      if_pos (by norm_num : (8858070 * 2 ^ 6 : ℚ) < 11179072 * 2 ^ 26),
      if_pos (by norm_num : (8858070 * 2 ^ 6 : ℚ) < 11614332 * 2 ^ 10),
      if_neg (by norm_num : ¬ (8858070 * 2 ^ 6 : ℚ) < 9206075 * 2 ^ 3),
      if_neg (by norm_num : ¬ (8858070 * 2 ^ 6 : ℚ) < 8858070 * 2 ^ 6),
      if_pos (by norm_num : (8858070 * 2 ^ 6 : ℚ) < 16496696 * 2 ^ 9)]
  · show nan_run_index (-(14133095 * 2 ^ 7)) = 13
    unfold nan_run_index
    rw [if_pos (by norm_num : (-(14133095 * 2 ^ 7) : ℚ) < 3608024),
      if_neg (by norm_num : ¬ (-(14133095 * 2 ^ 7) : ℚ) < -(9073749 * 2 ^ 22)),
      if_pos (by norm_num : (-(14133095 * 2 ^ 7) : ℚ) < -(5640830)),
      if_neg (by norm_num : ¬ (-(14133095 * 2 ^ 7) : ℚ) < -(13908364 * 2 ^ 11)),
      if_neg (by norm_num : ¬ (-(14133095 * 2 ^ 7) : ℚ) < -(14133095 * 2 ^ 7)),
      if_pos (by norm_num : (-(14133095 * 2 ^ 7) : ℚ) < -(10872030 * 2 ^ 2))]
  · show nan_run_index (16496696 * 2 ^ 9) = 14
    unfold nan_run_index
    rw [if_neg (by norm_num : ¬ (16496696 * 2 ^ 9 : ℚ) < 3608024),
      if_pos (by norm_num : (16496696 * 2 ^ 9 : ℚ) < 11179072 * 2 ^ 26),
      if_pos (by norm_num : (16496696 * 2 ^ 9 : ℚ) < 11614332 * 2 ^ 10),
      if_neg (by norm_num : ¬ (16496696 * 2 ^ 9 : ℚ) < 9206075 * 2 ^ 3),
      if_neg (by norm_num : ¬ (16496696 * 2 ^ 9 : ℚ) < 8858070 * 2 ^ 6),
      if_neg (by norm_num : ¬ (16496696 * 2 ^ 9 : ℚ) < 16496696 * 2 ^ 9)]
  · show nan_run_index (-(8912698 * 2 ^ 12)) = 15
    unfold nan_run_index
    rw [if_pos (by norm_num : (-(8912698 * 2 ^ 12) : ℚ) < 3608024),
      if_neg (by norm_num : ¬ (-(8912698 * 2 ^ 12) : ℚ) < -(9073749 * 2 ^ 22)),
      if_pos (by norm_num : (-(8912698 * 2 ^ 12) : ℚ) < -(5640830)),
      if_pos (by norm_num : (-(8912698 * 2 ^ 12) : ℚ) < -(13908364 * 2 ^ 11)),
      if_neg (by norm_num : ¬ (-(8912698 * 2 ^ 12) : ℚ) < -(11425334 * 2 ^ 21)),
      if_neg (by norm_num : ¬ (-(8912698 * 2 ^ 12) : ℚ) < -(8912698 * 2 ^ 12))]
  · show nan_run_index (-(8819606 * 2 ^ 11)) = 16
    unfold nan_run_index
    rw [if_pos (by norm_num : (-(8819606 * 2 ^ 11) : ℚ) < 3608024),
      if_neg (by norm_num : ¬ (-(8819606 * 2 ^ 11) : ℚ) < -(9073749 * 2 ^ 22)),
      if_pos (by norm_num : (-(8819606 * 2 ^ 11) : ℚ) < -(5640830)),
      if_neg (by norm_num : ¬ (-(8819606 * 2 ^ 11) : ℚ) < -(13908364 * 2 ^ 11)),
      if_pos (by norm_num : (-(8819606 * 2 ^ 11) : ℚ) < -(14133095 * 2 ^ 7)),
      if_neg (by norm_num : ¬ (-(8819606 * 2 ^ 11) : ℚ) < -(8819606 * 2 ^ 11))]
  · show nan_run_index (11614332 * 2 ^ 10) = 17
    unfold nan_run_index
    rw [if_neg (by norm_num : ¬ (11614332 * 2 ^ 10 : ℚ) < 3608024),
      if_pos (by norm_num : (11614332 * 2 ^ 10 : ℚ) < 11179072 * 2 ^ 26),
      if_neg (by norm_num : ¬ (11614332 * 2 ^ 10 : ℚ) < 11614332 * 2 ^ 10),
      if_pos (by norm_num : (11614332 * 2 ^ 10 : ℚ) < 14293272 * 2 ^ 18),
      if_pos (by norm_num : (11614332 * 2 ^ 10 : ℚ) < 16100258 * 2 ^ 12)]
  · show nan_run_index (-(13908364 * 2 ^ 11)) = 18
    unfold nan_run_index
    rw [if_pos (by norm_num : (-(13908364 * 2 ^ 11) : ℚ) < 3608024),
      if_neg (by norm_num : ¬ (-(13908364 * 2 ^ 11) : ℚ) < -(9073749 * 2 ^ 22)),
      if_pos (by norm_num : (-(13908364 * 2 ^ 11) : ℚ) < -(5640830)),
      if_neg (by norm_num : ¬ (-(13908364 * 2 ^ 11) : ℚ) < -(13908364 * 2 ^ 11)),
      if_pos (by norm_num : (-(13908364 * 2 ^ 11) : ℚ) < -(14133095 * 2 ^ 7)),
      if_pos (by norm_num : (-(13908364 * 2 ^ 11) : ℚ) < -(8819606 * 2 ^ 11))]
  · show nan_run_index (16100258 * 2 ^ 12) = 19
    unfold nan_run_index
    rw [if_neg (by norm_num : ¬ (16100258 * 2 ^ 12 : ℚ) < 3608024),
      if_pos (by norm_num : (16100258 * 2 ^ 12 : ℚ) < 11179072 * 2 ^ 26),
      if_neg (by norm_num : ¬ (16100258 * 2 ^ 12 : ℚ) < 11614332 * 2 ^ 10),
      if_pos (by norm_num : (16100258 * 2 ^ 12 : ℚ) < 14293272 * 2 ^ 18),
      if_neg (by norm_num : ¬ (16100258 * 2 ^ 12 : ℚ) < 16100258 * 2 ^ 12),
      if_pos (by norm_num : (16100258 * 2 ^ 12 : ℚ) < 10895168 * 2 ^ 14)]
  · show nan_run_index (-(11425334 * 2 ^ 21)) = 20
    unfold nan_run_index
    rw [if_pos (by norm_num : (-(11425334 * 2 ^ 21) : ℚ) < 3608024),
      if_neg (by norm_num : ¬ (-(11425334 * 2 ^ 21) : ℚ) < -(9073749 * 2 ^ 22)),
      if_pos (by norm_num : (-(11425334 * 2 ^ 21) : ℚ) < -(5640830)),
      if_pos (by norm_num : (-(11425334 * 2 ^ 21) : ℚ) < -(13908364 * 2 ^ 11)),
      if_neg (by norm_num : ¬ (-(11425334 * 2 ^ 21) : ℚ) < -(11425334 * 2 ^ 21)),
      if_pos (by norm_num : (-(11425334 * 2 ^ 21) : ℚ) < -(8912698 * 2 ^ 12))]
  · show nan_run_index (12443228 * 2 ^ 20) = 21
    unfold nan_run_index
    rw [if_neg (by norm_num : ¬ (12443228 * 2 ^ 20 : ℚ) < 3608024),
      if_pos (by norm_num : (12443228 * 2 ^ 20 : ℚ) < 11179072 * 2 ^ 26),
      if_neg (by norm_num : ¬ (12443228 * 2 ^ 20 : ℚ) < 11614332 * 2 ^ 10),
      if_neg (by norm_num : ¬ (12443228 * 2 ^ 20 : ℚ) < 14293272 * 2 ^ 18),
      if_pos (by norm_num : (12443228 * 2 ^ 20 : ℚ) < 11922170 * 2 ^ 24),
      if_neg (by norm_num : ¬ (12443228 * 2 ^ 20 : ℚ) < 12443228 * 2 ^ 20)]
  · show nan_run_index (14293272 * 2 ^ 18) = 22
    unfold nan_run_index
    rw [if_neg (by norm_num : ¬ (14293272 * 2 ^ 18 : ℚ) < 3608024),
      if_pos (by norm_num : (14293272 * 2 ^ 18 : ℚ) < 11179072 * 2 ^ 26),
      if_neg (by norm_num : ¬ (14293272 * 2 ^ 18 : ℚ) < 11614332 * 2 ^ 10),
      if_neg (by norm_num : ¬ (14293272 * 2 ^ 18 : ℚ) < 14293272 * 2 ^ 18),
      if_pos (by norm_num : (14293272 * 2 ^ 18 : ℚ) < 11922170 * 2 ^ 24),
      if_pos (by norm_num : (14293272 * 2 ^ 18 : ℚ) < 12443228 * 2 ^ 20)]
  · show nan_run_index (10895168 * 2 ^ 14) = 23
    unfold nan_run_index
    rw [if_neg (by norm_num : ¬ (10895168 * 2 ^ 14 : ℚ) < 3608024),
      if_pos (by norm_num : (10895168 * 2 ^ 14 : ℚ) < 11179072 * 2 ^ 26),
      if_neg (by norm_num : ¬ (10895168 * 2 ^ 14 : ℚ) < 11614332 * 2 ^ 10),
      if_pos (by norm_num : (10895168 * 2 ^ 14 : ℚ) < 14293272 * 2 ^ 18),
      if_neg (by norm_num : ¬ (10895168 * 2 ^ 14 : ℚ) < 16100258 * 2 ^ 12),
      if_neg (by norm_num : ¬ (10895168 * 2 ^ 14 : ℚ) < 10895168 * 2 ^ 14)]
  · show nan_run_index (-(9073749 * 2 ^ 22)) = 24
    unfold nan_run_index
    rw [if_pos (by norm_num : (-(9073749 * 2 ^ 22) : ℚ) < 3608024),
      if_neg (by norm_num : ¬ (-(9073749 * 2 ^ 22) : ℚ) < -(9073749 * 2 ^ 22)),
      if_pos (by norm_num : (-(9073749 * 2 ^ 22) : ℚ) < -(5640830)),
      if_pos (by norm_num : (-(9073749 * 2 ^ 22) : ℚ) < -(13908364 * 2 ^ 11)),
      if_pos (by norm_num : (-(9073749 * 2 ^ 22) : ℚ) < -(11425334 * 2 ^ 21))]
  · show nan_run_index (10395858 * 2 ^ 30) = 25
    unfold nan_run_index
    rw [if_neg (by norm_num : ¬ (10395858 * 2 ^ 30 : ℚ) < 3608024),
      if_neg (by norm_num : ¬ (10395858 * 2 ^ 30 : ℚ) < 11179072 * 2 ^ 26),
      if_pos (by norm_num : (10395858 * 2 ^ 30 : ℚ) < 14265052 * 2 ^ 61),
      if_pos (by norm_num : (10395858 * 2 ^ 30 : ℚ) < 8984518 * 2 ^ 31),
      if_neg (by norm_num : ¬ (10395858 * 2 ^ 30 : ℚ) < 13469892 * 2 ^ 26),
      if_neg (by norm_num : ¬ (10395858 * 2 ^ 30 : ℚ) < 10395858 * 2 ^ 30)]
  · show nan_run_index (11179072 * 2 ^ 26) = 26
    unfold nan_run_index
    rw [if_neg (by norm_num : ¬ (11179072 * 2 ^ 26 : ℚ) < 3608024),
      if_neg (by norm_num : ¬ (11179072 * 2 ^ 26 : ℚ) < 11179072 * 2 ^ 26),
      if_pos (by norm_num : (11179072 * 2 ^ 26 : ℚ) < 14265052 * 2 ^ 61),
      if_pos (by norm_num : (11179072 * 2 ^ 26 : ℚ) < 8984518 * 2 ^ 31),
      if_pos (by norm_num : (11179072 * 2 ^ 26 : ℚ) < 13469892 * 2 ^ 26)]
  · show nan_run_index (-(14088880 * 2 ^ 31)) = 27
    unfold nan_run_index
    rw [if_pos (by norm_num : (-(14088880 * 2 ^ 31) : ℚ) < 3608024),
      if_pos (by norm_num : (-(14088880 * 2 ^ 31) : ℚ) < -(9073749 * 2 ^ 22)),
      if_neg (by norm_num : ¬ (-(14088880 * 2 ^ 31) : ℚ) < -(15738536 * 2 ^ 63)),
      if_neg (by norm_num : ¬ (-(14088880 * 2 ^ 31) : ℚ) < -(13056922 * 2 ^ 43)),
      if_pos (by norm_num : (-(14088880 * 2 ^ 31) : ℚ) < -(9385216 * 2 ^ 25)),
      if_neg (by norm_num : ¬ (-(14088880 * 2 ^ 31) : ℚ) < -(14088880 * 2 ^ 31))]
  · show nan_run_index (-(9385216 * 2 ^ 25)) = 28
    unfold nan_run_index
    rw [if_pos (by norm_num : (-(9385216 * 2 ^ 25) : ℚ) < 3608024),
      if_pos (by norm_num : (-(9385216 * 2 ^ 25) : ℚ) < -(9073749 * 2 ^ 22)),
      if_neg (by norm_num : ¬ (-(9385216 * 2 ^ 25) : ℚ) < -(15738536 * 2 ^ 63)),
      if_neg (by norm_num : ¬ (-(9385216 * 2 ^ 25) : ℚ) < -(13056922 * 2 ^ 43)),
      if_neg (by norm_num : ¬ (-(9385216 * 2 ^ 25) : ℚ) < -(9385216 * 2 ^ 25)),
      if_pos (by norm_num : (-(9385216 * 2 ^ 25) : ℚ) < -(16732860 * 2 ^ 24))]
  · show nan_run_index (13469892 * 2 ^ 26) = 29
    unfold nan_run_index
    rw [if_neg (by norm_num : ¬ (13469892 * 2 ^ 26 : ℚ) < 3608024),
      if_neg (by norm_num : ¬ (13469892 * 2 ^ 26 : ℚ) < 11179072 * 2 ^ 26),
      if_pos (by norm_num : (13469892 * 2 ^ 26 : ℚ) < 14265052 * 2 ^ 61),
      if_pos (by norm_num : (13469892 * 2 ^ 26 : ℚ) < 8984518 * 2 ^ 31),
      if_neg (by norm_num : ¬ (13469892 * 2 ^ 26 : ℚ) < 13469892 * 2 ^ 26),
      if_pos (by norm_num : (13469892 * 2 ^ 26 : ℚ) < 10395858 * 2 ^ 30)]
  · show nan_run_index (13119033 * 2 ^ 25) = 30
    unfold nan_run_index
    rw [if_neg (by norm_num : ¬ (13119033 * 2 ^ 25 : ℚ) < 3608024),
      if_pos (by norm_num : (13119033 * 2 ^ 25 : ℚ) < 11179072 * 2 ^ 26),
      if_neg (by norm_num : ¬ (13119033 * 2 ^ 25 : ℚ) < 11614332 * 2 ^ 10),
      if_neg (by norm_num : ¬ (13119033 * 2 ^ 25 : ℚ) < 14293272 * 2 ^ 18),
      if_neg (by norm_num : ¬ (13119033 * 2 ^ 25 : ℚ) < 11922170 * 2 ^ 24),
      if_neg (by norm_num : ¬ (13119033 * 2 ^ 25 : ℚ) < 13119033 * 2 ^ 25)]
  · show nan_run_index (11922170 * 2 ^ 24) = 31
    unfold nan_run_index
    rw [if_neg (by norm_num : ¬ (11922170 * 2 ^ 24 : ℚ) < 3608024),
      if_pos (by norm_num : (11922170 * 2 ^ 24 : ℚ) < 11179072 * 2 ^ 26),
      if_neg (by norm_num : ¬ (11922170 * 2 ^ 24 : ℚ) < 11614332 * 2 ^ 10),
      if_neg (by norm_num : ¬ (11922170 * 2 ^ 24 : ℚ) < 14293272 * 2 ^ 18),
      if_neg (by norm_num : ¬ (11922170 * 2 ^ 24 : ℚ) < 11922170 * 2 ^ 24),
      if_pos (by norm_num : (11922170 * 2 ^ 24 : ℚ) < 13119033 * 2 ^ 25)]
  · show nan_run_index (-(16732860 * 2 ^ 24)) = 32
    unfold nan_run_index
    rw [if_pos (by norm_num : (-(16732860 * 2 ^ 24) : ℚ) < 3608024),
      if_pos (by norm_num : (-(16732860 * 2 ^ 24) : ℚ) < -(9073749 * 2 ^ 22)),
      if_neg (by norm_num : ¬ (-(16732860 * 2 ^ 24) : ℚ) < -(15738536 * 2 ^ 63)),
      if_neg (by norm_num : ¬ (-(16732860 * 2 ^ 24) : ℚ) < -(13056922 * 2 ^ 43)),
      if_neg (by norm_num : ¬ (-(16732860 * 2 ^ 24) : ℚ) < -(9385216 * 2 ^ 25)),
      if_neg (by norm_num : ¬ (-(16732860 * 2 ^ 24) : ℚ) < -(16732860 * 2 ^ 24))]
  · show nan_run_index (8984518 * 2 ^ 31) = 33
    unfold nan_run_index
    rw [if_neg (by norm_num : ¬ (8984518 * 2 ^ 31 : ℚ) < 3608024),
      if_neg (by norm_num : ¬ (8984518 * 2 ^ 31 : ℚ) < 11179072 * 2 ^ 26),
      if_pos (by norm_num : (8984518 * 2 ^ 31 : ℚ) < 14265052 * 2 ^ 61),
      if_neg (by norm_num : ¬ (8984518 * 2 ^ 31 : ℚ) < 8984518 * 2 ^ 31),
      if_pos (by norm_num : (8984518 * 2 ^ 31 : ℚ) < 10071900 * 2 ^ 57),
      if_pos (by norm_num : (8984518 * 2 ^ 31 : ℚ) < 11102878 * 2 ^ 47)]
  · show nan_run_index (-(13056922 * 2 ^ 43)) = 34
    unfold nan_run_index
    rw [if_pos (by norm_num : (-(13056922 * 2 ^ 43) : ℚ) < 3608024),
      if_pos (by norm_num : (-(13056922 * 2 ^ 43) : ℚ) < -(9073749 * 2 ^ 22)),
      if_neg (by norm_num : ¬ (-(13056922 * 2 ^ 43) : ℚ) < -(15738536 * 2 ^ 63)),
      if_neg (by norm_num : ¬ (-(13056922 * 2 ^ 43) : ℚ) < -(13056922 * 2 ^ 43)),
      if_pos (by norm_num : (-(13056922 * 2 ^ 43) : ℚ) < -(9385216 * 2 ^ 25)),
      if_pos (by norm_num : (-(13056922 * 2 ^ 43) : ℚ) < -(14088880 * 2 ^ 31))]
  · show nan_run_index (11102878 * 2 ^ 47) = 35
    unfold nan_run_index
    rw [if_neg (by norm_num : ¬ (11102878 * 2 ^ 47 : ℚ) < 3608024),
      if_neg (by norm_num : ¬ (11102878 * 2 ^ 47 : ℚ) < 11179072 * 2 ^ 26),
      if_pos (by norm_num : (11102878 * 2 ^ 47 : ℚ) < 14265052 * 2 ^ 61),
      if_neg (by norm_num : ¬ (11102878 * 2 ^ 47 : ℚ) < 8984518 * 2 ^ 31),
      if_pos (by norm_num : (11102878 * 2 ^ 47 : ℚ) < 10071900 * 2 ^ 57),
      if_neg (by norm_num : ¬ (11102878 * 2 ^ 47 : ℚ) < 11102878 * 2 ^ 47)]
  · show nan_run_index (-(16359655 * 2 ^ 55)) = 36
    unfold nan_run_index
    rw [if_pos (by norm_num : (-(16359655 * 2 ^ 55) : ℚ) < 3608024),
      if_pos (by norm_num : (-(16359655 * 2 ^ 55) : ℚ) < -(9073749 * 2 ^ 22)),
      if_neg (by norm_num : ¬ (-(16359655 * 2 ^ 55) : ℚ) < -(15738536 * 2 ^ 63)),
      if_pos (by norm_num : (-(16359655 * 2 ^ 55) : ℚ) < -(13056922 * 2 ^ 43)),
      if_neg (by norm_num : ¬ (-(16359655 * 2 ^ 55) : ℚ) < -(13521576 * 2 ^ 61)),
      if_neg (by norm_num : ¬ (-(16359655 * 2 ^ 55) : ℚ) < -(16359655 * 2 ^ 55))]
  · show nan_run_index (10146048 * 2 ^ 58) = 37
    unfold nan_run_index
    rw [if_neg (by norm_num : ¬ (10146048 * 2 ^ 58 : ℚ) < 3608024),
      if_neg (by norm_num : ¬ (10146048 * 2 ^ 58 : ℚ) < 11179072 * 2 ^ 26),
      if_pos (by norm_num : (10146048 * 2 ^ 58 : ℚ) < 14265052 * 2 ^ 61),
      if_neg (by norm_num : ¬ (10146048 * 2 ^ 58 : ℚ) < 8984518 * 2 ^ 31),
      if_neg (by norm_num : ¬ (10146048 * 2 ^ 58 : ℚ) < 10071900 * 2 ^ 57),
      if_neg (by norm_num : ¬ (10146048 * 2 ^ 58 : ℚ) < 10146048 * 2 ^ 58)]
  · show nan_run_index (10071900 * 2 ^ 57) = 38
    unfold nan_run_index
    rw [if_neg (by norm_num : ¬ (10071900 * 2 ^ 57 : ℚ) < 3608024),
      if_neg (by norm_num : ¬ (10071900 * 2 ^ 57 : ℚ) < 11179072 * 2 ^ 26),
      if_pos (by norm_num : (10071900 * 2 ^ 57 : ℚ) < 14265052 * 2 ^ 61),
      if_neg (by norm_num : ¬ (10071900 * 2 ^ 57 : ℚ) < 8984518 * 2 ^ 31),
      if_neg (by norm_num : ¬ (10071900 * 2 ^ 57 : ℚ) < 10071900 * 2 ^ 57),
      if_pos (by norm_num : (10071900 * 2 ^ 57 : ℚ) < 10146048 * 2 ^ 58)]
  · show nan_run_index (-(10625902 * 2 ^ 65)) = 39
    unfold nan_run_index
    rw [if_pos (by norm_num : (-(10625902 * 2 ^ 65) : ℚ) < 3608024),
      if_pos (by norm_num : (-(10625902 * 2 ^ 65) : ℚ) < -(9073749 * 2 ^ 22)),
      if_pos (by norm_num : (-(10625902 * 2 ^ 65) : ℚ) < -(15738536 * 2 ^ 63)),
      if_neg (by norm_num : ¬ (-(10625902 * 2 ^ 65) : ℚ) < -(9411968 * 2 ^ 80)),
      if_neg (by norm_num : ¬ (-(10625902 * 2 ^ 65) : ℚ) < -(10506352 * 2 ^ 71)),
      if_neg (by norm_num : ¬ (-(10625902 * 2 ^ 65) : ℚ) < -(10625902 * 2 ^ 65))]
  · show nan_run_index (-(15738536 * 2 ^ 63)) = 40
    unfold nan_run_index
    rw [if_pos (by norm_num : (-(15738536 * 2 ^ 63) : ℚ) < 3608024),
      if_pos (by norm_num : (-(15738536 * 2 ^ 63) : ℚ) < -(9073749 * 2 ^ 22)),
      if_neg (by norm_num : ¬ (-(15738536 * 2 ^ 63) : ℚ) < -(15738536 * 2 ^ 63)),
      if_pos (by norm_num : (-(15738536 * 2 ^ 63) : ℚ) < -(13056922 * 2 ^ 43)),
      if_pos (by norm_num : (-(15738536 * 2 ^ 63) : ℚ) < -(13521576 * 2 ^ 61))]
  · show nan_run_index (-(13521576 * 2 ^ 61)) = 41
    unfold nan_run_index
    rw [if_pos (by norm_num : (-(13521576 * 2 ^ 61) : ℚ) < 3608024),
      if_pos (by norm_num : (-(13521576 * 2 ^ 61) : ℚ) < -(9073749 * 2 ^ 22)),
      if_neg (by norm_num : ¬ (-(13521576 * 2 ^ 61) : ℚ) < -(15738536 * 2 ^ 63)),
      if_pos (by norm_num : (-(13521576 * 2 ^ 61) : ℚ) < -(13056922 * 2 ^ 43)),
      if_neg (by norm_num : ¬ (-(13521576 * 2 ^ 61) : ℚ) < -(13521576 * 2 ^ 61)),
      if_pos (by norm_num : (-(13521576 * 2 ^ 61) : ℚ) < -(16359655 * 2 ^ 55))]
  · show nan_run_index (14265052 * 2 ^ 61) = 42
    unfold nan_run_index
    rw [if_neg (by norm_num : ¬ (14265052 * 2 ^ 61 : ℚ) < 3608024),
      if_neg (by norm_num : ¬ (14265052 * 2 ^ 61 : ℚ) < 11179072 * 2 ^ 26),
      if_neg (by norm_num : ¬ (14265052 * 2 ^ 61 : ℚ) < 14265052 * 2 ^ 61),
      if_pos (by norm_num : (14265052 * 2 ^ 61 : ℚ) < 10942504 * 2 ^ 80),
      if_pos (by norm_num : (14265052 * 2 ^ 61 : ℚ) < 9210479 * 2 ^ 79)]
  · show nan_run_index (-(10506352 * 2 ^ 71)) = 43
    unfold nan_run_index
    rw [if_pos (by norm_num : (-(10506352 * 2 ^ 71) : ℚ) < 3608024),
      if_pos (by norm_num : (-(10506352 * 2 ^ 71) : ℚ) < -(9073749 * 2 ^ 22)),
      if_pos (by norm_num : (-(10506352 * 2 ^ 71) : ℚ) < -(15738536 * 2 ^ 63)),
      if_neg (by norm_num : ¬ (-(10506352 * 2 ^ 71) : ℚ) < -(9411968 * 2 ^ 80)),
      if_neg (by norm_num : ¬ (-(10506352 * 2 ^ 71) : ℚ) < -(10506352 * 2 ^ 71)),
      if_pos (by norm_num : (-(10506352 * 2 ^ 71) : ℚ) < -(10625902 * 2 ^ 65))]
  · show nan_run_index (9210479 * 2 ^ 79) = 44
    unfold nan_run_index
    rw [if_neg (by norm_num : ¬ (9210479 * 2 ^ 79 : ℚ) < 3608024),
      if_neg (by norm_num : ¬ (9210479 * 2 ^ 79 : ℚ) < 11179072 * 2 ^ 26),
      if_neg (by norm_num : ¬ (9210479 * 2 ^ 79 : ℚ) < 14265052 * 2 ^ 61),
      if_pos (by norm_num : (9210479 * 2 ^ 79 : ℚ) < 10942504 * 2 ^ 80),
      if_neg (by norm_num : ¬ (9210479 * 2 ^ 79 : ℚ) < 9210479 * 2 ^ 79),
      if_pos (by norm_num : (9210479 * 2 ^ 79 : ℚ) < 10845301 * 2 ^ 79)]
  · show nan_run_index (-(14249743 * 2 ^ 83)) = 45
    unfold nan_run_index
    rw [if_pos (by norm_num : (-(14249743 * 2 ^ 83) : ℚ) < 3608024),
      if_pos (by norm_num : (-(14249743 * 2 ^ 83) : ℚ) < -(9073749 * 2 ^ 22)),
      if_pos (by norm_num : (-(14249743 * 2 ^ 83) : ℚ) < -(15738536 * 2 ^ 63)),
      if_pos (by norm_num : (-(14249743 * 2 ^ 83) : ℚ) < -(9411968 * 2 ^ 80)),
      if_neg (by norm_num : ¬ (-(14249743 * 2 ^ 83) : ℚ) < -(9213739 * 2 ^ 87)),
      if_neg (by norm_num : ¬ (-(14249743 * 2 ^ 83) : ℚ) < -(14249743 * 2 ^ 83))]
  · show nan_run_index (9649846 * 2 ^ 87) = 46
    unfold nan_run_index
    rw [if_neg (by norm_num : ¬ (9649846 * 2 ^ 87 : ℚ) < 3608024),
      if_neg (by norm_num : ¬ (9649846 * 2 ^ 87 : ℚ) < 11179072 * 2 ^ 26),
      if_neg (by norm_num : ¬ (9649846 * 2 ^ 87 : ℚ) < 14265052 * 2 ^ 61),
      if_neg (by norm_num : ¬ (9649846 * 2 ^ 87 : ℚ) < 10942504 * 2 ^ 80),
      if_neg (by norm_num : ¬ (9649846 * 2 ^ 87 : ℚ) < 9649846 * 2 ^ 87),
      if_pos (by norm_num : (9649846 * 2 ^ 87 : ℚ) < 9440552 * 2 ^ 89)]
  · show nan_run_index (-(9411968 * 2 ^ 80)) = 47
    unfold nan_run_index
    rw [if_pos (by norm_num : (-(9411968 * 2 ^ 80) : ℚ) < 3608024),
      if_pos (by norm_num : (-(9411968 * 2 ^ 80) : ℚ) < -(9073749 * 2 ^ 22)),
      if_pos (by norm_num : (-(9411968 * 2 ^ 80) : ℚ) < -(15738536 * 2 ^ 63)),
      if_neg (by norm_num : ¬ (-(9411968 * 2 ^ 80) : ℚ) < -(9411968 * 2 ^ 80)),
      if_pos (by norm_num : (-(9411968 * 2 ^ 80) : ℚ) < -(10506352 * 2 ^ 71))]
  · show nan_run_index (13103131 * 2 ^ 82) = 48
    unfold nan_run_index
    rw [if_neg (by norm_num : ¬ (13103131 * 2 ^ 82 : ℚ) < 3608024),
      if_neg (by norm_num : ¬ (13103131 * 2 ^ 82 : ℚ) < 11179072 * 2 ^ 26),
      if_neg (by norm_num : ¬ (13103131 * 2 ^ 82 : ℚ) < 14265052 * 2 ^ 61),
      if_neg (by norm_num : ¬ (13103131 * 2 ^ 82 : ℚ) < 10942504 * 2 ^ 80),
      if_pos (by norm_num : (13103131 * 2 ^ 82 : ℚ) < 9649846 * 2 ^ 87),
      if_neg (by norm_num : ¬ (13103131 * 2 ^ 82 : ℚ) < 13103131 * 2 ^ 82)]
  · show nan_run_index (10942504 * 2 ^ 80) = 49
    unfold nan_run_index
    rw [if_neg (by norm_num : ¬ (10942504 * 2 ^ 80 : ℚ) < 3608024),
      if_neg (by norm_num : ¬ (10942504 * 2 ^ 80 : ℚ) < 11179072 * 2 ^ 26),
      if_neg (by norm_num : ¬ (10942504 * 2 ^ 80 : ℚ) < 14265052 * 2 ^ 61),
      if_neg (by norm_num : ¬ (10942504 * 2 ^ 80 : ℚ) < 10942504 * 2 ^ 80),
      if_pos (by norm_num : (10942504 * 2 ^ 80 : ℚ) < 9649846 * 2 ^ 87),
      if_pos (by norm_num : (10942504 * 2 ^ 80 : ℚ) < 13103131 * 2 ^ 82)]
  · show nan_run_index (10845301 * 2 ^ 79) = 50
    unfold nan_run_index
    rw [if_neg (by norm_num : ¬ (10845301 * 2 ^ 79 : ℚ) < 3608024),
      if_neg (by norm_num : ¬ (10845301 * 2 ^ 79 : ℚ) < 11179072 * 2 ^ 26),
      if_neg (by norm_num : ¬ (10845301 * 2 ^ 79 : ℚ) < 14265052 * 2 ^ 61),
      if_pos (by norm_num : (10845301 * 2 ^ 79 : ℚ) < 10942504 * 2 ^ 80),
      if_neg (by norm_num : ¬ (10845301 * 2 ^ 79 : ℚ) < 9210479 * 2 ^ 79),
      if_neg (by norm_num : ¬ (10845301 * 2 ^ 79 : ℚ) < 10845301 * 2 ^ 79)]
  · show nan_run_index (-(9213739 * 2 ^ 87)) = 51
    unfold nan_run_index
    rw [if_pos (by norm_num : (-(9213739 * 2 ^ 87) : ℚ) < 3608024),
      if_pos (by norm_num : (-(9213739 * 2 ^ 87) : ℚ) < -(9073749 * 2 ^ 22)),
      if_pos (by norm_num : (-(9213739 * 2 ^ 87) : ℚ) < -(15738536 * 2 ^ 63)),
      if_pos (by norm_num : (-(9213739 * 2 ^ 87) : ℚ) < -(9411968 * 2 ^ 80)),
      if_neg (by norm_num : ¬ (-(9213739 * 2 ^ 87) : ℚ) < -(9213739 * 2 ^ 87)),
      if_pos (by norm_num : (-(9213739 * 2 ^ 87) : ℚ) < -(14249743 * 2 ^ 83))]
  · show nan_run_index (9440552 * 2 ^ 89) = 52
    unfold nan_run_index
    rw [if_neg (by norm_num : ¬ (9440552 * 2 ^ 89 : ℚ) < 3608024),
      if_neg (by norm_num : ¬ (9440552 * 2 ^ 89 : ℚ) < 11179072 * 2 ^ 26),
      if_neg (by norm_num : ¬ (9440552 * 2 ^ 89 : ℚ) < 14265052 * 2 ^ 61),
      if_neg (by norm_num : ¬ (9440552 * 2 ^ 89 : ℚ) < 10942504 * 2 ^ 80),
      if_neg (by norm_num : ¬ (9440552 * 2 ^ 89 : ℚ) < 9649846 * 2 ^ 87),
      if_neg (by norm_num : ¬ (9440552 * 2 ^ 89 : ℚ) < 9440552 * 2 ^ 89)]
  · show nan_run_index (-(9546626 * 2 ^ 102)) = 53
    unfold nan_run_index
    rw [if_pos (by norm_num : (-(9546626 * 2 ^ 102) : ℚ) < 3608024),
      if_pos (by norm_num : (-(9546626 * 2 ^ 102) : ℚ) < -(9073749 * 2 ^ 22)),
      if_pos (by norm_num : (-(9546626 * 2 ^ 102) : ℚ) < -(15738536 * 2 ^ 63)),
      if_pos (by norm_num : (-(9546626 * 2 ^ 102) : ℚ) < -(9411968 * 2 ^ 80)),
      if_pos (by norm_num : (-(9546626 * 2 ^ 102) : ℚ) < -(9213739 * 2 ^ 87))]

/-- The tabulated sines have magnitude at most 1. -/
theorem nan_run_sin_le_one : ∀ s ∈ nan_run_sin, |s| ≤ 1 := by
  intro s hs
  simp only [nan_run_sin, List.mem_cons, List.mem_nil_iff, or_false] at hs
  rcases hs with rfl | rfl | rfl | rfl | rfl | rfl | rfl | rfl | rfl | rfl | rfl | rfl | rfl | rfl | rfl | rfl | rfl | rfl | rfl | rfl | rfl | rfl | rfl | rfl | rfl | rfl | rfl | rfl | rfl | rfl | rfl | rfl | rfl | rfl | rfl | rfl | rfl | rfl | rfl | rfl | rfl | rfl | rfl | rfl | rfl | rfl | rfl | rfl | rfl | rfl | rfl | rfl | rfl | rfl <;>
    (rw [abs_le]; constructor <;> norm_num)

/-- The reference `sinf` of the run is bounded by 1. -/
theorem sinf_run_le_one (x : ℚ) : |sinf_run x| ≤ 1 := by
  unfold sinf_run
  by_cases h : nan_run_index x < nan_run_sin.length
  · rw [List.getD_eq_getElem _ _ h]
    exact nan_run_sin_le_one _ (List.getElem_mem h)
  · rw [List.getD_eq_default _ _ (not_lt.mp h)]
    norm_num

/-- The reference `sinf` of the run returns the tabulated sines. -/
theorem sinf_run_table (i : ℕ) (hi : i < 54) :
    sinf_run (nan_run_E.getD i 0) = nan_run_sin.getD i 0 := by
  rw [sinf_run, nan_run_index_table i hi]

/-- The reference `cosf` of the run returns the tabulated cosines. -/
theorem cosf_run_table (i : ℕ) (hi : i < 54) :
    cosf_run (nan_run_E.getD i 0) = nan_run_cos.getD i 0 := by
  rw [cosf_run, nan_run_index_table i hi]

/-- The run of the loop of `Keplers_Law` in IEEE arithmetic on the mean anomaly
`6540225 * 2 ^ (-36)` (about `0.0000951728`) with eccentricity `0.9999999f`, for every
`sinf` bounded by 1 that returns the tabulated sine at the estimates below `2 ^ 25` and
every `cosf` that returns the tabulated cosine at the 54 estimates: the estimate grows to
`-9546626 * 2 ^ 102` (about `-4.84e37`) in 53 iterations, the quotient of iteration 54
overflows, the estimate becomes `+inf`, iteration 55 computes NaN from `sinf(inf)`, and
the loop test `fabsf(NaN) > tol` is false. -/
theorem ieee_nan_run_loop (sinf cosf : ℚ → ℚ) (hs : ∀ x, |sinf x| ≤ 1)
    (hst : ∀ i, i < 54 → |nan_run_E.getD i 0| < 2 ^ 25 →
      sinf (nan_run_E.getD i 0) = nan_run_sin.getD i 0)
    (hct : ∀ i, i < 54 → cosf (nan_run_E.getD i 0) = nan_run_cos.getD i 0) :
    whileLoop (kepler_cond (ieeeOps sinf cosf))
        (kepler_body (ieeeOps sinf cosf) (Fl.fin (6540225 / 2 ^ 36)) (Fl.fin (8388607 / 2 ^ 23))) 55
        (Fl.fin (6540225 / 2 ^ 36), Fl.fin 1)
      = some (Fl.nan, Fl.nan) := by
  refine whileLoop_step _ _ 54 _ (Fl.fin (6540225 / 2 ^ 13), Fl.fin (-(102191 / 2 ^ 30))) _
    (by rw [ieee_kepler_cond_fin]; exact decide_eq_true (by norm_num [abs_of_pos]))
    (nan_run_step_0 sinf cosf (hst 0 (by norm_num) (by norm_num [nan_run_E, abs_of_pos])) (hct 0 (by norm_num)) _) ?_
  refine whileLoop_step _ _ 53 _ (Fl.fin (-(587097 / 2 ^ 6)), Fl.fin (6537013 / 2 ^ 13)) _
    (by rw [ieee_kepler_cond_fin]; exact decide_eq_true (by norm_num [abs_of_pos]))
    (nan_run_step_1 sinf cosf (hst 1 (by norm_num) (by norm_num [nan_run_E, abs_of_pos])) (hct 1 (by norm_num)) _) ?_
  refine whileLoop_step _ _ 52 _ (Fl.fin (5101401), Fl.fin (-(9393613 / 2 ^ 10))) _
    (by rw [ieee_kepler_cond_fin]; exact decide_eq_true (by norm_num [abs_of_pos]))
    (nan_run_step_2 sinf cosf (hst 2 (by norm_num) (by norm_num [nan_run_E, abs_of_pos])) (hct 2 (by norm_num)) _) ?_
  refine whileLoop_step _ _ 51 _ (Fl.fin (-(3292867)), Fl.fin (5101400)) _
    (by rw [ieee_kepler_cond_fin]; exact decide_eq_true (by norm_num [abs_of_pos]))
    (nan_run_step_3 sinf cosf (hst 3 (by norm_num) (by norm_num [nan_run_E, abs_of_pos])) (hct 3 (by norm_num)) _) ?_
  refine whileLoop_step _ _ 50 _ (Fl.fin (10901820 * 2 ^ 2), Fl.fin (-(13171467 / 2 ^ 2))) _
    (by rw [ieee_kepler_cond_fin]; exact decide_eq_true (by norm_num [abs_of_pos]))
    (nan_run_step_4 sinf cosf (hst 4 (by norm_num) (by norm_num [nan_run_E, abs_of_pos])) (hct 4 (by norm_num)) _) ?_
  refine whileLoop_step _ _ 49 _ (Fl.fin (-(10872030 * 2 ^ 2)), Fl.fin (10901820 * 2 ^ 2)) _
    (by rw [ieee_kepler_cond_fin]; exact decide_eq_true (by norm_num [abs_of_pos]))
    (nan_run_step_5 sinf cosf (hs _) (hct 5 (by norm_num)) _) ?_
  refine whileLoop_step _ _ 48 _ (Fl.fin (-(3459788)), Fl.fin (-(10872030 * 2 ^ 2))) _
    (by rw [ieee_kepler_cond_fin]; exact decide_eq_true (by norm_num [abs_of_pos]))
    (nan_run_step_6 sinf cosf (hs _) (hct 6 (by norm_num)) _) ?_
  refine whileLoop_step _ _ 47 _ (Fl.fin (-(2721449 / 2 ^ 1)), Fl.fin (-(13839149 / 2 ^ 2))) _
    (by rw [ieee_kepler_cond_fin]; exact decide_eq_true (by norm_num [abs_of_pos]))
    (nan_run_step_7 sinf cosf (hst 7 (by norm_num) (by norm_num [nan_run_E, abs_of_pos])) (hct 7 (by norm_num)) _) ?_
  refine whileLoop_step _ _ 46 _ (Fl.fin (9206075 * 2 ^ 3), Fl.fin (-(5442897 / 2 ^ 2))) _
    (by rw [ieee_kepler_cond_fin]; exact decide_eq_true (by norm_num [abs_of_pos]))
    (nan_run_step_8 sinf cosf (hst 8 (by norm_num) (by norm_num [nan_run_E, abs_of_pos])) (hct 8 (by norm_num)) _) ?_
  refine whileLoop_step _ _ 45 _ (Fl.fin (3608024), Fl.fin (9206075 * 2 ^ 3)) _
    (by rw [ieee_kepler_cond_fin]; exact decide_eq_true (by norm_num [abs_of_pos]))
    (nan_run_step_9 sinf cosf (hs _) (hct 9 (by norm_num)) _) ?_
  refine whileLoop_step _ _ 44 _ (Fl.fin (-(5640830)), Fl.fin (14432099 / 2 ^ 2)) _
    (by rw [ieee_kepler_cond_fin]; exact decide_eq_true (by norm_num [abs_of_pos]))
    (nan_run_step_10 sinf cosf (hst 10 (by norm_num) (by norm_num [nan_run_E, abs_of_pos])) (hct 10 (by norm_num)) _) ?_
  refine whileLoop_step _ _ 43 _ (Fl.fin (8858070 * 2 ^ 6), Fl.fin (-(5640830))) _
    (by rw [ieee_kepler_cond_fin]; exact decide_eq_true (by norm_num [abs_of_pos]))
    (nan_run_step_11 sinf cosf (hst 11 (by norm_num) (by norm_num [nan_run_E, abs_of_pos])) (hct 11 (by norm_num)) _) ?_
  refine whileLoop_step _ _ 42 _ (Fl.fin (-(14133095 * 2 ^ 7)), Fl.fin (8858070 * 2 ^ 6)) _
    (by rw [ieee_kepler_cond_fin]; exact decide_eq_true (by norm_num [abs_of_pos]))
    (nan_run_step_12 sinf cosf (hs _) (hct 12 (by norm_num)) _) ?_
  refine whileLoop_step _ _ 41 _ (Fl.fin (16496696 * 2 ^ 9), Fl.fin (-(14133095 * 2 ^ 7))) _
    (by rw [ieee_kepler_cond_fin]; exact decide_eq_true (by norm_num [abs_of_pos]))
    (nan_run_step_13 sinf cosf (hs _) (hct 13 (by norm_num)) _) ?_
  refine whileLoop_step _ _ 40 _ (Fl.fin (-(8912698 * 2 ^ 12)), Fl.fin (16496696 * 2 ^ 9)) _
    (by rw [ieee_kepler_cond_fin]; exact decide_eq_true (by norm_num [abs_of_pos]))
    (nan_run_step_14 sinf cosf (hs _) (hct 14 (by norm_num)) _) ?_
  refine whileLoop_step _ _ 39 _ (Fl.fin (-(8819606 * 2 ^ 11)), Fl.fin (-(8912698 * 2 ^ 12))) _
    (by rw [ieee_kepler_cond_fin]; exact decide_eq_true (by norm_num [abs_of_pos]))
    (nan_run_step_15 sinf cosf (hs _) (hct 15 (by norm_num)) _) ?_
  refine whileLoop_step _ _ 38 _ (Fl.fin (11614332 * 2 ^ 10), Fl.fin (-(8819606 * 2 ^ 11))) _
    (by rw [ieee_kepler_cond_fin]; exact decide_eq_true (by norm_num [abs_of_pos]))
    (nan_run_step_16 sinf cosf (hs _) (hct 16 (by norm_num)) _) ?_
  refine whileLoop_step _ _ 37 _ (Fl.fin (-(13908364 * 2 ^ 11)), Fl.fin (11614332 * 2 ^ 10)) _
    (by rw [ieee_kepler_cond_fin]; exact decide_eq_true (by norm_num [abs_of_pos]))
    (nan_run_step_17 sinf cosf (hs _) (hct 17 (by norm_num)) _) ?_
  refine whileLoop_step _ _ 36 _ (Fl.fin (16100258 * 2 ^ 12), Fl.fin (-(13908364 * 2 ^ 11))) _
    (by rw [ieee_kepler_cond_fin]; exact decide_eq_true (by norm_num [abs_of_pos]))
    (nan_run_step_18 sinf cosf (hs _) (hct 18 (by norm_num)) _) ?_
  refine whileLoop_step _ _ 35 _ (Fl.fin (-(11425334 * 2 ^ 21)), Fl.fin (16100258 * 2 ^ 12)) _
    (by rw [ieee_kepler_cond_fin]; exact decide_eq_true (by norm_num [abs_of_pos]))
    (nan_run_step_19 sinf cosf (hs _) (hct 19 (by norm_num)) _) ?_
  refine whileLoop_step _ _ 34 _ (Fl.fin (12443228 * 2 ^ 20), Fl.fin (-(11425334 * 2 ^ 21))) _
    (by rw [ieee_kepler_cond_fin]; exact decide_eq_true (by norm_num [abs_of_pos]))
    (nan_run_step_20 sinf cosf (hs _) (hct 20 (by norm_num)) _) ?_
  refine whileLoop_step _ _ 33 _ (Fl.fin (14293272 * 2 ^ 18), Fl.fin (12443228 * 2 ^ 20)) _
    (by rw [ieee_kepler_cond_fin]; exact decide_eq_true (by norm_num [abs_of_pos]))
    (nan_run_step_21 sinf cosf (hs _) (hct 21 (by norm_num)) _) ?_
  refine whileLoop_step _ _ 32 _ (Fl.fin (10895168 * 2 ^ 14), Fl.fin (14293272 * 2 ^ 18)) _
    (by rw [ieee_kepler_cond_fin]; exact decide_eq_true (by norm_num [abs_of_pos]))
    (nan_run_step_22 sinf cosf (hs _) (hct 22 (by norm_num)) _) ?_
  refine whileLoop_step _ _ 31 _ (Fl.fin (-(9073749 * 2 ^ 22)), Fl.fin (10895168 * 2 ^ 14)) _
    (by rw [ieee_kepler_cond_fin]; exact decide_eq_true (by norm_num [abs_of_pos]))
    (nan_run_step_23 sinf cosf (hs _) (hct 23 (by norm_num)) _) ?_
  refine whileLoop_step _ _ 30 _ (Fl.fin (10395858 * 2 ^ 30), Fl.fin (-(9073749 * 2 ^ 22))) _
    (by rw [ieee_kepler_cond_fin]; exact decide_eq_true (by norm_num [abs_of_pos]))
    (nan_run_step_24 sinf cosf (hs _) (hct 24 (by norm_num)) _) ?_
  refine whileLoop_step _ _ 29 _ (Fl.fin (11179072 * 2 ^ 26), Fl.fin (10395858 * 2 ^ 30)) _
    (by rw [ieee_kepler_cond_fin]; exact decide_eq_true (by norm_num [abs_of_pos]))
    (nan_run_step_25 sinf cosf (hs _) (hct 25 (by norm_num)) _) ?_
  refine whileLoop_step _ _ 28 _ (Fl.fin (-(14088880 * 2 ^ 31)), Fl.fin (11179072 * 2 ^ 26)) _
    (by rw [ieee_kepler_cond_fin]; exact decide_eq_true (by norm_num [abs_of_pos]))
    (nan_run_step_26 sinf cosf (hs _) (hct 26 (by norm_num)) _) ?_
  refine whileLoop_step _ _ 27 _ (Fl.fin (-(9385216 * 2 ^ 25)), Fl.fin (-(14088880 * 2 ^ 31))) _
    (by rw [ieee_kepler_cond_fin]; exact decide_eq_true (by norm_num [abs_of_pos]))
    (nan_run_step_27 sinf cosf (hs _) (hct 27 (by norm_num)) _) ?_
  refine whileLoop_step _ _ 26 _ (Fl.fin (13469892 * 2 ^ 26), Fl.fin (-(9385216 * 2 ^ 25))) _
    (by rw [ieee_kepler_cond_fin]; exact decide_eq_true (by norm_num [abs_of_pos]))
    (nan_run_step_28 sinf cosf (hs _) (hct 28 (by norm_num)) _) ?_
  refine whileLoop_step _ _ 25 _ (Fl.fin (13119033 * 2 ^ 25), Fl.fin (13469892 * 2 ^ 26)) _
    (by rw [ieee_kepler_cond_fin]; exact decide_eq_true (by norm_num [abs_of_pos]))
    (nan_run_step_29 sinf cosf (hs _) (hct 29 (by norm_num)) _) ?_
  refine whileLoop_step _ _ 24 _ (Fl.fin (11922170 * 2 ^ 24), Fl.fin (13119033 * 2 ^ 25)) _
    (by rw [ieee_kepler_cond_fin]; exact decide_eq_true (by norm_num [abs_of_pos]))
    (nan_run_step_30 sinf cosf (hs _) (hct 30 (by norm_num)) _) ?_
  refine whileLoop_step _ _ 23 _ (Fl.fin (-(16732860 * 2 ^ 24)), Fl.fin (11922170 * 2 ^ 24)) _
    (by rw [ieee_kepler_cond_fin]; exact decide_eq_true (by norm_num [abs_of_pos]))
    (nan_run_step_31 sinf cosf (hs _) (hct 31 (by norm_num)) _) ?_
  refine whileLoop_step _ _ 22 _ (Fl.fin (8984518 * 2 ^ 31), Fl.fin (-(16732860 * 2 ^ 24))) _
    (by rw [ieee_kepler_cond_fin]; exact decide_eq_true (by norm_num [abs_of_pos]))
    (nan_run_step_32 sinf cosf (hs _) (hct 32 (by norm_num)) _) ?_
  refine whileLoop_step _ _ 21 _ (Fl.fin (-(13056922 * 2 ^ 43)), Fl.fin (8984518 * 2 ^ 31)) _
    (by rw [ieee_kepler_cond_fin]; exact decide_eq_true (by norm_num [abs_of_pos]))
    (nan_run_step_33 sinf cosf (hs _) (hct 33 (by norm_num)) _) ?_
  refine whileLoop_step _ _ 20 _ (Fl.fin (11102878 * 2 ^ 47), Fl.fin (-(13056922 * 2 ^ 43))) _
    (by rw [ieee_kepler_cond_fin]; exact decide_eq_true (by norm_num [abs_of_pos]))
    (nan_run_step_34 sinf cosf (hs _) (hct 34 (by norm_num)) _) ?_
  refine whileLoop_step _ _ 19 _ (Fl.fin (-(16359655 * 2 ^ 55)), Fl.fin (11102878 * 2 ^ 47)) _
    (by rw [ieee_kepler_cond_fin]; exact decide_eq_true (by norm_num [abs_of_pos]))
    (nan_run_step_35 sinf cosf (hs _) (hct 35 (by norm_num)) _) ?_
  refine whileLoop_step _ _ 18 _ (Fl.fin (10146048 * 2 ^ 58), Fl.fin (-(16359655 * 2 ^ 55))) _
    (by rw [ieee_kepler_cond_fin]; exact decide_eq_true (by norm_num [abs_of_pos]))
    (nan_run_step_36 sinf cosf (hs _) (hct 36 (by norm_num)) _) ?_
  refine whileLoop_step _ _ 17 _ (Fl.fin (10071900 * 2 ^ 57), Fl.fin (10146048 * 2 ^ 58)) _
    (by rw [ieee_kepler_cond_fin]; exact decide_eq_true (by norm_num [abs_of_pos]))
    (nan_run_step_37 sinf cosf (hs _) (hct 37 (by norm_num)) _) ?_
  refine whileLoop_step _ _ 16 _ (Fl.fin (-(10625902 * 2 ^ 65)), Fl.fin (10071900 * 2 ^ 57)) _
    (by rw [ieee_kepler_cond_fin]; exact decide_eq_true (by norm_num [abs_of_pos]))
    (nan_run_step_38 sinf cosf (hs _) (hct 38 (by norm_num)) _) ?_
  refine whileLoop_step _ _ 15 _ (Fl.fin (-(15738536 * 2 ^ 63)), Fl.fin (-(10625902 * 2 ^ 65))) _
    (by rw [ieee_kepler_cond_fin]; exact decide_eq_true (by norm_num [abs_of_pos]))
    (nan_run_step_39 sinf cosf (hs _) (hct 39 (by norm_num)) _) ?_
  refine whileLoop_step _ _ 14 _ (Fl.fin (-(13521576 * 2 ^ 61)), Fl.fin (-(15738536 * 2 ^ 63))) _
    (by rw [ieee_kepler_cond_fin]; exact decide_eq_true (by norm_num [abs_of_pos]))
    (nan_run_step_40 sinf cosf (hs _) (hct 40 (by norm_num)) _) ?_
  refine whileLoop_step _ _ 13 _ (Fl.fin (14265052 * 2 ^ 61), Fl.fin (-(13521576 * 2 ^ 61))) _
    (by rw [ieee_kepler_cond_fin]; exact decide_eq_true (by norm_num [abs_of_pos]))
    (nan_run_step_41 sinf cosf (hs _) (hct 41 (by norm_num)) _) ?_
  refine whileLoop_step _ _ 12 _ (Fl.fin (-(10506352 * 2 ^ 71)), Fl.fin (14265052 * 2 ^ 61)) _
    (by rw [ieee_kepler_cond_fin]; exact decide_eq_true (by norm_num [abs_of_pos]))
    (nan_run_step_42 sinf cosf (hs _) (hct 42 (by norm_num)) _) ?_
  refine whileLoop_step _ _ 11 _ (Fl.fin (9210479 * 2 ^ 79), Fl.fin (-(10506352 * 2 ^ 71))) _
    (by rw [ieee_kepler_cond_fin]; exact decide_eq_true (by norm_num [abs_of_pos]))
    (nan_run_step_43 sinf cosf (hs _) (hct 43 (by norm_num)) _) ?_
  refine whileLoop_step _ _ 10 _ (Fl.fin (-(14249743 * 2 ^ 83)), Fl.fin (9210479 * 2 ^ 79)) _
    (by rw [ieee_kepler_cond_fin]; exact decide_eq_true (by norm_num [abs_of_pos]))
    (nan_run_step_44 sinf cosf (hs _) (hct 44 (by norm_num)) _) ?_
  refine whileLoop_step _ _ 9 _ (Fl.fin (9649846 * 2 ^ 87), Fl.fin (-(14249743 * 2 ^ 83))) _
    (by rw [ieee_kepler_cond_fin]; exact decide_eq_true (by norm_num [abs_of_pos]))
    (nan_run_step_45 sinf cosf (hs _) (hct 45 (by norm_num)) _) ?_
  refine whileLoop_step _ _ 8 _ (Fl.fin (-(9411968 * 2 ^ 80)), Fl.fin (9649846 * 2 ^ 87)) _
    (by rw [ieee_kepler_cond_fin]; exact decide_eq_true (by norm_num [abs_of_pos]))
    (nan_run_step_46 sinf cosf (hs _) (hct 46 (by norm_num)) _) ?_
  refine whileLoop_step _ _ 7 _ (Fl.fin (13103131 * 2 ^ 82), Fl.fin (-(9411968 * 2 ^ 80))) _
    (by rw [ieee_kepler_cond_fin]; exact decide_eq_true (by norm_num [abs_of_pos]))
    (nan_run_step_47 sinf cosf (hs _) (hct 47 (by norm_num)) _) ?_
  refine whileLoop_step _ _ 6 _ (Fl.fin (10942504 * 2 ^ 80), Fl.fin (13103131 * 2 ^ 82)) _
    (by rw [ieee_kepler_cond_fin]; exact decide_eq_true (by norm_num [abs_of_pos]))
    (nan_run_step_48 sinf cosf (hs _) (hct 48 (by norm_num)) _) ?_
  refine whileLoop_step _ _ 5 _ (Fl.fin (10845301 * 2 ^ 79), Fl.fin (10942504 * 2 ^ 80)) _
    (by rw [ieee_kepler_cond_fin]; exact decide_eq_true (by norm_num [abs_of_pos]))
    (nan_run_step_49 sinf cosf (hs _) (hct 49 (by norm_num)) _) ?_
  refine whileLoop_step _ _ 4 _ (Fl.fin (-(9213739 * 2 ^ 87)), Fl.fin (10845301 * 2 ^ 79)) _
    (by rw [ieee_kepler_cond_fin]; exact decide_eq_true (by norm_num [abs_of_pos]))
    (nan_run_step_50 sinf cosf (hs _) (hct 50 (by norm_num)) _) ?_
  refine whileLoop_step _ _ 3 _ (Fl.fin (9440552 * 2 ^ 89), Fl.fin (-(9213739 * 2 ^ 87))) _
    (by rw [ieee_kepler_cond_fin]; exact decide_eq_true (by norm_num [abs_of_pos]))
    (nan_run_step_51 sinf cosf (hs _) (hct 51 (by norm_num)) _) ?_
  refine whileLoop_step _ _ 2 _ (Fl.fin (-(9546626 * 2 ^ 102)), Fl.fin (9440552 * 2 ^ 89)) _
    (by rw [ieee_kepler_cond_fin]; exact decide_eq_true (by norm_num [abs_of_pos]))
    (nan_run_step_52 sinf cosf (hs _) (hct 52 (by norm_num)) _) ?_
  refine whileLoop_step _ _ 1 _ (Fl.pinf, Fl.fin (-(9546626 * 2 ^ 102))) _
    (by rw [ieee_kepler_cond_fin]; exact decide_eq_true (by norm_num [abs_of_pos]))
    (nan_run_step_53 sinf cosf (hs _) (hct 53 (by norm_num)) _) ?_
  refine whileLoop_step _ _ 0 _ (Fl.nan, Fl.nan) _
    (by rw [ieee_kepler_cond_fin]; exact decide_eq_true (by norm_num [abs_of_pos]))
    (ieee_body_inf sinf cosf _ _ _) ?_
  exact whileLoop_of_cond_false _ _ _ _ (ieee_kepler_cond_nan sinf cosf _)

/-! ## The dispatcher in IEEE arithmetic on the request with raw mean anomaly 210,005,453
and raw eccentricity 640 -/

/-- The conversion of the integer 360 to `float`. -/
theorem ieee_ofIntF_360 (sinf cosf : ℚ → ℚ) :
    (ieeeOps sinf cosf).ofIntF 360 = Fl.fin 360 := by
  rw [ieee_ofIntF]
  exact roundF_val _ (-15) 11796480 _ (by norm_num) (by norm_num [abs_of_pos])
    (by norm_num [abs_of_pos]) (round_half_even_eq _ _ (by norm_num [abs_of_pos]))
    (by norm_num) (by norm_num [abs_of_pos]) (by norm_num)

/-- The conversion of the integer 0 to `float`. -/
theorem ieee_ofIntF_zero (sinf cosf : ℚ → ℚ) : (ieeeOps sinf cosf).ofIntF 0 = Fl.fin 0 := by
  rw [ieee_ofIntF]
  simp [roundIEEE]

/-- Line 252 in IEEE arithmetic on the raw field 210,005,453: the decoded degrees value
is the `float` `2927557 * 2 ^ (-29)`, about `0.005453`. -/
theorem ieee_anom_deg_decoded (sinf cosf : ℚ → ℚ) :
    anom_deg_decoded (ieeeOps sinf cosf) 210005453 = Fl.fin (2927557 / 2 ^ 29) := by
  have h1 : (ieeeOps sinf cosf).ofIntD ((210005453 : ℕ) : ℤ) = Fl.fin 210005453 := by
    rw [ieee_ofIntD]
    exact roundD_val _ (-25) 7046613692317696 _ (by norm_num) (by norm_num [abs_of_pos])
      (by norm_num [abs_of_pos]) (round_half_even_eq _ _ (by norm_num [abs_of_pos]))
      (by norm_num) (by norm_num [abs_of_pos]) (by norm_num)
  have h2 : (ieeeOps sinf cosf).litD 0.000001 = Fl.fin (4722366482869645 / 2 ^ 72) := by
    rw [ieee_litD]
    exact roundD_val _ (-72) 4722366482869645 _ (by norm_num) (by norm_num [abs_of_pos])
      (by norm_num [abs_of_pos]) (round_half_even_eq _ _ (by norm_num [abs_of_pos]))
      (by norm_num) (by norm_num [abs_of_pos]) (by norm_num)
  have h3 : (ieeeOps sinf cosf).ofIntD 210 = Fl.fin 210 := by
    rw [ieee_ofIntD]
    exact roundD_val _ (-45) 7388718138654720 _ (by norm_num) (by norm_num [abs_of_pos])
      (by norm_num [abs_of_pos]) (round_half_even_eq _ _ (by norm_num [abs_of_pos]))
      (by norm_num) (by norm_num [abs_of_pos]) (by norm_num)
  have h4 : roundIEEE 53 1023 (210005453 * (4722366482869645 / 2 ^ 72))
      = Fl.fin (923613749879465 / 2 ^ 42) :=
    roundD_val _ (-45) 7388909999035720 _ (by norm_num) (by norm_num [abs_of_pos])
      (by norm_num [abs_of_pos]) (round_half_even_eq _ _ (by norm_num [abs_of_pos]))
      (by norm_num) (by norm_num [abs_of_pos]) (by norm_num)
  have h5 : roundIEEE 53 1023 (923613749879465 / 2 ^ 42 - 210)
      = Fl.fin (23982547625 / 2 ^ 42) :=
    roundD_val _ (-60) 6286880964608000 _ (by norm_num) (by norm_num [abs_of_pos])
      (by norm_num [abs_of_pos]) (round_half_even_eq _ _ (by norm_num [abs_of_pos]))
      (by norm_num) (by norm_num [abs_of_pos]) (by norm_num)
  have h6 : roundIEEE 24 127 (23982547625 / 2 ^ 42) = Fl.fin (2927557 / 2 ^ 29) :=
    roundF_val _ (-31) 11710228 _ (by norm_num) (by norm_num [abs_of_pos])
      (by norm_num [abs_of_pos]) (round_half_even_eq _ _ (by norm_num [abs_of_pos]))
      (by norm_num) (by norm_num [abs_of_pos]) (by norm_num)
  rw [anom_deg_decoded, h1, h2, h3, ieee_mulD, Fl.mul_fin, h4, ieee_subD, Fl.sub_fin, h5,
    ieee_toF, Fl.toFloat_fin, h6]

/-- Lines 252-255 in IEEE arithmetic on the raw field 210,005,453: neither normalisation
loop executes its body. -/
theorem ieee_anom_deg_of_raw (sinf cosf : ℚ → ℚ) (fuel : ℕ) :
    anom_deg_of_raw (ieeeOps sinf cosf) fuel 210005453 = some (Fl.fin (2927557 / 2 ^ 29)) := by
  rw [anom_deg_of_raw_decoded, ieee_anom_deg_decoded, ieee_ofIntF_360, ieee_ofIntF_zero]
  rw [whileLoop_of_cond_false _ _ _ _ (by
    rw [ieee_gtF, Fl.lt_fin]
    exact decide_eq_false (by norm_num))]
  rw [Option.some_bind, whileLoop_of_cond_false _ _ _ _ (by
    rw [ieee_ltF, Fl.lt_fin]
    exact decide_eq_false (by norm_num))]

/-- Line 256 in IEEE arithmetic: the mean anomaly of the request is the `float`
`6540225 * 2 ^ (-36)`, about `0.0000951728`. -/
theorem ieee_mean_anomaly (sinf cosf : ℚ → ℚ) :
    mean_anomaly_of_deg (ieeeOps sinf cosf) (Fl.fin (2927557 / 2 ^ 29))
      = Fl.fin (6540225 / 2 ^ 36) := by
  have h1 : (ieeeOps sinf cosf).litD 180.0 = Fl.fin 180 := by
    rw [ieee_litD]
    exact roundD_val _ (-45) 6333186975989760 _ (by norm_num) (by norm_num [abs_of_pos])
      (by norm_num [abs_of_pos]) (round_half_even_eq _ _ (by norm_num [abs_of_pos]))
      (by norm_num) (by norm_num [abs_of_pos]) (by norm_num)
  have h2 : roundIEEE 53 1023 (884279719003555 / 281474976710656 * (2927557 / 2 ^ 29))
      = Fl.fin (4937704622892171 / 2 ^ 58) :=
    roundD_val _ (-58) 4937704622892171 _ (by norm_num) (by norm_num [abs_of_pos])
      (by norm_num [abs_of_pos]) (round_half_even_eq _ _ (by norm_num [abs_of_pos]))
      (by norm_num) (by norm_num [abs_of_pos]) (by norm_num)
  have h3 : roundIEEE 53 1023 (4937704622892171 / 2 ^ 58 / 180)
      = Fl.fin (7022513241446643 / 2 ^ 66) :=
    roundD_val _ (-66) 7022513241446643 _ (by norm_num) (by norm_num [abs_of_pos])
      (by norm_num [abs_of_pos]) (round_half_even_eq _ _ (by norm_num [abs_of_pos]))
      (by norm_num) (by norm_num [abs_of_pos]) (by norm_num)
  have h4 : roundIEEE 24 127 (7022513241446643 / 2 ^ 66) = Fl.fin (6540225 / 2 ^ 36) :=
    roundF_val _ (-37) 13080450 _ (by norm_num) (by norm_num [abs_of_pos])
      (by norm_num [abs_of_pos]) (round_half_even_eq _ _ (by norm_num [abs_of_pos]))
      (by norm_num) (by norm_num [abs_of_pos]) (by norm_num)
  rw [mean_anomaly_of_deg, h1, ieee_toD, ieee_M_PI, ieee_mulD, Fl.mul_fin, h2, ieee_divD,
    Fl.div_fin _ _ _ (by norm_num), h3, ieee_toF, Fl.toFloat_fin, h4]

/-- Lines 247-248 in IEEE arithmetic on the raw eccentricity 640: the `double` product
`640*0.0015625` is 1, the test `eccentricity >= 1` holds, and the eccentricity is
`0.9999999` converted to `float`, `1 - 2 ^ (-23)`. -/
theorem ieee_eccentricity_640 (sinf cosf : ℚ → ℚ) :
    eccentricity_of_raw (ieeeOps sinf cosf) 640 = Fl.fin (8388607 / 2 ^ 23) := by
  have h1 : (ieeeOps sinf cosf).ofIntD ((640 : ℕ) : ℤ) = Fl.fin 640 := by
    rw [ieee_ofIntD]
    exact roundD_val _ (-43) 5629499534213120 _ (by norm_num) (by norm_num [abs_of_pos])
      (by norm_num [abs_of_pos]) (round_half_even_eq _ _ (by norm_num [abs_of_pos]))
      (by norm_num) (by norm_num [abs_of_pos]) (by norm_num)
  have h2 : (ieeeOps sinf cosf).litD 0.0015625 = Fl.fin (3602879701896397 / 2 ^ 61) := by
    rw [ieee_litD]
    exact roundD_val _ (-62) 7205759403792794 _ (by norm_num) (by norm_num [abs_of_pos])
      (by norm_num [abs_of_pos]) (round_half_even_eq _ _ (by norm_num [abs_of_pos]))
      (by norm_num) (by norm_num [abs_of_pos]) (by norm_num)
  have h3 : roundIEEE 53 1023 (640 * (3602879701896397 / 2 ^ 61)) = Fl.fin 1 :=
    roundD_val _ (-52) 4503599627370496 _ (by norm_num) (by norm_num [abs_of_pos])
      (by norm_num [abs_of_pos]) (round_half_even_eq _ _ (by norm_num [abs_of_pos]))
      (by norm_num) (by norm_num [abs_of_pos]) (by norm_num)
  have h4 : roundIEEE 24 127 1 = Fl.fin 1 :=
    roundF_val _ (-23) 8388608 _ (by norm_num) (by norm_num [abs_of_pos])
      (by norm_num [abs_of_pos]) (round_half_even_eq _ _ (by norm_num [abs_of_pos]))
      (by norm_num) (by norm_num [abs_of_pos]) (by norm_num)
  have h5 : (ieeeOps sinf cosf).litD 0.9999999 = Fl.fin (9007198354021067 / 2 ^ 53) := by
    rw [ieee_litD]
    exact roundD_val _ (-53) 9007198354021067 _ (by norm_num) (by norm_num [abs_of_pos])
      (by norm_num [abs_of_pos]) (round_half_even_eq _ _ (by norm_num [abs_of_pos]))
      (by norm_num) (by norm_num [abs_of_pos]) (by norm_num)
  have h6 : roundIEEE 24 127 (9007198354021067 / 2 ^ 53) = Fl.fin (8388607 / 2 ^ 23) :=
    roundF_val _ (-24) 16777214 _ (by norm_num) (by norm_num [abs_of_pos])
      (by norm_num [abs_of_pos]) (round_half_even_eq _ _ (by norm_num [abs_of_pos]))
      (by norm_num) (by norm_num [abs_of_pos]) (by norm_num)
  have e1 : (ieeeOps sinf cosf).toF ((ieeeOps sinf cosf).mulD
      ((ieeeOps sinf cosf).ofIntD ((640 : ℕ) : ℤ)) ((ieeeOps sinf cosf).litD 0.0015625))
      = Fl.fin 1 := by
    rw [h1, h2, ieee_mulD, Fl.mul_fin, h3, ieee_toF, Fl.toFloat_fin, h4]
  rw [eccentricity_of_raw_clamped _ _ (by
    rw [e1, ieee_ofIntF_one, ieee_geF, Fl.le_fin]
    exact decide_eq_true (le_refl 1)), h5, ieee_toF, Fl.toFloat_fin, h6]

/-- Lines 267-269 in IEEE arithmetic on a NaN solver output: `180*NaN/pi` is NaN, both
loop tests `deg > 180` and `deg < -180` are false on it, and `deg` stays NaN. -/
theorem ieee_deg_of_nan (sinf cosf : ℚ → ℚ) (fuel : ℕ) :
    deg_of_output (ieeeOps sinf cosf) fuel Fl.nan = some Fl.nan := by
  have h1 : (ieeeOps sinf cosf).toF ((ieeeOps sinf cosf).divD ((ieeeOps sinf cosf).toD
      ((ieeeOps sinf cosf).mulF ((ieeeOps sinf cosf).ofIntF 180) Fl.nan))
      (ieeeOps sinf cosf).M_PI) = Fl.nan := by
    rw [ieee_mulF, Fl.mul_nan_right, ieee_toD, ieee_divD, Fl.div_nan_left, ieee_toF,
      Fl.toFloat_nan]
  rw [deg_of_output]
  simp only [h1]
  rw [whileLoop_of_cond_false _ _ _ _ (by
    rw [ieee_gtF]
    exact Fl.lt_nan_right _)]
  rw [Option.some_bind, whileLoop_of_cond_false _ _ _ _ (by
    rw [ieee_ltF]
    exact Fl.lt_nan_left _)]

/-- Line 271 in IEEE arithmetic on a NaN degrees value: the product `(deg + 210)*1000000`
is NaN. -/
theorem ieee_out_product_nan (sinf cosf : ℚ → ℚ) :
    out_product (ieeeOps sinf cosf) Fl.nan = Fl.nan := by
  rw [out_product, ieee_addF, Fl.add_nan_left, ieee_mulF, Fl.mul_nan_left]

/-- Line 271 in IEEE arithmetic on a NaN degrees value: the cast operand is NaN, for which
this instance gives the raw field 0. -/
theorem ieee_out_int_nan (sinf cosf : ℚ → ℚ) :
    out_int_of_deg (ieeeOps sinf cosf) Fl.nan = 0 := by
  rw [out_int_of_product, ieee_out_product_nan, ieee_toU32, Fl.toU32_nan]

/-- The call of `Keplers_Law` made for the request, in IEEE arithmetic: it returns 1 after
55 iterations with a NaN eccentric anomaly and a NaN residual, for every fuel of at least
55 iterations. -/
theorem ieee_nan_run (sinf cosf : ℚ → ℚ) (hs : ∀ x, |sinf x| ≤ 1)
    (hst : ∀ i, i < 54 → |nan_run_E.getD i 0| < 2 ^ 25 →
      sinf (nan_run_E.getD i 0) = nan_run_sin.getD i 0)
    (hct : ∀ i, i < 54 → cosf (nan_run_E.getD i 0) = nan_run_cos.getD i 0)
    (fuel : ℕ) (hfuel : 55 ≤ fuel) :
    Keplers_Law (ieeeOps sinf cosf) (Fl.fin (6540225 / 2 ^ 36)) (Fl.fin (8388607 / 2 ^ 23))
        (Fl.fin (6540225 / 2 ^ 36)) fuel
      = some { ret := 1, eccentric_anomaly_output := Fl.nan, error_output := Fl.nan } := by
  have h := whileLoop_fuel_mono _ _ _ _ _ (ieee_nan_run_loop sinf cosf hs hst hct) fuel hfuel
  rw [Keplers_Law, ieee_ofIntF_one, h]
  rfl

/-- One dispatcher step in IEEE arithmetic on a request frame carrying the raw mean
anomaly 210,005,453 and the raw eccentricity 640: the solver is called once, returns NaN,
and the step writes the reply frame built from the cast of a NaN. -/
theorem ieee_main_step_nan (sinf cosf : ℚ → ℚ) (hs : ∀ x, |sinf x| ≤ 1)
    (hst : ∀ i, i < 54 → |nan_run_E.getD i 0| < 2 ^ 25 →
      sinf (nan_run_E.getD i 0) = nan_run_sin.getD i 0)
    (hct : ∀ i, i < 54 → cosf (nan_run_E.getD i 0) = nan_run_cos.getD i 0)
    (fuel : ℕ) (hfuel : 55 ≤ fuel) (nbytes : ℤ) (cf : can_frame) (hn : nbytes ≠ 0)
    (hreq : (parse_J1939 cf.can_id).pgn = REQUEST_PGN)
    (hM : load_u32 cf.data = 210005453) (he : load_u16 cf.data = 640) :
    main_step (ieeeOps sinf cosf) fuel nbytes cf =
      some { solver_calls := [(Fl.fin (6540225 / 2 ^ 36), Fl.fin (8388607 / 2 ^ 23),
                                Fl.fin (6540225 / 2 ^ 36))]
             written := [reply_frame (out_int_of_deg (ieeeOps sinf cosf) Fl.nan)] } := by
  have hstep := main_step_request (ieeeOps sinf cosf) fuel nbytes cf hn hreq
    (Fl.fin (2927557 / 2 ^ 29)) Fl.nan
    { ret := 1, eccentric_anomaly_output := Fl.nan, error_output := Fl.nan }
    (by rw [hM]; exact ieee_anom_deg_of_raw sinf cosf fuel)
    (by
      rw [he, ieee_eccentricity_640, ieee_mean_anomaly]
      exact ieee_nan_run sinf cosf hs hst hct fuel hfuel)
    (ieee_deg_of_nan sinf cosf fuel)
  rw [hstep, he, ieee_eccentricity_640, ieee_mean_anomaly]

/-! ## What the IEEE instance guarantees for every solver result -/

/-- A rounding never returns a NaN. -/
theorem roundIEEE_ne_nan (p : ℕ) (emax : ℤ) (x : ℚ) : roundIEEE p emax x ≠ Fl.nan := by
  unfold roundIEEE
  by_cases h0 : x = 0
  · rw [if_pos h0]
    simp
  · rw [if_neg h0]
    dsimp only
    repeat' split
    all_goals simp

/-- In the normal range and without overflow, rounding to `float` is rounding to 24
bits. -/
theorem roundF_normal (x : ℚ) (h1 : 1 ≤ |x|) (h2 : |roundNE 24 x| < 2 ^ 128) :
    roundIEEE 24 127 x = Fl.fin (roundNE 24 x) := by
  have hne : x ≠ 0 := by
    intro h0
    rw [h0, abs_zero] at h1
    linarith
  have hlog : 0 ≤ Int.log 2 |x| :=
    (Int.zpow_le_iff_le_log (by decide : 1 < 2) (abs_pos.mpr hne) (x := 0)).mp (by
      simpa using h1)
  exact roundIEEE_normal 24 127 x hne (by push_cast; omega) (by
    have : ((127 : ℤ) + 1) = ((128 : ℕ) : ℤ) := by norm_num
    rw [this, zpow_natCast]
    exact h2)

/-- A value of at most 180 does not round to the positive infinity, and a finite result
is at most 180. -/
theorem roundF_le_180 (x : ℚ) (hx : x ≤ 180) :
    roundIEEE 24 127 x ≠ Fl.pinf ∧ ∀ r : ℚ, roundIEEE 24 127 x = Fl.fin r → r ≤ 180 := by
  by_cases h0 : x = 0
  · subst h0
    have e : roundIEEE 24 127 0 = Fl.fin 0 := by simp [roundIEEE]
    rw [e]
    refine ⟨by simp, fun r hr => ?_⟩
    have : (0 : ℚ) = r := by simpa using hr
    linarith
  · set e : ℤ := max (Int.log 2 |x| - (((24 : ℕ) : ℤ) - 1)) (2 - 127 - ((24 : ℕ) : ℤ)) with he
    set R := round_half_even (x / 2 ^ e) with hR
    have hp : (0 : ℚ) < 2 ^ e := by positivity
    -- the rounded value is at most 180
    have hle : (R : ℚ) * 2 ^ e ≤ 180 := by
      by_cases hpos : 0 < x
      · -- positive: the exponent is at most 2 and `180 / 2 ^ e` is an integer
        have hlog : Int.log 2 |x| < 8 := by
          have h3 : |x| < ((2 : ℕ) : ℚ) ^ (8 : ℤ) := by
            rw [abs_of_pos hpos]
            norm_num
            linarith
          exact (Int.lt_zpow_iff_log_lt (by decide : 1 < 2) (abs_pos.mpr h0)).mp h3
        have he2 : e ≤ 2 := by
          rw [he]
          push_cast
          exact max_le (by omega) (by norm_num)
        obtain ⟨d, hd⟩ : ∃ d : ℕ, 2 - e = d := ⟨(2 - e).toNat, by omega⟩
        have he3 : e = 2 - (d : ℤ) := by omega
        have h180 : (180 : ℚ) / 2 ^ e = ((45 * 2 ^ d : ℤ) : ℚ) := by
          rw [he3, zpow_sub₀ (by norm_num : (2 : ℚ) ≠ 0), zpow_natCast]
          push_cast
          field_simp
          norm_num
          ring
        have hm := round_half_even_mono (div_le_div_of_nonneg_right hx (le_of_lt hp))
        rw [h180, round_half_even_intCast] at hm
        have hq : (R : ℚ) ≤ 180 / 2 ^ e := by
          rw [h180]
          exact_mod_cast hm
        calc (R : ℚ) * 2 ^ e ≤ 180 / 2 ^ e * 2 ^ e := mul_le_mul_of_nonneg_right hq (le_of_lt hp)
          _ = 180 := by field_simp
      · -- not positive: the rounded value is not positive
        have hx0 : x ≤ 0 := not_lt.mp hpos
        have hm := round_half_even_mono (show x / 2 ^ e ≤ ((0 : ℤ) : ℚ) by
          rw [Int.cast_zero]
          exact div_nonpos_of_nonpos_of_nonneg hx0 (le_of_lt hp))
        rw [round_half_even_intCast] at hm
        have hq : (R : ℚ) ≤ 0 := by exact_mod_cast hm
        have : (R : ℚ) * 2 ^ e ≤ 0 := mul_nonpos_of_nonpos_of_nonneg hq (le_of_lt hp)
        linarith
    unfold roundIEEE
    rw [if_neg h0]
    simp only [← he, ← hR]
    split_ifs with hov hsign
    · -- overflow with `0 < x`: impossible
      exfalso
      have hq0 : (0 : ℚ) ≤ (R : ℚ) := by
        have hm := round_half_even_mono (show ((0 : ℤ) : ℚ) ≤ x / 2 ^ e by
          rw [Int.cast_zero]
          exact div_nonneg (le_of_lt hsign) (le_of_lt hp))
        rw [round_half_even_intCast] at hm
        exact_mod_cast hm
      rw [abs_of_nonneg (mul_nonneg hq0 (le_of_lt hp))] at hov
      have h128 : (180 : ℚ) < 2 ^ ((127 : ℤ) + 1) := by norm_num
      linarith
    · exact ⟨by simp, fun r hr => by simp at hr⟩
    · refine ⟨by simp, fun r hr => ?_⟩
      have : (R : ℚ) * 2 ^ e = r := by simpa using hr
      linarith

/-- A loop whose body preserves a property returns a state with the property. -/
theorem whileLoop_invariant {S : Type} (cond : S → Bool) (body : S → S) (P : S → Prop)
    (hb : ∀ s, P s → P (body s)) :
    ∀ (fuel : ℕ) (s t : S), P s → whileLoop cond body fuel s = some t → P t
  | 0, s, t, hs, h => by
    unfold whileLoop at h
    by_cases hc : cond s = true
    · simp [hc] at h
    · simp only [hc, Bool.false_eq_true, ↓reduceIte, Option.some.injEq] at h
      rw [← h]
      exact hs
  | fuel + 1, s, t, hs, h => by
    unfold whileLoop at h
    by_cases hc : cond s = true
    · simp only [hc, ↓reduceIte] at h
      exact whileLoop_invariant cond body P hb fuel (body s) t (hb s hs) h
    · simp only [hc, Bool.false_eq_true, ↓reduceIte, Option.some.injEq] at h
      rw [← h]
      exact hs

/-- The conversion of the integer 180 to `float`. -/
theorem ieee_ofIntF_180 (sinf cosf : ℚ → ℚ) :
    (ieeeOps sinf cosf).ofIntF 180 = Fl.fin 180 := by
  rw [ieee_ofIntF]
  exact roundF_val _ (-16) 11796480 _ (by norm_num) (by norm_num [abs_of_pos])
    (by norm_num [abs_of_pos]) (round_half_even_eq _ _ (by norm_num [abs_of_pos]))
    (by norm_num) (by norm_num [abs_of_pos]) (by norm_num)

/-- The conversion of the integer -180 to `float`. -/
theorem ieee_ofIntF_neg_180 (sinf cosf : ℚ → ℚ) :
    (ieeeOps sinf cosf).ofIntF (-180) = Fl.fin (-180) := by
  rw [ieee_ofIntF]
  exact roundF_val _ (-16) (-11796480) _ (by norm_num) (by norm_num [abs_of_pos])
    (by norm_num [abs_of_pos]) (round_half_even_eq _ _ (by norm_num [abs_of_pos]))
    (by norm_num) (by norm_num [abs_of_pos]) (by norm_num)

/-- The conversion of the integer 210 to `float`. -/
theorem ieee_ofIntF_210 (sinf cosf : ℚ → ℚ) :
    (ieeeOps sinf cosf).ofIntF 210 = Fl.fin 210 := by
  rw [ieee_ofIntF]
  exact roundF_val _ (-16) 13762560 _ (by norm_num) (by norm_num [abs_of_pos])
    (by norm_num [abs_of_pos]) (round_half_even_eq _ _ (by norm_num [abs_of_pos]))
    (by norm_num) (by norm_num [abs_of_pos]) (by norm_num)

/-- The conversion of the integer 1000000 to `float`. -/
theorem ieee_ofIntF_million (sinf cosf : ℚ → ℚ) :
    (ieeeOps sinf cosf).ofIntF 1000000 = Fl.fin 1000000 := by
  rw [ieee_ofIntF]
  exact roundF_val _ (-4) 16000000 _ (by norm_num) (by norm_num [abs_of_pos])
    (by norm_num [abs_of_pos]) (round_half_even_eq _ _ (by norm_num [abs_of_pos]))
    (by norm_num) (by norm_num [abs_of_pos]) (by norm_num)

/-- Every result of `Keplers_Law` in IEEE arithmetic has return value 1 and a reported
residual that is either NaN or finite and within the tolerance `10 * 2 ^ (-23)`. -/
theorem ieee_solver_result (sinf cosf : ℚ → ℚ) (M e g : Fl) (fuel : ℕ) (r : KeplerResult Fl)
    (h : Keplers_Law (ieeeOps sinf cosf) M e g fuel = some r) :
    r.ret = 1 ∧
    (r.error_output = Fl.nan ∨ ∃ q : ℚ, r.error_output = Fl.fin q ∧ |q| ≤ 10 / 2 ^ 23) := by
  obtain ⟨hret, hw⟩ := Keplers_Law_eq_some _ M e g fuel r h
  refine ⟨hret, ?_⟩
  obtain ⟨hf, _⟩ := whileLoop_last_step _ _ _ _ _ hw
  rw [kepler_cond, ieee_tol, ieee_gtF, ieee_fabsf] at hf
  simp only at hf
  cases herr : r.error_output with
  | fin q =>
    right
    refine ⟨q, rfl, ?_⟩
    rw [herr] at hf
    have h2 : decide ((10 / 2 ^ 23 : ℚ) < |q|) = false := hf
    exact not_lt.mp (of_decide_eq_false h2)
  | pinf =>
    rw [herr] at hf
    exact absurd hf (by decide)
  | ninf =>
    rw [herr] at hf
    exact absurd hf (by decide)
  | nan => exact Or.inl rfl

/-- The degrees value computed at line 267 from a solver output that is not NaN is not
NaN. -/
theorem ieee_deg_raw_ne_nan (sinf cosf : ℚ → ℚ) (E : Fl) (hE : E ≠ Fl.nan) :
    (ieeeOps sinf cosf).toF ((ieeeOps sinf cosf).divD ((ieeeOps sinf cosf).toD
      ((ieeeOps sinf cosf).mulF ((ieeeOps sinf cosf).ofIntF 180) E))
      (ieeeOps sinf cosf).M_PI) ≠ Fl.nan := by
  have hpi : (884279719003555 / 281474976710656 : ℚ) ≠ 0 := by norm_num
  have hpos : (0 : ℚ) ≤ 884279719003555 / 281474976710656 := by norm_num
  have hdiv : ∀ v : Fl, v ≠ Fl.nan →
      Fl.toFloat (Fl.div (roundIEEE 53 1023) v
        (Fl.fin (884279719003555 / 281474976710656))) ≠ Fl.nan := by
    intro v hv
    cases v with
    | fin y =>
      rw [Fl.div_fin _ _ _ hpi]
      cases hq : roundIEEE 53 1023 (y / (884279719003555 / 281474976710656)) with
      | fin z => rw [Fl.toFloat_fin]; exact roundIEEE_ne_nan _ _ _
      | pinf => simp [Fl.toFloat]
      | ninf => simp [Fl.toFloat]
      | nan => exact absurd hq (roundIEEE_ne_nan _ _ _)
    | pinf =>
      show Fl.toFloat (if (0 : ℚ) ≤ 884279719003555 / 281474976710656 then Fl.pinf
        else Fl.ninf) ≠ Fl.nan
      rw [if_pos hpos]
      simp [Fl.toFloat]
    | ninf =>
      show Fl.toFloat (if (0 : ℚ) ≤ 884279719003555 / 281474976710656 then Fl.ninf
        else Fl.pinf) ≠ Fl.nan
      rw [if_pos hpos]
      simp [Fl.toFloat]
    | nan => exact absurd rfl hv
  rw [ieee_ofIntF_180, ieee_mulF, ieee_toD, ieee_divD, ieee_M_PI, ieee_toF]
  apply hdiv
  cases E with
  | fin x =>
    rw [Fl.mul_fin]
    exact roundIEEE_ne_nan _ _ _
  | pinf =>
    show Fl.infTimes true 180 ≠ Fl.nan
    simp [Fl.infTimes]
  | ninf =>
    show Fl.infTimes false 180 ≠ Fl.nan
    simp [Fl.infTimes]
  | nan => exact absurd rfl hE

/-- Lines 267-269 in IEEE arithmetic, for every solver output and every fuel: whenever
the two loops return, the normalised degrees value is NaN exactly when the solver output
is NaN, and otherwise it is finite and lies in `[-180, 180]`. -/
theorem ieee_deg_result (sinf cosf : ℚ → ℚ) (fuel : ℕ) (E d : Fl)
    (h : deg_of_output (ieeeOps sinf cosf) fuel E = some d) :
    (d = Fl.nan ↔ E = Fl.nan) ∧
    (d = Fl.nan ∨ ∃ q : ℚ, d = Fl.fin q ∧ -180 ≤ q ∧ q ≤ 180) := by
  by_cases hE : E = Fl.nan
  · subst hE
    rw [ieee_deg_of_nan] at h
    have hd : d = Fl.nan := by
      have := Option.some.inj h
      exact this.symm
    exact ⟨⟨fun _ => rfl, fun _ => hd⟩, Or.inl hd⟩
  · have h0 := ieee_deg_raw_ne_nan sinf cosf E hE
    rw [deg_of_output] at h
    rw [ieee_ofIntF_180, ieee_ofIntF_neg_180, ieee_ofIntF_360] at h
    rw [ieee_ofIntF_180] at h0
    cases h1 : whileLoop (fun d => (ieeeOps sinf cosf).gtF d (Fl.fin 180))
        (fun d => (ieeeOps sinf cosf).subF d (Fl.fin 360)) fuel
        ((ieeeOps sinf cosf).toF ((ieeeOps sinf cosf).divD ((ieeeOps sinf cosf).toD
          ((ieeeOps sinf cosf).mulF (Fl.fin 180) E)) (ieeeOps sinf cosf).M_PI)) with
    | none => simp [h1] at h
    | some t1 =>
      rw [h1, Option.some_bind] at h
      -- the first loop keeps the value a number
      have ht1 : t1 ≠ Fl.nan :=
        whileLoop_invariant _ _ (fun v => v ≠ Fl.nan) (fun v hv => by
          show Fl.sub (roundIEEE 24 127) v (Fl.fin 360) ≠ Fl.nan
          cases v with
          | fin y => rw [Fl.sub_fin]; exact roundIEEE_ne_nan _ _ _
          | pinf => simp [Fl.sub]
          | ninf => simp [Fl.sub]
          | nan => exact absurd rfl hv) fuel _ t1 h0 h1
      have hd : d ≠ Fl.nan :=
        whileLoop_invariant _ _ (fun v => v ≠ Fl.nan) (fun v hv => by
          show Fl.add (roundIEEE 24 127) v (Fl.fin 360) ≠ Fl.nan
          cases v with
          | fin y => rw [Fl.add_fin]; exact roundIEEE_ne_nan _ _ _
          | pinf => simp [Fl.add]
          | ninf => simp [Fl.add]
          | nan => exact absurd rfl hv) fuel t1 d ht1 h
      refine ⟨⟨fun hn => absurd hn hd, fun hn => absurd hn hE⟩, Or.inr ?_⟩
      obtain ⟨c1, _⟩ := whileLoop_last_step _ _ _ _ _ h1
      obtain ⟨c2, hlast⟩ := whileLoop_last_step _ _ _ _ _ h
      have c1' : Fl.lt (Fl.fin 180) t1 = false := c1
      have c2' : Fl.lt d (Fl.fin (-180)) = false := c2
      rcases hlast with hs | ⟨u, hu, hdu⟩
      · -- the second loop did not run: both tests fail on `d`
        subst hs
        cases hd2 : d with
        | fin q =>
          rw [hd2] at c1' c2'
          rw [Fl.lt_fin] at c1' c2'
          exact ⟨q, rfl, not_lt.mp (of_decide_eq_false c2'), not_lt.mp (of_decide_eq_false c1')⟩
        | pinf => rw [hd2] at c1'; exact absurd c1' (by decide)
        | ninf => rw [hd2] at c2'; exact absurd c2' (by decide)
        | nan => exact absurd hd2 hd
      · -- the last step added 360 to a value below -180
        have hu' : Fl.lt u (Fl.fin (-180)) = true := hu
        have hdu' : d = Fl.add (roundIEEE 24 127) u (Fl.fin 360) := hdu
        cases hu2 : u with
        | fin y =>
          rw [hu2] at hu' hdu'
          rw [Fl.lt_fin] at hu'
          have hy : y < -180 := of_decide_eq_true hu'
          rw [Fl.add_fin] at hdu'
          obtain ⟨hnp, hfin⟩ := roundF_le_180 (y + 360) (by linarith)
          cases hd2 : d with
          | fin q =>
            rw [hd2] at c2' hdu'
            rw [Fl.lt_fin] at c2'
            exact ⟨q, rfl, not_lt.mp (of_decide_eq_false c2'), hfin q hdu'.symm⟩
          | pinf => rw [hd2] at hdu'; exact absurd hdu'.symm hnp
          | ninf => rw [hd2] at c2'; exact absurd c2' (by decide)
          | nan => exact absurd hd2 hd
        | pinf => rw [hu2] at hu'; exact absurd hu' (by decide)
        | ninf =>
          rw [hu2] at hdu'
          have : d = Fl.ninf := hdu'
          rw [this] at c2'
          exact absurd c2' (by decide)
        | nan => rw [hu2] at hu'; exact absurd hu' (by decide)

/-- Line 271 in IEEE arithmetic on a finite degrees value in `[-180, 180]`: the product
`(deg + 210)*1000000` is finite and lies between 30,000,000 and 390,000,000, and so does
the raw field. -/
theorem ieee_reply_field (sinf cosf : ℚ → ℚ) (q : ℚ) (h1 : -180 ≤ q) (h2 : q ≤ 180) :
    ∃ p : ℚ, out_product (ieeeOps sinf cosf) (Fl.fin q) = Fl.fin p ∧
      30000000 ≤ p ∧ p ≤ 390000000 ∧
      30000000 ≤ out_int_of_deg (ieeeOps sinf cosf) (Fl.fin q) ∧
      out_int_of_deg (ieeeOps sinf cosf) (Fl.fin q) ≤ 390000000 := by
  have b1 := roundNE_24_between 30 390 (by norm_num) (by norm_num) (q + 210)
    (by push_cast; linarith) (by push_cast; linarith)
  push_cast at b1
  obtain ⟨p1, p2⟩ := rounded_product_range q h1 h2
  have e1 : roundIEEE 24 127 (q + 210) = Fl.fin (roundNE 24 (q + 210)) :=
    roundF_normal _ (by rw [abs_of_pos (by linarith)]; linarith) (by
      rw [abs_of_pos (by linarith [b1.1])]
      have : (390 : ℚ) < 2 ^ 128 := by norm_num
      linarith [b1.2])
  have e2 : roundIEEE 24 127 (roundNE 24 (q + 210) * 1000000)
      = Fl.fin (roundNE 24 (roundNE 24 (q + 210) * 1000000)) :=
    roundF_normal _ (by rw [abs_of_pos (by linarith [b1.1])]; linarith [b1.1]) (by
      rw [abs_of_pos (by linarith)]
      have : (390000000 : ℚ) < 2 ^ 128 := by norm_num
      linarith)
  have hp : out_product (ieeeOps sinf cosf) (Fl.fin q)
      = Fl.fin (roundNE 24 (roundNE 24 (q + 210) * 1000000)) := by
    rw [out_product, ieee_ofIntF_210, ieee_ofIntF_million, ieee_addF, Fl.add_fin, e1, ieee_mulF,
      Fl.mul_fin, e2]
  refine ⟨_, hp, p1, p2, ?_⟩
  rw [out_int_of_product, hp, ieee_toU32]
  show 30000000 ≤ ⌊roundNE 24 (roundNE 24 (q + 210) * 1000000)⌋.toNat % 2 ^ 32 ∧
    ⌊roundNE 24 (roundNE 24 (q + 210) * 1000000)⌋.toNat % 2 ^ 32 ≤ 390000000
  obtain ⟨t1, t2, _⟩ := toU32_in_range _ p1 p2
  exact ⟨t1, t2⟩

/-- C1 (as stated, refuted): the round trip is not exact for every destination address
and every 18-bit group number.  With the format-2 group number `0xFF15` and destination
`0` the decoder returns destination `255`; with the format-1 group number `0x1234` it
returns `0x1200`, the low byte being masked off by the encoder. -/
theorem C1_roundtrip_counterexample :
    parse_J1939 (get_j1939_id 6 0xFF15 0 0) ≠ ⟨6, 0xFF15, 0, 0⟩ ∧
    parse_J1939 (get_j1939_id 6 0x1234 0 5) ≠ ⟨6, 0x1234, 5, 0⟩ := by
  decide

/-- C1 (amended): for every priority in 0..7, source and destination address in 0..255
and 18-bit group number `pgn`, if either the format byte of `pgn` (bits 8-15) is at
least `0xF0` and the destination is the broadcast address 255, or `pgn < 0xF000` and the
low byte of `pgn` is zero, then decoding the encoded identifier returns exactly
`(priority, pgn, da, sa)`. -/
theorem C1_roundtrip (priority pgn sa da : Nat) (hp : priority ≤ 7) (hsa : sa ≤ 255)
    (hda : da ≤ 255) (hpgn : pgn < 2 ^ 18)
    (h : (0xF0 ≤ pgn / 2 ^ 8 % 2 ^ 8 ∧ da = 255) ∨ (pgn < 0xF000 ∧ pgn % 2 ^ 8 = 0)) :
    parse_J1939 (get_j1939_id priority pgn sa da) = ⟨priority, pgn, da, sa⟩ := by
  rw [parse_J1939_arith, get_j1939_id_arith]
  rcases h with ⟨h1, h2⟩ | ⟨h1, h2⟩
  · have hbig : 0xF000 ≤ pgn := by omega
    rw [if_pos hbig]
    have e : ((sa + pgn % 2 ^ 18 * 2 ^ 8 % 2 ^ 32) % 2 ^ 32 + priority * 2 ^ 26 % 2 ^ 32)
        % 2 ^ 32 % 2 ^ 31 + 2 ^ 31 = 2 ^ 31 + priority * 2 ^ 26 + pgn * 2 ^ 8 + sa := by omega
    rw [e]
    have c : 0xF0 ≤ (2 ^ 31 + priority * 2 ^ 26 + pgn * 2 ^ 8 + sa) / 2 ^ 16 % 2 ^ 8 := by
      omega
    rw [if_pos c]
    congr 1 <;> omega
  · have hsmall : ¬ 0xF000 ≤ pgn := by omega
    rw [if_neg hsmall]
    have e : (((sa + pgn / 2 ^ 8 % 2 ^ 10 * 2 ^ 8 * 2 ^ 8 % 2 ^ 32) % 2 ^ 32
          + da * 2 ^ 8 % 2 ^ 32) % 2 ^ 32 + priority * 2 ^ 26 % 2 ^ 32)
        % 2 ^ 32 % 2 ^ 31 + 2 ^ 31
        = 2 ^ 31 + priority * 2 ^ 26 + pgn * 2 ^ 8 + da * 2 ^ 8 + sa := by omega
    rw [e]
    have c : ¬ 0xF0 ≤
        (2 ^ 31 + priority * 2 ^ 26 + pgn * 2 ^ 8 + da * 2 ^ 8 + sa) / 2 ^ 16 % 2 ^ 8 := by
      omega
    rw [if_neg c]
    congr 1 <;> omega

/-- Witness for C1: the reply identifier fields (format 2, broadcast) and a format-1
identifier. -/
theorem C1_roundtrip_witness :
    parse_J1939 (get_j1939_id 6 0xFF15 0 255) = ⟨6, 0xFF15, 255, 0⟩ ∧
    parse_J1939 (get_j1939_id 3 0xEF00 7 9) = ⟨3, 0xEF00, 9, 7⟩ :=
  ⟨C1_roundtrip 6 0xFF15 0 255 (by decide) (by decide) (by decide) (by decide)
      (Or.inl (by decide)),
   C1_roundtrip 3 0xEF00 7 9 (by decide) (by decide) (by decide) (by decide)
      (Or.inr (by decide))⟩

/-- C2 (failing input): the 29-bit identifier `0x01000500` (data page bit set, format
byte `0x00`, specific byte `0x05`) decodes to `(0, 0x10000, 5, 0)`; encoding these fields
and decoding again gives destination `0`, not `5`.  The encoder takes its format-2 branch
because `0x10000 >= 0xF000` and drops the destination. -/
theorem C2_reencode_failing_input :
    parse_J1939 0x01000500 = ⟨0, 0x10000, 5, 0⟩ ∧
    get_j1939_id 0 0x10000 0 5 = 0x81000000 ∧
    parse_J1939 (get_j1939_id 0 0x10000 0 5) = ⟨0, 0x10000, 0, 0⟩ := by
  decide

/-- C6: `parse_J1939` is total bit extraction.  For every identifier the priority is
bits 26-28 and the source address bits 0-7; when the format byte (bits 16-23) is at least
`0xF0` the destination is 255 and the group number is bits 8-25, otherwise the
destination is bits 8-15 and the group number is bits 16-25 shifted left by 8, an 18-bit
value with low byte zero.  Format byte `0xF0` selects format 2 and `0xEF` format 1. -/
theorem C6_parse_bit_extraction (id : Nat) :
    parse_J1939 id =
      (if 0xF0 ≤ id / 2 ^ 16 % 2 ^ 8 then
        { priority := id / 2 ^ 26 % 2 ^ 3, pgn := id / 2 ^ 8 % 2 ^ 18, da := 255,
          sa := id % 2 ^ 8 }
      else
        { priority := id / 2 ^ 26 % 2 ^ 3, pgn := id / 2 ^ 16 % 2 ^ 10 * 2 ^ 8,
          da := id / 2 ^ 8 % 2 ^ 8, sa := id % 2 ^ 8 }) ∧
    id / 2 ^ 16 % 2 ^ 10 * 2 ^ 8 % 2 ^ 8 = 0 ∧
    id / 2 ^ 16 % 2 ^ 10 * 2 ^ 8 < 2 ^ 18 ∧
    parse_J1939 0x18F01234 = ⟨6, 0xF012, 255, 0x34⟩ ∧
    parse_J1939 0x18EF1234 = ⟨6, 0xEF00, 0x12, 0x34⟩ := by
  refine ⟨parse_J1939_arith id, by omega, by omega, by decide, by decide⟩

/-- C7 (failing input): for the 18-bit group number `0x1EF00` the format byte is `0xEF`,
below `0xF0`, yet `get_j1939_id` uses the format-2 layout: the destination `0x42` is not
encoded (the result is `0x8DEF0009`, not `0x8DEF4209`), and `parse_J1939`, which tests
the format byte, takes its format-1 branch on the result and reads destination `0`.
The test `pgn >= 0xF000` of `get_j1939_id` agrees with the format-byte test exactly on
the low 16 bits of `pgn`. -/
theorem C7_format_selection_failing_input :
    0x1EF00 / 2 ^ 8 % 2 ^ 8 = 0xEF ∧
    get_j1939_id 3 0x1EF00 9 0x42 = 0x8DEF0009 ∧
    parse_J1939 (get_j1939_id 3 0x1EF00 9 0x42) = ⟨3, 0x1EF00, 0, 9⟩ ∧
    ∀ pgn : Nat, 0xF000 ≤ pgn % 2 ^ 16 ↔ 0xF0 ≤ pgn / 2 ^ 8 % 2 ^ 8 := by
  refine ⟨by decide, by decide, by decide, ?_⟩
  intro pgn
  omega

/-- C10: the identifier of every reply frame is
`get_j1939_id(DEFAULT_PRIORITY, RESULTS_PGN, SERVER_SA, GLOBAL_ADDRESS)`, that is
`get_j1939_id(6, 0xFF15, 0, 255) = 0x98FF1500`, and it decodes to priority 6, group
number `0xFF15`, destination 255 and source 0. -/
theorem C10_reply_identifier (out_mean_anomaly_int : Nat) :
    (reply_frame out_mean_anomaly_int).can_id = get_j1939_id 6 0xFF15 0 255 ∧
    get_j1939_id 6 0xFF15 0 255 = 0x98FF1500 ∧
    parse_J1939 (reply_frame out_mean_anomaly_int).can_id =
      { priority := 6, pgn := 0xFF15, da := 255, sa := 0 } := by
  have h : parse_J1939 (get_j1939_id 6 0xFF15 0 255) =
      { priority := 6, pgn := 0xFF15, da := 255, sa := 0 } := by decide
  exact ⟨rfl, by decide, h⟩

/-- C16: for every priority, group number, source address and destination address the
identifier returned by `get_j1939_id` has bit 31 (`0x80000000`, the extended-frame flag)
set, and is a 32-bit value. -/
theorem C16_extended_frame_flag (priority pgn sa da : Nat) :
    (get_j1939_id priority pgn sa da).testBit 31 = true ∧
    get_j1939_id priority pgn sa da &&& 0x80000000 = 0x80000000 ∧
    get_j1939_id priority pgn sa da < 2 ^ 32 := by
  rw [get_j1939_id_arith]
  generalize ((if 0xF000 ≤ pgn then (sa + pgn % 2 ^ 18 * 2 ^ 8 % 2 ^ 32) % 2 ^ 32
      else ((sa + pgn / 2 ^ 8 % 2 ^ 10 * 2 ^ 8 * 2 ^ 8 % 2 ^ 32) % 2 ^ 32
        + da * 2 ^ 8 % 2 ^ 32) % 2 ^ 32) + priority * 2 ^ 26 % 2 ^ 32) % 2 ^ 32 = y
  have hbit : (y % 2 ^ 31 + 2 ^ 31).testBit 31 = true := by
    rw [Nat.testBit_to_div_mod]
    have : (y % 2 ^ 31 + 2 ^ 31) / 2 ^ 31 % 2 = 1 := by omega
    simp [this]
  refine ⟨hbit, ?_, by omega⟩
  have h := Nat.and_two_pow (y % 2 ^ 31 + 2 ^ 31) 31
  rw [hbit] at h
  simpa using h

/-- C19: for every 29-bit identifier `id` whose format byte (bits 16-23) is at least
`0xF0`, or whose two data-page bits (bits 24-25) are both zero, `get_j1939_id` applied to
the priority, group number, source and destination that `parse_J1939 id` returns gives
`id` with bit 31 set, `id | 0x80000000`, which is `id + 2 ^ 31`. -/
theorem C19_reencode_decoded (id : Nat) (hid : id < 2 ^ 29)
    (h : 0xF0 ≤ id / 2 ^ 16 % 2 ^ 8 ∨ id / 2 ^ 24 % 2 ^ 2 = 0) :
    get_j1939_id (parse_J1939 id).priority (parse_J1939 id).pgn (parse_J1939 id).sa
        (parse_J1939 id).da = id ||| 0x80000000 ∧
    id ||| 0x80000000 = id + 2 ^ 31 := by
  have htop : id ||| 0x80000000 = id + 2 ^ 31 := or_top_bit id (by omega)
  refine ⟨?_, htop⟩
  have hp := parse_J1939_arith id
  by_cases hpf : 0xF0 ≤ id / 2 ^ 16 % 2 ^ 8
  · rw [if_pos hpf] at hp
    rw [htop, hp, get_j1939_id_arith]
    dsimp only
    have hbig : 0xF000 ≤ id / 2 ^ 8 % 2 ^ 18 := by omega
    rw [if_pos hbig]
    omega
  · rw [if_neg hpf] at hp
    have hdp : id / 2 ^ 24 % 2 ^ 2 = 0 := by
      rcases h with h | h
      · exact absurd h hpf
      · exact h
    rw [htop, hp, get_j1939_id_arith]
    dsimp only
    have hsmall : ¬ 0xF000 ≤ id / 2 ^ 16 % 2 ^ 10 * 2 ^ 8 := by omega
    rw [if_neg hsmall]
    have e1 : id / 2 ^ 16 % 2 ^ 10 * 2 ^ 8 / 2 ^ 8 % 2 ^ 10 = id / 2 ^ 16 % 2 ^ 8 := by omega
    have hd : id = id / 2 ^ 26 % 2 ^ 3 * 2 ^ 26 + id / 2 ^ 16 % 2 ^ 8 * 2 ^ 16
        + id / 2 ^ 8 % 2 ^ 8 * 2 ^ 8 + id % 2 ^ 8 := by omega
    have b1 : id / 2 ^ 26 % 2 ^ 3 < 8 := by omega
    have b2 : id / 2 ^ 16 % 2 ^ 8 < 256 := by omega
    have b3 : id / 2 ^ 8 % 2 ^ 8 < 256 := by omega
    have b4 : id % 2 ^ 8 < 256 := by omega
    rw [e1]
    generalize id / 2 ^ 26 % 2 ^ 3 = pr at hd b1 ⊢
    generalize id / 2 ^ 16 % 2 ^ 8 = pf at hd b2 ⊢
    generalize id / 2 ^ 8 % 2 ^ 8 = ps at hd b3 ⊢
    generalize id % 2 ^ 8 = sa at hd b4 ⊢
    omega

/-- C19 (witness): the identifiers `0x18EF1234` (format byte `0xEF`, data-page bits zero)
and `0x1BF01234` (format byte `0xF0`, data-page bits set) satisfy the hypotheses. -/
theorem C19_reencode_decoded_witness :
    (get_j1939_id (parse_J1939 0x18EF1234).priority (parse_J1939 0x18EF1234).pgn
        (parse_J1939 0x18EF1234).sa (parse_J1939 0x18EF1234).da = 0x18EF1234 ||| 0x80000000 ∧
      0x18EF1234 ||| 0x80000000 = 0x18EF1234 + 2 ^ 31) ∧
    (get_j1939_id (parse_J1939 0x1BF01234).priority (parse_J1939 0x1BF01234).pgn
        (parse_J1939 0x1BF01234).sa (parse_J1939 0x1BF01234).da = 0x1BF01234 ||| 0x80000000 ∧
      0x1BF01234 ||| 0x80000000 = 0x1BF01234 + 2 ^ 31) :=
  ⟨C19_reencode_decoded 0x18EF1234 (by decide) (Or.inr (by decide)),
   C19_reencode_decoded 0x1BF01234 (by decide) (Or.inl (by decide))⟩

/-! ## Anomaly solver: claims -/

/-- C4 (code behaviour): `Keplers_Law` has no iteration bound and no failure value.
First, the arguments of the failing call are `float` values.  Second, in IEEE
round-to-nearest `float` arithmetic, with any `sinf` and `cosf` that return the
correctly rounded values at the two estimates visited, the call
`Keplers_Law(M_bad, ecc_clamp, M_bad)` (mean anomaly and initial guess
`97.38938140869140625`, eccentricity `0.9999999f`) never returns, whatever the fuel.
Third, for every floating-point semantics and every input, any result the function
returns has return value 1, and while the loop test `fabsf(error) > tol` holds on the
initial state and after each of the first `N` Newton iterations the function has not
returned after `N` iterations. -/
theorem C4_no_iteration_bound :
    (roundNE 24 M_bad = M_bad ∧ roundNE 24 (roundNE 53 0.9999999) = ecc_clamp) ∧
    (∀ sinf cosf : ℚ → ℚ,
      sinf M_bad = sin_M_bad → sinf E_bad = sin_E_bad → cosf M_bad = -1 → cosf E_bad = -1 →
      ∀ fuel : ℕ, Keplers_Law (roundedOps sinf cosf) M_bad ecc_clamp M_bad fuel = none) ∧
    (∀ (F D : Type) (ops : FloatOps F D) (M e g : F),
      (∀ (fuel : ℕ) (r : KeplerResult F),
        Keplers_Law ops M e g fuel = some r → r.ret = 1) ∧
      ∀ N : ℕ,
        (∀ k, k ≤ N →
          kepler_cond ops ((kepler_body ops M e)^[k] (g, ops.ofIntF 1)) = true) →
        Keplers_Law ops M e g N = none) := by
  refine ⟨⟨rounded_constants.2.2.1, rounded_constants.1⟩,
    fun sinf cosf hs1 hs0 hc1 hc0 fuel =>
      Keplers_Law_rounded_never_returns sinf cosf hs1 hs0 hc1 hc0 fuel, ?_⟩
  intro F D ops M e g
  constructor
  · intro fuel r hr
    exact (Keplers_Law_eq_some ops M e g fuel r hr).1
  · intro N h
    unfold Keplers_Law
    rw [whileLoop_eq_none _ _ N _ h]
    rfl

/-- Witness for C4: with the reference `sinf` and `cosf` the call has not returned after
1000 iterations. -/
theorem C4_no_iteration_bound_witness :
    Keplers_Law (roundedOps sinf_ref cosf_ref) M_bad ecc_clamp M_bad 1000 = none :=
  C4_no_iteration_bound.2.1 sinf_ref cosf_ref ref_table.1 ref_table.2.1 ref_table.2.2.1
    ref_table.2.2.2 1000

/-- C5: for every mean anomaly `M`, `Keplers_Law(M, 0.0, M)` terminates (any fuel of at
least one iteration suffices), returns 1, outputs the eccentric anomaly `M` exactly and
reports the residual 0.  This holds in exact arithmetic for every rational `M`, and in
IEEE round-to-nearest `float` arithmetic for every `M` that is a `float`
(`roundNE 24 M = M`), whatever `sinf` and `cosf` return. -/
theorem C5_zero_eccentricity (sinf cosf : ℚ → ℚ) (M : ℚ) (fuel : ℕ) :
    Keplers_Law (exactOps sinf cosf) M 0 M (fuel + 1) =
      some { ret := 1, eccentric_anomaly_output := M, error_output := 0 } ∧
    (roundNE 24 M = M →
      Keplers_Law (roundedOps sinf cosf) M 0 M (fuel + 1) =
        some { ret := 1, eccentric_anomaly_output := M, error_output := 0 }) :=
  ⟨Keplers_Law_exact_zero_ecc sinf cosf M fuel,
   fun hM => Keplers_Law_rounded_zero_ecc sinf cosf M hM fuel⟩

/-- Witness for C5: mean anomaly 1 in rounded arithmetic with the reference `sinf` and
`cosf`. -/
theorem C5_zero_eccentricity_witness :
    roundNE 24 1 = 1 ∧
    Keplers_Law (roundedOps sinf_ref cosf_ref) 1 0 1 1 =
      some { ret := 1, eccentric_anomaly_output := 1, error_output := 0 } :=
  ⟨roundNE_24_one, (C5_zero_eccentricity sinf_ref cosf_ref 1 0).2 roundNE_24_one⟩

/-- C18 (code behaviour): on the call that the dispatcher makes for the request with raw
mean anomaly 210,005,453 and raw eccentricity 640, `Keplers_Law` returns 1 and reports a
residual that is not within the tolerance: it is NaN.  In IEEE binary32 arithmetic, for
every `sinf` bounded by 1 that returns the tabulated sine at the estimates below `2 ^ 25`
and every `cosf` that returns the tabulated cosine at the 54 estimates of the run: the
dispatcher decodes the degrees value `2927557 * 2 ^ (-29)`, the mean anomaly
`6540225 * 2 ^ (-36)` and the eccentricity `1 - 2 ^ (-23)`; with any fuel of at least 55
iterations the call with these arguments returns 1 with a NaN eccentric anomaly and a NaN
`error_output`; on that residual both the comparison `fabsf(error_output) <= tol` and
the loop test `fabsf(error_output) > tol` are false; and for all arguments, every result of
`Keplers_Law` has return value 1 and a reported residual that is either NaN or finite and
of magnitude at most `tol = 10 * 2 ^ (-23)`. -/
theorem C18_nan_residual_failing_input (sinf cosf : ℚ → ℚ) (hs : ∀ x, |sinf x| ≤ 1)
    (hst : ∀ i, i < 54 → |nan_run_E.getD i 0| < 2 ^ 25 →
      sinf (nan_run_E.getD i 0) = nan_run_sin.getD i 0)
    (hct : ∀ i, i < 54 → cosf (nan_run_E.getD i 0) = nan_run_cos.getD i 0)
    (fuel : ℕ) (hfuel : 55 ≤ fuel) :
    anom_deg_of_raw (ieeeOps sinf cosf) fuel 210005453 = some (Fl.fin (2927557 / 2 ^ 29)) ∧
    mean_anomaly_of_deg (ieeeOps sinf cosf) (Fl.fin (2927557 / 2 ^ 29))
      = Fl.fin (6540225 / 2 ^ 36) ∧
    eccentricity_of_raw (ieeeOps sinf cosf) 640 = Fl.fin (8388607 / 2 ^ 23) ∧
    Keplers_Law (ieeeOps sinf cosf) (Fl.fin (6540225 / 2 ^ 36)) (Fl.fin (8388607 / 2 ^ 23))
        (Fl.fin (6540225 / 2 ^ 36)) fuel
      = some { ret := 1, eccentric_anomaly_output := Fl.nan, error_output := Fl.nan } ∧
    (ieeeOps sinf cosf).geF (tol (ieeeOps sinf cosf)) ((ieeeOps sinf cosf).fabsf Fl.nan)
      = false ∧
    (ieeeOps sinf cosf).gtF ((ieeeOps sinf cosf).fabsf Fl.nan) (tol (ieeeOps sinf cosf))
      = false ∧
    (∀ (M e g : Fl) (n : ℕ) (r : KeplerResult Fl),
      Keplers_Law (ieeeOps sinf cosf) M e g n = some r →
      r.ret = 1 ∧
      (r.error_output = Fl.nan ∨ ∃ q : ℚ, r.error_output = Fl.fin q ∧ |q| ≤ 10 / 2 ^ 23)) := by
  refine ⟨ieee_anom_deg_of_raw sinf cosf fuel, ieee_mean_anomaly sinf cosf,
    ieee_eccentricity_640 sinf cosf, ieee_nan_run sinf cosf hs hst hct fuel hfuel, ?_, ?_,
    fun M e g n r h => ieee_solver_result sinf cosf M e g n r h⟩
  · rw [ieee_geF, ieee_fabsf]
    exact Fl.le_nan_left _
  · rw [ieee_gtF, ieee_fabsf]
    exact Fl.lt_nan_right _

/-- Witness for C18: the reference `sinf` and `cosf` of the run, with fuel for 55
iterations. -/
theorem C18_nan_residual_failing_input_witness :
    anom_deg_of_raw (ieeeOps sinf_run cosf_run) 55 210005453
      = some (Fl.fin (2927557 / 2 ^ 29)) ∧
    mean_anomaly_of_deg (ieeeOps sinf_run cosf_run) (Fl.fin (2927557 / 2 ^ 29))
      = Fl.fin (6540225 / 2 ^ 36) ∧
    eccentricity_of_raw (ieeeOps sinf_run cosf_run) 640 = Fl.fin (8388607 / 2 ^ 23) ∧
    Keplers_Law (ieeeOps sinf_run cosf_run) (Fl.fin (6540225 / 2 ^ 36))
        (Fl.fin (8388607 / 2 ^ 23)) (Fl.fin (6540225 / 2 ^ 36)) 55
      = some { ret := 1, eccentric_anomaly_output := Fl.nan, error_output := Fl.nan } ∧
    (ieeeOps sinf_run cosf_run).geF (tol (ieeeOps sinf_run cosf_run))
      ((ieeeOps sinf_run cosf_run).fabsf Fl.nan) = false ∧
    (ieeeOps sinf_run cosf_run).gtF ((ieeeOps sinf_run cosf_run).fabsf Fl.nan)
      (tol (ieeeOps sinf_run cosf_run)) = false ∧
    (∀ (M e g : Fl) (n : ℕ) (r : KeplerResult Fl),
      Keplers_Law (ieeeOps sinf_run cosf_run) M e g n = some r →
      r.ret = 1 ∧
      (r.error_output = Fl.nan ∨ ∃ q : ℚ, r.error_output = Fl.fin q ∧ |q| ≤ 10 / 2 ^ 23)) :=
  C18_nan_residual_failing_input sinf_run cosf_run sinf_run_le_one
    (fun i hi _ => sinf_run_table i hi) cosf_run_table 55 (le_refl 55)

/-! ## Request dispatcher: claims -/

/-- C8: one dispatcher step on a frame that was read (`nbytes` not 0), whose identifier
decodes to group number `0xFF14` and whose payload holds the raw mean anomaly
210,000,000 in bytes 0-3 and the raw eccentricity 0 in bytes 4-5, terminates (any fuel
of at least one iteration), calls the solver once with mean anomaly, eccentricity and
initial guess all 0, and writes one reply frame whose bytes 0-3 hold the raw value
210,000,000.  This holds in exact arithmetic and in IEEE round-to-nearest `double` and
`float` arithmetic, whatever `sinf` and `cosf` return. -/
theorem C8_end_to_end (sinf cosf : ℚ → ℚ) (fuel : Nat) (nbytes : Int) (cf : can_frame)
    (hn : nbytes ≠ 0) (hpgn : (parse_J1939 cf.can_id).pgn = 0xFF14)
    (hM : load_u32 cf.data = 210000000) (he : load_u16 cf.data = 0) :
    main_step (exactOps sinf cosf) (fuel + 1) nbytes cf =
      some { solver_calls := [(0, 0, 0)], written := [reply_frame 210000000] } ∧
    main_step (roundedOps sinf cosf) (fuel + 1) nbytes cf =
      some { solver_calls := [(0, 0, 0)], written := [reply_frame 210000000] } ∧
    load_u32 (reply_frame 210000000).data = 210000000 ∧
    (reply_frame 210000000).data = [0x80, 0x58, 0x84, 0x0C, 0xff, 0xff, 0xff, 0xff] :=
  ⟨main_step_exact_scenario sinf cosf fuel nbytes cf hn hpgn hM he,
   main_step_rounded_scenario sinf cosf fuel nbytes cf hn hpgn hM he,
   by decide, by decide⟩

/-- Witness for C8: the request frame with identifier `0x18FF1478` (priority 6, group
number `0xFF14`, source 120) and payload `80 58 84 0C 00 00 FF FF`, in rounded
arithmetic with the reference `sinf` and `cosf`. -/
theorem C8_end_to_end_witness :
    main_step (roundedOps sinf_ref cosf_ref) 1 16
        { can_id := 0x18FF1478, can_dlc := 8,
          data := [0x80, 0x58, 0x84, 0x0C, 0, 0, 0xff, 0xff] } =
      some { solver_calls := [(0, 0, 0)], written := [reply_frame 210000000] } :=
  (C8_end_to_end sinf_ref cosf_ref 0 16
    { can_id := 0x18FF1478, can_dlc := 8, data := [0x80, 0x58, 0x84, 0x0C, 0, 0, 0xff, 0xff] }
    (by decide) (by decide) (by decide) (by decide)).2.1

/-- C9: for every frame whose identifier decodes to a group number other than
`REQUEST_PGN = 0xFF14`, one dispatcher step returns without calling `Keplers_Law` and
without writing a frame, for every floating-point semantics and every fuel. -/
theorem C9_filtering {F D : Type} (ops : FloatOps F D) (fuel : Nat) (nbytes : Int)
    (cf : can_frame) (h : (parse_J1939 cf.can_id).pgn ≠ 0xFF14) :
    REQUEST_PGN = 0xFF14 ∧
    main_step ops fuel nbytes cf = some { solver_calls := [], written := [] } := by
  refine ⟨rfl, ?_⟩
  have hreq : ¬ (parse_J1939 cf.can_id).pgn = REQUEST_PGN := h
  unfold main_step
  by_cases hn : nbytes = 0
  · simp [hn]
  · simp [hn, hreq]

/-- Witness for C9: a frame carrying the result group number `0xFF15`. -/
theorem C9_filtering_witness :
    (parse_J1939 0x98FF1500).pgn ≠ 0xFF14 ∧
    main_step (exactOps sin_taylor cos_taylor) 0 16
        { can_id := 0x98FF1500, can_dlc := 8, data := [0, 0, 0, 0, 0, 0, 0, 0] } =
      some { solver_calls := [], written := [] } :=
  ⟨by decide,
   (C9_filtering (exactOps sin_taylor cos_taylor) 0 16
      { can_id := 0x98FF1500, can_dlc := 8, data := [0, 0, 0, 0, 0, 0, 0, 0] }
      (by decide)).2⟩

/-! ## Value transcoding and Newton step: claims -/

/-- C11 (as stated, refuted): the raw mean-anomaly field 570,000,000 is an unsigned
32-bit value, and its degrees value after normalisation is exactly 360, which is not
below 360: `raw*0.000001 - 210` is 360 and the test `anom_deg > 360` of line 254 is
false.  This holds in exact arithmetic and in IEEE round-to-nearest arithmetic.  In IEEE
arithmetic the raw field 209,999,999 also gives 360: it decodes to about `-0.000001`, and
the addition of line 255 rounds `360 - 0.000001` to 360. -/
theorem C11_mean_anomaly_range_counterexample :
    570000000 < 2 ^ 32 ∧
    anom_deg_of_raw (exactOps sin_taylor cos_taylor) 11 570000000 = some 360 ∧
    anom_deg_of_raw (roundedOps sin_taylor cos_taylor) 11 570000000 = some 360 ∧
    anom_deg_of_raw (roundedOps sin_taylor cos_taylor) 11 209999999 = some 360 ∧
    ¬ ((360 : ℚ) < 360) :=
  ⟨by norm_num, (anom_deg_570 sin_taylor cos_taylor 11).1,
    (anom_deg_570 sin_taylor cos_taylor 11).2,
    rounded_anom_deg_209999999 sin_taylor cos_taylor 10, lt_irrefl 360⟩

/-- C11 (amended): for every raw unsigned 32-bit mean-anomaly field, the two
normalisation loops terminate (11 executions of a loop body suffice) and the degrees
value after normalisation lies in the closed interval `[0, 360]`; the radians value
`pi*anom_deg/180.0` lies in `[0, 2*pi]`.  This holds in exact arithmetic and in IEEE
round-to-nearest arithmetic, where the upper bound of the radians value is the `float`
nearest to `2*pi`.  In both arithmetics the mean anomaly of every call of the solver by
a dispatcher step lies in that interval. -/
theorem C11_mean_anomaly_range (sinf cosf : ℚ → ℚ) (raw fuel : ℕ) (hraw : raw < 2 ^ 32)
    (hfuel : 11 ≤ fuel) :
    (∃ a : ℚ, anom_deg_of_raw (exactOps sinf cosf) fuel raw = some a ∧ 0 ≤ a ∧ a ≤ 360 ∧
      0 ≤ mean_anomaly_of_deg (exactOps sinf cosf) a ∧
      mean_anomaly_of_deg (exactOps sinf cosf) a ≤ 2 * (exactOps sinf cosf).M_PI) ∧
    (∃ a : ℚ, anom_deg_of_raw (roundedOps sinf cosf) fuel raw = some a ∧ 0 ≤ a ∧ a ≤ 360 ∧
      0 ≤ mean_anomaly_of_deg (roundedOps sinf cosf) a ∧
      mean_anomaly_of_deg (roundedOps sinf cosf) a ≤ 13176795 / 2 ^ 21) ∧
    (∀ (n : ℕ) (nbytes : ℤ) (cf : can_frame) (res : StepResult ℚ),
      (main_step (exactOps sinf cosf) n nbytes cf = some res →
        ∀ c ∈ res.solver_calls, 0 ≤ c.1 ∧ c.1 ≤ 2 * (exactOps sinf cosf).M_PI) ∧
      (main_step (roundedOps sinf cosf) n nbytes cf = some res →
        ∀ c ∈ res.solver_calls, 0 ≤ c.1 ∧ c.1 ≤ 13176795 / 2 ^ 21)) := by
  obtain ⟨k, hk, h0, h360⟩ := exact_anom_normalised sinf cosf raw fuel hraw hfuel
  obtain ⟨a, ha, g0, g360⟩ := rounded_anom_normalised sinf cosf raw fuel hraw hfuel
  refine ⟨⟨_, hk, h0, h360, (exact_mean_anomaly_range sinf cosf _ h0 h360).2⟩,
    ⟨a, ha, g0, g360, rounded_mean_anomaly_range sinf cosf a g0 g360⟩, ?_⟩
  intro n nbytes cf res
  obtain ⟨he, hr⟩ := main_step_solver_args sinf cosf n nbytes cf res
  exact ⟨fun h c hcm => ⟨(he h c hcm).1, (he h c hcm).2.1⟩,
    fun h c hcm => ⟨(hr h c hcm).1, (hr h c hcm).2.1⟩⟩

/-- Witness for C11 (amended): the raw field 570,000,000 with fuel 11. -/
theorem C11_mean_anomaly_range_witness :
    (∃ a : ℚ, anom_deg_of_raw (exactOps sin_taylor cos_taylor) 11 570000000 = some a ∧
      0 ≤ a ∧ a ≤ 360 ∧
      0 ≤ mean_anomaly_of_deg (exactOps sin_taylor cos_taylor) a ∧
      mean_anomaly_of_deg (exactOps sin_taylor cos_taylor) a
        ≤ 2 * (exactOps sin_taylor cos_taylor).M_PI) ∧
    (∃ a : ℚ, anom_deg_of_raw (roundedOps sin_taylor cos_taylor) 11 570000000 = some a ∧
      0 ≤ a ∧ a ≤ 360 ∧
      0 ≤ mean_anomaly_of_deg (roundedOps sin_taylor cos_taylor) a ∧
      mean_anomaly_of_deg (roundedOps sin_taylor cos_taylor) a ≤ 13176795 / 2 ^ 21) ∧
    (∀ (n : ℕ) (nbytes : ℤ) (cf : can_frame) (res : StepResult ℚ),
      (main_step (exactOps sin_taylor cos_taylor) n nbytes cf = some res →
        ∀ c ∈ res.solver_calls,
          0 ≤ c.1 ∧ c.1 ≤ 2 * (exactOps sin_taylor cos_taylor).M_PI) ∧
      (main_step (roundedOps sin_taylor cos_taylor) n nbytes cf = some res →
        ∀ c ∈ res.solver_calls, 0 ≤ c.1 ∧ c.1 ≤ 13176795 / 2 ^ 21)) :=
  C11_mean_anomaly_range sin_taylor cos_taylor 570000000 11 (by norm_num) (le_refl 11)

/-- C15 (as stated, refuted): in the `float` arithmetic of the program the raw
mean-anomaly field 209,999,999 decodes to the `float` `-8796093 * 2 ^ (-43)` (about
`-0.000001`) and normalises to exactly 360: the addition of line 255 rounds
`360 - 0.000001` to 360.  The normalised value 360 differs from `raw*0.000001 - 210` by
`360.000001`, and from the decoded `float` by `360 + 8796093 * 2 ^ (-43)`; neither is an
integer multiple of 360. -/
theorem C15_normalisation_preserves_angle_counterexample :
    209999999 < 2 ^ 32 ∧
    anom_deg_decoded (roundedOps sin_taylor cos_taylor) 209999999 = -(8796093 / 2 ^ 43) ∧
    anom_deg_of_raw (roundedOps sin_taylor cos_taylor) 11 209999999 = some 360 ∧
    (∀ k : ℤ, (360 : ℚ) ≠ ((209999999 : ℕ) : ℚ) * (1 / 1000000) - 210 + 360 * k) ∧
    (∀ k : ℤ, (360 : ℚ) ≠ -(8796093 / 2 ^ 43) + 360 * k) := by
  refine ⟨by norm_num, ?_, rounded_anom_deg_209999999 sin_taylor cos_taylor 10, ?_, ?_⟩
  · rw [rounded_anom_deg_decoded sin_taylor cos_taylor 209999999 (by norm_num)]
    have h1 : roundNE 53 (((209999999 : ℕ) : ℚ) * (4722366482869645 / 2 ^ 72))
        = 7388718103470348 / 2 ^ 45 := by
      rw [roundNE_eq 53 _ (-45) (7388718103470348) (by norm_num [abs_of_pos])
        (by norm_num [abs_of_pos]) (by norm_num [abs_of_pos]) (by norm_num [abs_of_pos])]
      norm_num
    have h2 : roundNE 53 ((7388718103470348 / 2 ^ 45 : ℚ) - 210) = -(8796093 / 2 ^ 43) := by
      rw [roundNE_eq 53 _ (-72) (-4722366470946816) (by norm_num [abs_of_pos])
        (by norm_num [abs_of_pos]) (by norm_num [abs_of_pos]) (by norm_num [abs_of_pos])]
      norm_num
    have h3 : roundNE 24 (-(8796093 / 2 ^ 43) : ℚ) = -(8796093 / 2 ^ 43) := by
      rw [roundNE_eq 24 _ (-43) (-8796093) (by norm_num [abs_of_pos])
        (by norm_num [abs_of_pos]) (by norm_num [abs_of_pos]) (by norm_num [abs_of_pos])]
      norm_num
    rw [h1, h2, h3]
  · intro k h
    have h2 : (360000000 * k : ℚ) = 360000001 := by
      push_cast at h
      linarith
    have h3 : (360000000 * k : ℤ) = 360000001 := by exact_mod_cast h2
    omega
  · intro k h
    have h2 : ((2 ^ 43 * 360) * k : ℚ) = 2 ^ 43 * 360 + 8796093 := by
      field_simp at h
      linarith
    have h3 : ((2 ^ 43 * 360) * k : ℤ) = 2 ^ 43 * 360 + 8796093 := by exact_mod_cast h2
    omega

/-- C15 (amended): in the `float` arithmetic of the program, for every raw unsigned
32-bit mean-anomaly field the two loops terminate (11 executions of a body suffice) and
the normalised degrees value `a` preserves the angle up to `float` rounding.  With
`anom_deg` the `float` decoded at line 252: when `anom_deg` is not negative, `a` is
`anom_deg - 360 * j` exactly for a natural number `j` (every subtraction is exact); when
`anom_deg` is negative, `a` is the rounded sum `anom_deg + 360`, within `2 ^ (-16)` of
the exact sum.  In both cases `a` is within `2 ^ (-12)` degrees of
`raw*0.000001 - 210 + 360 * k` for an integer `k`.  The raw field 580,000,000 (370
degrees) normalises to exactly 10, and the raw field 200,000,000 (-10 degrees) to
exactly 350. -/
theorem C15_normalisation_preserves_angle_rounded (sinf cosf : ℚ → ℚ) (raw fuel : ℕ)
    (hraw : raw < 2 ^ 32) (hfuel : 11 ≤ fuel) :
    (∃ a : ℚ, anom_deg_of_raw (roundedOps sinf cosf) fuel raw = some a ∧
      (0 ≤ anom_deg_decoded (roundedOps sinf cosf) raw →
        ∃ j : ℕ, a = anom_deg_decoded (roundedOps sinf cosf) raw - 360 * j) ∧
      (anom_deg_decoded (roundedOps sinf cosf) raw < 0 →
        a = (roundedOps sinf cosf).addF (anom_deg_decoded (roundedOps sinf cosf) raw)
              ((roundedOps sinf cosf).ofIntF 360) ∧
        |a - (anom_deg_decoded (roundedOps sinf cosf) raw + 360)| ≤ 1 / 2 ^ 16) ∧
      ∃ k : ℤ, |a - ((raw : ℚ) * (1 / 1000000) - 210 + 360 * k)| ≤ 1 / 2 ^ 12) ∧
    anom_deg_decoded (roundedOps sinf cosf) 580000000 = 370 ∧
    anom_deg_of_raw (roundedOps sinf cosf) fuel 580000000 = some 10 ∧
    anom_deg_decoded (roundedOps sinf cosf) 200000000 = -10 ∧
    anom_deg_of_raw (roundedOps sinf cosf) fuel 200000000 = some 350 := by
  obtain ⟨m, rfl⟩ : ∃ m, fuel = m + 1 := ⟨fuel - 1, by omega⟩
  have hd370 : anom_deg_decoded (roundedOps sinf cosf) 580000000 = 370 := by
    rw [rounded_anom_deg_decoded sinf cosf 580000000 (by norm_num)]
    have h1 : roundNE 53 (((580000000 : ℕ) : ℚ) * (4722366482869645 / 2 ^ 72)) = 580 := by
      rw [roundNE_eq 53 _ (-43) (5101733952880640) (by norm_num [abs_of_pos])
        (by norm_num [abs_of_pos]) (by norm_num [abs_of_pos]) (by norm_num [abs_of_pos])]
      norm_num
    have h2 : roundNE 53 ((580 : ℚ) - 210) = 370 := by
      rw [roundNE_53_of_int _ 370 (by norm_num) (by norm_num)]; norm_num
    have h3 : roundNE 24 (370 : ℚ) = 370 := roundNE_24_of_int _ 370 (by norm_num) (by norm_num)
    rw [h1, h2, h3]
  have hd10 : anom_deg_decoded (roundedOps sinf cosf) 200000000 = -10 := by
    rw [rounded_anom_deg_decoded sinf cosf 200000000 (by norm_num)]
    have h1 : roundNE 53 (((200000000 : ℕ) : ℚ) * (4722366482869645 / 2 ^ 72)) = 200 := by
      rw [roundNE_eq 53 _ (-45) (7036874417766400) (by norm_num [abs_of_pos])
        (by norm_num [abs_of_pos]) (by norm_num [abs_of_pos]) (by norm_num [abs_of_pos])]
      norm_num
    have h2 : roundNE 53 ((200 : ℚ) - 210) = -10 := by
      rw [roundNE_53_of_int _ (-10) (by norm_num) (by norm_num)]; norm_num
    have h3 : roundNE 24 (-10 : ℚ) = -10 := roundNE_24_of_int _ (-10) (by norm_num) (by norm_num)
    rw [h1, h2, h3]
  refine ⟨?_, hd370, (rounded_anom_examples sinf cosf m).1, hd10,
    (rounded_anom_examples sinf cosf m).2⟩
  obtain ⟨a, ha, hpos, hneg⟩ := rounded_anom_preserved sinf cosf raw (m + 1) hraw hfuel
  have herr := rounded_decode_error sinf cosf raw hraw
  have h360 : (roundedOps sinf cosf).ofIntF 360 = 360 := rounded_ofIntF_360 sinf cosf
  refine ⟨a, ha, hpos, fun h => ?_, ?_⟩
  · obtain ⟨e1, e2⟩ := hneg h
    refine ⟨?_, e2⟩
    rw [h360]
    exact e1
  · rw [abs_le] at herr
    by_cases h0 : 0 ≤ anom_deg_decoded (roundedOps sinf cosf) raw
    · obtain ⟨j, hj⟩ := hpos h0
      refine ⟨-(j : ℤ), ?_⟩
      rw [hj, abs_le]
      push_cast
      constructor <;> norm_num <;> linarith [herr.1, herr.2]
    · obtain ⟨_, e2⟩ := hneg (not_le.mp h0)
      rw [abs_le] at e2
      refine ⟨1, ?_⟩
      rw [abs_le]
      push_cast
      constructor <;> norm_num <;> linarith [herr.1, herr.2, e2.1, e2.2]

/-- Witness for C15 (amended): the raw field 4,294,967,295, the largest, with fuel 11. -/
theorem C15_normalisation_preserves_angle_rounded_witness :
    (∃ a : ℚ, anom_deg_of_raw (roundedOps sin_taylor cos_taylor) 11 4294967295 = some a ∧
      (0 ≤ anom_deg_decoded (roundedOps sin_taylor cos_taylor) 4294967295 →
        ∃ j : ℕ, a = anom_deg_decoded (roundedOps sin_taylor cos_taylor) 4294967295 - 360 * j) ∧
      (anom_deg_decoded (roundedOps sin_taylor cos_taylor) 4294967295 < 0 →
        a = (roundedOps sin_taylor cos_taylor).addF
              (anom_deg_decoded (roundedOps sin_taylor cos_taylor) 4294967295)
              ((roundedOps sin_taylor cos_taylor).ofIntF 360) ∧
        |a - (anom_deg_decoded (roundedOps sin_taylor cos_taylor) 4294967295 + 360)|
          ≤ 1 / 2 ^ 16) ∧
      ∃ k : ℤ, |a - (((4294967295 : ℕ) : ℚ) * (1 / 1000000) - 210 + 360 * k)| ≤ 1 / 2 ^ 12) ∧
    anom_deg_decoded (roundedOps sin_taylor cos_taylor) 580000000 = 370 ∧
    anom_deg_of_raw (roundedOps sin_taylor cos_taylor) 11 580000000 = some 10 ∧
    anom_deg_decoded (roundedOps sin_taylor cos_taylor) 200000000 = -10 ∧
    anom_deg_of_raw (roundedOps sin_taylor cos_taylor) 11 200000000 = some 350 :=
  C15_normalisation_preserves_angle_rounded sin_taylor cos_taylor 4294967295 11 (by norm_num)
    (le_refl 11)

/-- C12 (code behaviour): on the request with raw mean anomaly 210,005,453 and raw
eccentricity 640 the degrees value after the normalisation of lines 267-269 is not in
`(-180, 180]`: it is NaN.  In IEEE binary32 arithmetic, under the assumptions on `sinf`
and `cosf` of the run and with fuel for at least 55 iterations: the solver call of the
dispatcher, whose arguments are decoded from the raw fields, returns a NaN eccentric
anomaly; `180*NaN/pi` is NaN, both loops leave it unchanged, so the normalised degrees
value is NaN; and on it both `deg > -180` and `deg <= 180` are false.  For every solver
output and every fuel, whenever the two loops return, the degrees value is NaN exactly
when the solver output is NaN, and otherwise it is finite and lies in the closed interval
`[-180, 180]`. -/
theorem C12_nan_degrees_failing_input (sinf cosf : ℚ → ℚ) (hs : ∀ x, |sinf x| ≤ 1)
    (hst : ∀ i, i < 54 → |nan_run_E.getD i 0| < 2 ^ 25 →
      sinf (nan_run_E.getD i 0) = nan_run_sin.getD i 0)
    (hct : ∀ i, i < 54 → cosf (nan_run_E.getD i 0) = nan_run_cos.getD i 0)
    (fuel : ℕ) (hfuel : 55 ≤ fuel) :
    anom_deg_of_raw (ieeeOps sinf cosf) fuel 210005453 = some (Fl.fin (2927557 / 2 ^ 29)) ∧
    (∃ r : KeplerResult Fl,
      Keplers_Law (ieeeOps sinf cosf)
          (mean_anomaly_of_deg (ieeeOps sinf cosf) (Fl.fin (2927557 / 2 ^ 29)))
          (eccentricity_of_raw (ieeeOps sinf cosf) 640)
          (mean_anomaly_of_deg (ieeeOps sinf cosf) (Fl.fin (2927557 / 2 ^ 29))) fuel
        = some r ∧
      r.eccentric_anomaly_output = Fl.nan ∧
      deg_of_output (ieeeOps sinf cosf) fuel r.eccentric_anomaly_output = some Fl.nan) ∧
    (ieeeOps sinf cosf).gtF Fl.nan ((ieeeOps sinf cosf).ofIntF (-180)) = false ∧
    (ieeeOps sinf cosf).geF ((ieeeOps sinf cosf).ofIntF 180) Fl.nan = false ∧
    (∀ (n : ℕ) (E d : Fl), deg_of_output (ieeeOps sinf cosf) n E = some d →
      (d = Fl.nan ↔ E = Fl.nan) ∧
      (d = Fl.nan ∨ ∃ q : ℚ, d = Fl.fin q ∧ -180 ≤ q ∧ q ≤ 180)) := by
  refine ⟨ieee_anom_deg_of_raw sinf cosf fuel,
    ⟨{ ret := 1, eccentric_anomaly_output := Fl.nan, error_output := Fl.nan }, ?_, rfl,
      ieee_deg_of_nan sinf cosf fuel⟩, ?_, ?_,
    fun n E d h => ieee_deg_result sinf cosf n E d h⟩
  · rw [ieee_mean_anomaly, ieee_eccentricity_640]
    exact ieee_nan_run sinf cosf hs hst hct fuel hfuel
  · rw [ieee_gtF]
    exact Fl.lt_nan_right _
  · rw [ieee_geF]
    exact Fl.le_nan_left _

/-- Witness for C12: the reference `sinf` and `cosf` of the run, with fuel for 55
iterations. -/
theorem C12_nan_degrees_failing_input_witness :
    anom_deg_of_raw (ieeeOps sinf_run cosf_run) 55 210005453
      = some (Fl.fin (2927557 / 2 ^ 29)) ∧
    (∃ r : KeplerResult Fl,
      Keplers_Law (ieeeOps sinf_run cosf_run)
          (mean_anomaly_of_deg (ieeeOps sinf_run cosf_run) (Fl.fin (2927557 / 2 ^ 29)))
          (eccentricity_of_raw (ieeeOps sinf_run cosf_run) 640)
          (mean_anomaly_of_deg (ieeeOps sinf_run cosf_run) (Fl.fin (2927557 / 2 ^ 29))) 55
        = some r ∧
      r.eccentric_anomaly_output = Fl.nan ∧
      deg_of_output (ieeeOps sinf_run cosf_run) 55 r.eccentric_anomaly_output
        = some Fl.nan) ∧
    (ieeeOps sinf_run cosf_run).gtF Fl.nan ((ieeeOps sinf_run cosf_run).ofIntF (-180))
      = false ∧
    (ieeeOps sinf_run cosf_run).geF ((ieeeOps sinf_run cosf_run).ofIntF 180) Fl.nan
      = false ∧
    (∀ (n : ℕ) (E d : Fl), deg_of_output (ieeeOps sinf_run cosf_run) n E = some d →
      (d = Fl.nan ↔ E = Fl.nan) ∧
      (d = Fl.nan ∨ ∃ q : ℚ, d = Fl.fin q ∧ -180 ≤ q ∧ q ≤ 180)) :=
  C12_nan_degrees_failing_input sinf_run cosf_run sinf_run_le_one
    (fun i hi _ => sinf_run_table i hi) cosf_run_table 55 (le_refl 55)

/-- C20 (code behaviour): on the request frame with identifier `0x18FF1478` and payload
`CD 6D 84 0C 80 02 FF FF` (raw mean anomaly 210,005,453, raw eccentricity 640) the
quantity `(deg + 210) * 1000000` is not between 30,000,000 and 390,000,000: it is NaN, and
the reply field is the cast of a NaN.  In IEEE binary32 arithmetic, under the assumptions
on `sinf` and `cosf` of the run and with fuel for at least 55 iterations: one dispatcher
step on the frame calls the solver once and writes one reply frame whose raw field is the
cast `(uint32_t)` of the product for a NaN degrees value; that product is NaN, and the
comparison `product >= 30000000` is false on it; with the value 0 that this instance gives
to the cast of a NaN, reply bytes 0-3 are `00 00 00 00`, which is below 30,000,000.  For
every solver output and every fuel, whenever the two normalisation loops return, either
the solver output is NaN and the product is NaN, or the product is finite and it and the
raw field lie between 30,000,000 and 390,000,000. -/
theorem C20_nan_reply_failing_input (sinf cosf : ℚ → ℚ) (hs : ∀ x, |sinf x| ≤ 1)
    (hst : ∀ i, i < 54 → |nan_run_E.getD i 0| < 2 ^ 25 →
      sinf (nan_run_E.getD i 0) = nan_run_sin.getD i 0)
    (hct : ∀ i, i < 54 → cosf (nan_run_E.getD i 0) = nan_run_cos.getD i 0)
    (fuel : ℕ) (hfuel : 55 ≤ fuel) :
    main_step (ieeeOps sinf cosf) fuel 16
        { can_id := 0x18FF1478, can_dlc := 8,
          data := [0xCD, 0x6D, 0x84, 0x0C, 0x80, 0x02, 0xff, 0xff] } =
      some { solver_calls := [(Fl.fin (6540225 / 2 ^ 36), Fl.fin (8388607 / 2 ^ 23),
                                Fl.fin (6540225 / 2 ^ 36))]
             written := [reply_frame (out_int_of_deg (ieeeOps sinf cosf) Fl.nan)] } ∧
    out_int_of_deg (ieeeOps sinf cosf) Fl.nan
      = (ieeeOps sinf cosf).toU32 (out_product (ieeeOps sinf cosf) Fl.nan) ∧
    out_product (ieeeOps sinf cosf) Fl.nan = Fl.nan ∧
    (ieeeOps sinf cosf).geF (out_product (ieeeOps sinf cosf) Fl.nan)
      ((ieeeOps sinf cosf).ofIntF 30000000) = false ∧
    out_int_of_deg (ieeeOps sinf cosf) Fl.nan = 0 ∧
    (reply_frame 0).data = [0, 0, 0, 0, 0xff, 0xff, 0xff, 0xff] ∧
    ¬ (30000000 ≤ out_int_of_deg (ieeeOps sinf cosf) Fl.nan) ∧
    (∀ (n : ℕ) (E d : Fl), deg_of_output (ieeeOps sinf cosf) n E = some d →
      (E = Fl.nan ∧ out_product (ieeeOps sinf cosf) d = Fl.nan) ∨
      ∃ p : ℚ, out_product (ieeeOps sinf cosf) d = Fl.fin p ∧
        30000000 ≤ p ∧ p ≤ 390000000 ∧
        30000000 ≤ out_int_of_deg (ieeeOps sinf cosf) d ∧
        out_int_of_deg (ieeeOps sinf cosf) d ≤ 390000000) := by
  refine ⟨ieee_main_step_nan sinf cosf hs hst hct fuel hfuel 16 _ (by decide) (by decide)
    (by decide) (by decide), out_int_of_product _ _, ieee_out_product_nan sinf cosf, ?_,
    ieee_out_int_nan sinf cosf, by decide, ?_, ?_⟩
  · rw [ieee_out_product_nan, ieee_geF]
    exact Fl.le_nan_right _
  · rw [ieee_out_int_nan]
    norm_num
  · intro n E d h
    obtain ⟨hiff, hr⟩ := ieee_deg_result sinf cosf n E d h
    rcases hr with hd | ⟨q, hq, h1, h2⟩
    · left
      refine ⟨hiff.mp hd, ?_⟩
      rw [hd]
      exact ieee_out_product_nan sinf cosf
    · right
      rw [hq]
      exact ieee_reply_field sinf cosf q h1 h2

/-- Witness for C20: the reference `sinf` and `cosf` of the run, with fuel for 55
iterations. -/
theorem C20_nan_reply_failing_input_witness :
    main_step (ieeeOps sinf_run cosf_run) 55 16
        { can_id := 0x18FF1478, can_dlc := 8,
          data := [0xCD, 0x6D, 0x84, 0x0C, 0x80, 0x02, 0xff, 0xff] } =
      some { solver_calls := [(Fl.fin (6540225 / 2 ^ 36), Fl.fin (8388607 / 2 ^ 23),
                                Fl.fin (6540225 / 2 ^ 36))]
             written := [reply_frame (out_int_of_deg (ieeeOps sinf_run cosf_run) Fl.nan)] } ∧
    out_int_of_deg (ieeeOps sinf_run cosf_run) Fl.nan
      = (ieeeOps sinf_run cosf_run).toU32 (out_product (ieeeOps sinf_run cosf_run) Fl.nan) ∧
    out_product (ieeeOps sinf_run cosf_run) Fl.nan = Fl.nan ∧
    (ieeeOps sinf_run cosf_run).geF (out_product (ieeeOps sinf_run cosf_run) Fl.nan)
      ((ieeeOps sinf_run cosf_run).ofIntF 30000000) = false ∧
    out_int_of_deg (ieeeOps sinf_run cosf_run) Fl.nan = 0 ∧
    (reply_frame 0).data = [0, 0, 0, 0, 0xff, 0xff, 0xff, 0xff] ∧
    ¬ (30000000 ≤ out_int_of_deg (ieeeOps sinf_run cosf_run) Fl.nan) ∧
    (∀ (n : ℕ) (E d : Fl), deg_of_output (ieeeOps sinf_run cosf_run) n E = some d →
      (E = Fl.nan ∧ out_product (ieeeOps sinf_run cosf_run) d = Fl.nan) ∨
      ∃ p : ℚ, out_product (ieeeOps sinf_run cosf_run) d = Fl.fin p ∧
        30000000 ≤ p ∧ p ≤ 390000000 ∧
        30000000 ≤ out_int_of_deg (ieeeOps sinf_run cosf_run) d ∧
        out_int_of_deg (ieeeOps sinf_run cosf_run) d ≤ 390000000) :=
  C20_nan_reply_failing_input sinf_run cosf_run sinf_run_le_one
    (fun i hi _ => sinf_run_table i hi) cosf_run_table 55 (le_refl 55)

/-- C13: for every raw unsigned 16-bit eccentricity field, the product `raw*0.0015625`
is below 1 exactly when `raw < 640`; the decoded eccentricity is that product when it is
below 1 and `0.9999999` otherwise; and the value handed to the solver lies in `[0, 1)`.
This holds in exact arithmetic, and in IEEE round-to-nearest arithmetic with the product
computed in `double` and converted to `float`, and `0.9999999` converted to the `float`
`1 - 2 ^ (-23)`.  In both arithmetics the eccentricity of every call of the solver by a
dispatcher step lies in `[0, 1)`. -/
theorem C13_eccentricity_decoding (sinf cosf : ℚ → ℚ) (raw : ℕ) (hraw : raw < 2 ^ 16) :
    ((raw : ℚ) * 0.0015625 < 1 ↔ raw < 640) ∧
    eccentricity_of_raw (exactOps sinf cosf) raw
      = (if raw < 640 then (raw : ℚ) * 0.0015625 else 0.9999999) ∧
    0 ≤ eccentricity_of_raw (exactOps sinf cosf) raw ∧
    eccentricity_of_raw (exactOps sinf cosf) raw < 1 ∧
    eccentricity_of_raw (roundedOps sinf cosf) raw
      = (if raw < 640 then roundNE 24 (roundNE 53 ((raw : ℚ) * roundNE 53 0.0015625))
          else roundNE 24 (roundNE 53 0.9999999)) ∧
    roundNE 24 (roundNE 53 0.9999999) = 1 - 1 / 2 ^ 23 ∧
    0 ≤ eccentricity_of_raw (roundedOps sinf cosf) raw ∧
    eccentricity_of_raw (roundedOps sinf cosf) raw < 1 ∧
    (∀ (n : ℕ) (nbytes : ℤ) (cf : can_frame) (res : StepResult ℚ),
      (main_step (exactOps sinf cosf) n nbytes cf = some res →
        ∀ c ∈ res.solver_calls, 0 ≤ c.2.1 ∧ c.2.1 < 1) ∧
      (main_step (roundedOps sinf cosf) n nbytes cf = some res →
        ∀ c ∈ res.solver_calls, 0 ≤ c.2.1 ∧ c.2.1 < 1)) := by
  obtain ⟨hiff, hex⟩ := exact_eccentricity_of_raw sinf cosf raw
  obtain ⟨hcl, hun⟩ := rounded_eccentricity_of_raw sinf cosf raw hraw
  have hL : roundNE 53 (0.0015625 : ℚ) = 7205759403792794 / 2 ^ 62 :=
    rounded_litD_ecc sinf cosf
  have hC : roundNE 24 (roundNE 53 (0.9999999 : ℚ)) = ecc_clamp := rounded_constants.1
  have hCv : ecc_clamp = 1 - 1 / 2 ^ 23 := by norm_num [ecc_clamp]
  have hr0 : (0 : ℚ) ≤ raw := Nat.cast_nonneg raw
  have hdisp : ∀ (n : ℕ) (nbytes : ℤ) (cf : can_frame) (res : StepResult ℚ),
      (main_step (exactOps sinf cosf) n nbytes cf = some res →
        ∀ c ∈ res.solver_calls, 0 ≤ c.2.1 ∧ c.2.1 < 1) ∧
      (main_step (roundedOps sinf cosf) n nbytes cf = some res →
        ∀ c ∈ res.solver_calls, 0 ≤ c.2.1 ∧ c.2.1 < 1) := by
    intro n nbytes cf res
    obtain ⟨he, hr⟩ := main_step_solver_args sinf cosf n nbytes cf res
    exact ⟨fun h c hcm => ⟨(he h c hcm).2.2.1, (he h c hcm).2.2.2.1⟩,
      fun h c hcm => ⟨(hr h c hcm).2.2.1, (hr h c hcm).2.2.2.1⟩⟩
  by_cases hr : raw < 640
  · obtain ⟨he, h0, h1⟩ := hun hr
    have hlt := hiff.mpr hr
    rw [hex, if_pos hr, if_pos hr, hL, hC]
    exact ⟨hiff, rfl, by positivity, hlt, he, hCv, h0, lt_of_le_of_lt h1 (by norm_num),
      hdisp⟩
  · have he := hcl (by omega)
    rw [hex, if_neg hr, if_neg hr, hC, he]
    exact ⟨hiff, rfl, by norm_num, by norm_num, rfl, hCv, by norm_num [ecc_clamp],
      by norm_num [ecc_clamp], hdisp⟩

/-- Witness for C13: the raw field 640, the least that is clamped. -/
theorem C13_eccentricity_decoding_witness :
    (((640 : ℕ) : ℚ) * 0.0015625 < 1 ↔ 640 < 640) ∧
    eccentricity_of_raw (exactOps sin_taylor cos_taylor) 640
      = (if 640 < 640 then ((640 : ℕ) : ℚ) * 0.0015625 else 0.9999999) ∧
    0 ≤ eccentricity_of_raw (exactOps sin_taylor cos_taylor) 640 ∧
    eccentricity_of_raw (exactOps sin_taylor cos_taylor) 640 < 1 ∧
    eccentricity_of_raw (roundedOps sin_taylor cos_taylor) 640
      = (if 640 < 640 then roundNE 24 (roundNE 53 (((640 : ℕ) : ℚ) * roundNE 53 0.0015625))
          else roundNE 24 (roundNE 53 0.9999999)) ∧
    roundNE 24 (roundNE 53 0.9999999) = 1 - 1 / 2 ^ 23 ∧
    0 ≤ eccentricity_of_raw (roundedOps sin_taylor cos_taylor) 640 ∧
    eccentricity_of_raw (roundedOps sin_taylor cos_taylor) 640 < 1 ∧
    (∀ (n : ℕ) (nbytes : ℤ) (cf : can_frame) (res : StepResult ℚ),
      (main_step (exactOps sin_taylor cos_taylor) n nbytes cf = some res →
        ∀ c ∈ res.solver_calls, 0 ≤ c.2.1 ∧ c.2.1 < 1) ∧
      (main_step (roundedOps sin_taylor cos_taylor) n nbytes cf = some res →
        ∀ c ∈ res.solver_calls, 0 ≤ c.2.1 ∧ c.2.1 < 1)) :=
  C13_eccentricity_decoding sin_taylor cos_taylor 640 (by norm_num)

end Kepler
